import Mathlib

/-!
# Snapshot common controller: binding between requests and contents

A shallow embedding of `pkg/common-controller/snapshot_controller.go`
(kubernetes-csi/external-snapshotter).  Records of the cluster API are plain
structures, Go pointers are `Option`s, and the controller's methods are
functions that take the `World` (API server, caches, event log, scripted
outcomes of the external calls) and return a result together with the new
`World`.  Log statements (`klog`) have no effect and are left out.
-/

namespace SnapshotController

/-! ## Records -/

/-- Time stamps (`metav1.Time`, `time.Time`) as nanoseconds since the epoch;
`time.Unix(0, n)` is then the identity on `n`. -/
abbrev Time := Int

/-- Value of `resource.Quantity` as built by `resource.NewQuantity(n, BinarySI)`. -/
structure Quantity where
  value : Int
  deriving DecidableEq, Repr

/-- Go: `resource.NewQuantity(value, format)`. -/
def NewQuantity (value : Int) : Quantity := { value := value }

/-- Go: `(*Quantity).IsZero`. -/
def Quantity.IsZero (q : Quantity) : Bool := decide (q.value = 0)

/-- Go: `crdv1.VolumeSnapshotError`. -/
structure VolumeSnapshotError where
  Time : Option Time
  Message : Option String
  deriving DecidableEq, Repr

/-- Go: `crdv1.VolumeSnapshotStatus`. -/
structure VolumeSnapshotStatus where
  BoundVolumeSnapshotContentName : Option String := none
  CreationTime : Option Time := none
  ReadyToUse : Option Bool := none
  RestoreSize : Option Quantity := none
  Error : Option VolumeSnapshotError := none
  deriving DecidableEq, Repr

/-- Go: `crdv1.VolumeSnapshotSource`. -/
structure VolumeSnapshotSource where
  PersistentVolumeClaimName : Option String := none
  VolumeSnapshotContentName : Option String := none
  deriving DecidableEq, Repr

/-- Go: `crdv1.VolumeSnapshotSpec`. -/
structure VolumeSnapshotSpec where
  Source : VolumeSnapshotSource := {}
  VolumeSnapshotClassName : Option String := none
  deriving DecidableEq, Repr

/-- Go: `crdv1.VolumeSnapshot` with the parts of `ObjectMeta` the controller reads. -/
structure VolumeSnapshot where
  Name : String
  Namespace : String
  UID : String
  DeletionTimestamp : Option Time := none
  Finalizers : List String := []
  Spec : VolumeSnapshotSpec := {}
  Status : Option VolumeSnapshotStatus := none
  deriving DecidableEq, Repr

/-- Go: `v1.ObjectReference` as held in `content.Spec.VolumeSnapshotRef`. -/
structure ObjectReference where
  Namespace : String := ""
  Name : String := ""
  UID : String := ""
  deriving DecidableEq, Repr

/-- Go: `crdv1.DeletionPolicy`. -/
inductive DeletionPolicy where
  | Delete
  | Retain
  deriving DecidableEq, Repr

/-- Go: `crdv1.VolumeSnapshotContentSource`. -/
structure VolumeSnapshotContentSource where
  VolumeHandle : Option String := none
  SnapshotHandle : Option String := none
  deriving DecidableEq, Repr

/-- Go: `crdv1.VolumeSnapshotContentSpec`. -/
structure VolumeSnapshotContentSpec where
  VolumeSnapshotRef : ObjectReference := {}
  Source : VolumeSnapshotContentSource := {}
  VolumeSnapshotClassName : Option String := none
  DeletionPolicy : DeletionPolicy := DeletionPolicy.Retain
  Driver : String := ""
  deriving DecidableEq, Repr

/-- Go: `crdv1.VolumeSnapshotContentStatus`. -/
structure VolumeSnapshotContentStatus where
  SnapshotHandle : Option String := none
  CreationTime : Option Int := none
  RestoreSize : Option Int := none
  ReadyToUse : Option Bool := none
  Error : Option VolumeSnapshotError := none
  deriving DecidableEq, Repr

/-- Go: `crdv1.VolumeSnapshotContent`; `Annotations` is the annotation map as
an association list. -/
structure VolumeSnapshotContent where
  Name : String
  DeletionTimestamp : Option Time := none
  Finalizers : List String := []
  Annotations : List (String × String) := []
  Spec : VolumeSnapshotContentSpec := {}
  Status : Option VolumeSnapshotContentStatus := none
  deriving DecidableEq, Repr

/-- Go: `v1.TypedLocalObjectReference` (`pvc.Spec.DataSource`). -/
structure TypedLocalObjectReference where
  APIGroup : Option String := none
  Kind : String := ""
  Name : String := ""
  deriving DecidableEq, Repr

/-- Go: `v1.PersistentVolumeClaimPhase`. -/
inductive PersistentVolumeClaimPhase where
  | ClaimPending
  | ClaimBound
  | ClaimLost
  deriving DecidableEq, Repr

/-- Go: `v1.PersistentVolumeClaim`, the fields the controller reads. -/
structure PersistentVolumeClaim where
  Name : String
  Namespace : String
  DeletionTimestamp : Option Time := none
  Finalizers : List String := []
  DataSource : Option TypedLocalObjectReference := none
  VolumeName : String := ""
  StorageClassName : Option String := none
  Phase : PersistentVolumeClaimPhase := PersistentVolumeClaimPhase.ClaimPending
  deriving DecidableEq, Repr

/-- Go: `v1.PersistentVolume`; `CSI` holds `Spec.CSI.VolumeHandle` when the
volume source is CSI. -/
structure PersistentVolume where
  Name : String
  CSI : Option String := none
  StorageClassName : String := ""
  deriving DecidableEq, Repr

/-- Go: `crdv1.VolumeSnapshotClass`. -/
structure VolumeSnapshotClass where
  Name : String
  Driver : String := ""
  Parameters : List (String × String) := []
  DeletionPolicy : DeletionPolicy := DeletionPolicy.Delete
  Annotations : List (String × String) := []
  deriving DecidableEq, Repr

/-- Go: `v1.SecretReference`. -/
structure SecretReference where
  Name : String
  Namespace : String
  deriving DecidableEq, Repr

/-! ## Results of calls -/

/-- Reason carried by an API error (`apierrs.ReasonForError`). -/
inductive StatusReason where
  | AlreadyExists
  | NotFound
  | Conflict
  | Unknown
  deriving DecidableEq, Repr

/-- An error returned by the API client; `message` is `err.Error()`. -/
structure APIError where
  reason : StatusReason
  message : String
  deriving DecidableEq, Repr

/-- Go: `apierrs.IsAlreadyExists`. -/
def IsAlreadyExists (e : APIError) : Bool := decide (e.reason = StatusReason.AlreadyExists)

/-- Result of a controller method: a value, a returned `error` (its message),
or a run-time panic (nil dereference). -/
inductive Res (α : Type) where
  | ok (a : α)
  | error (msg : String)
  | panic (msg : String)
  deriving DecidableEq, Repr

/-- A write sent to the API server, recorded whether or not it succeeds. -/
inductive Write where
  | ContentCreate (c : VolumeSnapshotContent)
  | ContentUpdate (c : VolumeSnapshotContent)
  | ContentDelete (name : String)
  | SnapshotUpdate (s : VolumeSnapshot)
  | SnapshotUpdateStatus (s : VolumeSnapshot)
  | PVCUpdate (p : PersistentVolumeClaim)
  deriving DecidableEq, Repr

/-- An event handed to the event recorder: object key, type, reason, message. -/
structure Event where
  object : String
  eventtype : String
  reason : String
  message : String
  deriving DecidableEq, Repr

/-- Everything outside the controller.  `snapshots`, `contents`, `pvcs`, `pvs`
are the API server; `contentStore`, `snapshotStore`, `pvcLister`, `classLister`,
`snapshotLister` the local caches; `writes` and `events` log what the controller sent;
`apiOutcomes` scripts the outcome of the API calls to come, one entry per call
(`none` is success, an exhausted script is success), `storeOutcomes` the same
for the cache updates; `now` is the clock. -/
structure World where
  snapshots : List VolumeSnapshot := []
  contents : List VolumeSnapshotContent := []
  pvcs : List PersistentVolumeClaim := []
  pvs : List PersistentVolume := []
  contentStore : List VolumeSnapshotContent := []
  snapshotStore : List VolumeSnapshot := []
  pvcLister : List PersistentVolumeClaim := []
  classLister : List VolumeSnapshotClass := []
  snapshotLister : List VolumeSnapshot := []
  snapshotQueue : List String := []
  writes : List Write := []
  events : List Event := []
  apiOutcomes : List (Option APIError) := []
  storeOutcomes : List (Option String) := []
  now : Time := 0
  deriving DecidableEq, Repr

/-- Go: `csiSnapshotCommonController`, its configuration fields.
`GetSecretReference` stands for `utils.GetSecretReference`, and `GetReference`
for the scheme lookup of `ref.GetReference` (`none` when the kind of the object
is registered). -/
structure csiSnapshotCommonController where
  createSnapshotContentRetryCount : Int
  createSnapshotContentInterval : Int := 0
  GetSecretReference : List (String × String) → String → VolumeSnapshot →
    Except String (Option SecretReference) := fun _ _ _ => Except.ok none
  GetReference : Option String := none

/-! ## External collaborators: API client, caches, event recorder -/

/-- Take the scripted outcome of the next API call. -/
def World.nextOutcome (w : World) : Option APIError × World :=
  match w.apiOutcomes with
  | [] => (none, w)
  | o :: rest => (o, { w with apiOutcomes := rest })

/-- Take the scripted outcome of the next cache update. -/
def World.nextStoreOutcome (w : World) : Option String × World :=
  match w.storeOutcomes with
  | [] => (none, w)
  | o :: rest => (o, { w with storeOutcomes := rest })

/-- The error the API server gives for an object it does not hold. -/
def notFoundError (name : String) : APIError :=
  { reason := StatusReason.NotFound, message := "\"" ++ name ++ "\" not found" }

/-- The error the API server gives for a create of an object it holds. -/
def alreadyExistsError (name : String) : APIError :=
  { reason := StatusReason.AlreadyExists, message := "\"" ++ name ++ "\" already exists" }

/-- Replace the content of the same name in a list, or add it at the end. -/
def putContent (c : VolumeSnapshotContent) :
    List VolumeSnapshotContent → List VolumeSnapshotContent
  | [] => [c]
  | x :: xs => if x.Name = c.Name then c :: xs else x :: putContent c xs

/-- Replace the request of the same namespace and name in a list, or add it at
the end. -/
def putSnapshot (s : VolumeSnapshot) : List VolumeSnapshot → List VolumeSnapshot
  | [] => [s]
  | x :: xs =>
    if x.Namespace = s.Namespace ∧ x.Name = s.Name then s :: xs else x :: putSnapshot s xs

/-- Look a content up by name. -/
def findContent (name : String) (l : List VolumeSnapshotContent) :
    Option VolumeSnapshotContent :=
  l.find? (fun c => decide (c.Name = name))

/-- Look a request up by namespace and name. -/
def findSnapshot (ns name : String) (l : List VolumeSnapshot) : Option VolumeSnapshot :=
  l.find? (fun s => decide (s.Namespace = ns ∧ s.Name = name))

/-- Go: `clientset.SnapshotV1beta1().VolumeSnapshotContents().Update(content)`.
The write is logged, then fails with the scripted error, or with NotFound when
the server has no content of that name, or replaces the stored content and
returns it. -/
def ContentsUpdate (content : VolumeSnapshotContent) (w : World) :
    Except APIError VolumeSnapshotContent × World :=
  let w1 := { w with writes := w.writes ++ [Write.ContentUpdate content] }
  match w1.nextOutcome with
  | (some err, w2) => (Except.error err, w2)
  | (none, w2) =>
    match findContent content.Name w2.contents with
    | none => (Except.error (notFoundError content.Name), w2)
    | some _ => (Except.ok content, { w2 with contents := putContent content w2.contents })

/-- Go: `clientset.SnapshotV1beta1().VolumeSnapshotContents().Create(content)`. -/
def ContentsCreate (content : VolumeSnapshotContent) (w : World) :
    Except APIError VolumeSnapshotContent × World :=
  let w1 := { w with writes := w.writes ++ [Write.ContentCreate content] }
  match w1.nextOutcome with
  | (some err, w2) => (Except.error err, w2)
  | (none, w2) =>
    match findContent content.Name w2.contents with
    | some _ => (Except.error (alreadyExistsError content.Name), w2)
    | none => (Except.ok content, { w2 with contents := putContent content w2.contents })

/-- Go: `clientset.SnapshotV1beta1().VolumeSnapshots(ns).Get(name, ...)`. -/
def SnapshotsGet (ns name : String) (w : World) : Except APIError VolumeSnapshot × World :=
  match w.nextOutcome with
  | (some err, w1) => (Except.error err, w1)
  | (none, w1) =>
    match findSnapshot ns name w1.snapshots with
    | none => (Except.error (notFoundError name), w1)
    | some s => (Except.ok s, w1)

/-- Go: `clientset.SnapshotV1beta1().VolumeSnapshots(ns).UpdateStatus(snapshot)`.
Only the status of the stored request is replaced; the stored request with
the new status is returned. -/
def SnapshotsUpdateStatus (snapshot : VolumeSnapshot) (w : World) :
    Except APIError VolumeSnapshot × World :=
  let w1 := { w with writes := w.writes ++ [Write.SnapshotUpdateStatus snapshot] }
  match w1.nextOutcome with
  | (some err, w2) => (Except.error err, w2)
  | (none, w2) =>
    match findSnapshot snapshot.Namespace snapshot.Name w2.snapshots with
    | none => (Except.error (notFoundError snapshot.Name), w2)
    | some stored =>
      let newSnapshot := { stored with Status := snapshot.Status }
      (Except.ok newSnapshot, { w2 with snapshots := putSnapshot newSnapshot w2.snapshots })

/-- Go: `ctrl.contentStore.GetByKey(name)`; the typed cache cannot hold an object
of another kind and the lookup itself does not fail. -/
def contentStoreGetByKey (name : String) (w : World) : Option VolumeSnapshotContent :=
  findContent name w.contentStore

/-- Modelled from the spec: `utils.StoreObjectUpdate` is not among the sources;
the spec gives the cache boundary as an explicit `storeUpdate(object)` that
mirrors a written object into the cache.  Its failure is scripted. -/
def storeContentUpdate (content : VolumeSnapshotContent) (w : World) :
    Option String × World :=
  match w.nextStoreOutcome with
  | (some err, w1) => (some err, w1)
  | (none, w1) => (none, { w1 with contentStore := putContent content w1.contentStore })

/-- Modelled from the spec: `utils.StoreObjectUpdate` on the request cache, see
`storeContentUpdate`. -/
def storeSnapshotUpdate (snapshot : VolumeSnapshot) (w : World) : Option String × World :=
  match w.nextStoreOutcome with
  | (some err, w1) => (some err, w1)
  | (none, w1) => (none, { w1 with snapshotStore := putSnapshot snapshot w1.snapshotStore })

/-- Modelled from the spec: `utils.SnapshotKey` is not among the sources; the
identity key of a request is its namespace and name. -/
def SnapshotKey (snapshot : VolumeSnapshot) : String :=
  snapshot.Namespace ++ "/" ++ snapshot.Name

/-- Go: `ctrl.eventRecorder.Event(snapshot, eventtype, reason, message)`. -/
def recordEvent (snapshot : VolumeSnapshot) (eventtype reason message : String) (w : World) :
    World :=
  { w with events := w.events ++
      [{ object := SnapshotKey snapshot, eventtype := eventtype, reason := reason,
         message := message }] }

/-- Go: `time.Sleep(d)`. -/
def sleep (d : Int) (w : World) : World := { w with now := w.now + d }

/-- Go: `v1.EventTypeWarning`. -/
def EventTypeWarning : String := "Warning"

/-- Go: `controllerUpdateFailMsg`. -/
def controllerUpdateFailMsg : String := "snapshot controller failed to update"

/-- Go: `newControllerUpdateError(name, message).Error()`. -/
def newControllerUpdateError (name message : String) : String :=
  controllerUpdateFailMsg ++ " " ++ name ++ " on API server: " ++ message

/-! ## Request status writers -/

/-- Go: the guard of `updateSnapshotErrorStatusWithEvent` (line 619),
`snapshot.Status != nil && snapshot.Status.Error != nil &&
*snapshot.Status.Error.Message == message`; the dereference of a nil `Message`
panics. -/
def sameErrorAlreadySet (snapshot : VolumeSnapshot) (message : String) : Res Bool :=
  match snapshot.Status with
  | none => Res.ok false
  | some status =>
    match status.Error with
    | none => Res.ok false
    | some e =>
      match e.Message with
      | none => Res.panic "invalid memory address or nil pointer dereference"
      | some m => Res.ok (decide (m = message))

/-- Go: the request `updateSnapshotErrorStatusWithEvent` submits (lines 623-635):
a copy of the request whose status has the new error and `ReadyToUse = false`. -/
def errorStatusClone (snapshot : VolumeSnapshot) (message : String) (now : Time) :
    VolumeSnapshot :=
  let status : VolumeSnapshotStatus := snapshot.Status.getD {}
  { snapshot with
    Status := some { status with
      Error := some { Time := some now, Message := some message },
      ReadyToUse := some false } }

/-- Go: `updateSnapshotErrorStatusWithEvent` (lines 616-653). -/
def updateSnapshotErrorStatusWithEvent (snapshot : VolumeSnapshot)
    (eventtype reason message : String) (w : World) : Res Unit × World :=
  match sameErrorAlreadySet snapshot message with
  | Res.panic p => (Res.panic p, w)
  | Res.error e => (Res.error e, w)
  | Res.ok true => (Res.ok (), w)
  | Res.ok false =>
    let snapshotClone := errorStatusClone snapshot message w.now
    match SnapshotsUpdateStatus snapshotClone w with
    | (Except.error err, w1) => (Res.error err.message, w1)
    | (Except.ok newSnapshot, w1) =>
      let w2 := recordEvent newSnapshot eventtype reason message w1
      match storeSnapshotUpdate newSnapshot w2 with
      | (some err, w3) => (Res.error err, w3)
      | (none, w3) => (Res.ok (), w3)

/-- Go: what `updateSnapshotStatus` reads from the content (lines 902-915):
bound name, creation time, size, readiness. -/
structure ContentView where
  boundContentName : String
  createdAt : Option Time
  size : Option Int
  readyToUse : Bool
  deriving DecidableEq, Repr

/-- Go: lines 902-915 of `updateSnapshotStatus`. -/
def contentView (content : VolumeSnapshotContent) : ContentView :=
  { boundContentName := content.Name
    createdAt := match content.Status with
      | some st => st.CreationTime
      | none => none
    size := match content.Status with
      | some st => st.RestoreSize
      | none => none
    readyToUse := match content.Status with
      | some st => st.ReadyToUse.getD false
      | none => false }

/-- Go: lines 940-943 of `updateSnapshotStatus`, on the copy `newStatus` and the
flag `updated`. -/
def setBoundContentName (v : ContentView) (p : VolumeSnapshotStatus × Bool) :
    VolumeSnapshotStatus × Bool :=
  if p.1.BoundVolumeSnapshotContentName = none then
    ({ p.1 with BoundVolumeSnapshotContentName := some v.boundContentName }, true)
  else p

/-- Go: lines 944-947 of `updateSnapshotStatus`. -/
def setCreationTime (v : ContentView) (p : VolumeSnapshotStatus × Bool) :
    VolumeSnapshotStatus × Bool :=
  if p.1.CreationTime = none ∧ v.createdAt ≠ none then
    ({ p.1 with CreationTime := v.createdAt }, true)
  else p

/-- Go: lines 948-954 of `updateSnapshotStatus`. -/
def setReadyToUse (v : ContentView) (p : VolumeSnapshotStatus × Bool) :
    VolumeSnapshotStatus × Bool :=
  if p.1.ReadyToUse = none ∨ p.1.ReadyToUse ≠ some v.readyToUse then
    if v.readyToUse = true ∧ p.1.Error ≠ none then
      ({ p.1 with ReadyToUse := some v.readyToUse, Error := none }, true)
    else ({ p.1 with ReadyToUse := some v.readyToUse }, true)
  else p

/-- Go: the condition of line 955, `(newStatus.RestoreSize == nil && size != nil) ||
(newStatus.RestoreSize != nil && newStatus.RestoreSize.IsZero() && size != nil &&
*size > 0)`. -/
def sizeChanges (restoreSize : Option Quantity) (size : Option Int) : Bool :=
  match restoreSize, size with
  | none, some _ => true
  | some q, some n => q.IsZero && decide (n > 0)
  | _, none => false

/-- Go: lines 955-958 of `updateSnapshotStatus`. -/
def setRestoreSize (v : ContentView) (p : VolumeSnapshotStatus × Bool) :
    VolumeSnapshotStatus × Bool :=
  if sizeChanges p.1.RestoreSize v.size = true then
    ({ p.1 with RestoreSize := v.size.map NewQuantity }, true)
  else p

/-- Go: the branch of `updateSnapshotStatus` for a stored request that has a
status (lines 939-958), one `if` after the other on the copy `newStatus`;
returns the new status and `updated`. -/
def mergeStatus (stored : VolumeSnapshotStatus) (v : ContentView) :
    VolumeSnapshotStatus × Bool :=
  setRestoreSize v (setReadyToUse v (setCreationTime v (setBoundContentName v (stored, false))))

/-- Go: lines 924-959 of `updateSnapshotStatus`: the status to store and whether
it differs, from the status of the request read from the API server. -/
def computeStatus (stored : Option VolumeSnapshotStatus) (v : ContentView) :
    VolumeSnapshotStatus × Bool :=
  match stored with
  | none =>
    ({ BoundVolumeSnapshotContentName := some v.boundContentName
       ReadyToUse := some v.readyToUse
       CreationTime := v.createdAt
       RestoreSize := v.size.map NewQuantity }, true)
  | some status => mergeStatus status v

/-- Go: `updateSnapshotStatus` (lines 899-972). -/
def updateSnapshotStatus (snapshot : VolumeSnapshot) (content : VolumeSnapshotContent)
    (w : World) : Res VolumeSnapshot × World :=
  let v := contentView content
  match SnapshotsGet snapshot.Namespace snapshot.Name w with
  | (Except.error err, w1) =>
    (Res.error ("error get snapshot " ++ SnapshotKey snapshot ++ " from api server: " ++
      err.message), w1)
  | (Except.ok snapshotObj, w1) =>
    let (newStatus, updated) := computeStatus snapshotObj.Status v
    if updated then
      let snapshotClone := { snapshotObj with Status := some newStatus }
      match SnapshotsUpdateStatus snapshotClone w1 with
      | (Except.error err, w2) =>
        (Res.error (newControllerUpdateError (SnapshotKey snapshot) err.message), w2)
      | (Except.ok newSnapshotObj, w2) => (Res.ok newSnapshotObj, w2)
    else (Res.ok snapshotObj, w1)

/-! ## Binding -/

/-- Go: `findContentfromStore` (lines 425-452). -/
def findContentfromStore (snapshot : VolumeSnapshot) (w : World) :
    Res VolumeSnapshotContent × World :=
  let uniqueSnapshotName := SnapshotKey snapshot
  let contentName : String :=
    match snapshot.Spec.Source.VolumeSnapshotContentName with
    | some n => n
    | none =>
      match snapshot.Status with
      | some st => st.BoundVolumeSnapshotContentName.getD ""
      | none => ""
  if contentName = "" then
    (Res.error ("content name not found for snapshot " ++ uniqueSnapshotName), w)
  else
    match contentStoreGetByKey contentName w with
    | none =>
      match updateSnapshotErrorStatusWithEvent snapshot EventTypeWarning
          "SnapshotContentMissing" "VolumeSnapshotContent is missing" w with
      | (Res.panic p, w1) => (Res.panic p, w1)
      | (_, w1) =>
        (Res.error ("snapshot " ++ uniqueSnapshotName ++
          " is bound to a non-existing content " ++ contentName), w1)
    | some content => (Res.ok content, w)

/-- Go: the error of `checkandBindSnapshotContent` (lines 834 and 836). -/
def bindMismatchError (snapshot : VolumeSnapshot) (content : VolumeSnapshotContent) : String :=
  "Could not bind snapshot " ++ snapshot.Name ++ " and content " ++ content.Name ++
    ", the VolumeSnapshotRef does not match"

/-- Go: the content `checkandBindSnapshotContent` submits (lines 840-845). -/
def bindClone (snapshot : VolumeSnapshot) (content : VolumeSnapshotContent) :
    VolumeSnapshotContent :=
  let contentClone :=
    { content with Spec := { content.Spec with
        VolumeSnapshotRef := { content.Spec.VolumeSnapshotRef with UID := snapshot.UID } } }
  match snapshot.Spec.VolumeSnapshotClassName with
  | some className =>
    { contentClone with Spec := { contentClone.Spec with
        VolumeSnapshotClassName := some className } }
  | none => contentClone

/-- Go: `checkandBindSnapshotContent` (lines 832-858). -/
def checkandBindSnapshotContent (snapshot : VolumeSnapshot) (content : VolumeSnapshotContent)
    (w : World) : Res VolumeSnapshotContent × World :=
  if content.Spec.VolumeSnapshotRef.Name ≠ snapshot.Name then
    (Res.error (bindMismatchError snapshot content), w)
  else if content.Spec.VolumeSnapshotRef.UID ≠ "" ∧
      content.Spec.VolumeSnapshotRef.UID ≠ snapshot.UID then
    (Res.error (bindMismatchError snapshot content), w)
  else if content.Spec.VolumeSnapshotRef.UID ≠ "" ∧
      content.Spec.VolumeSnapshotClassName ≠ none then
    (Res.ok content, w)
  else
    let contentClone := bindClone snapshot content
    match ContentsUpdate contentClone w with
    | (Except.error err, w1) => (Res.error err.message, w1)
    | (Except.ok newContent, w1) =>
      match storeContentUpdate newContent w1 with
      | (some err, w2) => (Res.error err, w2)
      | (none, w2) => (Res.ok newContent, w2)

/-- Go: the condition of the loop in `getMatchSnapshotContent` (lines 583-587). -/
def contentMatches (snapshot : VolumeSnapshot) (content : VolumeSnapshotContent) : Bool :=
  decide (content.Spec.VolumeSnapshotRef.Name = snapshot.Name) &&
  decide (content.Spec.VolumeSnapshotRef.Namespace = snapshot.Namespace) &&
  decide (content.Spec.VolumeSnapshotRef.UID = snapshot.UID) &&
  (match content.Spec.VolumeSnapshotClassName, snapshot.Spec.VolumeSnapshotClassName with
   | some c, some s => decide (c = s)
   | _, _ => false)

/-- Go: `getMatchSnapshotContent` (lines 576-600): the first content of
`ctrl.contentStore.List()` that matches, or nil. -/
def getMatchSnapshotContent (snapshot : VolumeSnapshot) (w : World) :
    Option VolumeSnapshotContent :=
  w.contentStore.find? (contentMatches snapshot)

/-! ## Creating a content (dynamic provisioning) -/

/-- Go: `strings.Contains(s, substr)`. -/
def stringsContains (s substr : String) : Bool := decide (substr.data <:+: s.data)

/-- Go: `slice.ContainsString(list, s, nil)`. -/
def ContainsString (list : List String) (s : String) : Bool := decide (s ∈ list)

/-- Go: what `strconv.Quote` writes for one character: a double quote and a
backslash get a backslash in front, the control characters with a short escape
get it, the other ASCII control characters are written as two hexadecimal
digits after a backslash and `x`, and every other character is kept (all
characters outside ASCII are taken to be printable). -/
def quotedChar (c : Char) : List Char :=
  if c = Char.ofNat 34 then [Char.ofNat 92, Char.ofNat 34]
  else if c = Char.ofNat 92 then [Char.ofNat 92, Char.ofNat 92]
  else if c = Char.ofNat 7 then [Char.ofNat 92, 'a']
  else if c = Char.ofNat 8 then [Char.ofNat 92, 'b']
  else if c = Char.ofNat 12 then [Char.ofNat 92, 'f']
  else if c = Char.ofNat 10 then [Char.ofNat 92, 'n']
  else if c = Char.ofNat 13 then [Char.ofNat 92, 'r']
  else if c = Char.ofNat 9 then [Char.ofNat 92, 't']
  else if c = Char.ofNat 11 then [Char.ofNat 92, 'v']
  else if c.toNat < 32 ∨ c.toNat = 127 then
    [Char.ofNat 92, 'x', Nat.digitChar (c.toNat / 16), Nat.digitChar (c.toNat % 16)]
  else [c]

/-- Go: the verb `%q` applied to an error or a string (`strconv.Quote`): the
text between double quotes, each character written as `quotedChar` says. -/
def quoted (s : String) : String :=
  String.mk (Char.ofNat 34 :: (s.data.flatMap quotedChar ++ [Char.ofNat 34]))

/-- Go: `isControllerUpdateFailError` (lines 1117-1124); `*err.Message` panics on
a nil message. -/
def isControllerUpdateFailError (err : Option VolumeSnapshotError) : Res Bool :=
  match err with
  | none => Res.ok false
  | some e =>
    match e.Message with
    | none => Res.panic "invalid memory address or nil pointer dereference"
    | some m => Res.ok (stringsContains m controllerUpdateFailMsg)

/-- Modelled from the spec: the constant `utils.PVCFinalizer` is not among the
sources; the guard on the volume claim a snapshot is taken from. -/
def PVCFinalizer : String := "snapshot.storage.kubernetes.io/pvc-as-source-protection"

/-- Modelled from the spec: the constant `utils.AnnDeletionSecretRefName` is not
among the sources. -/
def AnnDeletionSecretRefName : String := "snapshot.storage.kubernetes.io/deletion-secret-name"

/-- Modelled from the spec: the constant `utils.AnnDeletionSecretRefNamespace` is
not among the sources. -/
def AnnDeletionSecretRefNamespace : String :=
  "snapshot.storage.kubernetes.io/deletion-secret-namespace"

/-- Modelled from the spec: `utils.GetSnapshotContentNameForSnapshot` is not among
the sources; the content name is the one the request names when it is
pre-provisioned (user-chosen), and is derived deterministically from the
identity of the request when the content is created dynamically. -/
def GetSnapshotContentNameForSnapshot (snapshot : VolumeSnapshot) : String :=
  match snapshot.Spec.Source.VolumeSnapshotContentName with
  | some contentName => contentName
  | none => "snapcontent-" ++ snapshot.UID

/-- Go: `metav1.SetMetaDataAnnotation`, the assignment `Annotations[ann] = value`. -/
def SetMetaDataAnnotationKey (ann value : String) :
    List (String × String) → List (String × String)
  | [] => [(ann, value)]
  | (k, v) :: rest =>
    if k = ann then (ann, value) :: rest else (k, v) :: SetMetaDataAnnotationKey ann value rest

/-- Go: `metav1.HasAnnotation`, the lookup `_, found := Annotations[ann]`. -/
def HasAnnotationKey (annotations : List (String × String)) (ann : String) : Bool :=
  annotations.any (fun kv => decide (kv.1 = ann))

/-- Replace the claim of the same namespace and name in a list, or add it. -/
def putPVC (p : PersistentVolumeClaim) : List PersistentVolumeClaim → List PersistentVolumeClaim
  | [] => [p]
  | x :: xs =>
    if x.Namespace = p.Namespace ∧ x.Name = p.Name then p :: xs else x :: putPVC p xs

/-- Look a claim up by namespace and name. -/
def findPVC (ns name : String) (l : List PersistentVolumeClaim) : Option PersistentVolumeClaim :=
  l.find? (fun p => decide (p.Namespace = ns ∧ p.Name = name))

/-- Go: `ctrl.client.CoreV1().PersistentVolumeClaims(ns).Update(pvc)`. -/
def PVCsUpdate (pvc : PersistentVolumeClaim) (w : World) :
    Except APIError PersistentVolumeClaim × World :=
  let w1 := { w with writes := w.writes ++ [Write.PVCUpdate pvc] }
  match w1.nextOutcome with
  | (some err, w2) => (Except.error err, w2)
  | (none, w2) =>
    match findPVC pvc.Namespace pvc.Name w2.pvcs with
    | none => (Except.error (notFoundError pvc.Name), w2)
    | some _ => (Except.ok pvc, { w2 with pvcs := putPVC pvc w2.pvcs })

/-- Go: `ctrl.client.CoreV1().PersistentVolumes().Get(name, ...)`. -/
def PVsGet (name : String) (w : World) : Except APIError PersistentVolume × World :=
  match w.nextOutcome with
  | (some err, w1) => (Except.error err, w1)
  | (none, w1) =>
    match w1.pvs.find? (fun pv => decide (pv.Name = name)) with
    | none => (Except.error (notFoundError name), w1)
    | some pv => (Except.ok pv, w1)

/-- Go: `getClaimFromVolumeSnapshot` (lines 1084-1099). -/
def getClaimFromVolumeSnapshot (snapshot : VolumeSnapshot) (w : World) :
    Except String PersistentVolumeClaim :=
  match snapshot.Spec.Source.PersistentVolumeClaimName with
  | none => Except.error "the snapshot source PVC name is not specified"
  | some pvcName =>
    if pvcName = "" then
      Except.error ("the PVC name is not specified in snapshot " ++ SnapshotKey snapshot)
    else
      match findPVC snapshot.Namespace pvcName w.pvcLister with
      | none =>
        Except.error ("failed to retrieve PVC " ++ pvcName ++ " from the lister: " ++
          quoted ("persistentvolumeclaim \"" ++ pvcName ++ "\" not found"))
      | some pvc => Except.ok pvc

/-- Go: `ensurePVCFinalizer` (lines 718-750). -/
def ensurePVCFinalizer (snapshot : VolumeSnapshot) (w : World) : Option String × World :=
  if snapshot.Spec.Source.PersistentVolumeClaimName = none then (none, w)
  else
    match getClaimFromVolumeSnapshot snapshot w with
    | Except.error _ =>
      (some (newControllerUpdateError snapshot.Name "cannot get claim from snapshot"), w)
    | Except.ok pvc =>
      if pvc.DeletionTimestamp ≠ none then
        (some (newControllerUpdateError pvc.Name
          "cannot add finalizer on claim because it is being deleted"), w)
      else if pvc.DeletionTimestamp = none ∧ ContainsString pvc.Finalizers PVCFinalizer = false then
        let pvcClone := { pvc with Finalizers := pvc.Finalizers ++ [PVCFinalizer] }
        match PVCsUpdate pvcClone w with
        | (Except.error err, w1) => (some (newControllerUpdateError pvcClone.Name err.message), w1)
        | (Except.ok _, w1) => (none, w1)
      else (none, w)

/-- Go: `getSnapshotClass` (lines 1020-1030). -/
def getSnapshotClass (className : String) (w : World) : Except String VolumeSnapshotClass :=
  match w.classLister.find? (fun c => decide (c.Name = className)) with
  | none =>
    Except.error ("failed to retrieve snapshot class " ++ className ++ " from the informer: " ++
      quoted ("volumesnapshotclass \"" ++ className ++ "\" not found"))
  | some class_ => Except.ok class_

/-- Go: `getVolumeFromVolumeSnapshot` (lines 974-993). -/
def getVolumeFromVolumeSnapshot (snapshot : VolumeSnapshot) (w : World) :
    Except String PersistentVolume × World :=
  match getClaimFromVolumeSnapshot snapshot w with
  | Except.error err => (Except.error err, w)
  | Except.ok pvc =>
    if pvc.Phase ≠ PersistentVolumeClaimPhase.ClaimBound then
      (Except.error ("the PVC " ++ pvc.Name ++
        " is not yet bound to a PV, will not attempt to take a snapshot"), w)
    else
      let pvName := pvc.VolumeName
      match PVsGet pvName w with
      | (Except.error err, w1) =>
        (Except.error ("failed to retrieve PV " ++ pvName ++ " from the API server: " ++
          quoted err.message), w1)
      | (Except.ok pv, w1) => (Except.ok pv, w1)

/-- Go: what `getCreateSnapshotInput` returns: class, volume, content name, secret
reference. -/
structure CreateSnapshotInput where
  class_ : VolumeSnapshotClass
  volume : PersistentVolume
  contentName : String
  snapshotterSecretRef : Option SecretReference
  deriving DecidableEq, Repr

/-- Go: `getCreateSnapshotInput` (lines 541-573). -/
def getCreateSnapshotInput (ctrl : csiSnapshotCommonController) (snapshot : VolumeSnapshot)
    (w : World) : Except String CreateSnapshotInput × World :=
  match snapshot.Spec.VolumeSnapshotClassName with
  | none =>
    (Except.error ("failed to take snapshot " ++ snapshot.Name ++ " without a snapshot class"), w)
  | some className =>
    match getSnapshotClass className w with
    | Except.error err => (Except.error err, w)
    | Except.ok class_ =>
      match getVolumeFromVolumeSnapshot snapshot w with
      | (Except.error err, w1) => (Except.error err, w1)
      | (Except.ok volume, w1) =>
        let contentName := GetSnapshotContentNameForSnapshot snapshot
        match ctrl.GetSecretReference class_.Parameters contentName snapshot with
        | Except.error err => (Except.error err, w1)
        | Except.ok snapshotterSecretRef =>
          (Except.ok { class_ := class_, volume := volume, contentName := contentName,
                       snapshotterSecretRef := snapshotterSecretRef }, w1)

/-- Go: the content `createSnapshotContent` builds (lines 480-502). -/
def newSnapshotContent (snapshot : VolumeSnapshot) (input : CreateSnapshotInput)
    (volumeHandle : String) : VolumeSnapshotContent :=
  let snapshotContent : VolumeSnapshotContent :=
    { Name := input.contentName
      Spec :=
        { VolumeSnapshotRef :=
            { Namespace := snapshot.Namespace, Name := snapshot.Name, UID := snapshot.UID }
          Source := { VolumeHandle := some volumeHandle }
          VolumeSnapshotClassName := some input.class_.Name
          DeletionPolicy := input.class_.DeletionPolicy
          Driver := input.class_.Driver } }
  match input.snapshotterSecretRef with
  | none => snapshotContent
  | some secretRef =>
    { snapshotContent with
      Annotations :=
        SetMetaDataAnnotationKey AnnDeletionSecretRefNamespace secretRef.Namespace
          ( SetMetaDataAnnotationKey AnnDeletionSecretRefName secretRef.Name
            snapshotContent.Annotations) }

/-- Go: the loop of `createSnapshotContent` (lines 507-523) with `n` rounds left;
returns `updateContent` and `err` as they stand after the loop. -/
def createContentLoop (interval : Int) (snapshotContent : VolumeSnapshotContent) :
    Nat → Option VolumeSnapshotContent → Option APIError → World →
      (Option VolumeSnapshotContent × Option APIError) × World
  | 0, updateContent, err, w => ((updateContent, err), w)
  | n + 1, _, _, w =>
    match ContentsCreate snapshotContent w with
    | (Except.ok updateContent, w1) => ((some updateContent, none), w1)
    | (Except.error err, w1) =>
      if IsAlreadyExists err then ((some snapshotContent, none), w1)
      else createContentLoop interval snapshotContent n none (some err) (sleep interval w1)

/-- Go: `createSnapshotContent` (lines 455-539).  With no round of the loop run,
`updateContent` is still nil when it is handed to the cache update, which
dereferences it. -/
def createSnapshotContent (ctrl : csiSnapshotCommonController) (snapshot : VolumeSnapshot)
    (w : World) : Res VolumeSnapshotContent × World :=
  match ensurePVCFinalizer snapshot w with
  | (some err, w1) => (Res.error err, w1)
  | (none, w1) =>
    match getCreateSnapshotInput ctrl snapshot w1 with
    | (Except.error err, w2) =>
      (Res.error ("failed to get input parameters to create snapshot " ++ snapshot.Name ++ ": " ++
        quoted err), w2)
    | (Except.ok input, w2) =>
      match input.volume.CSI with
      | none =>
        (Res.error ("cannot find CSI PersistentVolumeSource for volume " ++ input.volume.Name), w2)
      | some volumeHandle =>
        match ctrl.GetReference with
        | some err => (Res.error err, w2)
        | none =>
          let snapshotContent := newSnapshotContent snapshot input volumeHandle
          match createContentLoop ctrl.createSnapshotContentInterval snapshotContent
              ctrl.createSnapshotContentRetryCount.toNat none none w2 with
          | ((_, some err), w3) =>
            let strerr := "Error creating volume snapshot content object for snapshot " ++
              SnapshotKey snapshot ++ ": " ++ err.message ++ "."
            let w4 := recordEvent snapshot EventTypeWarning "CreateSnapshotContentFailed" strerr w3
            (Res.error (newControllerUpdateError (SnapshotKey snapshot) err.message), w4)
          | ((none, none), w3) =>
            (Res.panic "invalid memory address or nil pointer dereference", w3)
          | ((some updateContent, none), w3) =>
            let (_, w4) := storeContentUpdate updateContent w3
            (Res.ok updateContent, w4)

/-! ## Reconciling a request that is not ready -/

/-- Go: the status loop of `syncUnreadySnapshot` (lines 340-348 and 403-411) with
`n` rounds left; returns `err` as it stands after the loop. -/
def updateStatusLoop (interval : Int) (snapshot : VolumeSnapshot)
    (content : VolumeSnapshotContent) : Nat → Option String → World → Res (Option String) × World
  | 0, err, w => (Res.ok err, w)
  | n + 1, _, w =>
    match updateSnapshotStatus snapshot content w with
    | (Res.ok _, w1) => (Res.ok none, w1)
    | (Res.panic p, w1) => (Res.panic p, w1)
    | (Res.error err, w1) =>
      updateStatusLoop interval snapshot content n (some err) (sleep interval w1)

/-- Go: the status loop of `bindandUpdateVolumeSnapshot` (lines 872-881) with `n`
rounds left; returns `snapshotCopy` and `err` as they stand after the loop. -/
def bindStatusLoop (interval : Int) (snapshotContent : VolumeSnapshotContent) :
    Nat → VolumeSnapshot → Option String → World →
      Res (VolumeSnapshot × Option String) × World
  | 0, snapshotCopy, err, w => (Res.ok (snapshotCopy, err), w)
  | n + 1, snapshotCopy, _, w =>
    match updateSnapshotStatus snapshotCopy snapshotContent w with
    | (Res.ok updateSnapshot, w1) => (Res.ok (updateSnapshot, none), w1)
    | (Res.panic p, w1) => (Res.panic p, w1)
    | (Res.error err, w1) =>
      bindStatusLoop interval snapshotContent n snapshotCopy (some err) (sleep interval w1)

/-- Go: `bindandUpdateVolumeSnapshot` (lines 861-896). -/
def bindandUpdateVolumeSnapshot (ctrl : csiSnapshotCommonController)
    (snapshotContent : VolumeSnapshotContent) (snapshot : VolumeSnapshot) (w : World) :
    Res VolumeSnapshot × World :=
  match SnapshotsGet snapshot.Namespace snapshot.Name w with
  | (Except.error err, w1) =>
    (Res.error ("error get snapshot " ++ SnapshotKey snapshot ++ " from api server: " ++
      err.message), w1)
  | (Except.ok snapshotObj, w1) =>
    match bindStatusLoop ctrl.createSnapshotContentInterval snapshotContent
        ctrl.createSnapshotContentRetryCount.toNat snapshotObj none w1 with
    | (Res.panic p, w2) => (Res.panic p, w2)
    | (Res.error e, w2) => (Res.error e, w2)
    | (Res.ok (snapshotCopy, some err), w2) =>
      match updateSnapshotErrorStatusWithEvent snapshotCopy EventTypeWarning
          "SnapshotStatusUpdateFailed" ("Snapshot status update failed, " ++ err) w2 with
      | (Res.panic p, w3) => (Res.panic p, w3)
      | (_, w3) => (Res.error err, w3)
    | (Res.ok (snapshotCopy, none), w2) =>
      let (_, w3) := storeSnapshotUpdate snapshotCopy w2
      (Res.ok snapshotCopy, w3)

/-- Go: the end of both provisioning branches of `syncUnreadySnapshot` (lines
340-356 and 403-417): run the status loop, and on failure record it on the
request. -/
def propagateStatus (ctrl : csiSnapshotCommonController) (snapshot : VolumeSnapshot)
    (content : VolumeSnapshotContent) (w : World) : Res Unit × World :=
  match updateStatusLoop ctrl.createSnapshotContentInterval snapshot content
      ctrl.createSnapshotContentRetryCount.toNat none w with
  | (Res.panic p, w1) => (Res.panic p, w1)
  | (Res.error e, w1) => (Res.error e, w1)
  | (Res.ok none, w1) => (Res.ok (), w1)
  | (Res.ok (some err), w1) =>
    match updateSnapshotErrorStatusWithEvent snapshot EventTypeWarning
        "SnapshotStatusUpdateFailed" ("Snapshot status update failed, " ++ err) w1 with
    | (Res.panic p, w2) => (Res.panic p, w2)
    | (_, w2) => (Res.error err, w2)

/-- Go: the pre-provisioned branch of `syncUnreadySnapshot` (lines 326-356). -/
def syncUnreadySnapshotPreProvisioned (ctrl : csiSnapshotCommonController)
    (snapshot : VolumeSnapshot) (w : World) : Res Unit × World :=
  let uniqueSnapshotName := SnapshotKey snapshot
  match findContentfromStore snapshot w with
  | (Res.panic p, w1) => (Res.panic p, w1)
  | (Res.error err, w1) => (Res.error err, w1)
  | (Res.ok content, w1) =>
    match checkandBindSnapshotContent snapshot content w1 with
    | (Res.panic p, w2) => (Res.panic p, w2)
    | (Res.error err, w2) =>
      match updateSnapshotErrorStatusWithEvent snapshot EventTypeWarning "SnapshotBindFailed"
          ("Snapshot failed to bind VolumeSnapshotContent, " ++ err) w2 with
      | (Res.panic p, w3) => (Res.panic p, w3)
      | (_, w3) =>
        (Res.error ("snapshot " ++ uniqueSnapshotName ++ " is bound, but VolumeSnapshotContent " ++
          content.Name ++ " is not bound to the VolumeSnapshot correctly, " ++ err), w3)
    | (Res.ok newContent, w2) => propagateStatus ctrl snapshot newContent w2

/-- Go: the guard of line 390, `snapshot.Status == nil || snapshot.Status.Error == nil
|| isControllerUpdateFailError(snapshot.Status.Error)`. -/
def mayCreateContent (snapshot : VolumeSnapshot) : Res Bool :=
  match snapshot.Status with
  | none => Res.ok true
  | some status =>
    match status.Error with
    | none => Res.ok true
    | some e => isControllerUpdateFailError (some e)

/-- Go: the dynamic branch of `syncUnreadySnapshot` (lines 357-421). -/
def syncUnreadySnapshotDynamic (ctrl : csiSnapshotCommonController)
    (snapshot : VolumeSnapshot) (w : World) : Res Unit × World :=
  let uniqueSnapshotName := SnapshotKey snapshot
  match getMatchSnapshotContent snapshot w with
  | some contentObj =>
    if contentObj.Spec.Source.SnapshotHandle ≠ none then
      match updateSnapshotErrorStatusWithEvent snapshot EventTypeWarning "SnapshotHandleNotFound"
          ("Snapshot handle not found in content " ++ contentObj.Name) w with
      | (Res.panic p, w1) => (Res.panic p, w1)
      | (_, w1) =>
        (Res.error ("snapshotHandle should not be set in the content for dynamic provisioning " ++
          "for snapshot " ++ uniqueSnapshotName), w1)
    else
      match bindandUpdateVolumeSnapshot ctrl contentObj snapshot w with
      | (Res.panic p, w1) => (Res.panic p, w1)
      | (Res.error err, w1) => (Res.error err, w1)
      | (Res.ok _, w1) => (Res.ok (), w1)
  | none =>
    match snapshot.Status.bind (fun st => st.BoundVolumeSnapshotContentName) with
    | some boundName =>
      match contentStoreGetByKey boundName w with
      | none =>
        if snapshot.DeletionTimestamp = none then
          match updateSnapshotErrorStatusWithEvent snapshot EventTypeWarning
              "SnapshotContentNotFound"
              ("Content for snapshot " ++ uniqueSnapshotName ++
                " not found, but deletion timestamp not set on snapshot") w with
          | (Res.panic p, w1) => (Res.panic p, w1)
          | (_, w1) =>
            (Res.error ("content for snapshot " ++ uniqueSnapshotName ++
              " not found without deletion timestamp on snapshot"), w1)
        else (Res.ok (), w)
      | some _ => (Res.ok (), w)
    | none =>
      match mayCreateContent snapshot with
      | Res.panic p => (Res.panic p, w)
      | Res.error e => (Res.error e, w)
      | Res.ok false => (Res.ok (), w)
      | Res.ok true =>
        if snapshot.Spec.Source.PersistentVolumeClaimName = none then
          match updateSnapshotErrorStatusWithEvent snapshot EventTypeWarning
              "SnapshotPVCSourceMissing"
              ("PVC source for snapshot " ++ uniqueSnapshotName ++ " is missing") w with
          | (Res.panic p, w1) => (Res.panic p, w1)
          | (_, w1) =>
            (Res.error ("expected PVC source for snapshot " ++ uniqueSnapshotName ++
              " but got nil"), w1)
        else
          match createSnapshotContent ctrl snapshot w with
          | (Res.panic p, w1) => (Res.panic p, w1)
          | (Res.error err, w1) =>
            match updateSnapshotErrorStatusWithEvent snapshot EventTypeWarning
                "SnapshotContentCreationFailed"
                ("Failed to create snapshot content with error " ++ err) w1 with
            | (Res.panic p, w2) => (Res.panic p, w2)
            | (_, w2) => (Res.error err, w2)
          | (Res.ok content, w1) => propagateStatus ctrl snapshot content w1

/-- Go: `syncUnreadySnapshot` (lines 321-422). -/
def syncUnreadySnapshot (ctrl : csiSnapshotCommonController) (snapshot : VolumeSnapshot)
    (w : World) : Res Unit × World :=
  if snapshot.Spec.Source.VolumeSnapshotContentName ≠ none then
    syncUnreadySnapshotPreProvisioned ctrl snapshot w
  else syncUnreadySnapshotDynamic ctrl snapshot w

/-! ## Reconciling a content -/

/-- Modelled from the spec: the constant `utils.VolumeSnapshotContentFinalizer` is
not among the sources; the single guard on a content. -/
def VolumeSnapshotContentFinalizer : String :=
  "snapshot.storage.kubernetes.io/volumesnapshotcontent-bound-protection"

/-- Modelled from the spec: the constant `utils.VolumeSnapshotBoundFinalizer` is
not among the sources; the "bound" guard on a request. -/
def VolumeSnapshotBoundFinalizer : String :=
  "snapshot.storage.kubernetes.io/volumesnapshot-bound-protection"

/-- Modelled from the spec: the constant `utils.VolumeSnapshotAsSourceFinalizer`
is not among the sources; the "as-source" guard on a request. -/
def VolumeSnapshotAsSourceFinalizer : String :=
  "snapshot.storage.kubernetes.io/volumesnapshot-as-source-protection"

/-- Modelled from the spec: the constant `utils.AnnVolumeSnapshotBeingDeleted` is
not among the sources; the "deletion in progress" mark on a content. -/
def AnnVolumeSnapshotBeingDeleted : String :=
  "snapshot.storage.kubernetes.io/volumesnapshot-being-deleted"

/-- Modelled from the spec: `utils.NeedToAddContentFinalizer` is not among the
sources; the content lacks its finalizer and is not itself marked for
deletion. -/
def NeedToAddContentFinalizer (content : VolumeSnapshotContent) : Bool :=
  decide (content.DeletionTimestamp = none) &&
    !ContainsString content.Finalizers VolumeSnapshotContentFinalizer

/-- Modelled from the spec: `utils.IsSnapshotDeletionCandidate` is not among the
sources; its callers describe it (lines 134-137 and 237) as: the deletion
timestamp is set and a finalizer of the controller is on the request. -/
def IsSnapshotDeletionCandidate (snapshot : VolumeSnapshot) : Bool :=
  decide (snapshot.DeletionTimestamp ≠ none) &&
    (ContainsString snapshot.Finalizers VolumeSnapshotAsSourceFinalizer ||
      ContainsString snapshot.Finalizers VolumeSnapshotBoundFinalizer)

/-- Modelled from the spec: `utils.SnapshotRefKey` is not among the sources; the
identity key of the request a reference names. -/
def SnapshotRefKey (vsref : ObjectReference) : String :=
  vsref.Namespace ++ "/" ++ vsref.Name

/-- Go: `ctrl.snapshotStore.GetByKey(key)`. -/
def snapshotStoreGetByKey (key : String) (w : World) : Option VolumeSnapshot :=
  w.snapshotStore.find? (fun s => decide (SnapshotKey s = key))

/-- Go: `addContentFinalizer` (lines 676-692). -/
def addContentFinalizer (content : VolumeSnapshotContent) (w : World) : Res Unit × World :=
  let contentClone :=
    { content with Finalizers := content.Finalizers ++ [VolumeSnapshotContentFinalizer] }
  match ContentsUpdate contentClone w with
  | (Except.error err, w1) => (Res.error (newControllerUpdateError content.Name err.message), w1)
  | (Except.ok _, w1) =>
    let (_, w2) := storeContentUpdate contentClone w1
    (Res.ok (), w2)

/-- Go: lines 102-132 of `syncContent`: the request the content counts as bound
to (nil when it is missing or has another UID), after the request has been
queued when both it and the content are there and the content is ready. -/
def resolveSnapshot (content : VolumeSnapshotContent) (w : World) :
    Option VolumeSnapshot × World :=
  let snapshotName := SnapshotRefKey content.Spec.VolumeSnapshotRef
  match snapshotStoreGetByKey snapshotName w with
  | none => (none, w)
  | some snapshot =>
    if snapshot.UID ≠ content.Spec.VolumeSnapshotRef.UID then (none, w)
    else if content.Status.bind (fun st => st.ReadyToUse) = some true then
      (some snapshot, { w with snapshotQueue := w.snapshotQueue ++ [snapshotName] })
    else (some snapshot, w)

/-- Go: `syncContent` (lines 83-164). -/
def syncContent (content : VolumeSnapshotContent) (w : World) : Res Unit × World :=
  if NeedToAddContentFinalizer content then addContentFinalizer content w
  else if content.Spec.VolumeSnapshotRef.UID = "" then (Res.ok (), w)
  else
    let (snapshot, w1) := resolveSnapshot content w
    let candidate : Bool :=
      match snapshot with
      | none => true
      | some s => IsSnapshotDeletionCandidate s
    if candidate ∧ HasAnnotationKey content.Annotations AnnVolumeSnapshotBeingDeleted = false then
      let content :=
        { content with
          Annotations := SetMetaDataAnnotationKey AnnVolumeSnapshotBeingDeleted "yes"
            content.Annotations }
      match ContentsUpdate content w1 with
      | (Except.error err, w2) =>
        (Res.error (newControllerUpdateError content.Name err.message), w2)
      | (Except.ok updateContent, w2) =>
        match storeContentUpdate updateContent w2 with
        | (some err, w3) => (Res.error err, w3)
        | (none, w3) => (Res.ok (), w3)
    else (Res.ok (), w1)

/-! ## Finalizers of a request and pre-deletion housekeeping -/

/-- Go: `snapshotKind`. -/
def snapshotKind : String := "VolumeSnapshot"

/-- Modelled from the spec: the constant `crdv1.GroupName`, the value of
`snapshotAPIGroup`, is not among the sources; the API group of the snapshot
records. -/
def snapshotAPIGroup : String := "snapshot.storage.k8s.io"

/-- Go: `slice.RemoveString(slice, s, nil)`. -/
def RemoveString (slice : List String) (s : String) : List String :=
  slice.filter (fun item => decide (item ≠ s))

/-- Modelled from the spec: `utils.IsSnapshotReady` is not among the sources; its
callers (lines 170, 320 and 773-775) use it as: readyToUse is set and true. -/
def IsSnapshotReady (snapshot : VolumeSnapshot) : Bool :=
  decide (snapshot.Status.bind (fun st => st.ReadyToUse) = some true)

/-- Modelled from the spec: `utils.IsBoundVolumeSnapshotContentNameSet` is not
among the sources; a bound content name is recorded on the request. -/
def IsBoundVolumeSnapshotContentNameSet (snapshot : VolumeSnapshot) : Bool :=
  (snapshot.Status.bind (fun st => st.BoundVolumeSnapshotContentName)).isSome

/-- Modelled from the spec: `utils.IsVolumeSnapshotRefSet` is not among the
sources; the back-reference of the content matches the request (name,
namespace and UID). -/
def IsVolumeSnapshotRefSet (snapshot : VolumeSnapshot) (content : VolumeSnapshotContent) : Bool :=
  decide (content.Spec.VolumeSnapshotRef.Name = snapshot.Name) &&
  decide (content.Spec.VolumeSnapshotRef.Namespace = snapshot.Namespace) &&
  decide (content.Spec.VolumeSnapshotRef.UID = snapshot.UID)

/-- Modelled from the spec: `utils.IsSnapshotBound` is not among the sources; the
binding is mutually confirmed: the content points back at the request and the
request records a bound content name. -/
def IsSnapshotBound (snapshot : VolumeSnapshot) (content : VolumeSnapshotContent) : Bool :=
  IsVolumeSnapshotRefSet snapshot content && IsBoundVolumeSnapshotContentNameSet snapshot

/-- Modelled from the spec: `utils.NeedToAddSnapshotAsSourceFinalizer` is not
among the sources; the request is not being deleted and does not already have
the as-source finalizer. -/
def NeedToAddSnapshotAsSourceFinalizer (snapshot : VolumeSnapshot) : Bool :=
  decide (snapshot.DeletionTimestamp = none) &&
    !ContainsString snapshot.Finalizers VolumeSnapshotAsSourceFinalizer

/-- Modelled from the spec: `utils.NeedToAddSnapshotBoundFinalizer` is not among
the sources; the bound finalizer is not already present on the request. -/
def NeedToAddSnapshotBoundFinalizer (snapshot : VolumeSnapshot) : Bool :=
  !ContainsString snapshot.Finalizers VolumeSnapshotBoundFinalizer

/-- Go: `clientset.SnapshotV1beta1().VolumeSnapshots(ns).Update(snapshot)`.  The
status is a sub-resource: the stored request takes the finalizers and the spec
of the submitted one and keeps its status. -/
def SnapshotsUpdate (snapshot : VolumeSnapshot) (w : World) :
    Except APIError VolumeSnapshot × World :=
  let w1 := { w with writes := w.writes ++ [Write.SnapshotUpdate snapshot] }
  match w1.nextOutcome with
  | (some err, w2) => (Except.error err, w2)
  | (none, w2) =>
    match findSnapshot snapshot.Namespace snapshot.Name w2.snapshots with
    | none => (Except.error (notFoundError snapshot.Name), w2)
    | some stored =>
      let newSnapshot := { stored with Finalizers := snapshot.Finalizers, Spec := snapshot.Spec }
      (Except.ok newSnapshot, { w2 with snapshots := putSnapshot newSnapshot w2.snapshots })

/-- What a Delete leaves of a content on the API server: with finalizers on it
the content stays and gets a deletion timestamp, without it is removed. -/
def contentsAfterDelete (name : String) (now : Time) :
    List VolumeSnapshotContent → List VolumeSnapshotContent
  | [] => []
  | x :: xs =>
    if x.Name = name then
      if x.Finalizers = [] then xs
      else { x with DeletionTimestamp := some (x.DeletionTimestamp.getD now) } :: xs
    else x :: contentsAfterDelete name now xs

/-- Go: `clientset.SnapshotV1beta1().VolumeSnapshotContents().Delete(name, ...)`. -/
def ContentsDelete (name : String) (w : World) : Option APIError × World :=
  let w1 := { w with writes := w.writes ++ [Write.ContentDelete name] }
  match w1.nextOutcome with
  | (some err, w2) => (some err, w2)
  | (none, w2) =>
    match findContent name w2.contents with
    | none => (some (notFoundError name), w2)
    | some _ => (none, { w2 with contents := contentsAfterDelete name w2.now w2.contents })

/-- Go: `contentExists` (lines 1176-1198). -/
def contentExists (snapshot : VolumeSnapshot) (w : World) : Option VolumeSnapshotContent :=
  let contentName : String :=
    match snapshot.Status.bind (fun st => st.BoundVolumeSnapshotContentName) with
    | some name => name
    | none => GetSnapshotContentNameForSnapshot snapshot
  contentStoreGetByKey contentName w

/-- Go: the loop of `isVolumeBeingCreatedFromSnapshot` (lines 701-711);
`*(pvc.Spec.DataSource.APIGroup)` panics on a nil API group. -/
def isVolumeBeingCreatedFromSnapshotLoop (snapshot : VolumeSnapshot) :
    List PersistentVolumeClaim → Res Bool
  | [] => Res.ok false
  | pvc :: rest =>
    match pvc.DataSource with
    | none => isVolumeBeingCreatedFromSnapshotLoop snapshot rest
    | some dataSource =>
      if dataSource.Name = snapshot.Name then
        if dataSource.Kind = snapshotKind then
          match dataSource.APIGroup with
          | none => Res.panic "invalid memory address or nil pointer dereference"
          | some apiGroup =>
            if apiGroup = snapshotAPIGroup ∧
                pvc.Phase = PersistentVolumeClaimPhase.ClaimPending then Res.ok true
            else isVolumeBeingCreatedFromSnapshotLoop snapshot rest
        else isVolumeBeingCreatedFromSnapshotLoop snapshot rest
      else isVolumeBeingCreatedFromSnapshotLoop snapshot rest

/-- Go: `ctrl.pvcLister.PersistentVolumeClaims(ns).List(labels.Everything())`. -/
def pvcListerList (ns : String) (w : World) : List PersistentVolumeClaim :=
  w.pvcLister.filter (fun pvc => decide (pvc.Namespace = ns))

/-- Go: `isVolumeBeingCreatedFromSnapshot` (lines 695-714). -/
def isVolumeBeingCreatedFromSnapshot (snapshot : VolumeSnapshot) (w : World) : Res Bool :=
  isVolumeBeingCreatedFromSnapshotLoop snapshot (pvcListerList snapshot.Namespace w)

/-- Go: `isVolumeBeingCreatedFromSnapshot` (lines 695-714) on what the lister
returned: a listing that failed gives false (lines 697-700), a listing that
succeeded is scanned. -/
def isVolumeBeingCreatedFromSnapshotOn (snapshot : VolumeSnapshot)
    (listing : Except String (List PersistentVolumeClaim)) : Res Bool :=
  match listing with
  | Except.error _ => Res.ok false
  | Except.ok pvcList => isVolumeBeingCreatedFromSnapshotLoop snapshot pvcList

/-- Go: the finalizer list `removeSnapshotFinalizer` submits (lines 1155-1161). -/
def finalizersAfterRemoval (finalizers : List String)
    (removeSourceFinalizer removeBoundFinalizer : Bool) : List String :=
  let finalizers :=
    if removeSourceFinalizer then RemoveString finalizers VolumeSnapshotAsSourceFinalizer
    else finalizers
  if removeBoundFinalizer then RemoveString finalizers VolumeSnapshotBoundFinalizer
  else finalizers

/-- Go: `removeSnapshotFinalizer` (lines 1150-1174). -/
def removeSnapshotFinalizer (snapshot : VolumeSnapshot)
    (removeSourceFinalizer removeBoundFinalizer : Bool) (w : World) : Res Unit × World :=
  if removeSourceFinalizer = false ∧ removeBoundFinalizer = false then (Res.ok (), w)
  else
    let snapshotClone :=
      { snapshot with
        Finalizers := finalizersAfterRemoval snapshot.Finalizers removeSourceFinalizer
          removeBoundFinalizer }
    match SnapshotsUpdate snapshotClone w with
    | (Except.error err, w1) =>
      (Res.error (newControllerUpdateError snapshot.Name err.message), w1)
    | (Except.ok _, w1) =>
      let (_, w2) := storeSnapshotUpdate snapshotClone w1
      (Res.ok (), w2)

/-- Go: the finalizer list `addSnapshotFinalizer` submits (lines 1129-1134). -/
def finalizersAfterAddition (finalizers : List String)
    (addSourceFinalizer addBoundFinalizer : Bool) : List String :=
  let finalizers :=
    if addSourceFinalizer then finalizers ++ [VolumeSnapshotAsSourceFinalizer] else finalizers
  if addBoundFinalizer then finalizers ++ [VolumeSnapshotBoundFinalizer] else finalizers

/-- Go: `addSnapshotFinalizer` (lines 1127-1147). -/
def addSnapshotFinalizer (snapshot : VolumeSnapshot)
    (addSourceFinalizer addBoundFinalizer : Bool) (w : World) : Res Unit × World :=
  let snapshotClone :=
    { snapshot with
      Finalizers := finalizersAfterAddition snapshot.Finalizers addSourceFinalizer
        addBoundFinalizer }
  match SnapshotsUpdate snapshotClone w with
  | (Except.error err, w1) =>
    (Res.error (newControllerUpdateError snapshot.Name err.message), w1)
  | (Except.ok _, w1) =>
    let (_, w2) := storeSnapshotUpdate snapshotClone w1
    (Res.ok (), w2)

/-- Go: `checkandAddSnapshotFinalizers` (lines 269-284); the function returns
nothing, the error of `addSnapshotFinalizer` is dropped. -/
def checkandAddSnapshotFinalizers (snapshot : VolumeSnapshot)
    (snapshotBound deleteContent : Bool) (w : World) : World :=
  let addSourceFinalizer := NeedToAddSnapshotAsSourceFinalizer snapshot
  let addBoundFinalizer :=
    NeedToAddSnapshotBoundFinalizer snapshot && snapshotBound && deleteContent
  if addSourceFinalizer = true ∨ addBoundFinalizer = true then
    (addSnapshotFinalizer snapshot addSourceFinalizer addBoundFinalizer w).2
  else w

/-- Go: `checkandRemoveSnapshotFinalizersAndCheckandDeleteContent` (lines 233-266).
The outer `err` is never assigned (the `err :=` of line 248 shadows it), so the
test of line 256 is `!inUse || content == nil`. -/
def checkandRemoveSnapshotFinalizersAndCheckandDeleteContent (snapshot : VolumeSnapshot)
    (content : Option VolumeSnapshotContent) (deleteContent : Bool) (w : World) :
    Res Unit × World :=
  if IsSnapshotDeletionCandidate snapshot then
    match isVolumeBeingCreatedFromSnapshot snapshot w with
    | Res.panic p => (Res.panic p, w)
    | Res.error e => (Res.error e, w)
    | Res.ok inUse =>
      let removal (w0 : World) : Res Unit × World :=
        if inUse = false ∨ content = none then
          removeSnapshotFinalizer snapshot (!inUse) content.isNone w0
        else (Res.ok (), w0)
      match content with
      | some c =>
        if deleteContent = true ∧ inUse = false then
          match ContentsDelete c.Name w with
          | (some err, w1) =>
            let w2 := recordEvent snapshot EventTypeWarning "SnapshotContentObjectDeleteError"
              "Failed to delete snapshot content API object" w1
            (Res.error ("failed to delete VolumeSnapshotContent " ++ c.Name ++
              " from API server: " ++ quoted err.message), w2)
          | (none, w1) => removal w1
        else removal w
      | none => removal w
  else (Res.ok (), w)

/-- Go: `ctrl.snapshotLister.VolumeSnapshots(ns).List(labels.Everything())`. -/
def snapshotListerList (ns : String) (w : World) : List VolumeSnapshot :=
  w.snapshotLister.filter (fun s => decide (s.Namespace = ns))

/-- Go: `isPVCBeingUsed` (lines 770-794). -/
def isPVCBeingUsed (pvc : PersistentVolumeClaim) (snapshot : VolumeSnapshot) (w : World) : Bool :=
  (snapshotListerList snapshot.Namespace w).any (fun snap =>
    if snap.Spec.Source.PersistentVolumeClaimName = none ∧
        snap.Spec.Source.VolumeSnapshotContentName ≠ none then false
    else
      decide (snap.Spec.Source.PersistentVolumeClaimName = some pvc.Name) &&
        !IsSnapshotReady snap)

/-- Go: `removePVCFinalizer` (lines 753-767). -/
def removePVCFinalizer (pvc : PersistentVolumeClaim) (w : World) : Option String × World :=
  let pvcClone := { pvc with Finalizers := RemoveString pvc.Finalizers PVCFinalizer }
  match PVCsUpdate pvcClone w with
  | (Except.error err, w1) => (some (newControllerUpdateError pvcClone.Name err.message), w1)
  | (Except.ok _, w1) => (none, w1)

/-- Go: `checkandRemovePVCFinalizer` (lines 798-829). -/
def checkandRemovePVCFinalizer (snapshot : VolumeSnapshot) (w : World) :
    Option String × World :=
  if snapshot.Spec.Source.PersistentVolumeClaimName = none then (none, w)
  else
    match getClaimFromVolumeSnapshot snapshot w with
    | Except.error _ => (none, w)
    | Except.ok pvc =>
      if ContainsString pvc.Finalizers PVCFinalizer = true ∧
          isPVCBeingUsed pvc snapshot w = false then
        removePVCFinalizer pvc w
      else (none, w)

/-- Go: `processFinalizersAndCheckandDeleteContent` (lines 189-230), the
pre-deletion housekeeping of `syncSnapshot`. -/
def processFinalizersAndCheckandDeleteContent (snapshot : VolumeSnapshot) (w : World) :
    Res Unit × World :=
  let content := contentExists snapshot w
  let deleteContent : Bool :=
    match content with
    | some c => decide (c.Spec.DeletionPolicy = DeletionPolicy.Delete)
    | none => false
  let snapshotBound : Bool :=
    match content with
    | some c => IsSnapshotBound snapshot c
    | none => false
  match checkandRemoveSnapshotFinalizersAndCheckandDeleteContent snapshot content
      deleteContent w with
  | (Res.panic p, w1) => (Res.panic p, w1)
  | (Res.error err, w1) => (Res.error err, w1)
  | (Res.ok _, w1) =>
    let w2 := checkandAddSnapshotFinalizers snapshot snapshotBound deleteContent w1
    match checkandRemovePVCFinalizer snapshot w2 with
    | (some _, w3) =>
      (Res.ok (), recordEvent snapshot EventTypeWarning "ErrorPVCFinalizer"
        "Error check and remove PVC Finalizer for VolumeSnapshot" w3)
    | (none, w3) => (Res.ok (), w3)

/-- Go: `syncReadySnapshot` (lines 288-318). -/
def syncReadySnapshot (snapshot : VolumeSnapshot) (w : World) : Res Unit × World :=
  if IsBoundVolumeSnapshotContentNameSet snapshot = false then (Res.ok (), w)
  else
    match snapshot.Status.bind (fun st => st.BoundVolumeSnapshotContentName) with
    | none => (Res.panic "invalid memory address or nil pointer dereference", w)
    | some boundName =>
      match contentStoreGetByKey boundName w with
      | none =>
        updateSnapshotErrorStatusWithEvent snapshot EventTypeWarning "SnapshotContentMissing"
          "VolumeSnapshotContent is missing" w
      | some content =>
        if IsVolumeSnapshotRefSet snapshot content = false then
          updateSnapshotErrorStatusWithEvent snapshot EventTypeWarning "SnapshotMisbound"
            "VolumeSnapshotContent is not bound to the VolumeSnapshot correctly" w
        else (Res.ok (), w)

/-- Go: `syncSnapshot` (lines 171-183). -/
def syncSnapshot (ctrl : csiSnapshotCommonController) (snapshot : VolumeSnapshot) (w : World) :
    Res Unit × World :=
  match processFinalizersAndCheckandDeleteContent snapshot w with
  | (Res.panic p, w1) => (Res.panic p, w1)
  | (Res.error err, w1) => (Res.error err, w1)
  | (Res.ok _, w1) =>
    if IsSnapshotReady snapshot = false then syncUnreadySnapshot ctrl snapshot w1
    else syncReadySnapshot snapshot w1

/-! ## The test helper `fake.Slice` -/

namespace fake

/-- Go: `type Slice []int` of `gomonkey-wjt/test/fake/fake.go`. -/
abbrev Slice : Type := List Int

/-- Go: `ERR_ELEM_EXIST`. -/
def ERR_ELEM_EXIST : String := "elem already exist"

/-- Go: `ERR_ELEM_NT_EXIST`. -/
def ERR_ELEM_NT_EXIST : String := "elem not exist"

/-- Go: `NewSlice`. -/
def NewSlice : Slice := []

/-- Go: `(*Slice).Add` (lines 57-67); returns the error (nil is `none`) and the
slice the receiver points to afterwards. -/
def Slice.Add (this : Slice) (elem : Int) : Option String × Slice :=
  if this.any (fun v => decide (v = elem)) then (some ERR_ELEM_EXIST, this)
  else (none, this ++ [elem])

/-- Go: the scan `for i, v := range *this` of `Remove` up to its `break`: the
index of the first element equal to `elem`. -/
def Slice.firstIndex (elem : Int) : Slice → Option Nat
  | [] => none
  | v :: rest => if v = elem then some 0 else (Slice.firstIndex elem rest).map (· + 1)

/-- Go: `(*Slice).Remove` (lines 69-89). -/
def Slice.Remove (this : Slice) (elem : Int) : Option String × Slice :=
  match Slice.firstIndex elem this with
  | none => (some ERR_ELEM_NT_EXIST, this)
  | some i =>
    if i = this.length - 1 then (none, this.take i)
    else (none, this.take i ++ this.drop (i + 1))

end fake

/-! ## The realization agent -/

/-- The environment of the controller: the realization agent (the sidecar) sets
the status of the content `name` on the API server, and the informer brings
the change to the content cache. -/
def setContentStatus (name : String) (status : VolumeSnapshotContentStatus) (w : World) :
    World :=
  let set := fun (c : VolumeSnapshotContent) =>
    if c.Name = name then { c with Status := some status } else c
  { w with contents := w.contents.map set, contentStore := w.contentStore.map set }

/-! ## Example objects -/

/-- A controller with the retry settings of the upstream default. -/
def exCtrl : csiSnapshotCommonController :=
  { createSnapshotContentRetryCount := 5, createSnapshotContentInterval := 10000000000 }

/-- A pre-provisioned request `ns1/snap` that names the content `X`. -/
def exRequest : VolumeSnapshot :=
  { Name := "snap", Namespace := "ns1", UID := "uid-1",
    Spec := { Source := { VolumeSnapshotContentName := some "X" } } }

/-- A pre-provisioned content `X` reserved for `ns1/snap`, not bound yet. -/
def exContentX : VolumeSnapshotContent :=
  { Name := "X",
    Finalizers := [VolumeSnapshotContentFinalizer],
    Spec := { VolumeSnapshotRef := { Namespace := "ns1", Name := "snap", UID := "" },
              Source := { SnapshotHandle := some "handle-1" } },
    Status := some { ReadyToUse := some true, RestoreSize := some 1024 } }

/-- The API server and the caches hold `exRequest` and `exContentX`. -/
def exWorld : World :=
  { snapshots := [exRequest], contents := [exContentX],
    contentStore := [exContentX], snapshotStore := [exRequest] }

/-- The request `exRequest` with a status that already records the content `Z`. -/
def exRequestBoundToZ : VolumeSnapshot :=
  { exRequest with Status := some { BoundVolumeSnapshotContentName := some "Z" } }

/-- The API server and the caches hold `exRequestBoundToZ` and `exContentX`. -/
def exWorldBoundToZ : World :=
  { snapshots := [exRequestBoundToZ], contents := [exContentX],
    contentStore := [exContentX], snapshotStore := [exRequestBoundToZ] }

/-- A request `ns1/snap` that names the content `Y`. -/
def exRequestY : VolumeSnapshot :=
  { Name := "snap", Namespace := "ns1", UID := "uid-1",
    Spec := { Source := { VolumeSnapshotContentName := some "Y" } } }

/-- A content `Y` bound to an earlier request of the same name, UID `uid-0`. -/
def exContentY : VolumeSnapshotContent :=
  { Name := "Y",
    Finalizers := [VolumeSnapshotContentFinalizer],
    Spec := { VolumeSnapshotRef := { Namespace := "ns1", Name := "snap", UID := "uid-0" },
              Source := { SnapshotHandle := some "handle-2" } } }

/-- The API server and the caches hold `exRequestY` and `exContentY`. -/
def exWorldY : World :=
  { snapshots := [exRequestY], contents := [exContentY],
    contentStore := [exContentY], snapshotStore := [exRequestY] }

/-- The request `exRequestY` as a first failed reconcile leaves it: the bind
failure is recorded in its status. -/
def exRequestYFailed : VolumeSnapshot :=
  { exRequestY with
    Status := some
      { ReadyToUse := some false,
        Error := some
          { Time := some 0,
            Message := some
              ("Snapshot failed to bind VolumeSnapshotContent, Could not bind snapshot snap " ++
                "and content Y, the VolumeSnapshotRef does not match") } } }

/-- The API server and the caches hold `exRequestYFailed` and `exContentY`. -/
def exWorldYFailed : World :=
  { snapshots := [exRequestYFailed], contents := [exContentY],
    contentStore := [exContentY], snapshotStore := [exRequestYFailed] }

/-- The request `exRequestY` with a recorded error that has no message. -/
def exRequestYNoMessage : VolumeSnapshot :=
  { exRequestY with
    Status := some { ReadyToUse := some false,
                     Error := some { Time := some 0, Message := none } } }

/-- The API server and the caches hold `exRequestYNoMessage` and `exContentY`. -/
def exWorldYNoMessage : World :=
  { snapshots := [exRequestYNoMessage], contents := [exContentY],
    contentStore := [exContentY], snapshotStore := [exRequestYNoMessage] }

/-- A content `X` whose back-reference names a request `snap` of the namespace
`ns2`. -/
def exContentOtherNamespace : VolumeSnapshotContent :=
  { Name := "X",
    Finalizers := [VolumeSnapshotContentFinalizer],
    Spec := { VolumeSnapshotRef := { Namespace := "ns2", Name := "snap", UID := "" },
              Source := { SnapshotHandle := some "handle-1" } } }

/-- The API server and the caches hold `exRequest` and `exContentOtherNamespace`. -/
def exWorldOtherNamespace : World :=
  { snapshots := [exRequest], contents := [exContentOtherNamespace],
    contentStore := [exContentOtherNamespace], snapshotStore := [exRequest] }

/-- The request `exRequest` with a snapshot-class name. -/
def exRequestGold : VolumeSnapshot :=
  { exRequest with
    Spec := { Source := { VolumeSnapshotContentName := some "X" },
              VolumeSnapshotClassName := some "gold" } }

/-- The API server and the caches hold `exRequestGold` and `exContentX`. -/
def exWorldGold : World :=
  { snapshots := [exRequestGold], contents := [exContentX],
    contentStore := [exContentX], snapshotStore := [exRequestGold] }

/-- The content `X` before the controller has put its finalizer on it. -/
def exContentNoFinalizer : VolumeSnapshotContent :=
  { exContentX with Finalizers := [] }

/-- The API server and the caches hold `exRequest` and `exContentNoFinalizer`. -/
def exWorldNoFinalizer : World :=
  { snapshots := [exRequest], contents := [exContentNoFinalizer],
    contentStore := [exContentNoFinalizer], snapshotStore := [exRequest] }

/-- A content with the deletion policy Retain, bound to a request `ns1/gone` with
UID `uid-9`. -/
def exContentRetain : VolumeSnapshotContent :=
  { Name := "R",
    Finalizers := [VolumeSnapshotContentFinalizer],
    Spec := { VolumeSnapshotRef := { Namespace := "ns1", Name := "gone", UID := "uid-9" },
              Source := { SnapshotHandle := some "handle-9" },
              DeletionPolicy := DeletionPolicy.Retain } }

/-- The API server and the caches hold `exContentRetain`; its request is gone. -/
def exWorldRetain : World :=
  { contents := [exContentRetain], contentStore := [exContentRetain] }

/-- A content that carries the deletion-in-progress annotation and no finalizer. -/
def exContentAnnotated : VolumeSnapshotContent :=
  { exContentRetain with
    Finalizers := [],
    Annotations := [(AnnVolumeSnapshotBeingDeleted, "yes")] }

/-- The API server and the caches hold `exContentAnnotated`. -/
def exWorldAnnotated : World :=
  { contents := [exContentAnnotated], contentStore := [exContentAnnotated] }

/-- A request `ns1/snap` marked for deletion that holds both finalizers and
records the content `X`. -/
def exRequestDeleting : VolumeSnapshot :=
  { Name := "snap", Namespace := "ns1", UID := "uid-1",
    DeletionTimestamp := some 7,
    Finalizers := [VolumeSnapshotAsSourceFinalizer, VolumeSnapshotBoundFinalizer],
    Spec := { Source := { VolumeSnapshotContentName := some "X" } },
    Status := some { BoundVolumeSnapshotContentName := some "X", ReadyToUse := some true } }

/-- The content `X` bound to `ns1/snap`, with the deletion policy Delete. -/
def exContentBound : VolumeSnapshotContent :=
  { Name := "X",
    Finalizers := [VolumeSnapshotContentFinalizer],
    Spec := { VolumeSnapshotRef := { Namespace := "ns1", Name := "snap", UID := "uid-1" },
              Source := { SnapshotHandle := some "handle-1" },
              DeletionPolicy := DeletionPolicy.Delete },
    Status := some { ReadyToUse := some true, RestoreSize := some 1024 } }

/-- The API server and the caches hold `exRequestDeleting` and `exContentBound`;
there is no volume claim. -/
def exWorldDeleting : World :=
  { snapshots := [exRequestDeleting], contents := [exContentBound],
    contentStore := [exContentBound], snapshotStore := [exRequestDeleting] }

/-- A volume claim of `ns1`, in Pending phase, that is being restored from the
request `snap`. -/
def exClaimRestoring : PersistentVolumeClaim :=
  { Name := "restored", Namespace := "ns1",
    DataSource := some { APIGroup := some snapshotAPIGroup, Kind := snapshotKind,
                         Name := "snap" },
    Phase := PersistentVolumeClaimPhase.ClaimPending }

/-- The world `exWorldDeleting` with the claim `exClaimRestoring`. -/
def exWorldRestoring : World :=
  { exWorldDeleting with pvcs := [exClaimRestoring], pvcLister := [exClaimRestoring] }

/-- The pre-provisioned request `exRequestDeleting` before any status was
written: it names the content `X` and records no bound content name. -/
def exRequestDeletingUnbound : VolumeSnapshot :=
  { exRequestDeleting with Status := none }

/-- The API server and the caches hold `exRequestDeletingUnbound` and
`exContentBound`; there is no volume claim. -/
def exWorldDeletingUnbound : World :=
  { snapshots := [exRequestDeletingUnbound], contents := [exContentBound],
    contentStore := [exContentBound], snapshotStore := [exRequestDeletingUnbound] }

/-- The world `exWorldDeletingUnbound` with the claim `exClaimRestoring`. -/
def exWorldRestoringUnbound : World :=
  { exWorldDeletingUnbound with pvcs := [exClaimRestoring], pvcLister := [exClaimRestoring] }

/-- A dynamic request `ns1/snap` of the class `gold` for the volume claim `data`. -/
def exRequestDynamic : VolumeSnapshot :=
  { Name := "snap", Namespace := "ns1", UID := "uid-1",
    Spec := { Source := { PersistentVolumeClaimName := some "data" },
              VolumeSnapshotClassName := some "gold" } }

/-- The volume claim `ns1/data`, bound to the volume `pv-1`. -/
def exClaim : PersistentVolumeClaim :=
  { Name := "data", Namespace := "ns1", VolumeName := "pv-1",
    Phase := PersistentVolumeClaimPhase.ClaimBound }

/-- The CSI volume `pv-1` with the handle `vol-1`. -/
def exVolume : PersistentVolume :=
  { Name := "pv-1", CSI := some "vol-1" }

/-- The snapshot class `gold`. -/
def exClass : VolumeSnapshotClass :=
  { Name := "gold", Driver := "csi.example.com", DeletionPolicy := DeletionPolicy.Delete }

/-- The API server and the caches hold `exRequestDynamic`, its claim, volume and
class; there is no content. -/
def exWorldDynamic : World :=
  { snapshots := [exRequestDynamic], snapshotStore := [exRequestDynamic],
    snapshotLister := [exRequestDynamic],
    pvcs := [exClaim], pvcLister := [exClaim], pvs := [exVolume], classLister := [exClass] }

/-- The content the controller creates for `exRequestDynamic`. -/
def exContentCreated : VolumeSnapshotContent :=
  { Name := "snapcontent-uid-1",
    Spec := { VolumeSnapshotRef := { Namespace := "ns1", Name := "snap", UID := "uid-1" },
              Source := { VolumeHandle := some "vol-1" },
              VolumeSnapshotClassName := some "gold",
              DeletionPolicy := DeletionPolicy.Delete,
              Driver := "csi.example.com" } }

/-- The request `exRequestDynamic` as a failed creation left it (its claim was
not bound then): the failure is recorded in its status. -/
def exRequestDynamicFailed : VolumeSnapshot :=
  { exRequestDynamic with
    Status := some
      { ReadyToUse := some false,
        Error := some
          { Time := some 0,
            Message := some "Failed to create snapshot content with error claim not bound" } } }

/-- The world `exWorldDynamic` with the request `exRequestDynamicFailed`. -/
def exWorldDynamicFailed : World :=
  { exWorldDynamic with
    snapshots := [exRequestDynamicFailed], snapshotStore := [exRequestDynamicFailed],
    snapshotLister := [exRequestDynamicFailed] }

/-- A volume claim of `ns1`, in Pending phase, whose data source names the request
`snap` by kind and name and carries no API group. -/
def exClaimNoGroup : PersistentVolumeClaim :=
  { Name := "cloned", Namespace := "ns1",
    DataSource := some { APIGroup := none, Kind := snapshotKind, Name := "snap" },
    Phase := PersistentVolumeClaimPhase.ClaimPending }

/-- The API server and the caches hold `exRequestDeleting` and the claim
`exClaimNoGroup`; there is no content. -/
def exWorldNoGroup : World :=
  { snapshots := [exRequestDeleting], snapshotStore := [exRequestDeleting],
    pvcs := [exClaimNoGroup], pvcLister := [exClaimNoGroup] }

/-- The request `exRequestDynamic` with a recorded error that has no message. -/
def exRequestNoMessage : VolumeSnapshot :=
  { exRequestDynamic with
    Status := some { Error := some { Time := some 0, Message := none } } }

/-- The world `exWorldDynamic` with the request `exRequestNoMessage`. -/
def exWorldNoMessage : World :=
  { exWorldDynamic with
    snapshots := [exRequestNoMessage], snapshotStore := [exRequestNoMessage],
    snapshotLister := [exRequestNoMessage] }

/-- The request `exRequestDynamic` with a recorded bound content name, not ready;
the content is not in the cache. -/
def exRequestBoundUnready : VolumeSnapshot :=
  { exRequestDynamic with
    Status := some { BoundVolumeSnapshotContentName := some "snapcontent-uid-1",
                     ReadyToUse := some false } }

/-- The world `exWorldDynamic` with the request `exRequestBoundUnready`. -/
def exWorldBoundUnready : World :=
  { exWorldDynamic with
    snapshots := [exRequestBoundUnready], snapshotStore := [exRequestBoundUnready],
    snapshotLister := [exRequestBoundUnready] }

/-- The request `exRequestDynamic` with a recorded bound content name, ready; the
content is not in the cache. -/
def exRequestBoundReady : VolumeSnapshot :=
  { exRequestDynamic with
    Finalizers := [VolumeSnapshotAsSourceFinalizer],
    Status := some { BoundVolumeSnapshotContentName := some "snapcontent-uid-1",
                     ReadyToUse := some true } }

/-- The world `exWorldDynamic` with the request `exRequestBoundReady`. -/
def exWorldBoundReady : World :=
  { exWorldDynamic with
    snapshots := [exRequestBoundReady], snapshotStore := [exRequestBoundReady],
    snapshotLister := [exRequestBoundReady] }

/-- An error of the API server that is not "already exists". -/
def exServerError : APIError :=
  { reason := StatusReason.Unknown, message := "etcdserver: request timed out" }

/-- The world `exWorldDynamic` in which the first three calls succeed and the five
calls after them, the Creates of the content, fail. -/
def exWorldCreateFails : World :=
  { exWorldDynamic with
    apiOutcomes := [none, none, none, some exServerError, some exServerError,
                    some exServerError, some exServerError, some exServerError] }

/-- A request `ns1/snap` created after `exRequest` was deleted: another UID. -/
def exRequestReplaced : VolumeSnapshot :=
  { Name := "snap", Namespace := "ns1", UID := "uid-2" }

/-- The request `exRequestDynamic` as the API server holds it after the reconcile
in `exWorldCreateFails`: the failure of the creation is recorded. -/
def exRequestCreateFailed : VolumeSnapshot :=
  { exRequestDynamic with
    Finalizers := [VolumeSnapshotAsSourceFinalizer],
    Status := some
      { ReadyToUse := some false,
        Error := some
          { Time := some 50000000000,
            Message := some
              ("Failed to create snapshot content with error snapshot controller failed to " ++
                "update ns1/snap on API server: etcdserver: request timed out") } } }

/-- What `getCreateSnapshotInput` returns for `exRequestDynamic` in
`exWorldDynamic`: the class `gold`, the volume `pv-1`, the content name, no
secret. -/
def exInput : CreateSnapshotInput :=
  { class_ := exClass, volume := exVolume, contentName := "snapcontent-uid-1",
    snapshotterSecretRef := none }

/-- The world `exWorldDynamic` in which the first two calls succeed, the two
calls after them, Creates of the content, fail, and all later calls succeed. -/
def exWorldCreateRetry : World :=
  { exWorldDynamic with
    apiOutcomes := [none, none, some exServerError, some exServerError] }

/-- The world `exWorldDynamic` in which the first two calls succeed and the five
calls after them, the Creates of the content, fail. -/
def exWorldCreateExhausts : World :=
  { exWorldDynamic with
    apiOutcomes := [none, none, some exServerError, some exServerError,
                    some exServerError, some exServerError, some exServerError] }

/-- The world `exWorldDynamic` with the request `exRequestCreateFailed`. -/
def exWorldRetry : World :=
  { exWorldDynamic with
    snapshots := [exRequestCreateFailed], snapshotStore := [exRequestCreateFailed],
    snapshotLister := [exRequestCreateFailed] }

/-- The request `exRequestDynamic` with a status that says ready and records no
bound content name. -/
def exRequestDynamicReady : VolumeSnapshot :=
  { exRequestDynamic with Status := some { ReadyToUse := some true } }

/-- The world `exWorldDynamic` with the request `exRequestDynamicReady`. -/
def exWorldDynamicReady : World :=
  { exWorldDynamic with
    snapshots := [exRequestDynamicReady], snapshotStore := [exRequestDynamicReady],
    snapshotLister := [exRequestDynamicReady] }

/-- The request `exRequestDynamic` with a status that records a restore size of
5 bytes and nothing else. -/
def exRequestDynamicSized : VolumeSnapshot :=
  { exRequestDynamic with Status := some { RestoreSize := some (NewQuantity 5) } }

/-- The world `exWorldDynamic` with the request `exRequestDynamicSized`. -/
def exWorldDynamicSized : World :=
  { exWorldDynamic with
    snapshots := [exRequestDynamicSized], snapshotStore := [exRequestDynamicSized],
    snapshotLister := [exRequestDynamicSized] }

/-- The request `exRequestDynamicSized` as the API server holds it after its
first reconcile: the as-source finalizer and the bound content name are set. -/
def exRequestDynamicSizedBound : VolumeSnapshot :=
  { exRequestDynamic with
    Finalizers := [VolumeSnapshotAsSourceFinalizer],
    Status := some { BoundVolumeSnapshotContentName := some "snapcontent-uid-1",
                     ReadyToUse := some false,
                     RestoreSize := some (NewQuantity 5) } }

/-- The request `exRequestDynamic` marked for deletion, with the as-source
finalizer on it. -/
def exRequestDynamicDeleting : VolumeSnapshot :=
  { exRequestDynamic with
    DeletionTimestamp := some 7, Finalizers := [VolumeSnapshotAsSourceFinalizer] }

/-- The world `exWorldDynamic` with the request `exRequestDynamicDeleting` and,
beside the claim `data`, the claim `exClaimNoGroup`. -/
def exWorldDynamicDeleting : World :=
  { exWorldDynamic with
    snapshots := [exRequestDynamicDeleting], snapshotStore := [exRequestDynamicDeleting],
    snapshotLister := [exRequestDynamicDeleting],
    pvcs := [exClaim, exClaimNoGroup], pvcLister := [exClaim, exClaimNoGroup] }

/-! ## Predicates used in the properties -/

/-- The four agreements of the matching rule: the back-reference of the content
names the namespace, the name and the UID of the request, and both carry the
same snapshot-class name. -/
def Agrees (snapshot : VolumeSnapshot) (content : VolumeSnapshotContent) : Prop :=
  content.Spec.VolumeSnapshotRef.Namespace = snapshot.Namespace ∧
  content.Spec.VolumeSnapshotRef.Name = snapshot.Name ∧
  content.Spec.VolumeSnapshotRef.UID = snapshot.UID ∧
  ∃ className, content.Spec.VolumeSnapshotClassName = some className ∧
    snapshot.Spec.VolumeSnapshotClassName = some className

/-- The invariant "ready implies no error" on a request status. -/
def ReadyImpliesNoError (status : Option VolumeSnapshotStatus) : Prop :=
  ∀ st, status = some st → st.ReadyToUse = some true → st.Error = none

/-- The message `syncUnreadySnapshot` records when binding fails. -/
def bindFailedMessage (snapshot : VolumeSnapshot) (content : VolumeSnapshotContent) : String :=
  "Snapshot failed to bind VolumeSnapshotContent, " ++ bindMismatchError snapshot content

/-- The counterpart request of a content is missing (not in the request cache
under the key of the back-reference, or there with another UID) or is a
deletion candidate. -/
def CounterpartGone (content : VolumeSnapshotContent) (w : World) : Prop :=
  match snapshotStoreGetByKey (SnapshotRefKey content.Spec.VolumeSnapshotRef) w with
  | none => True
  | some snapshot =>
    snapshot.UID ≠ content.Spec.VolumeSnapshotRef.UID ∨ IsSnapshotDeletionCandidate snapshot = true

/-- The copy of a content that carries the deletion-in-progress annotation. -/
def annotated (content : VolumeSnapshotContent) : VolumeSnapshotContent :=
  { content with
    Annotations := SetMetaDataAnnotationKey AnnVolumeSnapshotBeingDeleted "yes"
      content.Annotations }

/-- The world `w2` has the writes of `w1` followed by writes that all satisfy
`P`. -/
def WritesOnly (P : Write → Prop) (w1 w2 : World) : Prop :=
  ∃ added, w2.writes = w1.writes ++ added ∧ ∀ x ∈ added, P x

/-- The volume claim is in Pending phase and its data source names the request
(name, kind and API group of the snapshot records). -/
def RestoresFrom (pvc : PersistentVolumeClaim) (snapshot : VolumeSnapshot) : Prop :=
  pvc.Phase = PersistentVolumeClaimPhase.ClaimPending ∧
  ∃ dataSource, pvc.DataSource = some dataSource ∧ dataSource.Name = snapshot.Name ∧
    dataSource.Kind = snapshotKind ∧ dataSource.APIGroup = some snapshotAPIGroup

/-- No volume claim of the listing is being restored from the request, and every
data source that names the request by name and kind has an API group. -/
def NoRestoreInProgress (snapshot : VolumeSnapshot) (l : List PersistentVolumeClaim) : Prop :=
  ∀ pvc ∈ l, ∀ dataSource, pvc.DataSource = some dataSource →
    dataSource.Name = snapshot.Name → dataSource.Kind = snapshotKind →
    ∃ apiGroup, dataSource.APIGroup = some apiGroup ∧
      ¬ (apiGroup = snapshotAPIGroup ∧ pvc.Phase = PersistentVolumeClaimPhase.ClaimPending)

/-- A write that is no Delete of a content and, when it is an Update of a request,
keeps every finalizer of `snapshot`. -/
def KeepsFinalizers (snapshot : VolumeSnapshot) (x : Write) : Prop :=
  (∀ name, x ≠ Write.ContentDelete name) ∧
  ∀ s, x = Write.SnapshotUpdate s → ∀ f ∈ snapshot.Finalizers, f ∈ s.Finalizers

/-- A write that is not the Create of a content. -/
def NotCreate (x : Write) : Prop := ∀ c, x ≠ Write.ContentCreate c

/-- What every call of the controller other than the Create of a content and its
cache update leaves as it is, from the world `w` to the world `w2`: the writes
of `w` are kept and followed by writes that satisfy `P`, the content cache and
the listers are unchanged, the API server keeps the volumes and every volume
claim it has, and a script of outcomes without failure stays without
failure. -/
structure Step (P : Write → Prop) (w w2 : World) : Prop where
  writes : WritesOnly P w w2
  contentStore : w2.contentStore = w.contentStore
  pvcLister : w2.pvcLister = w.pvcLister
  classLister : w2.classLister = w.classLister
  pvs : w2.pvs = w.pvs
  pvcs : ∀ ns name, findPVC ns name w.pvcs ≠ none → findPVC ns name w2.pvcs ≠ none
  apiOutcomes : (∀ o ∈ w.apiOutcomes, o = none) → ∀ o ∈ w2.apiOutcomes, o = none
  storeOutcomes : (∀ o ∈ w.storeOutcomes, o = none) → ∀ o ∈ w2.storeOutcomes, o = none

/-- The status of the request carries an error with the message `message`. -/
def CarriesError (snapshot : VolumeSnapshot) (message : String) : Prop :=
  ∃ st e, snapshot.Status = some st ∧ st.Error = some e ∧ e.Message = some message

/-- The status of the request carries an error that has no message. -/
def CarriesErrorWithoutMessage (snapshot : VolumeSnapshot) : Prop :=
  ∃ st e, snapshot.Status = some st ∧ st.Error = some e ∧ e.Message = none

/-- Every data source of the listing that names the request by name and kind
carries an API group. -/
def HasAPIGroups (snapshot : VolumeSnapshot) (l : List PersistentVolumeClaim) : Prop :=
  ∀ pvc ∈ l, ∀ dataSource, pvc.DataSource = some dataSource →
    dataSource.Name = snapshot.Name → dataSource.Kind = snapshotKind →
    dataSource.APIGroup ≠ none

/-- The status of the request carries an error whose message does not contain
"snapshot controller failed to update". -/
def CarriesOtherError (snapshot : VolumeSnapshot) : Prop :=
  ∃ st e m, snapshot.Status = some st ∧ st.Error = some e ∧ e.Message = some m ∧
    stringsContains m controllerUpdateFailMsg = false

/-- The status of the request carries no error, or an error whose message
contains "snapshot controller failed to update". -/
def MayRetryCreation (snapshot : VolumeSnapshot) : Prop :=
  snapshot.Status.bind (fun st => st.Error) = none ∨
  ∃ st e m, snapshot.Status = some st ∧ st.Error = some e ∧ e.Message = some m ∧
    stringsContains m controllerUpdateFailMsg = true

/-- The answer to a Create ends the loop of `createSnapshotContent`: the call
succeeded or reported "already exists" (line 509). -/
def EndsCreateLoop (r : Except APIError VolumeSnapshotContent × World) : Bool :=
  match r.1 with
  | Except.ok _ => true
  | Except.error err => IsAlreadyExists err

/-- The answers to `n` consecutive Creates of `snapshotContent`, each followed by
the sleep of the loop (lines 507-523), with the world each one leaves: what
the rounds of the loop meet if none of them ends it. -/
def createAttempts (interval : Int) (snapshotContent : VolumeSnapshotContent) :
    Nat → World → List (Except APIError VolumeSnapshotContent × World)
  | 0, _ => []
  | n + 1, w =>
    ContentsCreate snapshotContent w ::
      createAttempts interval snapshotContent n
        (sleep interval (ContentsCreate snapshotContent w).2)

/-- The number of Creates the loop sends when `attempts` are the answers of its
`n` rounds: one more than the answers before the first that ends it, and at
most `n`. -/
def createCalls (n : Nat)
    (attempts : List (Except APIError VolumeSnapshotContent × World)) : Nat :=
  min n ((attempts.takeWhile (fun r => !EndsCreateLoop r)).length + 1)

/-- The event `createSnapshotContent` records when its loop ends with the
error `err` (lines 526-528). -/
def createFailedEvent (snapshot : VolumeSnapshot) (err : APIError) : Event :=
  { object := SnapshotKey snapshot, eventtype := EventTypeWarning,
    reason := "CreateSnapshotContentFailed",
    message := "Error creating volume snapshot content object for snapshot " ++
      SnapshotKey snapshot ++ ": " ++ err.message ++ "." }

/-! ## Properties -/

theorem contentMatches_iff (snapshot : VolumeSnapshot) (content : VolumeSnapshotContent) :
    contentMatches snapshot content = true ↔ Agrees snapshot content := by
  unfold contentMatches Agrees
  cases hc : content.Spec.VolumeSnapshotClassName <;>
    cases hs : snapshot.Spec.VolumeSnapshotClassName <;>
    simp
  constructor
  · rintro ⟨⟨⟨h1, h2⟩, h3⟩, h4⟩; exact ⟨h2, h1, h3, h4.symm⟩
  · rintro ⟨h2, h1, h3, h4⟩; exact ⟨⟨⟨h1, h2⟩, h3⟩, h4.symm⟩

/-- C4: `getMatchSnapshotContent` returns only a content of the listing whose
back-reference namespace, name and UID equal the request's and whose class
name is present and equal to the request's class name; it returns nil exactly
when no content of the listing agrees in all four; a request without a class
name matches nothing. -/
theorem getMatchSnapshotContent_agrees (snapshot : VolumeSnapshot) (w : World) :
    (∀ content, getMatchSnapshotContent snapshot w = some content →
        content ∈ w.contentStore ∧ Agrees snapshot content) ∧
    (getMatchSnapshotContent snapshot w = none ↔
        ∀ content ∈ w.contentStore, ¬ Agrees snapshot content) ∧
    (snapshot.Spec.VolumeSnapshotClassName = none →
        getMatchSnapshotContent snapshot w = none) := by
  have hnone : getMatchSnapshotContent snapshot w = none ↔
      ∀ content ∈ w.contentStore, ¬ Agrees snapshot content := by
    unfold getMatchSnapshotContent
    rw [List.find?_eq_none]
    constructor
    · intro h c hc hag
      exact h c hc ((contentMatches_iff snapshot c).2 hag)
    · intro h c hc hm
      exact h c hc ((contentMatches_iff snapshot c).1 hm)
  refine ⟨?_, hnone, ?_⟩
  · intro content h
    unfold getMatchSnapshotContent at h
    exact ⟨List.mem_of_find?_eq_some h,
      (contentMatches_iff snapshot content).1 (List.find?_some h)⟩
  · intro hcls
    rw [hnone]
    rintro c - ⟨-, -, -, cn, -, h⟩
    rw [hcls] at h
    exact Option.noConfusion h

/-! ### Status propagation, field by field -/

theorem setBoundContentName_fields (v : ContentView) (p : VolumeSnapshotStatus × Bool) :
    (setBoundContentName v p).1.BoundVolumeSnapshotContentName =
        some (p.1.BoundVolumeSnapshotContentName.getD v.boundContentName) ∧
    (setBoundContentName v p).1.CreationTime = p.1.CreationTime ∧
    (setBoundContentName v p).1.ReadyToUse = p.1.ReadyToUse ∧
    (setBoundContentName v p).1.RestoreSize = p.1.RestoreSize ∧
    (setBoundContentName v p).1.Error = p.1.Error := by
  unfold setBoundContentName
  cases h : p.1.BoundVolumeSnapshotContentName <;> simp [h]

theorem setCreationTime_fields (v : ContentView) (p : VolumeSnapshotStatus × Bool) :
    (setCreationTime v p).1.BoundVolumeSnapshotContentName =
        p.1.BoundVolumeSnapshotContentName ∧
    (setCreationTime v p).1.CreationTime =
        (match p.1.CreationTime with
         | some t => some t
         | none => v.createdAt) ∧
    (setCreationTime v p).1.ReadyToUse = p.1.ReadyToUse ∧
    (setCreationTime v p).1.RestoreSize = p.1.RestoreSize ∧
    (setCreationTime v p).1.Error = p.1.Error := by
  unfold setCreationTime
  cases h : p.1.CreationTime <;> cases hv : v.createdAt <;> simp [h]

theorem setReadyToUse_fields (v : ContentView) (p : VolumeSnapshotStatus × Bool) :
    (setReadyToUse v p).1.BoundVolumeSnapshotContentName =
        p.1.BoundVolumeSnapshotContentName ∧
    (setReadyToUse v p).1.CreationTime = p.1.CreationTime ∧
    (setReadyToUse v p).1.ReadyToUse = some v.readyToUse ∧
    (setReadyToUse v p).1.RestoreSize = p.1.RestoreSize ∧
    (setReadyToUse v p).1.Error =
        (if p.1.ReadyToUse ≠ some true ∧ v.readyToUse = true then none else p.1.Error) := by
  unfold setReadyToUse
  cases h : p.1.ReadyToUse with
  | none =>
    cases hr : v.readyToUse <;> cases he : p.1.Error <;> simp [h, he]
  | some r =>
    cases r <;> cases hr : v.readyToUse <;> cases he : p.1.Error <;> simp [h, he]

theorem setRestoreSize_fields (v : ContentView) (p : VolumeSnapshotStatus × Bool) :
    (setRestoreSize v p).1.BoundVolumeSnapshotContentName =
        p.1.BoundVolumeSnapshotContentName ∧
    (setRestoreSize v p).1.CreationTime = p.1.CreationTime ∧
    (setRestoreSize v p).1.ReadyToUse = p.1.ReadyToUse ∧
    (setRestoreSize v p).1.RestoreSize =
        (if sizeChanges p.1.RestoreSize v.size = true then v.size.map NewQuantity
         else p.1.RestoreSize) ∧
    (setRestoreSize v p).1.Error = p.1.Error := by
  unfold setRestoreSize
  by_cases h : sizeChanges p.1.RestoreSize v.size = true <;> simp [h]

/-- The status `mergeStatus` computes, one field at a time. -/
theorem mergeStatus_fields (stored : VolumeSnapshotStatus) (v : ContentView) :
    (mergeStatus stored v).1.BoundVolumeSnapshotContentName =
        some (stored.BoundVolumeSnapshotContentName.getD v.boundContentName) ∧
    (mergeStatus stored v).1.CreationTime =
        (match stored.CreationTime with
         | some t => some t
         | none => v.createdAt) ∧
    (mergeStatus stored v).1.ReadyToUse = some v.readyToUse ∧
    (mergeStatus stored v).1.RestoreSize =
        (if sizeChanges stored.RestoreSize v.size = true then v.size.map NewQuantity
         else stored.RestoreSize) ∧
    (mergeStatus stored v).1.Error =
        (if stored.ReadyToUse ≠ some true ∧ v.readyToUse = true then none
         else stored.Error) := by
  unfold mergeStatus
  obtain ⟨a1, a2, a3, a4, a5⟩ := setBoundContentName_fields v (stored, false)
  obtain ⟨b1, b2, b3, b4, b5⟩ := setCreationTime_fields v (setBoundContentName v (stored, false))
  obtain ⟨c1, c2, c3, c4, c5⟩ :=
    setReadyToUse_fields v (setCreationTime v (setBoundContentName v (stored, false)))
  obtain ⟨d1, d2, d3, d4, d5⟩ := setRestoreSize_fields v
    (setReadyToUse v (setCreationTime v (setBoundContentName v (stored, false))))
  refine ⟨?_, ?_, ?_, ?_, ?_⟩
  · rw [d1, c1, b1, a1]
  · rw [d2, c2, b2, a2]
  · rw [d3, c3]
  · rw [d4, c4, b4, a4]
  · rw [d5, c5, b5, a5, b3, a3]

/-- The status `computeStatus` computes, one field at a time, from the fields
of the stored status (all absent when the stored request has no status). -/
theorem computeStatus_fields (stored : Option VolumeSnapshotStatus) (v : ContentView) :
    (computeStatus stored v).1.BoundVolumeSnapshotContentName =
        some ((stored.bind (fun st => st.BoundVolumeSnapshotContentName)).getD
          v.boundContentName) ∧
    (computeStatus stored v).1.CreationTime =
        (match stored.bind (fun st => st.CreationTime) with
         | some t => some t
         | none => v.createdAt) ∧
    (computeStatus stored v).1.ReadyToUse = some v.readyToUse ∧
    (computeStatus stored v).1.RestoreSize =
        (if sizeChanges (stored.bind (fun st => st.RestoreSize)) v.size = true then
           v.size.map NewQuantity
         else stored.bind (fun st => st.RestoreSize)) ∧
    (computeStatus stored v).1.Error =
        (if stored.bind (fun st => st.ReadyToUse) ≠ some true ∧ v.readyToUse = true then none
         else stored.bind (fun st => st.Error)) := by
  cases stored with
  | some st => exact mergeStatus_fields st v
  | none =>
    refine ⟨rfl, rfl, rfl, ?_, ?_⟩
    · cases hv : v.size <;> simp [computeStatus, sizeChanges, hv]
    · simp [computeStatus]

theorem contentView_fields (content : VolumeSnapshotContent) :
    (contentView content).boundContentName = content.Name ∧
    (contentView content).createdAt = content.Status.bind (fun st => st.CreationTime) ∧
    (contentView content).size = content.Status.bind (fun st => st.RestoreSize) ∧
    (contentView content).readyToUse =
        (content.Status.bind (fun st => st.ReadyToUse)).getD false := by
  unfold contentView
  cases content.Status <;> simp

/-- C6: the status `updateSnapshotStatus` computes keeps a recorded
boundContentName and a recorded creationTime of the stored status unchanged,
whatever the content says; an absent boundContentName becomes the name of the
content and an absent creationTime becomes the creation time the content
reports (and stays absent when the content reports none). -/
theorem computeStatus_set_once (stored : Option VolumeSnapshotStatus)
    (content : VolumeSnapshotContent) :
    (∀ name, stored.bind (fun st => st.BoundVolumeSnapshotContentName) = some name →
      (computeStatus stored (contentView content)).1.BoundVolumeSnapshotContentName =
        some name) ∧
    (stored.bind (fun st => st.BoundVolumeSnapshotContentName) = none →
      (computeStatus stored (contentView content)).1.BoundVolumeSnapshotContentName =
        some content.Name) ∧
    (∀ t, stored.bind (fun st => st.CreationTime) = some t →
      (computeStatus stored (contentView content)).1.CreationTime = some t) ∧
    (stored.bind (fun st => st.CreationTime) = none →
      (computeStatus stored (contentView content)).1.CreationTime =
        content.Status.bind (fun st => st.CreationTime)) := by
  obtain ⟨hb, hc, -, -, -⟩ := computeStatus_fields stored (contentView content)
  obtain ⟨vb, vc, -, -⟩ := contentView_fields content
  refine ⟨?_, ?_, ?_, ?_⟩
  · intro name h; rw [hb, h]; rfl
  · intro h; rw [hb, h, vb]; rfl
  · intro t h; rw [hc, h]
  · intro h; rw [hc, h, vc]

/-- C7: the status `updateSnapshotStatus` computes has readyToUse equal to the
readyToUse of the content status, false when the content has no status or no
readyToUse; when that turns a stored readiness other than true into true the
computed status has no error, and in every other case the error is the stored
one. -/
theorem computeStatus_readiness (stored : Option VolumeSnapshotStatus)
    (content : VolumeSnapshotContent) :
    (computeStatus stored (contentView content)).1.ReadyToUse =
      some ((content.Status.bind (fun st => st.ReadyToUse)).getD false) ∧
    (stored.bind (fun st => st.ReadyToUse) ≠ some true ∧
        (content.Status.bind (fun st => st.ReadyToUse)).getD false = true →
      (computeStatus stored (contentView content)).1.Error = none) ∧
    (¬ (stored.bind (fun st => st.ReadyToUse) ≠ some true ∧
        (content.Status.bind (fun st => st.ReadyToUse)).getD false = true) →
      (computeStatus stored (contentView content)).1.Error =
        stored.bind (fun st => st.Error)) := by
  obtain ⟨-, -, hr, -, he⟩ := computeStatus_fields stored (contentView content)
  obtain ⟨-, -, -, vr⟩ := contentView_fields content
  rw [vr] at hr he
  refine ⟨hr, ?_, ?_⟩
  · intro h; rw [he, if_pos h]
  · intro h; rw [he, if_neg h]

/-- C8: the restoreSize `updateSnapshotStatus` computes is the size the content
reports when the stored restoreSize is absent, or is zero while the reported
size is positive; when the stored restoreSize is non-zero, when the content
reports no size, and when the stored restoreSize is zero while the reported
size is not positive, it is the stored restoreSize. -/
theorem computeStatus_restoreSize (stored : Option VolumeSnapshotStatus)
    (content : VolumeSnapshotContent) :
    (∀ n, content.Status.bind (fun st => st.RestoreSize) = some n →
      stored.bind (fun st => st.RestoreSize) = none →
      (computeStatus stored (contentView content)).1.RestoreSize = some (NewQuantity n)) ∧
    (∀ n q, content.Status.bind (fun st => st.RestoreSize) = some n →
      stored.bind (fun st => st.RestoreSize) = some q → q.IsZero = true → n > 0 →
      (computeStatus stored (contentView content)).1.RestoreSize = some (NewQuantity n)) ∧
    (∀ q, stored.bind (fun st => st.RestoreSize) = some q → q.IsZero = false →
      (computeStatus stored (contentView content)).1.RestoreSize = some q) ∧
    (content.Status.bind (fun st => st.RestoreSize) = none →
      (computeStatus stored (contentView content)).1.RestoreSize =
        stored.bind (fun st => st.RestoreSize)) ∧
    (∀ n q, content.Status.bind (fun st => st.RestoreSize) = some n →
      stored.bind (fun st => st.RestoreSize) = some q → n ≤ 0 →
      (computeStatus stored (contentView content)).1.RestoreSize = some q) := by
  obtain ⟨-, -, -, hs, -⟩ := computeStatus_fields stored (contentView content)
  obtain ⟨-, -, vs, -⟩ := contentView_fields content
  rw [vs] at hs
  refine ⟨?_, ?_, ?_, ?_, ?_⟩
  · intro n hn hst
    rw [hs, hn, hst]; simp [sizeChanges]
  · intro n q hn hst hz hpos
    rw [hs, hn, hst]; simp [sizeChanges, hz, hpos]
  · intro q hst hz
    rw [hs, hst]
    cases hn : content.Status.bind (fun st => st.RestoreSize) <;> simp [sizeChanges, hz]
  · intro hn
    rw [hs, hn]
    cases hst : stored.bind (fun st => st.RestoreSize) <;> simp [sizeChanges]
  · intro n q hn hst hle
    rw [hs, hn, hst]
    have : ¬ n > 0 := not_lt.mpr hle
    simp [sizeChanges, this]

/-! ### What the external calls change -/

theorem SnapshotsUpdateStatus_writes (s : VolumeSnapshot) (w : World) :
    (SnapshotsUpdateStatus s w).2.writes = w.writes ++ [Write.SnapshotUpdateStatus s] := by
  unfold SnapshotsUpdateStatus World.nextOutcome
  dsimp only
  cases w.apiOutcomes with
  | nil => dsimp only; split <;> rfl
  | cons o rest => cases o <;> (dsimp only; try split) <;> rfl

theorem ContentsUpdate_writes (c : VolumeSnapshotContent) (w : World) :
    (ContentsUpdate c w).2.writes = w.writes ++ [Write.ContentUpdate c] := by
  unfold ContentsUpdate World.nextOutcome
  dsimp only
  cases w.apiOutcomes with
  | nil => dsimp only; split <;> rfl
  | cons o rest => cases o <;> (dsimp only; try split) <;> rfl

theorem SnapshotsGet_frame (ns name : String) (w : World) :
    (SnapshotsGet ns name w).2.writes = w.writes ∧
    (SnapshotsGet ns name w).2.snapshots = w.snapshots ∧
    (∀ s, (SnapshotsGet ns name w).1 = Except.ok s → findSnapshot ns name w.snapshots = some s) := by
  unfold SnapshotsGet World.nextOutcome
  cases w.apiOutcomes with
  | nil =>
    dsimp only
    cases h : findSnapshot ns name w.snapshots <;> simp
  | cons o rest =>
    cases o with
    | some e => simp
    | none =>
      dsimp only
      cases h : findSnapshot ns name w.snapshots <;> simp

theorem storeSnapshotUpdate_frame (s : VolumeSnapshot) (w : World) :
    (storeSnapshotUpdate s w).2.writes = w.writes ∧
    (storeSnapshotUpdate s w).2.snapshots = w.snapshots ∧
    (storeSnapshotUpdate s w).2.contents = w.contents := by
  unfold storeSnapshotUpdate World.nextStoreOutcome
  cases w.storeOutcomes with
  | nil => simp
  | cons o rest => cases o <;> simp

theorem storeContentUpdate_frame (c : VolumeSnapshotContent) (w : World) :
    (storeContentUpdate c w).2.writes = w.writes ∧
    (storeContentUpdate c w).2.snapshots = w.snapshots ∧
    (storeContentUpdate c w).2.contents = w.contents := by
  unfold storeContentUpdate World.nextStoreOutcome
  cases w.storeOutcomes with
  | nil => simp
  | cons o rest => cases o <;> simp

/-- What `updateSnapshotErrorStatusWithEvent` sends: when the request does not
carry the same error yet, one UpdateStatus of `errorStatusClone`; otherwise
nothing, and the world is left as it was. -/
theorem updateSnapshotErrorStatusWithEvent_writes (snapshot : VolumeSnapshot)
    (eventtype reason message : String) (w : World) :
    (sameErrorAlreadySet snapshot message = Res.ok false →
      (updateSnapshotErrorStatusWithEvent snapshot eventtype reason message w).2.writes =
        w.writes ++ [Write.SnapshotUpdateStatus (errorStatusClone snapshot message w.now)]) ∧
    (sameErrorAlreadySet snapshot message ≠ Res.ok false →
      (updateSnapshotErrorStatusWithEvent snapshot eventtype reason message w).2 = w) := by
  unfold updateSnapshotErrorStatusWithEvent
  cases h : sameErrorAlreadySet snapshot message with
  | panic p => simp
  | error e => simp
  | ok b =>
    cases b with
    | true => simp
    | false =>
      refine ⟨fun _ => ?_, fun hne => absurd rfl hne⟩
      have hw := SnapshotsUpdateStatus_writes (errorStatusClone snapshot message w.now) w
      dsimp only
      generalize SnapshotsUpdateStatus (errorStatusClone snapshot message w.now) w = res at hw ⊢
      obtain ⟨r, w1⟩ := res
      cases r with
      | error err => exact hw
      | ok newSnapshot =>
        dsimp only
        have hs := (storeSnapshotUpdate_frame newSnapshot
          (recordEvent newSnapshot eventtype reason message w1)).1
        generalize storeSnapshotUpdate newSnapshot
          (recordEvent newSnapshot eventtype reason message w1) = res2 at hs ⊢
        obtain ⟨r2, w3⟩ := res2
        cases r2 <;> exact hs.trans hw

/-- What `updateSnapshotStatus` sends: nothing, or one UpdateStatus of the
request read from the API server with the status `computeStatus` gives. -/
theorem updateSnapshotStatus_writes (snapshot : VolumeSnapshot)
    (content : VolumeSnapshotContent) (w : World) :
    (updateSnapshotStatus snapshot content w).2.writes = w.writes ∨
    ∃ snapshotObj,
      findSnapshot snapshot.Namespace snapshot.Name w.snapshots = some snapshotObj ∧
      (updateSnapshotStatus snapshot content w).2.writes = w.writes ++
        [Write.SnapshotUpdateStatus { snapshotObj with
          Status := some (computeStatus snapshotObj.Status (contentView content)).1 }] := by
  unfold updateSnapshotStatus
  obtain ⟨hgw, -, hgs⟩ := SnapshotsGet_frame snapshot.Namespace snapshot.Name w
  generalize SnapshotsGet snapshot.Namespace snapshot.Name w = res at hgw hgs ⊢
  obtain ⟨r, w1⟩ := res
  cases r with
  | error err => left; exact hgw
  | ok snapshotObj =>
    dsimp only
    by_cases hu : (computeStatus snapshotObj.Status (contentView content)).2 = true
    · right
      refine ⟨snapshotObj, hgs snapshotObj rfl, ?_⟩
      rw [if_pos hu]
      have hw := SnapshotsUpdateStatus_writes { snapshotObj with
        Status := some (computeStatus snapshotObj.Status (contentView content)).1 } w1
      generalize SnapshotsUpdateStatus { snapshotObj with
        Status := some (computeStatus snapshotObj.Status (contentView content)).1 } w1 = res2
        at hw ⊢
      obtain ⟨r2, w2⟩ := res2
      dsimp only at hgw
      cases r2 <;> (dsimp only; rw [hw, hgw])
    · left
      rw [if_neg hu]
      exact hgw

theorem computeStatus_keeps_invariant (stored : Option VolumeSnapshotStatus) (v : ContentView)
    (h : ReadyImpliesNoError stored) :
    ReadyImpliesNoError (some (computeStatus stored v).1) := by
  obtain ⟨-, -, hr, -, he⟩ := computeStatus_fields stored v
  intro st hst hready
  cases hst
  rw [hr] at hready
  rw [he]
  have hv : v.readyToUse = true := by simpa using hready
  by_cases hs : stored.bind (fun st => st.ReadyToUse) = some true
  · rw [if_neg (fun hc => hc.1 hs)]
    cases stored with
    | none => rfl
    | some st0 => exact h st0 rfl hs
  · rw [if_pos ⟨hs, hv⟩]

theorem errorStatusClone_status (snapshot : VolumeSnapshot) (message : String) (now : Time) :
    ∃ st, (errorStatusClone snapshot message now).Status = some st ∧
      st.Error = some { Time := some now, Message := some message } ∧
      st.ReadyToUse = some false ∧
      st.BoundVolumeSnapshotContentName =
        snapshot.Status.bind (fun s => s.BoundVolumeSnapshotContentName) ∧
      st.CreationTime = snapshot.Status.bind (fun s => s.CreationTime) ∧
      st.RestoreSize = snapshot.Status.bind (fun s => s.RestoreSize) := by
  unfold errorStatusClone
  cases snapshot.Status <;> exact ⟨_, rfl, rfl, rfl, rfl, rfl, rfl⟩

/-- C9: both request status writers keep "readyToUse = true implies no error".
When the status of the request stored on the API server satisfies it, every
status `updateSnapshotStatus` sends satisfies it, for every content; and every
status `updateSnapshotErrorStatusWithEvent` sends has the error set and
readyToUse = false. -/
theorem status_writers_keep_ready_implies_no_error (snapshot : VolumeSnapshot)
    (content : VolumeSnapshotContent) (eventtype reason message : String) (w : World)
    (s : VolumeSnapshot) :
    ((∀ stored, findSnapshot snapshot.Namespace snapshot.Name w.snapshots = some stored →
        ReadyImpliesNoError stored.Status) →
      Write.SnapshotUpdateStatus s ∈ (updateSnapshotStatus snapshot content w).2.writes →
      Write.SnapshotUpdateStatus s ∈ w.writes ∨ ReadyImpliesNoError s.Status) ∧
    (Write.SnapshotUpdateStatus s ∈
        (updateSnapshotErrorStatusWithEvent snapshot eventtype reason message w).2.writes →
      Write.SnapshotUpdateStatus s ∈ w.writes ∨
        ∃ st, s.Status = some st ∧ st.Error ≠ none ∧ st.ReadyToUse = some false) := by
  constructor
  · intro hinv hmem
    rcases updateSnapshotStatus_writes snapshot content w with hw | ⟨obj, hfind, hw⟩
    · left; rwa [hw] at hmem
    · rw [hw, List.mem_append, List.mem_singleton] at hmem
      rcases hmem with hmem | hmem
      · left; exact hmem
      · right
        cases hmem
        exact computeStatus_keeps_invariant obj.Status (contentView content) (hinv obj hfind)
  · intro hmem
    obtain ⟨h1, h2⟩ := updateSnapshotErrorStatusWithEvent_writes snapshot eventtype reason message w
    by_cases hsame : sameErrorAlreadySet snapshot message = Res.ok false
    · rw [h1 hsame, List.mem_append, List.mem_singleton] at hmem
      rcases hmem with hmem | hmem
      · left; exact hmem
      · right
        cases hmem
        obtain ⟨st, hst, herr, hrdy, -⟩ := errorStatusClone_status snapshot message w.now
        exact ⟨st, hst, by rw [herr]; exact Option.some_ne_none _, hrdy⟩
    · left; rwa [h2 hsame] at hmem

/-- C10: no status write clears a recorded boundContentName.  The status
`updateSnapshotErrorStatusWithEvent` sends differs from the status of the
request it was given only in error and readyToUse (boundContentName,
creationTime and restoreSize are those of that request, as are name,
namespace, UID, spec and finalizers); the status `updateSnapshotStatus` sends
always has a boundContentName, and it is the stored one when the stored
status has one. -/
theorem status_writes_keep_bound_name (snapshot : VolumeSnapshot)
    (content : VolumeSnapshotContent) (eventtype reason message : String) (w : World) :
    ((updateSnapshotErrorStatusWithEvent snapshot eventtype reason message w).2.writes =
        w.writes ∨
      ∃ s st,
        (updateSnapshotErrorStatusWithEvent snapshot eventtype reason message w).2.writes =
          w.writes ++ [Write.SnapshotUpdateStatus s] ∧
        s.Status = some st ∧
        st.BoundVolumeSnapshotContentName =
          snapshot.Status.bind (fun x => x.BoundVolumeSnapshotContentName) ∧
        st.CreationTime = snapshot.Status.bind (fun x => x.CreationTime) ∧
        st.RestoreSize = snapshot.Status.bind (fun x => x.RestoreSize) ∧
        s.Name = snapshot.Name ∧ s.Namespace = snapshot.Namespace ∧ s.UID = snapshot.UID ∧
        s.Spec = snapshot.Spec ∧ s.Finalizers = snapshot.Finalizers ∧
        s.DeletionTimestamp = snapshot.DeletionTimestamp) ∧
    ((updateSnapshotStatus snapshot content w).2.writes = w.writes ∨
      ∃ stored st,
        findSnapshot snapshot.Namespace snapshot.Name w.snapshots = some stored ∧
        (updateSnapshotStatus snapshot content w).2.writes =
          w.writes ++ [Write.SnapshotUpdateStatus { stored with Status := some st }] ∧
        st.BoundVolumeSnapshotContentName ≠ none ∧
        ∀ name, stored.Status.bind (fun x => x.BoundVolumeSnapshotContentName) = some name →
          st.BoundVolumeSnapshotContentName = some name) := by
  constructor
  · obtain ⟨h1, h2⟩ := updateSnapshotErrorStatusWithEvent_writes snapshot eventtype reason message w
    by_cases hsame : sameErrorAlreadySet snapshot message = Res.ok false
    · right
      obtain ⟨st, hst, -, -, hb, hc, hr⟩ := errorStatusClone_status snapshot message w.now
      exact ⟨_, st, h1 hsame, hst, hb, hc, hr, rfl, rfl, rfl, rfl, rfl, rfl⟩
    · left; rw [h2 hsame]
  · rcases updateSnapshotStatus_writes snapshot content w with hw | ⟨obj, hfind, hw⟩
    · left; exact hw
    · right
      obtain ⟨hb, -⟩ := computeStatus_fields obj.Status (contentView content)
      refine ⟨obj, _, hfind, hw, ?_, ?_⟩
      · rw [hb]; exact Option.some_ne_none _
      · intro name hname
        rw [hb, hname]; rfl

/-! ### Writes to a content -/

theorem addContentFinalizer_writes (content : VolumeSnapshotContent) (w : World) :
    (addContentFinalizer content w).2.writes = w.writes ++
      [Write.ContentUpdate { content with
        Finalizers := content.Finalizers ++ [VolumeSnapshotContentFinalizer] }] := by
  unfold addContentFinalizer
  have hw := ContentsUpdate_writes { content with
    Finalizers := content.Finalizers ++ [VolumeSnapshotContentFinalizer] } w
  dsimp only
  generalize ContentsUpdate { content with
    Finalizers := content.Finalizers ++ [VolumeSnapshotContentFinalizer] } w = res at hw ⊢
  obtain ⟨r, w1⟩ := res
  cases r with
  | error err => exact hw
  | ok c =>
    dsimp only
    rw [(storeContentUpdate_frame _ w1).1]
    exact hw

theorem resolveSnapshot_writes (content : VolumeSnapshotContent) (w : World) :
    (resolveSnapshot content w).2.writes = w.writes := by
  unfold resolveSnapshot
  dsimp only
  split
  · rfl
  · split_ifs <;> rfl

theorem syncContent_writes (content : VolumeSnapshotContent) (w : World) :
    (syncContent content w).2.writes = w.writes ∨
    (syncContent content w).2.writes = w.writes ++
      [Write.ContentUpdate { content with
        Finalizers := content.Finalizers ++ [VolumeSnapshotContentFinalizer] }] ∨
    (syncContent content w).2.writes = w.writes ++
      [Write.ContentUpdate { content with
        Annotations := SetMetaDataAnnotationKey AnnVolumeSnapshotBeingDeleted "yes"
          content.Annotations }] := by
  unfold syncContent
  split_ifs with h1 h2
  · right; left; exact addContentFinalizer_writes content w
  · left; rfl
  · have hr := resolveSnapshot_writes content w
    generalize resolveSnapshot content w = res at hr ⊢
    obtain ⟨snapshot, w1⟩ := res
    dsimp only at hr ⊢
    split_ifs with h3
    · right; right
      have hw := ContentsUpdate_writes { content with
        Annotations := SetMetaDataAnnotationKey AnnVolumeSnapshotBeingDeleted "yes"
          content.Annotations } w1
      generalize ContentsUpdate { content with
        Annotations := SetMetaDataAnnotationKey AnnVolumeSnapshotBeingDeleted "yes"
          content.Annotations } w1 = res2 at hw ⊢
      obtain ⟨r, w2⟩ := res2
      cases r with
      | error err => dsimp only at hw ⊢; rw [hw, hr]
      | ok c =>
        dsimp only at hw ⊢
        have hs := (storeContentUpdate_frame c w2).1
        generalize storeContentUpdate c w2 = res3 at hs ⊢
        obtain ⟨r3, w3⟩ := res3
        cases r3 <;> (dsimp only at hs ⊢; rw [hs, hw, hr])
    · left; exact hr

theorem checkandBindSnapshotContent_writes (snapshot : VolumeSnapshot)
    (content : VolumeSnapshotContent) (w : World) :
    (checkandBindSnapshotContent snapshot content w).2.writes = w.writes ∨
    ((checkandBindSnapshotContent snapshot content w).2.writes =
        w.writes ++ [Write.ContentUpdate (bindClone snapshot content)] ∧
      content.Spec.VolumeSnapshotRef.Name = snapshot.Name ∧
      (content.Spec.VolumeSnapshotRef.UID = "" ∨
        content.Spec.VolumeSnapshotRef.UID = snapshot.UID)) := by
  unfold checkandBindSnapshotContent
  split_ifs with h1 h2 h3
  · left; rfl
  · left; rfl
  · left; rfl
  · right
    refine ⟨?_, not_not.mp h1, ?_⟩
    · have hw := ContentsUpdate_writes (bindClone snapshot content) w
      dsimp only
      generalize ContentsUpdate (bindClone snapshot content) w = res at hw ⊢
      obtain ⟨r, w1⟩ := res
      cases r with
      | error err => exact hw
      | ok c =>
        dsimp only at hw ⊢
        have hs := (storeContentUpdate_frame c w1).1
        generalize storeContentUpdate c w1 = res3 at hs ⊢
        obtain ⟨r3, w3⟩ := res3
        cases r3 <;> (dsimp only at hs ⊢; rw [hs, hw])
    · by_contra hc
      push_neg at hc
      exact h2 hc

theorem bindClone_fields (snapshot : VolumeSnapshot) (content : VolumeSnapshotContent) :
    (bindClone snapshot content).Name = content.Name ∧
    (bindClone snapshot content).Spec.VolumeSnapshotRef.UID = snapshot.UID ∧
    (bindClone snapshot content).Spec.VolumeSnapshotRef.Name =
      content.Spec.VolumeSnapshotRef.Name ∧
    (bindClone snapshot content).Spec.VolumeSnapshotRef.Namespace =
      content.Spec.VolumeSnapshotRef.Namespace ∧
    (bindClone snapshot content).Finalizers = content.Finalizers ∧
    (bindClone snapshot content).Annotations = content.Annotations ∧
    (bindClone snapshot content).Status = content.Status := by
  unfold bindClone
  cases snapshot.Spec.VolumeSnapshotClassName <;> exact ⟨rfl, rfl, rfl, rfl, rfl, rfl, rfl⟩

/-- C3: every write of the controller to an existing content keeps a non-empty
back-reference UID.  `addContentFinalizer` and `syncContent` send at most one
Update, of the same content with the same spec (so the same back-reference);
`checkandBindSnapshotContent` sends at most one Update, only when the UID of
the back-reference is empty or already the UID of the request, and in it the
UID is the UID of the request. -/
theorem content_writes_keep_back_reference (snapshot : VolumeSnapshot)
    (content : VolumeSnapshotContent) (w : World) :
    (∃ c, (addContentFinalizer content w).2.writes = w.writes ++ [Write.ContentUpdate c] ∧
      c.Name = content.Name ∧ c.Spec = content.Spec) ∧
    ((syncContent content w).2.writes = w.writes ∨
      ∃ c, (syncContent content w).2.writes = w.writes ++ [Write.ContentUpdate c] ∧
        c.Name = content.Name ∧ c.Spec = content.Spec) ∧
    ((checkandBindSnapshotContent snapshot content w).2.writes = w.writes ∨
      ∃ c, (checkandBindSnapshotContent snapshot content w).2.writes =
          w.writes ++ [Write.ContentUpdate c] ∧
        c.Name = content.Name ∧
        (content.Spec.VolumeSnapshotRef.UID = "" ∨
          content.Spec.VolumeSnapshotRef.UID = snapshot.UID) ∧
        c.Spec.VolumeSnapshotRef.UID = snapshot.UID ∧
        (content.Spec.VolumeSnapshotRef.UID ≠ "" →
          c.Spec.VolumeSnapshotRef.UID = content.Spec.VolumeSnapshotRef.UID)) := by
  refine ⟨⟨_, addContentFinalizer_writes content w, rfl, rfl⟩, ?_, ?_⟩
  · rcases syncContent_writes content w with h | h | h
    · left; exact h
    · right; exact ⟨_, h, rfl, rfl⟩
    · right; exact ⟨_, h, rfl, rfl⟩
  · rcases checkandBindSnapshotContent_writes snapshot content w with h | ⟨h, -, huid⟩
    · left; exact h
    · right
      obtain ⟨hn, hu, -⟩ := bindClone_fields snapshot content
      refine ⟨_, h, hn, huid, hu, ?_⟩
      intro hne
      rcases huid with he | he
      · exact absurd he hne
      · rw [hu, he]

/-! ### Binding a pre-provisioned request -/

theorem findContentfromStore_found (snapshot : VolumeSnapshot) (content : VolumeSnapshotContent)
    (name : String) (w : World)
    (hsrc : snapshot.Spec.Source.VolumeSnapshotContentName = some name)
    (hname : name ≠ "")
    (hstore : contentStoreGetByKey name w = some content) :
    findContentfromStore snapshot w = (Res.ok content, w) := by
  unfold findContentfromStore
  simp only [hsrc, hname, if_false, hstore]

theorem checkandBindSnapshotContent_uid_mismatch (snapshot : VolumeSnapshot)
    (content : VolumeSnapshotContent) (w : World)
    (huid : content.Spec.VolumeSnapshotRef.UID ≠ "")
    (hdiff : content.Spec.VolumeSnapshotRef.UID ≠ snapshot.UID) :
    checkandBindSnapshotContent snapshot content w =
      (Res.error (bindMismatchError snapshot content), w) := by
  unfold checkandBindSnapshotContent
  by_cases h1 : content.Spec.VolumeSnapshotRef.Name ≠ snapshot.Name
  · rw [if_pos h1]
  · rw [if_neg h1, if_pos ⟨huid, hdiff⟩]

theorem updateSnapshotErrorStatusWithEvent_no_panic (snapshot : VolumeSnapshot)
    (eventtype reason message : String) (w : World) (b : Bool)
    (hsame : sameErrorAlreadySet snapshot message = Res.ok b) :
    ∀ p, (updateSnapshotErrorStatusWithEvent snapshot eventtype reason message w).1 ≠
      Res.panic p := by
  intro p
  unfold updateSnapshotErrorStatusWithEvent
  rw [hsame]
  cases b with
  | true => simp
  | false =>
    dsimp only
    generalize SnapshotsUpdateStatus (errorStatusClone snapshot message w.now) w = res
    obtain ⟨r, w1⟩ := res
    cases r with
    | error err => simp
    | ok newSnapshot =>
      dsimp only
      generalize storeSnapshotUpdate newSnapshot
        (recordEvent newSnapshot eventtype reason message w1) = res2
      obtain ⟨r2, w3⟩ := res2
      cases r2 <;> simp

/-- C2, amended: when the named content has a non-empty back-reference UID
other than the UID of the request, `checkandBindSnapshotContent` returns an
error and changes nothing (no Update), and `syncUnreadySnapshot` returns an
error; unless the request it was given already carries an error with the same
message, it first sends exactly one UpdateStatus whose status has the error
set, with a message starting "Snapshot failed to bind VolumeSnapshotContent",
and readyToUse = false; when the request already carries that error it sends
nothing and changes nothing.  These are the two cases of a request whose
recorded error, if any, has a message; when the recorded error has no message,
the comparison of line 619 dereferences it and `syncUnreadySnapshot` panics
with nothing written. -/
theorem bind_failure_on_foreign_uid (ctrl : csiSnapshotCommonController)
    (snapshot : VolumeSnapshot) (content : VolumeSnapshotContent) (name : String) (w : World)
    (hsrc : snapshot.Spec.Source.VolumeSnapshotContentName = some name)
    (hname : name ≠ "")
    (hstore : contentStoreGetByKey name w = some content)
    (huid : content.Spec.VolumeSnapshotRef.UID ≠ "")
    (hdiff : content.Spec.VolumeSnapshotRef.UID ≠ snapshot.UID) :
    checkandBindSnapshotContent snapshot content w =
      (Res.error (bindMismatchError snapshot content), w) ∧
    (sameErrorAlreadySet snapshot (bindFailedMessage snapshot content) = Res.ok false →
      (∃ e, (syncUnreadySnapshot ctrl snapshot w).1 = Res.error e) ∧
      (∃ s st rest,
        (syncUnreadySnapshot ctrl snapshot w).2.writes =
          w.writes ++ [Write.SnapshotUpdateStatus s] ∧
        s.Status = some st ∧
        st.Error = some { Time := some w.now,
                          Message := some ("Snapshot failed to bind VolumeSnapshotContent" ++
                            rest) } ∧
        st.ReadyToUse = some false)) ∧
    (sameErrorAlreadySet snapshot (bindFailedMessage snapshot content) = Res.ok true →
      (∃ e, (syncUnreadySnapshot ctrl snapshot w).1 = Res.error e) ∧
      (syncUnreadySnapshot ctrl snapshot w).2 = w) ∧
    (CarriesErrorWithoutMessage snapshot →
      syncUnreadySnapshot ctrl snapshot w =
        (Res.panic "invalid memory address or nil pointer dereference", w)) ∧
    (sameErrorAlreadySet snapshot (bindFailedMessage snapshot content) = Res.ok false ↔
      ¬ CarriesError snapshot (bindFailedMessage snapshot content) ∧
        ¬ CarriesErrorWithoutMessage snapshot) ∧
    (sameErrorAlreadySet snapshot (bindFailedMessage snapshot content) = Res.ok true ↔
      CarriesError snapshot (bindFailedMessage snapshot content)) := by
  have hbind := checkandBindSnapshotContent_uid_mismatch snapshot content w huid hdiff
  have hfind := findContentfromStore_found snapshot content name w hsrc hname hstore
  have hsync : syncUnreadySnapshot ctrl snapshot w =
      match updateSnapshotErrorStatusWithEvent snapshot EventTypeWarning "SnapshotBindFailed"
          (bindFailedMessage snapshot content) w with
      | (Res.panic p, w3) => (Res.panic p, w3)
      | (_, w3) =>
        (Res.error ("snapshot " ++ SnapshotKey snapshot ++
          " is bound, but VolumeSnapshotContent " ++ content.Name ++
          " is not bound to the VolumeSnapshot correctly, " ++
          bindMismatchError snapshot content), w3) := by
    unfold syncUnreadySnapshot
    rw [if_pos (by rw [hsrc]; exact Option.some_ne_none _)]
    unfold syncUnreadySnapshotPreProvisioned
    simp only [hfind, hbind]
    rfl
  refine ⟨hbind, ?_, ?_, ?_, ?_, ?_⟩
  rotate_left 2
  · rintro ⟨st, e, hS, hE, hM⟩
    rw [hsync]
    unfold updateSnapshotErrorStatusWithEvent sameErrorAlreadySet
    rw [hS]
    dsimp only
    rw [hE]
    dsimp only
    rw [hM]
  · unfold sameErrorAlreadySet CarriesError CarriesErrorWithoutMessage
    cases snapshot.Status with
    | none => simp
    | some st =>
      cases hE : st.Error with
      | none => simp [hE]
      | some e =>
        cases hM : e.Message with
        | none => simp [hE, hM]
        | some m => simp [hE, hM]
  · unfold sameErrorAlreadySet CarriesError
    cases snapshot.Status with
    | none => simp
    | some st =>
      cases hE : st.Error with
      | none => simp [hE]
      | some e =>
        cases hM : e.Message with
        | none => simp [hE, hM]
        | some m => simp [hE, hM]
  · intro hsame
    obtain ⟨hw, -⟩ := updateSnapshotErrorStatusWithEvent_writes snapshot EventTypeWarning
      "SnapshotBindFailed" (bindFailedMessage snapshot content) w
    have hnp := updateSnapshotErrorStatusWithEvent_no_panic snapshot EventTypeWarning
      "SnapshotBindFailed" (bindFailedMessage snapshot content) w false hsame
    have hw' := hw hsame
    rw [hsync]
    generalize updateSnapshotErrorStatusWithEvent snapshot EventTypeWarning "SnapshotBindFailed"
      (bindFailedMessage snapshot content) w = res at hw' hnp ⊢
    obtain ⟨r, w3⟩ := res
    obtain ⟨st, hst, herr, hrdy, -⟩ :=
      errorStatusClone_status snapshot (bindFailedMessage snapshot content) w.now
    have hmsg : bindFailedMessage snapshot content =
        "Snapshot failed to bind VolumeSnapshotContent" ++
          (", " ++ bindMismatchError snapshot content) := by
      unfold bindFailedMessage
      rw [← String.append_assoc]
      rfl
    cases r with
    | panic p => exact absurd rfl (hnp p)
    | ok u =>
      exact ⟨⟨_, rfl⟩, _, st, _, hw', hst, by rw [herr, hmsg], hrdy⟩
    | error e =>
      exact ⟨⟨_, rfl⟩, _, st, _, hw', hst, by rw [herr, hmsg], hrdy⟩
  · intro hsame
    obtain ⟨-, hw⟩ := updateSnapshotErrorStatusWithEvent_writes snapshot EventTypeWarning
      "SnapshotBindFailed" (bindFailedMessage snapshot content) w
    have hnp := updateSnapshotErrorStatusWithEvent_no_panic snapshot EventTypeWarning
      "SnapshotBindFailed" (bindFailedMessage snapshot content) w true hsame
    have hw' := hw (by rw [hsame]; simp)
    rw [hsync]
    generalize updateSnapshotErrorStatusWithEvent snapshot EventTypeWarning "SnapshotBindFailed"
      (bindFailedMessage snapshot content) w = res at hw' hnp ⊢
    obtain ⟨r, w3⟩ := res
    cases r with
    | panic p => exact absurd rfl (hnp p)
    | ok u => exact ⟨⟨_, rfl⟩, hw'⟩
    | error e => exact ⟨⟨_, rfl⟩, hw'⟩

/-! ### Calls that succeed -/

theorem nextOutcome_of_succeed (w : World) (h : ∀ o ∈ w.apiOutcomes, o = none) :
    w.nextOutcome = (none, { w with apiOutcomes := w.apiOutcomes.tail }) := by
  unfold World.nextOutcome
  cases hl : w.apiOutcomes with
  | nil => cases w; simp_all
  | cons o rest =>
    have ho : o = none := h o (by rw [hl]; exact List.mem_cons_self _ _)
    subst ho
    rfl

theorem nextStoreOutcome_of_succeed (w : World) (h : ∀ o ∈ w.storeOutcomes, o = none) :
    w.nextStoreOutcome = (none, { w with storeOutcomes := w.storeOutcomes.tail }) := by
  unfold World.nextStoreOutcome
  cases hl : w.storeOutcomes with
  | nil => cases w; simp_all
  | cons o rest =>
    have ho : o = none := h o (by rw [hl]; exact List.mem_cons_self _ _)
    subst ho
    rfl

theorem ContentsUpdate_of_succeed (c : VolumeSnapshotContent) (w : World)
    (h : ∀ o ∈ w.apiOutcomes, o = none) (hc : findContent c.Name w.contents ≠ none) :
    ContentsUpdate c w =
      (Except.ok c,
        { w with writes := w.writes ++ [Write.ContentUpdate c],
                 apiOutcomes := w.apiOutcomes.tail,
                 contents := putContent c w.contents }) := by
  unfold ContentsUpdate
  dsimp only
  rw [nextOutcome_of_succeed { w with writes := w.writes ++ [Write.ContentUpdate c] } h]
  dsimp only
  cases hf : findContent c.Name w.contents with
  | none => exact absurd hf hc
  | some x => rfl

theorem storeContentUpdate_of_succeed (c : VolumeSnapshotContent) (w : World)
    (h : ∀ o ∈ w.storeOutcomes, o = none) :
    storeContentUpdate c w =
      (none, { w with storeOutcomes := w.storeOutcomes.tail,
                      contentStore := putContent c w.contentStore }) := by
  unfold storeContentUpdate
  rw [nextStoreOutcome_of_succeed _ h]

theorem SnapshotsGet_of_succeed (ns name : String) (stored : VolumeSnapshot) (w : World)
    (h : ∀ o ∈ w.apiOutcomes, o = none) (hs : findSnapshot ns name w.snapshots = some stored) :
    SnapshotsGet ns name w = (Except.ok stored, { w with apiOutcomes := w.apiOutcomes.tail }) := by
  unfold SnapshotsGet
  rw [nextOutcome_of_succeed _ h]
  dsimp only
  rw [hs]

theorem SnapshotsUpdateStatus_of_succeed (s stored : VolumeSnapshot) (w : World)
    (h : ∀ o ∈ w.apiOutcomes, o = none)
    (hs : findSnapshot s.Namespace s.Name w.snapshots = some stored) :
    SnapshotsUpdateStatus s w =
      (Except.ok { stored with Status := s.Status },
        { w with writes := w.writes ++ [Write.SnapshotUpdateStatus s],
                 apiOutcomes := w.apiOutcomes.tail,
                 snapshots := putSnapshot { stored with Status := s.Status } w.snapshots }) := by
  unfold SnapshotsUpdateStatus
  dsimp only
  rw [nextOutcome_of_succeed { w with writes := w.writes ++ [Write.SnapshotUpdateStatus s] } h]
  dsimp only
  rw [hs]

theorem findSnapshot_key (ns name : String) (l : List VolumeSnapshot) (s : VolumeSnapshot)
    (h : findSnapshot ns name l = some s) : s.Namespace = ns ∧ s.Name = name := by
  unfold findSnapshot at h
  have := List.find?_some h
  simpa using this

theorem findSnapshot_putSnapshot (s : VolumeSnapshot) (l : List VolumeSnapshot) :
    findSnapshot s.Namespace s.Name (putSnapshot s l) = some s := by
  induction l with
  | nil => simp [putSnapshot, findSnapshot]
  | cons x xs ih =>
    unfold putSnapshot
    by_cases hx : x.Namespace = s.Namespace ∧ x.Name = s.Name
    · rw [if_pos hx]; simp [findSnapshot]
    · rw [if_neg hx]
      unfold findSnapshot at ih ⊢
      rw [List.find?_cons_of_neg _ (by simpa using hx)]
      exact ih

theorem findContent_putContent (c : VolumeSnapshotContent) (l : List VolumeSnapshotContent) :
    findContent c.Name (putContent c l) = some c := by
  induction l with
  | nil => simp [putContent, findContent]
  | cons x xs ih =>
    unfold putContent
    by_cases hx : x.Name = c.Name
    · rw [if_pos hx]; simp [findContent]
    · rw [if_neg hx]
      unfold findContent at ih ⊢
      rw [List.find?_cons_of_neg _ (by simpa using hx)]
      exact ih

theorem setBoundContentName_not_updated (v : ContentView) (p : VolumeSnapshotStatus × Bool)
    (h : (setBoundContentName v p).2 = false) : setBoundContentName v p = p := by
  unfold setBoundContentName at h ⊢
  split_ifs at h ⊢
  rfl

theorem setCreationTime_not_updated (v : ContentView) (p : VolumeSnapshotStatus × Bool)
    (h : (setCreationTime v p).2 = false) : setCreationTime v p = p := by
  unfold setCreationTime at h ⊢
  split_ifs at h ⊢
  rfl

theorem setReadyToUse_not_updated (v : ContentView) (p : VolumeSnapshotStatus × Bool)
    (h : (setReadyToUse v p).2 = false) : setReadyToUse v p = p := by
  unfold setReadyToUse at h ⊢
  split_ifs at h ⊢
  rfl

theorem setRestoreSize_not_updated (v : ContentView) (p : VolumeSnapshotStatus × Bool)
    (h : (setRestoreSize v p).2 = false) : setRestoreSize v p = p := by
  unfold setRestoreSize at h ⊢
  split_ifs at h ⊢
  rfl

/-- When `updated` stays false the computed status is the stored one. -/
theorem computeStatus_not_updated (stored : Option VolumeSnapshotStatus) (v : ContentView)
    (h : (computeStatus stored v).2 = false) : stored = some (computeStatus stored v).1 := by
  cases stored with
  | none => simp [computeStatus] at h
  | some st =>
    simp only [computeStatus, mergeStatus] at h ⊢
    have h4 := setRestoreSize_not_updated v _ h
    rw [h4] at h ⊢
    have h3 := setReadyToUse_not_updated v _ h
    rw [h3] at h ⊢
    have h2 := setCreationTime_not_updated v _ h
    rw [h2] at h ⊢
    have h1 := setBoundContentName_not_updated v _ h
    rw [h1]

/-- With every call succeeding and the request held by the API server,
`updateSnapshotStatus` returns a request, sends nothing or the computed
status, and leaves the request on the server with the computed status. -/
theorem updateSnapshotStatus_of_succeed (snapshot stored : VolumeSnapshot)
    (content : VolumeSnapshotContent) (w : World)
    (h : ∀ o ∈ w.apiOutcomes, o = none)
    (hget : findSnapshot snapshot.Namespace snapshot.Name w.snapshots = some stored) :
    ∃ r w', updateSnapshotStatus snapshot content w = (Res.ok r, w') ∧
      w'.contents = w.contents ∧
      (w'.writes = w.writes ∨
        w'.writes = w.writes ++ [Write.SnapshotUpdateStatus { stored with
          Status := some (computeStatus stored.Status (contentView content)).1 }]) ∧
      ∃ s', findSnapshot snapshot.Namespace snapshot.Name w'.snapshots = some s' ∧
        s'.Status = some (computeStatus stored.Status (contentView content)).1 := by
  have htail : ∀ o ∈ w.apiOutcomes.tail, o = none := fun o ho => h o (List.mem_of_mem_tail ho)
  obtain ⟨hns, hnm⟩ := findSnapshot_key _ _ _ _ hget
  unfold updateSnapshotStatus
  rw [SnapshotsGet_of_succeed _ _ stored w h hget]
  dsimp only
  by_cases hu : (computeStatus stored.Status (contentView content)).2 = true
  · rw [if_pos hu]
    have hfind : findSnapshot
        ({ stored with Status := some (computeStatus stored.Status (contentView content)).1 } :
          VolumeSnapshot).Namespace
        ({ stored with Status := some (computeStatus stored.Status (contentView content)).1 } :
          VolumeSnapshot).Name
        ({ w with apiOutcomes := w.apiOutcomes.tail } : World).snapshots = some stored := by
      dsimp only
      rw [hns, hnm]; exact hget
    rw [SnapshotsUpdateStatus_of_succeed _ stored _ htail hfind]
    refine ⟨_, _, rfl, rfl, Or.inr rfl,
      { stored with Status := some (computeStatus stored.Status (contentView content)).1 },
      ?_, rfl⟩
    dsimp only
    have := findSnapshot_putSnapshot
      ({ stored with Status := some (computeStatus stored.Status (contentView content)).1 } :
        VolumeSnapshot) w.snapshots
    dsimp only at this
    rw [← hns, ← hnm]
    exact this
  · rw [if_neg hu]
    refine ⟨_, _, rfl, rfl, Or.inl rfl, stored, hget, ?_⟩
    exact computeStatus_not_updated _ _ (by simpa using hu)

/-- C1, amended: for a request whose source names a content X that is in the
content cache with a back-reference naming the request and an empty UID, with
a positive retry count, every API call and cache update succeeding, the API
server holding X and the request, and the stored status of the request
recording no boundContentName other than X: one `syncUnreadySnapshot` returns
success, sends one content Update in which the back-reference UID is the UID
of the request, followed by at most one UpdateStatus, whose status has
boundContentName X; afterwards the server holds X with that UID and the
request with boundContentName X. -/
theorem preprovisioned_bind (ctrl : csiSnapshotCommonController)
    (snapshot stored : VolumeSnapshot) (X : VolumeSnapshotContent) (name : String) (w : World)
    (hsrc : snapshot.Spec.Source.VolumeSnapshotContentName = some name)
    (hname : name ≠ "")
    (hstore : contentStoreGetByKey name w = some X)
    (hrefname : X.Spec.VolumeSnapshotRef.Name = snapshot.Name)
    (hrefuid : X.Spec.VolumeSnapshotRef.UID = "")
    (hretry : 0 < ctrl.createSnapshotContentRetryCount)
    (hapi : ∀ o ∈ w.apiOutcomes, o = none)
    (hcache : ∀ o ∈ w.storeOutcomes, o = none)
    (hX : findContent X.Name w.contents ≠ none)
    (hget : findSnapshot snapshot.Namespace snapshot.Name w.snapshots = some stored)
    (hbound : stored.Status.bind (fun st => st.BoundVolumeSnapshotContentName) = none ∨
      stored.Status.bind (fun st => st.BoundVolumeSnapshotContentName) = some X.Name) :
    ∃ w' c, syncUnreadySnapshot ctrl snapshot w = (Res.ok (), w') ∧
      c.Name = X.Name ∧ c.Spec.VolumeSnapshotRef.UID = snapshot.UID ∧
      (w'.writes = w.writes ++ [Write.ContentUpdate c] ∨
        ∃ s st, w'.writes = w.writes ++ [Write.ContentUpdate c, Write.SnapshotUpdateStatus s] ∧
          s.Status = some st ∧ st.BoundVolumeSnapshotContentName = some X.Name) ∧
      findContent X.Name w'.contents = some c ∧
      ∃ s' st', findSnapshot snapshot.Namespace snapshot.Name w'.snapshots = some s' ∧
        s'.Status = some st' ∧ st'.BoundVolumeSnapshotContentName = some X.Name := by
  obtain ⟨hcn, hcu, -, -, -, -, hcs⟩ := bindClone_fields snapshot X
  have hfind := findContentfromStore_found snapshot X name w hsrc hname hstore
  have hX' : findContent (bindClone snapshot X).Name w.contents ≠ none := by rw [hcn]; exact hX
  -- the bind
  have hbind : checkandBindSnapshotContent snapshot X w =
      (Res.ok (bindClone snapshot X),
        { w with writes := w.writes ++ [Write.ContentUpdate (bindClone snapshot X)],
                 apiOutcomes := w.apiOutcomes.tail,
                 contents := putContent (bindClone snapshot X) w.contents,
                 storeOutcomes := w.storeOutcomes.tail,
                 contentStore := putContent (bindClone snapshot X) w.contentStore }) := by
    unfold checkandBindSnapshotContent
    rw [if_neg (by simp [hrefname]), if_neg (by simp [hrefuid]), if_neg (by simp [hrefuid])]
    dsimp only
    rw [ContentsUpdate_of_succeed _ w hapi hX']
    dsimp only
    rw [storeContentUpdate_of_succeed (bindClone snapshot X)
      { w with writes := w.writes ++ [Write.ContentUpdate (bindClone snapshot X)],
               apiOutcomes := w.apiOutcomes.tail,
               contents := putContent (bindClone snapshot X) w.contents } hcache]
  -- the status
  obtain ⟨n, hn⟩ : ∃ n, ctrl.createSnapshotContentRetryCount.toNat = n + 1 := by
    have : 0 < ctrl.createSnapshotContentRetryCount.toNat := by
      rw [Int.lt_toNat]; exact hretry
    exact ⟨ctrl.createSnapshotContentRetryCount.toNat - 1, by omega⟩
  have htail : ∀ o ∈ w.apiOutcomes.tail, o = none := fun o ho => hapi o (List.mem_of_mem_tail ho)
  obtain ⟨r, w', hupd, hcont, hwrites, s', hs', hst'⟩ :=
    updateSnapshotStatus_of_succeed snapshot stored (bindClone snapshot X)
      { w with writes := w.writes ++ [Write.ContentUpdate (bindClone snapshot X)],
               apiOutcomes := w.apiOutcomes.tail,
               contents := putContent (bindClone snapshot X) w.contents,
               storeOutcomes := w.storeOutcomes.tail,
               contentStore := putContent (bindClone snapshot X) w.contentStore }
      htail hget
  have hnew : (computeStatus stored.Status
      (contentView (bindClone snapshot X))).1.BoundVolumeSnapshotContentName = some X.Name := by
    obtain ⟨hb, -⟩ := computeStatus_fields stored.Status (contentView (bindClone snapshot X))
    obtain ⟨vb, -⟩ := contentView_fields (bindClone snapshot X)
    rw [hb, vb, hcn]
    rcases hbound with hb0 | hb0 <;> rw [hb0] <;> rfl
  refine ⟨w', bindClone snapshot X, ?_, hcn, hcu, ?_, ?_, s', _, hs', hst', hnew⟩
  · unfold syncUnreadySnapshot
    rw [if_pos (by rw [hsrc]; exact Option.some_ne_none _)]
    unfold syncUnreadySnapshotPreProvisioned
    simp only [hfind, hbind]
    unfold propagateStatus
    rw [hn]
    unfold updateStatusLoop
    rw [hupd]
  · dsimp only at hwrites
    rcases hwrites with hw | hw
    · left; exact hw
    · right
      refine ⟨{ stored with Status := some (computeStatus stored.Status
        (contentView (bindClone snapshot X))).1 }, _, ?_, rfl, hnew⟩
      rw [hw, List.append_assoc]; rfl
  · rw [hcont]
    dsimp only
    rw [← hcn]
    exact findContent_putContent _ _

/-! ### The statements at concrete objects -/

/-- C1 as stated fails: the request names X, X is in the cache with a matching
back-reference and an empty UID, every call succeeds, yet the status the
reconcile sends keeps the boundContentName `Z` recorded before, not `X`. -/
theorem recorded_bound_name_survives_bind :
    exRequestBoundToZ.Spec.Source.VolumeSnapshotContentName = some exContentX.Name ∧
    contentStoreGetByKey exContentX.Name exWorldBoundToZ = some exContentX ∧
    exContentX.Spec.VolumeSnapshotRef.Name = exRequestBoundToZ.Name ∧
    exContentX.Spec.VolumeSnapshotRef.UID = "" ∧
    0 < exCtrl.createSnapshotContentRetryCount ∧
    exWorldBoundToZ.apiOutcomes = [] ∧ exWorldBoundToZ.storeOutcomes = [] ∧
    (syncUnreadySnapshot exCtrl exRequestBoundToZ exWorldBoundToZ).1 = Res.ok () ∧
    (syncUnreadySnapshot exCtrl exRequestBoundToZ exWorldBoundToZ).2.writes =
      [Write.ContentUpdate (bindClone exRequestBoundToZ exContentX),
       Write.SnapshotUpdateStatus { exRequestBoundToZ with
         Status := some { BoundVolumeSnapshotContentName := some "Z",
                          ReadyToUse := some true,
                          RestoreSize := some (NewQuantity 1024) } }] ∧
    some "Z" ≠ some exContentX.Name := by
  decide

/-- Witness of C1, amended, at `exRequest` and `exContentX`. -/
theorem preprovisioned_bind_witness :
    ∃ w' c, syncUnreadySnapshot exCtrl exRequest exWorld = (Res.ok (), w') ∧
      c.Name = exContentX.Name ∧ c.Spec.VolumeSnapshotRef.UID = exRequest.UID ∧
      (w'.writes = exWorld.writes ++ [Write.ContentUpdate c] ∨
        ∃ s st, w'.writes =
            exWorld.writes ++ [Write.ContentUpdate c, Write.SnapshotUpdateStatus s] ∧
          s.Status = some st ∧ st.BoundVolumeSnapshotContentName = some exContentX.Name) ∧
      findContent exContentX.Name w'.contents = some c ∧
      ∃ s' st', findSnapshot exRequest.Namespace exRequest.Name w'.snapshots = some s' ∧
        s'.Status = some st' ∧ st'.BoundVolumeSnapshotContentName = some exContentX.Name :=
  preprovisioned_bind exCtrl exRequest exRequest exContentX "X" exWorld rfl (by decide) rfl rfl
    rfl (by decide) (by decide) (by decide) (by decide) rfl (Or.inl rfl)

/-- C2 as stated fails: the content Y carries another UID and the reconcile
returns an error, but the request already carries the bind failure, and no
status is written. -/
theorem bind_failure_writes_nothing_when_recorded :
    exRequestYFailed.Spec.Source.VolumeSnapshotContentName = some exContentY.Name ∧
    contentStoreGetByKey exContentY.Name exWorldYFailed = some exContentY ∧
    exContentY.Spec.VolumeSnapshotRef.UID ≠ "" ∧
    exContentY.Spec.VolumeSnapshotRef.UID ≠ exRequestYFailed.UID ∧
    (syncUnreadySnapshot exCtrl exRequestYFailed exWorldYFailed).1 =
      Res.error ("snapshot ns1/snap is bound, but VolumeSnapshotContent Y is not bound to " ++
        "the VolumeSnapshot correctly, Could not bind snapshot snap and content Y, the " ++
        "VolumeSnapshotRef does not match") ∧
    (syncUnreadySnapshot exCtrl exRequestYFailed exWorldYFailed).2.writes = [] := by
  decide

/-- Witness of C2, amended, at `exRequestY` and `exContentY`, and at the request
`exRequestYNoMessage`, whose recorded error has no message. -/
theorem bind_failure_on_foreign_uid_witness :
    checkandBindSnapshotContent exRequestY exContentY exWorldY =
      (Res.error (bindMismatchError exRequestY exContentY), exWorldY) ∧
    ((∃ e, (syncUnreadySnapshot exCtrl exRequestY exWorldY).1 = Res.error e) ∧
    ∃ s st rest,
      (syncUnreadySnapshot exCtrl exRequestY exWorldY).2.writes =
        exWorldY.writes ++ [Write.SnapshotUpdateStatus s] ∧
      s.Status = some st ∧
      st.Error = some { Time := some exWorldY.now,
                        Message := some ("Snapshot failed to bind VolumeSnapshotContent" ++
                          rest) } ∧
      st.ReadyToUse = some false) ∧
    syncUnreadySnapshot exCtrl exRequestYNoMessage exWorldYNoMessage =
      (Res.panic "invalid memory address or nil pointer dereference", exWorldYNoMessage) :=
  ⟨(bind_failure_on_foreign_uid exCtrl exRequestY exContentY "Y" exWorldY rfl (by decide) rfl
      (by decide) (by decide)).1,
   (bind_failure_on_foreign_uid exCtrl exRequestY exContentY "Y" exWorldY rfl (by decide) rfl
      (by decide) (by decide)).2.1 rfl,
   (bind_failure_on_foreign_uid exCtrl exRequestYNoMessage exContentY "Y" exWorldYNoMessage rfl
      (by decide) rfl (by decide) (by decide)).2.2.2.1 ⟨_, _, rfl, rfl, rfl⟩⟩

/-- C5 at a failing input: the back-reference of the content names the
namespace `ns2`, the request lives in `ns1`; `checkandBindSnapshotContent`
returns the content stamped with the UID of the request and sends the
Update. -/
theorem checkandBind_ignores_namespace :
    exContentOtherNamespace.Spec.VolumeSnapshotRef.Namespace ≠ exRequest.Namespace ∧
    (checkandBindSnapshotContent exRequest exContentOtherNamespace exWorldOtherNamespace).1 =
      Res.ok { exContentOtherNamespace with
        Spec := { exContentOtherNamespace.Spec with
          VolumeSnapshotRef := { Namespace := "ns2", Name := "snap", UID := "uid-1" } } } ∧
    (checkandBindSnapshotContent exRequest exContentOtherNamespace
        exWorldOtherNamespace).2.writes =
      [Write.ContentUpdate { exContentOtherNamespace with
        Spec := { exContentOtherNamespace.Spec with
          VolumeSnapshotRef := { Namespace := "ns2", Name := "snap", UID := "uid-1" } } }] ∧
    getMatchSnapshotContent { exRequest with Spec := { VolumeSnapshotClassName := some "c" } }
      { contentStore := [{ exContentOtherNamespace with
          Spec := { exContentOtherNamespace.Spec with
            VolumeSnapshotRef := { Namespace := "ns2", Name := "snap", UID := "uid-1" },
            VolumeSnapshotClassName := some "c" } }] } = none := by
  decide

/-! ### Idempotence of the status propagation -/

theorem sizeChanges_after (restoreSize : Option Quantity) (size : Option Int) :
    sizeChanges
      (if sizeChanges restoreSize size = true then size.map NewQuantity else restoreSize)
      size = false := by
  cases restoreSize with
  | none =>
    cases size with
    | none => simp [sizeChanges]
    | some n =>
      simp only [sizeChanges, if_true, Option.map_some', Quantity.IsZero, NewQuantity]
      by_cases hn : n = 0
      · subst hn; simp
      · simp [hn]
  | some q =>
    cases size with
    | none => simp [sizeChanges]
    | some n =>
      by_cases hc : sizeChanges (some q) (some n) = true
      · rw [if_pos hc]
        have hpos : n > 0 := by
          simp only [sizeChanges, Bool.and_eq_true, decide_eq_true_eq] at hc
          exact hc.2
        have hne : n ≠ 0 := by omega
        simp [sizeChanges, Quantity.IsZero, NewQuantity, hne]
      · rw [if_neg hc]
        simpa using hc

/-- Running the status computation on its own result changes nothing. -/
theorem computeStatus_fixed_point (stored : Option VolumeSnapshotStatus) (v : ContentView) :
    computeStatus (some (computeStatus stored v).1) v = ((computeStatus stored v).1, false) := by
  obtain ⟨hb, hc, hr, hs, -⟩ := computeStatus_fields stored v
  generalize (computeStatus stored v).1 = st at hb hc hr hs
  have h1 : setBoundContentName v (st, false) = (st, false) := by
    unfold setBoundContentName
    rw [if_neg (by rw [hb]; exact Option.some_ne_none _)]
  have h2 : setCreationTime v (st, false) = (st, false) := by
    unfold setCreationTime
    rw [if_neg]
    rintro ⟨hct, hv⟩
    dsimp only at hct
    rw [hc] at hct
    cases hsc : stored.bind (fun st => st.CreationTime) with
    | none => rw [hsc] at hct; exact hv hct
    | some t => rw [hsc] at hct; exact Option.noConfusion hct
  have h3 : setReadyToUse v (st, false) = (st, false) := by
    unfold setReadyToUse
    rw [if_neg]
    dsimp only
    rw [hr]
    simp
  have h4 : setRestoreSize v (st, false) = (st, false) := by
    unfold setRestoreSize
    rw [if_neg]
    dsimp only
    rw [hs, sizeChanges_after]
    simp
  simp only [computeStatus, mergeStatus, h1, h2, h3, h4]

/-- When the request held by the API server needs no change, `updateSnapshotStatus`
sends nothing. -/
theorem updateSnapshotStatus_no_write (snapshot : VolumeSnapshot)
    (content : VolumeSnapshotContent) (w : World)
    (h : ∀ obj, findSnapshot snapshot.Namespace snapshot.Name w.snapshots = some obj →
      (computeStatus obj.Status (contentView content)).2 = false) :
    (updateSnapshotStatus snapshot content w).2.writes = w.writes := by
  unfold updateSnapshotStatus
  obtain ⟨hgw, -, hgs⟩ := SnapshotsGet_frame snapshot.Namespace snapshot.Name w
  generalize SnapshotsGet snapshot.Namespace snapshot.Name w = res at hgw hgs ⊢
  obtain ⟨r, w1⟩ := res
  cases r with
  | error err => exact hgw
  | ok snapshotObj =>
    dsimp only
    rw [if_neg (by rw [h snapshotObj (hgs snapshotObj rfl)]; simp)]
    exact hgw

/-- C11: the status propagation is idempotent.  When `updateSnapshotStatus`
computes s' from a stored status and a content, computing again from s' and
the same content gives s' with `updated` false, and `updateSnapshotStatus` on
a request stored with status s' sends no UpdateStatus (no write at all),
whatever the outcome of its calls. -/
theorem updateSnapshotStatus_idempotent (stored : Option VolumeSnapshotStatus)
    (content : VolumeSnapshotContent) (snapshot obj : VolumeSnapshot) (w : World) :
    computeStatus (some (computeStatus stored (contentView content)).1) (contentView content) =
      ((computeStatus stored (contentView content)).1, false) ∧
    (findSnapshot snapshot.Namespace snapshot.Name w.snapshots = some obj →
      obj.Status = some (computeStatus stored (contentView content)).1 →
      (updateSnapshotStatus snapshot content w).2.writes = w.writes) := by
  refine ⟨computeStatus_fixed_point stored (contentView content), ?_⟩
  intro hfind hst
  apply updateSnapshotStatus_no_write
  intro obj2 hfind2
  rw [hfind] at hfind2
  cases hfind2
  rw [hst, computeStatus_fixed_point]

/-! ### Idempotence of the binding -/

theorem ContentsUpdate_ok (c r : VolumeSnapshotContent) (w w1 : World)
    (h : ContentsUpdate c w = (Except.ok r, w1)) : r = c := by
  unfold ContentsUpdate World.nextOutcome at h
  dsimp only at h
  cases hl : w.apiOutcomes with
  | nil =>
    rw [hl] at h
    dsimp only at h
    split at h <;> simp at h
    exact h.1.symm
  | cons o rest =>
    rw [hl] at h
    cases o with
    | some e => simp at h
    | none =>
      dsimp only at h
      split at h <;> simp at h
      exact h.1.symm

theorem bindClone_class (snapshot : VolumeSnapshot) (content : VolumeSnapshotContent) :
    (bindClone snapshot content).Spec.VolumeSnapshotClassName =
      (match snapshot.Spec.VolumeSnapshotClassName with
       | some className => some className
       | none => content.Spec.VolumeSnapshotClassName) := by
  unfold bindClone
  cases snapshot.Spec.VolumeSnapshotClassName <;> rfl

theorem bindClone_idem (snapshot : VolumeSnapshot) (content : VolumeSnapshotContent) :
    bindClone snapshot (bindClone snapshot content) = bindClone snapshot content := by
  unfold bindClone
  cases snapshot.Spec.VolumeSnapshotClassName <;> rfl

/-- What a successful `checkandBindSnapshotContent` returns: the content itself
when it is stamped already (UID of the request and a class name), else the
stamped copy. -/
theorem checkandBindSnapshotContent_ok (snapshot : VolumeSnapshot)
    (content r : VolumeSnapshotContent) (w w1 : World)
    (h : checkandBindSnapshotContent snapshot content w = (Res.ok r, w1)) :
    content.Spec.VolumeSnapshotRef.Name = snapshot.Name ∧
    ((r = content ∧ content.Spec.VolumeSnapshotRef.UID = snapshot.UID ∧
        content.Spec.VolumeSnapshotRef.UID ≠ "" ∧
        content.Spec.VolumeSnapshotClassName ≠ none) ∨
      r = bindClone snapshot content) := by
  unfold checkandBindSnapshotContent at h
  split_ifs at h with h1 h2 h3
  · simp at h
  · simp at h
  · simp only [Prod.mk.injEq, Res.ok.injEq] at h
    refine ⟨not_not.mp h1, Or.inl ⟨h.1.symm, ?_, h3.1, h3.2⟩⟩
    by_contra hne
    exact h2 ⟨h3.1, hne⟩
  · refine ⟨not_not.mp h1, Or.inr ?_⟩
    dsimp only at h
    generalize hU : ContentsUpdate (bindClone snapshot content) w = res at h
    obtain ⟨ru, wu⟩ := res
    cases ru with
    | error err => simp at h
    | ok newContent =>
      have := ContentsUpdate_ok _ _ _ _ hU
      dsimp only at h
      generalize storeContentUpdate newContent wu = res2 at h
      obtain ⟨rs, ws⟩ := res2
      cases rs with
      | some e => simp at h
      | none =>
        simp only [Prod.mk.injEq, Res.ok.injEq] at h
        rw [← h.1, this]

/-- A content that names the request and carries its UID but no class name is
submitted again: one Update of the stamped copy. -/
theorem checkandBindSnapshotContent_without_class (snapshot : VolumeSnapshot)
    (content : VolumeSnapshotContent) (w : World)
    (hname : content.Spec.VolumeSnapshotRef.Name = snapshot.Name)
    (hu : content.Spec.VolumeSnapshotRef.UID = snapshot.UID)
    (hc : content.Spec.VolumeSnapshotClassName = none) :
    (checkandBindSnapshotContent snapshot content w).2.writes =
      w.writes ++ [Write.ContentUpdate (bindClone snapshot content)] := by
  unfold checkandBindSnapshotContent
  rw [if_neg (by simp [hname]), if_neg (by simp [hu]), if_neg (by simp [hc])]
  have hw := ContentsUpdate_writes (bindClone snapshot content) w
  dsimp only
  generalize ContentsUpdate (bindClone snapshot content) w = res at hw ⊢
  obtain ⟨r, w1⟩ := res
  cases r with
  | error err => exact hw
  | ok c =>
    dsimp only at hw ⊢
    have hs := (storeContentUpdate_frame c w1).1
    generalize storeContentUpdate c w1 = res3 at hs ⊢
    obtain ⟨r3, w3⟩ := res3
    cases r3 <;> (dsimp only at hs ⊢; rw [hs, hw])

/-- C12, amended: when `checkandBindSnapshotContent` succeeds for a request
with a non-empty UID and the request or the content carries a snapshot-class
name, calling it again with the same request and the content it returned
returns that content and changes nothing (no Update).  When neither the
request nor the content carries a snapshot-class name, the second call sends
exactly one more Update, which submits the returned content unchanged.  In
every case a second call sends at most one Update, of the returned content. -/
theorem checkandBind_idempotent_with_class (snapshot : VolumeSnapshot)
    (content r : VolumeSnapshotContent) (w w1 w2 : World)
    (hok : checkandBindSnapshotContent snapshot content w = (Res.ok r, w1))
    (huid : snapshot.UID ≠ "") :
    ((snapshot.Spec.VolumeSnapshotClassName ≠ none ∨
        content.Spec.VolumeSnapshotClassName ≠ none) →
      checkandBindSnapshotContent snapshot r w2 = (Res.ok r, w2)) ∧
    ((checkandBindSnapshotContent snapshot r w2).2.writes = w2.writes ∨
      (checkandBindSnapshotContent snapshot r w2).2.writes =
        w2.writes ++ [Write.ContentUpdate r]) ∧
    (snapshot.Spec.VolumeSnapshotClassName = none →
      content.Spec.VolumeSnapshotClassName = none →
      (checkandBindSnapshotContent snapshot r w2).2.writes =
        w2.writes ++ [Write.ContentUpdate r]) := by
  obtain ⟨hname, hr⟩ := checkandBindSnapshotContent_ok snapshot content r w w1 hok
  have hstamped : ∀ c : VolumeSnapshotContent, c.Spec.VolumeSnapshotRef.Name = snapshot.Name →
      c.Spec.VolumeSnapshotRef.UID = snapshot.UID → c.Spec.VolumeSnapshotClassName ≠ none →
      checkandBindSnapshotContent snapshot c w2 = (Res.ok c, w2) := by
    intro c hn hu hc
    unfold checkandBindSnapshotContent
    rw [if_neg (by simp [hn]), if_neg (by simp [hu]), if_pos ⟨by rw [hu]; exact huid, hc⟩]
  obtain ⟨-, hcu, hcn, -⟩ := bindClone_fields snapshot content
  constructor
  · intro hclass
    rcases hr with ⟨hrc, hu, -, hc⟩ | hrc
    · rw [hrc]; exact hstamped content hname hu hc
    · rw [hrc]
      apply hstamped _ (hcn.trans hname) hcu
      rw [bindClone_class]
      rcases hclass with hs | hc
      · cases hcls : snapshot.Spec.VolumeSnapshotClassName with
        | none => exact absurd hcls hs
        | some cn => exact Option.some_ne_none _
      · cases hcls : snapshot.Spec.VolumeSnapshotClassName with
        | none => exact hc
        | some cn => exact Option.some_ne_none _
  constructor
  · rcases hr with ⟨hrc, hu, -, hc⟩ | hrc
    · left
      rw [hrc, hstamped content hname hu hc]
    · rcases checkandBindSnapshotContent_writes snapshot r w2 with hw | ⟨hw, -, -⟩
      · left; exact hw
      · right
        rw [hw, hrc, bindClone_idem]
  · intro hs hc
    rcases hr with ⟨-, -, -, hcc⟩ | hrc
    · exact absurd hc hcc
    · have hclass : r.Spec.VolumeSnapshotClassName = none := by
        rw [hrc, bindClone_class, hs]
        exact hc
      have := checkandBindSnapshotContent_without_class snapshot r w2
        (by rw [hrc]; exact hcn.trans hname) (by rw [hrc]; exact hcu) hclass
      rw [this]
      conv_lhs => rw [hrc, bindClone_idem]
      rw [hrc]

/-! ### Reconciling a content: the finalizer and the annotation -/

theorem ContentsUpdate_queue (c : VolumeSnapshotContent) (w : World) :
    (ContentsUpdate c w).2.snapshotQueue = w.snapshotQueue := by
  unfold ContentsUpdate World.nextOutcome
  dsimp only
  cases w.apiOutcomes with
  | nil => dsimp only; split <;> rfl
  | cons o rest => cases o <;> (dsimp only; try split) <;> rfl

theorem storeContentUpdate_queue (c : VolumeSnapshotContent) (w : World) :
    (storeContentUpdate c w).2.snapshotQueue = w.snapshotQueue := by
  unfold storeContentUpdate World.nextStoreOutcome
  cases w.storeOutcomes with
  | nil => simp
  | cons o rest => cases o <;> simp

theorem NeedToAddContentFinalizer_iff (content : VolumeSnapshotContent) :
    NeedToAddContentFinalizer content = true ↔
      content.DeletionTimestamp = none ∧ VolumeSnapshotContentFinalizer ∉ content.Finalizers := by
  simp [NeedToAddContentFinalizer, ContainsString]

/-- C15: for a content with no deletion timestamp that lacks the content
finalizer, `syncContent` sends exactly one write, the Update of the content
with the finalizer appended to its finalizer list and nothing else changed
(so no annotation is set), queues no request, and returns an error exactly
when that Update fails, success otherwise. -/
theorem syncContent_adds_finalizer (content : VolumeSnapshotContent) (w : World)
    (hts : content.DeletionTimestamp = none)
    (hfin : VolumeSnapshotContentFinalizer ∉ content.Finalizers) :
    (syncContent content w).2.writes = w.writes ++
      [Write.ContentUpdate { content with
        Finalizers := content.Finalizers ++ [VolumeSnapshotContentFinalizer] }] ∧
    (syncContent content w).2.snapshotQueue = w.snapshotQueue ∧
    ((∃ e, (syncContent content w).1 = Res.error e) ↔
      ∃ err, (ContentsUpdate { content with
        Finalizers := content.Finalizers ++ [VolumeSnapshotContentFinalizer] } w).1 =
          Except.error err) ∧
    ((syncContent content w).1 = Res.ok () ∨ ∃ e, (syncContent content w).1 = Res.error e) := by
  have hneed : NeedToAddContentFinalizer content = true :=
    (NeedToAddContentFinalizer_iff content).2 ⟨hts, hfin⟩
  have hsync : syncContent content w = addContentFinalizer content w := by
    unfold syncContent
    rw [if_pos hneed]
  rw [hsync]
  refine ⟨addContentFinalizer_writes content w, ?_, ?_, ?_⟩
  all_goals
    unfold addContentFinalizer
    have hq := ContentsUpdate_queue { content with
      Finalizers := content.Finalizers ++ [VolumeSnapshotContentFinalizer] } w
    dsimp only
    generalize ContentsUpdate { content with
      Finalizers := content.Finalizers ++ [VolumeSnapshotContentFinalizer] } w = res at hq ⊢
    obtain ⟨r, w1⟩ := res
    cases r with
    | error err => first | exact hq | simp
    | ok c =>
      dsimp only at hq ⊢
      first
        | (rw [storeContentUpdate_queue]; exact hq)
        | simp

theorem HasAnnotationKey_set (ann value : String) (l : List (String × String)) :
    HasAnnotationKey (SetMetaDataAnnotationKey ann value l) ann = true := by
  induction l with
  | nil => simp [SetMetaDataAnnotationKey, HasAnnotationKey]
  | cons kv rest ih =>
    obtain ⟨k, v⟩ := kv
    unfold SetMetaDataAnnotationKey
    by_cases hk : k = ann
    · rw [if_pos hk]; simp [HasAnnotationKey]
    · rw [if_neg hk]
      unfold HasAnnotationKey at ih ⊢
      simp only [List.any_cons, ih, Bool.or_true]

/-- The candidate test of `syncContent` (lines 118-143) is `CounterpartGone`. -/
theorem resolveSnapshot_candidate (content : VolumeSnapshotContent) (w : World) :
    (match (resolveSnapshot content w).1 with
     | none => true
     | some s => IsSnapshotDeletionCandidate s) = true ↔ CounterpartGone content w := by
  unfold resolveSnapshot CounterpartGone
  dsimp only
  cases snapshotStoreGetByKey (SnapshotRefKey content.Spec.VolumeSnapshotRef) w with
  | none => simp
  | some snapshot =>
    dsimp only
    by_cases hu : snapshot.UID ≠ content.Spec.VolumeSnapshotRef.UID
    · rw [if_pos hu]; simp [hu]
    · rw [if_neg hu]
      split_ifs <;> simp [hu]

/-- What `syncContent` sends, case by case. -/
theorem syncContent_writes_cases (content : VolumeSnapshotContent) (w : World) :
    (NeedToAddContentFinalizer content = true →
      (syncContent content w).2.writes = w.writes ++
        [Write.ContentUpdate { content with
          Finalizers := content.Finalizers ++ [VolumeSnapshotContentFinalizer] }]) ∧
    (NeedToAddContentFinalizer content = false →
      (content.Spec.VolumeSnapshotRef.UID ≠ "" ∧ CounterpartGone content w ∧
        HasAnnotationKey content.Annotations AnnVolumeSnapshotBeingDeleted = false) →
      (syncContent content w).2.writes = w.writes ++ [Write.ContentUpdate (annotated content)]) ∧
    (NeedToAddContentFinalizer content = false →
      ¬ (content.Spec.VolumeSnapshotRef.UID ≠ "" ∧ CounterpartGone content w ∧
        HasAnnotationKey content.Annotations AnnVolumeSnapshotBeingDeleted = false) →
      (syncContent content w).2.writes = w.writes) := by
  refine ⟨?_, ?_, ?_⟩
  · intro hneed
    unfold syncContent
    rw [if_pos hneed]
    exact addContentFinalizer_writes content w
  · rintro hneed ⟨huid, hgone, hann⟩
    have hcand := (resolveSnapshot_candidate content w).2 hgone
    unfold syncContent
    rw [if_neg (by simp [hneed]), if_neg huid]
    have hr := resolveSnapshot_writes content w
    generalize resolveSnapshot content w = res at hr hcand ⊢
    obtain ⟨snapshot, w1⟩ := res
    dsimp only at hr hcand ⊢
    rw [if_pos ⟨hcand, hann⟩]
    have hw := ContentsUpdate_writes (annotated content) w1
    unfold annotated at hw ⊢
    generalize ContentsUpdate { content with
      Annotations := SetMetaDataAnnotationKey AnnVolumeSnapshotBeingDeleted "yes"
        content.Annotations } w1 = res2 at hw ⊢
    obtain ⟨r, w2⟩ := res2
    cases r with
    | error err => dsimp only at hw ⊢; rw [hw, hr]
    | ok c =>
      dsimp only at hw ⊢
      have hs := (storeContentUpdate_frame c w2).1
      generalize storeContentUpdate c w2 = res3 at hs ⊢
      obtain ⟨r3, w3⟩ := res3
      cases r3 <;> (dsimp only at hs ⊢; rw [hs, hw, hr])
  · intro hneed hnot
    unfold syncContent
    rw [if_neg (by simp [hneed])]
    by_cases huid : content.Spec.VolumeSnapshotRef.UID = ""
    · rw [if_pos huid]
    · rw [if_neg huid]
      have hr := resolveSnapshot_writes content w
      have hc := resolveSnapshot_candidate content w
      generalize resolveSnapshot content w = res at hr hc ⊢
      obtain ⟨snapshot, w1⟩ := res
      dsimp only at hr hc ⊢
      rw [if_neg]
      · exact hr
      · rintro ⟨hcand, hann⟩
        exact hnot ⟨huid, hc.1 hcand, hann⟩

theorem append_singleton_ne_self {α : Type} (l : List α) (a : α) : l ++ [a] ≠ l := by
  intro h
  have := congrArg List.length h
  simp at this

/-- When `syncContent` sends the Update that sets the annotation. -/
theorem syncContent_annotates_cond (content : VolumeSnapshotContent) (w : World) :
    (syncContent content w).2.writes = w.writes ++ [Write.ContentUpdate (annotated content)] ↔
      (NeedToAddContentFinalizer content = false ∧
        content.Spec.VolumeSnapshotRef.UID ≠ "" ∧ CounterpartGone content w ∧
        HasAnnotationKey content.Annotations AnnVolumeSnapshotBeingDeleted = false) := by
  obtain ⟨h1, h2, h3⟩ := syncContent_writes_cases content w
  constructor
  · intro hw
    cases hneed : NeedToAddContentFinalizer content with
    | true =>
      rw [h1 hneed] at hw
      have heq := List.append_cancel_left hw
      simp only [List.cons.injEq, Write.ContentUpdate.injEq, and_true] at heq
      have hf := congrArg VolumeSnapshotContent.Finalizers heq
      simp [annotated] at hf
    | false =>
      refine ⟨rfl, ?_⟩
      by_contra hnot
      rw [h3 hneed hnot] at hw
      exact append_singleton_ne_self _ _ hw.symm
  · rintro ⟨hneed, hrest⟩
    exact h2 hneed hrest

/-- C16, amended: `syncContent` sends the Update that sets the
deletion-in-progress annotation exactly when the content does not need its
finalizer, has a non-empty back-reference UID, does not carry the annotation
yet, and its counterpart request is missing or is a deletion candidate; the
deletion policy of the content plays no part: the same content with any other
policy gets the annotation in the same cases. -/
theorem syncContent_annotates_iff (content : VolumeSnapshotContent) (w : World) :
    ((syncContent content w).2.writes = w.writes ++ [Write.ContentUpdate (annotated content)] ↔
      (NeedToAddContentFinalizer content = false ∧
        content.Spec.VolumeSnapshotRef.UID ≠ "" ∧ CounterpartGone content w ∧
        HasAnnotationKey content.Annotations AnnVolumeSnapshotBeingDeleted = false)) ∧
    (∀ policy : DeletionPolicy,
      ((syncContent { content with Spec := { content.Spec with DeletionPolicy := policy } }
          w).2.writes = w.writes ++ [Write.ContentUpdate (annotated
            { content with Spec := { content.Spec with DeletionPolicy := policy } })] ↔
        (syncContent content w).2.writes =
          w.writes ++ [Write.ContentUpdate (annotated content)])) := by
  refine ⟨syncContent_annotates_cond content w, fun policy => ?_⟩
  rw [syncContent_annotates_cond, syncContent_annotates_cond]
  exact Iff.rfl

/-- C17, amended: for a content that already carries the deletion-in-progress
annotation and does not need its finalizer (it has the finalizer or a
deletion timestamp), `syncContent` sends nothing; hence when a reconcile has
written the annotation, a second reconcile, on the content that write
returned and in whatever world, sends nothing: one annotation write in
total. -/
theorem syncContent_annotation_once (content : VolumeSnapshotContent) (w w2 : World) :
    (HasAnnotationKey content.Annotations AnnVolumeSnapshotBeingDeleted = true →
      NeedToAddContentFinalizer content = false →
      (syncContent content w).2.writes = w.writes) ∧
    ((syncContent content w).2.writes = w.writes ++ [Write.ContentUpdate (annotated content)] →
      (syncContent (annotated content) w2).2.writes = w2.writes) := by
  constructor
  · intro hann hneed
    apply (syncContent_writes_cases content w).2.2 hneed
    rintro ⟨-, -, hno⟩
    rw [hann] at hno
    exact Bool.noConfusion hno
  · intro hw
    obtain ⟨hneed, -⟩ := (syncContent_annotates_cond content w).1 hw
    have hneed2 : NeedToAddContentFinalizer (annotated content) = false := hneed
    apply (syncContent_writes_cases (annotated content) w2).2.2 hneed2
    rintro ⟨-, -, hno⟩
    have := HasAnnotationKey_set AnnVolumeSnapshotBeingDeleted "yes" content.Annotations
    unfold annotated at hno
    rw [this] at hno
    exact Bool.noConfusion hno

/-! ### Finalizers of a request -/

theorem SnapshotsUpdate_writes (s : VolumeSnapshot) (w : World) :
    (SnapshotsUpdate s w).2.writes = w.writes ++ [Write.SnapshotUpdate s] := by
  unfold SnapshotsUpdate World.nextOutcome
  dsimp only
  cases w.apiOutcomes with
  | nil =>
    dsimp only
    cases findSnapshot s.Namespace s.Name w.snapshots <;> rfl
  | cons o rest =>
    cases o with
    | some err => rfl
    | none =>
      dsimp only
      cases findSnapshot s.Namespace s.Name w.snapshots <;> rfl

theorem addSnapshotFinalizer_writes (snapshot : VolumeSnapshot)
    (addSourceFinalizer addBoundFinalizer : Bool) (w : World) :
    (addSnapshotFinalizer snapshot addSourceFinalizer addBoundFinalizer w).2.writes =
      w.writes ++ [Write.SnapshotUpdate { snapshot with
        Finalizers := finalizersAfterAddition snapshot.Finalizers addSourceFinalizer
          addBoundFinalizer }] := by
  unfold addSnapshotFinalizer
  dsimp only
  have hw := SnapshotsUpdate_writes { snapshot with
    Finalizers := finalizersAfterAddition snapshot.Finalizers addSourceFinalizer
      addBoundFinalizer } w
  generalize SnapshotsUpdate { snapshot with
    Finalizers := finalizersAfterAddition snapshot.Finalizers addSourceFinalizer
      addBoundFinalizer } w = res at hw ⊢
  obtain ⟨r, w1⟩ := res
  cases r with
  | error err => exact hw
  | ok c =>
    dsimp only at hw ⊢
    rw [(storeSnapshotUpdate_frame _ w1).1, hw]

theorem removeSnapshotFinalizer_writes (snapshot : VolumeSnapshot)
    (removeSourceFinalizer removeBoundFinalizer : Bool) (w : World) :
    (removeSnapshotFinalizer snapshot removeSourceFinalizer removeBoundFinalizer w).2.writes =
      if removeSourceFinalizer = false ∧ removeBoundFinalizer = false then w.writes
      else w.writes ++ [Write.SnapshotUpdate { snapshot with
        Finalizers := finalizersAfterRemoval snapshot.Finalizers removeSourceFinalizer
          removeBoundFinalizer }] := by
  unfold removeSnapshotFinalizer
  by_cases h : removeSourceFinalizer = false ∧ removeBoundFinalizer = false
  · rw [if_pos h, if_pos h]
  · rw [if_neg h, if_neg h]
    dsimp only
    have hw := SnapshotsUpdate_writes { snapshot with
      Finalizers := finalizersAfterRemoval snapshot.Finalizers removeSourceFinalizer
        removeBoundFinalizer } w
    generalize SnapshotsUpdate { snapshot with
      Finalizers := finalizersAfterRemoval snapshot.Finalizers removeSourceFinalizer
        removeBoundFinalizer } w = res at hw ⊢
    obtain ⟨r, w1⟩ := res
    cases r with
    | error err => exact hw
    | ok c =>
      dsimp only at hw ⊢
      rw [(storeSnapshotUpdate_frame _ w1).1, hw]

theorem ContainsString_iff (list : List String) (s : String) :
    ContainsString list s = true ↔ s ∈ list := by
  simp [ContainsString]

/-- C18: `checkandAddSnapshotFinalizers` adds the as-source finalizer exactly
when the request has no deletion timestamp and does not have it yet, and the
bound finalizer exactly when `snapshotBound` and `deleteContent` hold and the
request does not have it yet; when neither is to be added it sends nothing,
otherwise it sends exactly one write, the Update of the request whose
finalizer list is the existing one with the additions appended (as-source
first). -/
theorem checkandAddSnapshotFinalizers_additions (snapshot : VolumeSnapshot)
    (snapshotBound deleteContent : Bool) (w : World) :
    (checkandAddSnapshotFinalizers snapshot snapshotBound deleteContent w).writes =
      if (snapshot.DeletionTimestamp = none ∧
            VolumeSnapshotAsSourceFinalizer ∉ snapshot.Finalizers) ∨
          (snapshotBound = true ∧ deleteContent = true ∧
            VolumeSnapshotBoundFinalizer ∉ snapshot.Finalizers) then
        w.writes ++ [Write.SnapshotUpdate { snapshot with
          Finalizers := snapshot.Finalizers ++
            (if snapshot.DeletionTimestamp = none ∧
                VolumeSnapshotAsSourceFinalizer ∉ snapshot.Finalizers
              then [VolumeSnapshotAsSourceFinalizer] else []) ++
            (if snapshotBound = true ∧ deleteContent = true ∧
                VolumeSnapshotBoundFinalizer ∉ snapshot.Finalizers
              then [VolumeSnapshotBoundFinalizer] else []) }]
      else w.writes := by
  have hs : NeedToAddSnapshotAsSourceFinalizer snapshot = true ↔
      (snapshot.DeletionTimestamp = none ∧
        VolumeSnapshotAsSourceFinalizer ∉ snapshot.Finalizers) := by
    simp [NeedToAddSnapshotAsSourceFinalizer, ContainsString]
  have hb : (NeedToAddSnapshotBoundFinalizer snapshot && snapshotBound && deleteContent) = true ↔
      (snapshotBound = true ∧ deleteContent = true ∧
        VolumeSnapshotBoundFinalizer ∉ snapshot.Finalizers) := by
    simp only [NeedToAddSnapshotBoundFinalizer, ContainsString, Bool.and_eq_true,
      Bool.not_eq_true', decide_eq_false_iff_not]
    tauto
  unfold checkandAddSnapshotFinalizers
  dsimp only
  generalize NeedToAddSnapshotAsSourceFinalizer snapshot = addSource at hs ⊢
  generalize (NeedToAddSnapshotBoundFinalizer snapshot && snapshotBound && deleteContent) =
    addBound at hb ⊢
  simp only [← hs, ← hb]
  by_cases h : addSource = true ∨ addBound = true
  · rw [if_pos h, if_pos h, addSnapshotFinalizer_writes]
    unfold finalizersAfterAddition
    cases addSource <;> cases addBound <;> simp
  · rw [if_neg h, if_neg h]

/-! ### Pre-deletion housekeeping -/

theorem WritesOnly.of_eq {P : Write → Prop} {w1 w2 : World} (h : w2.writes = w1.writes) :
    WritesOnly P w1 w2 :=
  ⟨[], by simp [h], by simp⟩

theorem WritesOnly.single {P : Write → Prop} {w1 w2 : World} (x : Write)
    (h : w2.writes = w1.writes ++ [x]) (hx : P x) : WritesOnly P w1 w2 :=
  ⟨[x], h, by simpa using hx⟩

theorem WritesOnly.append {P : Write → Prop} {w1 w2 w3 : World}
    (h12 : WritesOnly P w1 w2) (h23 : WritesOnly P w2 w3) : WritesOnly P w1 w3 := by
  obtain ⟨a, ha, hpa⟩ := h12
  obtain ⟨b, hb, hpb⟩ := h23
  refine ⟨a ++ b, by rw [hb, ha, List.append_assoc], ?_⟩
  intro x hx
  rcases List.mem_append.1 hx with h | h
  · exact hpa x h
  · exact hpb x h

theorem ContentsDelete_writes (name : String) (w : World) :
    (ContentsDelete name w).2.writes = w.writes ++ [Write.ContentDelete name] := by
  unfold ContentsDelete World.nextOutcome
  dsimp only
  cases w.apiOutcomes with
  | nil =>
    dsimp only
    cases findContent name w.contents <;> rfl
  | cons o rest =>
    cases o with
    | some err => rfl
    | none =>
      dsimp only
      cases findContent name w.contents <;> rfl

theorem PVCsUpdate_writes (pvc : PersistentVolumeClaim) (w : World) :
    (PVCsUpdate pvc w).2.writes = w.writes ++ [Write.PVCUpdate pvc] := by
  unfold PVCsUpdate World.nextOutcome
  dsimp only
  cases w.apiOutcomes with
  | nil =>
    dsimp only
    cases findPVC pvc.Namespace pvc.Name w.pvcs <;> rfl
  | cons o rest =>
    cases o with
    | some err => rfl
    | none =>
      dsimp only
      cases findPVC pvc.Namespace pvc.Name w.pvcs <;> rfl

theorem checkandRemovePVCFinalizer_writes (snapshot : VolumeSnapshot) (w : World) :
    (checkandRemovePVCFinalizer snapshot w).2.writes = w.writes ∨
    ∃ pvc, (checkandRemovePVCFinalizer snapshot w).2.writes = w.writes ++ [Write.PVCUpdate pvc] := by
  unfold checkandRemovePVCFinalizer
  split_ifs with h1
  · exact Or.inl rfl
  · cases getClaimFromVolumeSnapshot snapshot w with
    | error e => exact Or.inl rfl
    | ok pvc =>
      dsimp only
      split_ifs with h2
      · right
        unfold removePVCFinalizer
        dsimp only
        have hw := PVCsUpdate_writes { pvc with
          Finalizers := RemoveString pvc.Finalizers PVCFinalizer } w
        generalize PVCsUpdate { pvc with
          Finalizers := RemoveString pvc.Finalizers PVCFinalizer } w = res at hw ⊢
        obtain ⟨r, w1⟩ := res
        cases r <;> exact ⟨_, hw⟩
      · exact Or.inl rfl

theorem isVolumeBeingCreatedFromSnapshotLoop_pending (snapshot : VolumeSnapshot)
    (l : List PersistentVolumeClaim) (pvc : PersistentVolumeClaim) (hmem : pvc ∈ l)
    (hpvc : RestoresFrom pvc snapshot) :
    isVolumeBeingCreatedFromSnapshotLoop snapshot l = Res.ok true ∨
    ∃ p, isVolumeBeingCreatedFromSnapshotLoop snapshot l = Res.panic p := by
  induction l with
  | nil => exact absurd hmem (List.not_mem_nil _)
  | cons x rest ih =>
    obtain ⟨hphase, ds, hds, hname, hkind, hgroup⟩ := hpvc
    by_cases hx : x = pvc
    · subst hx
      unfold isVolumeBeingCreatedFromSnapshotLoop
      rw [hds]
      dsimp only
      rw [if_pos hname, if_pos hkind, hgroup]
      dsimp only
      rw [if_pos ⟨rfl, hphase⟩]
      exact Or.inl rfl
    · have hrest : pvc ∈ rest := by
        rcases List.mem_cons.1 hmem with h | h
        · exact absurd h.symm hx
        · exact h
      have ih := ih hrest
      unfold isVolumeBeingCreatedFromSnapshotLoop
      cases x.DataSource with
      | none => exact ih
      | some d =>
        dsimp only
        split_ifs
        · cases d.APIGroup with
          | none => exact Or.inr ⟨_, rfl⟩
          | some g =>
            dsimp only
            split_ifs
            · exact Or.inl rfl
            · exact ih
        · exact ih
        · exact ih

theorem isVolumeBeingCreatedFromSnapshotLoop_none (snapshot : VolumeSnapshot)
    (l : List PersistentVolumeClaim) (h : NoRestoreInProgress snapshot l) :
    isVolumeBeingCreatedFromSnapshotLoop snapshot l = Res.ok false := by
  induction l with
  | nil => rfl
  | cons x rest ih =>
    have ih := ih (fun pvc hp => h pvc (List.mem_cons_of_mem _ hp))
    have hx := h x (List.mem_cons_self _ _)
    unfold isVolumeBeingCreatedFromSnapshotLoop
    cases hd : x.DataSource with
    | none => exact ih
    | some d =>
      dsimp only
      split_ifs with hname hkind
      · obtain ⟨g, hg, hno⟩ := hx d hd hname hkind
        rw [hg]
        dsimp only
        rw [if_neg hno]
        exact ih
      · exact ih
      · exact ih

theorem checkandAddSnapshotFinalizers_keeps (snapshot : VolumeSnapshot)
    (snapshotBound deleteContent : Bool) (w : World) :
    WritesOnly (KeepsFinalizers snapshot) w
      (checkandAddSnapshotFinalizers snapshot snapshotBound deleteContent w) := by
  unfold checkandAddSnapshotFinalizers
  dsimp only
  split_ifs with h
  · refine WritesOnly.single _ (addSnapshotFinalizer_writes snapshot _ _ w) ⟨?_, ?_⟩
    · intro name hn
      exact Write.noConfusion hn
    · intro s hs f hf
      have hs := Write.SnapshotUpdate.inj hs
      rw [← hs]
      unfold finalizersAfterAddition
      dsimp only
      split_ifs <;> simp [hf]
  · exact WritesOnly.of_eq rfl

theorem checkandRemovePVCFinalizer_keeps (snapshot : VolumeSnapshot) (w : World) :
    WritesOnly (KeepsFinalizers snapshot) w (checkandRemovePVCFinalizer snapshot w).2 := by
  rcases checkandRemovePVCFinalizer_writes snapshot w with h | ⟨pvc, h⟩
  · exact WritesOnly.of_eq h
  · refine WritesOnly.single _ h ⟨?_, ?_⟩
    · intro name hn
      exact Write.noConfusion hn
    · intro s hs
      exact Write.noConfusion hs

/-- After the removal step, the housekeeping only adds finalizers to the request
and may update the volume claim. -/
theorem housekeeping_rest_keeps (snapshot : VolumeSnapshot)
    (content : VolumeSnapshotContent) (w : World)
    (hc : contentExists snapshot w = some content)
    (h : WritesOnly (KeepsFinalizers snapshot) w
      (checkandRemoveSnapshotFinalizersAndCheckandDeleteContent snapshot (some content)
        (decide (content.Spec.DeletionPolicy = DeletionPolicy.Delete)) w).2) :
    WritesOnly (KeepsFinalizers snapshot) w
      (processFinalizersAndCheckandDeleteContent snapshot w).2 := by
  unfold processFinalizersAndCheckandDeleteContent
  dsimp only
  rw [hc]
  dsimp only
  generalize checkandRemoveSnapshotFinalizersAndCheckandDeleteContent snapshot (some content)
    (decide (content.Spec.DeletionPolicy = DeletionPolicy.Delete)) w = res at h ⊢
  obtain ⟨r, w1⟩ := res
  cases r with
  | panic p => exact h
  | error e => exact h
  | ok u =>
    dsimp only at h ⊢
    have h2 := checkandAddSnapshotFinalizers_keeps snapshot (IsSnapshotBound snapshot content)
      (decide (content.Spec.DeletionPolicy = DeletionPolicy.Delete)) w1
    generalize checkandAddSnapshotFinalizers snapshot (IsSnapshotBound snapshot content)
      (decide (content.Spec.DeletionPolicy = DeletionPolicy.Delete)) w1 = w2 at h2 ⊢
    have h3 := checkandRemovePVCFinalizer_keeps snapshot w2
    generalize checkandRemovePVCFinalizer snapshot w2 = res3 at h3 ⊢
    obtain ⟨r3, w3⟩ := res3
    cases r3 with
    | none => exact (h.append h2).append h3
    | some e => exact ((h.append h2).append h3).append (WritesOnly.of_eq rfl)

/-- C20: when the content of a request is in the cache and some volume claim
listed in the request's namespace is in Pending phase with a data source that
names the request (name, kind, API group), the pre-deletion housekeeping of
`syncSnapshot` sends no Delete of a content, and every Update of the request
it sends keeps all the finalizers of the request; this holds for a request
marked for deletion and for any other. -/
theorem deletion_deferred_during_restore (snapshot : VolumeSnapshot)
    (content : VolumeSnapshotContent) (pvc : PersistentVolumeClaim) (w : World)
    (hcontent : contentExists snapshot w = some content)
    (hmem : pvc ∈ pvcListerList snapshot.Namespace w)
    (hpvc : RestoresFrom pvc snapshot) :
    WritesOnly (KeepsFinalizers snapshot) w
      (processFinalizersAndCheckandDeleteContent snapshot w).2 := by
  apply housekeeping_rest_keeps snapshot content w hcontent
  apply WritesOnly.of_eq
  unfold checkandRemoveSnapshotFinalizersAndCheckandDeleteContent
  split_ifs with hcand
  · unfold isVolumeBeingCreatedFromSnapshot
    rcases isVolumeBeingCreatedFromSnapshotLoop_pending snapshot _ pvc hmem hpvc with
      h | ⟨p, h⟩
    · rw [h]
      simp
    · rw [h]
  · rfl

theorem mem_RemoveString (slice : List String) (s f : String) :
    f ∈ RemoveString slice s ↔ f ∈ slice ∧ f ≠ s := by
  simp [RemoveString]

/-- C19, amended: for a request that is a deletion candidate, whose content is in
the cache with deletion policy Delete, and with no volume claim being restored
from it, the pre-deletion housekeeping of `syncSnapshot` first sends a Delete
for the content; when that Delete fails it sends nothing more, and when it
succeeds the next write is an Update of the request from which only the
as-source finalizer has been removed, and no write after it is a Delete or an
Update of the request that drops one of its finalizers: the bound finalizer,
like any other, is kept while the content is in the cache. -/
theorem deletion_without_restore (snapshot : VolumeSnapshot)
    (content : VolumeSnapshotContent) (w : World)
    (hcand : IsSnapshotDeletionCandidate snapshot = true)
    (hcontent : contentExists snapshot w = some content)
    (hpolicy : content.Spec.DeletionPolicy = DeletionPolicy.Delete)
    (hnone : NoRestoreInProgress snapshot (pvcListerList snapshot.Namespace w)) :
    (∃ rest, (processFinalizersAndCheckandDeleteContent snapshot w).2.writes =
        w.writes ++ Write.ContentDelete content.Name :: rest ∧
      ((ContentsDelete content.Name w).1 = none →
        ∃ rest2, rest = Write.SnapshotUpdate { snapshot with
          Finalizers := RemoveString snapshot.Finalizers VolumeSnapshotAsSourceFinalizer } ::
            rest2 ∧ ∀ x ∈ rest2, KeepsFinalizers snapshot x) ∧
      ((ContentsDelete content.Name w).1 ≠ none → rest = [])) ∧
    (∀ f, f ∈ RemoveString snapshot.Finalizers VolumeSnapshotAsSourceFinalizer ↔
      f ∈ snapshot.Finalizers ∧ f ≠ VolumeSnapshotAsSourceFinalizer) := by
  refine ⟨?_, fun f => mem_RemoveString _ _ f⟩
  unfold processFinalizersAndCheckandDeleteContent
  dsimp only
  rw [hcontent]
  dsimp only
  unfold checkandRemoveSnapshotFinalizersAndCheckandDeleteContent
  rw [if_pos hcand]
  unfold isVolumeBeingCreatedFromSnapshot
  rw [isVolumeBeingCreatedFromSnapshotLoop_none snapshot _ hnone]
  dsimp only
  rw [if_pos ⟨by simp [hpolicy], rfl⟩]
  have hw := ContentsDelete_writes content.Name w
  generalize ContentsDelete content.Name w = res at hw ⊢
  obtain ⟨r, w1⟩ := res
  cases r with
  | some err =>
    refine ⟨[], ?_, ?_, fun _ => rfl⟩
    · exact hw
    · intro h
      exact Option.noConfusion h
  | none =>
    dsimp only at hw ⊢
    rw [if_pos (Or.inl rfl)]
    have hr := removeSnapshotFinalizer_writes snapshot (!false) (some content).isNone w1
    rw [if_neg (by simp)] at hr
    have hfin : finalizersAfterRemoval snapshot.Finalizers (!false) (some content).isNone =
        RemoveString snapshot.Finalizers VolumeSnapshotAsSourceFinalizer := rfl
    rw [hfin] at hr
    generalize removeSnapshotFinalizer snapshot (!false) (some content).isNone w1 = res2 at hr ⊢
    obtain ⟨r2, w2⟩ := res2
    dsimp only at hr
    cases r2 with
    | panic p =>
      refine ⟨_, ?_, fun _ => ⟨[], rfl, fun x hx => absurd hx (List.not_mem_nil x)⟩,
        fun h => absurd rfl h⟩
      dsimp only
      rw [hr, hw, List.append_assoc]
      rfl
    | error e =>
      refine ⟨_, ?_, fun _ => ⟨[], rfl, fun x hx => absurd hx (List.not_mem_nil x)⟩,
        fun h => absurd rfl h⟩
      dsimp only
      rw [hr, hw, List.append_assoc]
      rfl
    | ok u =>
      dsimp only
      obtain ⟨a2, h2, hk2⟩ := checkandAddSnapshotFinalizers_keeps snapshot
        (IsSnapshotBound snapshot content)
        (decide (content.Spec.DeletionPolicy = DeletionPolicy.Delete)) w2
      generalize checkandAddSnapshotFinalizers snapshot (IsSnapshotBound snapshot content)
        (decide (content.Spec.DeletionPolicy = DeletionPolicy.Delete)) w2 = w3 at h2 ⊢
      obtain ⟨a3, h3, hk3⟩ := checkandRemovePVCFinalizer_keeps snapshot w3
      generalize checkandRemovePVCFinalizer snapshot w3 = res4 at h3 ⊢
      obtain ⟨r4, w4⟩ := res4
      dsimp only at h3
      have hall : w4.writes = w.writes ++ Write.ContentDelete content.Name ::
          (Write.SnapshotUpdate { snapshot with
            Finalizers := RemoveString snapshot.Finalizers VolumeSnapshotAsSourceFinalizer } ::
              (a2 ++ a3)) := by
        rw [h3, h2, hr, hw]
        simp
      have hkeep : ∀ x ∈ a2 ++ a3, KeepsFinalizers snapshot x := by
        intro x hx
        rcases List.mem_append.1 hx with hx | hx
        · exact hk2 x hx
        · exact hk3 x hx
      cases r4 with
      | none => exact ⟨_, hall, fun _ => ⟨_, rfl, hkeep⟩, fun h => absurd rfl h⟩
      | some e => exact ⟨_, hall, fun _ => ⟨_, rfl, hkeep⟩, fun h => absurd rfl h⟩

/-! ### The statements of binding, finalizers and deletion at concrete objects -/

/-- C12, counterexample: the request `exRequest` and the content `X` carry no
snapshot-class name; binding succeeds with one Update, and binding again with
the content it returned sends that Update a second time. -/
theorem bind_again_updates_without_class :
    exRequest.Spec.VolumeSnapshotClassName = none ∧
    exContentX.Spec.VolumeSnapshotClassName = none ∧
    checkandBindSnapshotContent exRequest exContentX exWorld =
      (Res.ok (bindClone exRequest exContentX),
        (checkandBindSnapshotContent exRequest exContentX exWorld).2) ∧
    (checkandBindSnapshotContent exRequest (bindClone exRequest exContentX)
        (checkandBindSnapshotContent exRequest exContentX exWorld).2).2.writes =
      [Write.ContentUpdate (bindClone exRequest exContentX),
       Write.ContentUpdate (bindClone exRequest exContentX)] := by
  decide

/-- C12, amended, at the request `exRequestGold` (class `gold`) and the content
`X`: the second call returns the content of the first and leaves the world as
it is. -/
theorem checkandBind_idempotent_with_class_witness :
    checkandBindSnapshotContent exRequestGold exContentX exWorldGold =
      (Res.ok (bindClone exRequestGold exContentX),
        (checkandBindSnapshotContent exRequestGold exContentX exWorldGold).2) ∧
    exRequestGold.UID ≠ "" ∧
    checkandBindSnapshotContent exRequestGold (bindClone exRequestGold exContentX)
        (checkandBindSnapshotContent exRequestGold exContentX exWorldGold).2 =
      (Res.ok (bindClone exRequestGold exContentX),
        (checkandBindSnapshotContent exRequestGold exContentX exWorldGold).2) :=
  ⟨by decide, by decide,
    (checkandBind_idempotent_with_class exRequestGold exContentX
      (bindClone exRequestGold exContentX) exWorldGold
      (checkandBindSnapshotContent exRequestGold exContentX exWorldGold).2
      (checkandBindSnapshotContent exRequestGold exContentX exWorldGold).2
      (by decide) (by decide)).1 (Or.inl (by decide))⟩

/-- C15 at the content `exContentNoFinalizer`: one Update, with the finalizer
appended, and success. -/
theorem syncContent_adds_finalizer_witness :
    exContentNoFinalizer.DeletionTimestamp = none ∧
    VolumeSnapshotContentFinalizer ∉ exContentNoFinalizer.Finalizers ∧
    (syncContent exContentNoFinalizer exWorldNoFinalizer).2.writes =
      exWorldNoFinalizer.writes ++
        [Write.ContentUpdate { exContentNoFinalizer with
          Finalizers := exContentNoFinalizer.Finalizers ++ [VolumeSnapshotContentFinalizer] }] ∧
    (syncContent exContentNoFinalizer exWorldNoFinalizer).2.snapshotQueue =
      exWorldNoFinalizer.snapshotQueue :=
  ⟨rfl, by decide,
    (syncContent_adds_finalizer exContentNoFinalizer exWorldNoFinalizer rfl (by decide)).1,
    (syncContent_adds_finalizer exContentNoFinalizer exWorldNoFinalizer rfl (by decide)).2.1⟩

/-- C16, counterexample: the content `exContentRetain` has the deletion policy
Retain, its finalizer, and a back-reference to a request that is not in the
cache; `syncContent` sends the Update that sets the deletion-in-progress
annotation on it. -/
theorem retain_content_gets_annotation :
    exContentRetain.Spec.DeletionPolicy = DeletionPolicy.Retain ∧
    HasAnnotationKey exContentRetain.Annotations AnnVolumeSnapshotBeingDeleted = false ∧
    (syncContent exContentRetain exWorldRetain).2.writes =
      [Write.ContentUpdate (annotated exContentRetain)] ∧
    HasAnnotationKey (annotated exContentRetain).Annotations
      AnnVolumeSnapshotBeingDeleted = true := by
  decide

/-- C17, counterexample: the content `exContentAnnotated` carries the
deletion-in-progress annotation but not its finalizer; `syncContent` sends an
Update of it, the one that adds the finalizer. -/
theorem annotated_content_still_updated :
    HasAnnotationKey exContentAnnotated.Annotations AnnVolumeSnapshotBeingDeleted = true ∧
    (syncContent exContentAnnotated exWorldAnnotated).2.writes =
      [Write.ContentUpdate { exContentAnnotated with
        Finalizers := [VolumeSnapshotContentFinalizer] }] := by
  decide

/-- C19, counterexample: the request `exRequestDeleting` is marked for deletion
and holds both finalizers, its content `X` is in the cache with policy Delete,
and there is no volume claim; the housekeeping sends the Delete of `X` and one
Update of the request, and that Update still carries the bound finalizer. -/
theorem bound_finalizer_survives_deletion :
    IsSnapshotDeletionCandidate exRequestDeleting = true ∧
    contentExists exRequestDeleting exWorldDeleting = some exContentBound ∧
    exContentBound.Spec.DeletionPolicy = DeletionPolicy.Delete ∧
    pvcListerList exRequestDeleting.Namespace exWorldDeleting = [] ∧
    processFinalizersAndCheckandDeleteContent exRequestDeleting exWorldDeleting =
      (Res.ok (), (processFinalizersAndCheckandDeleteContent exRequestDeleting
        exWorldDeleting).2) ∧
    (processFinalizersAndCheckandDeleteContent exRequestDeleting exWorldDeleting).2.writes =
      [Write.ContentDelete "X",
       Write.SnapshotUpdate { exRequestDeleting with
         Finalizers := [VolumeSnapshotBoundFinalizer] }] := by
  decide

/-- C19, amended, at `exRequestDeleting`: the Delete of `X`, then the Update
without the as-source finalizer; and at the pre-provisioned request
`exRequestDeletingUnbound`, which records no bound content name and whose
content is found under the name it gives. -/
theorem deletion_without_restore_witness :
    IsSnapshotDeletionCandidate exRequestDeleting = true ∧
    contentExists exRequestDeleting exWorldDeleting = some exContentBound ∧
    exContentBound.Spec.DeletionPolicy = DeletionPolicy.Delete ∧
    (∃ rest, (processFinalizersAndCheckandDeleteContent exRequestDeleting
        exWorldDeleting).2.writes =
      exWorldDeleting.writes ++ Write.ContentDelete exContentBound.Name :: rest) ∧
    exRequestDeletingUnbound.Status = none ∧
    IsSnapshotDeletionCandidate exRequestDeletingUnbound = true ∧
    contentExists exRequestDeletingUnbound exWorldDeletingUnbound = some exContentBound ∧
    (∃ rest, (processFinalizersAndCheckandDeleteContent exRequestDeletingUnbound
        exWorldDeletingUnbound).2.writes =
      exWorldDeletingUnbound.writes ++ Write.ContentDelete exContentBound.Name :: rest) ∧
    (processFinalizersAndCheckandDeleteContent exRequestDeletingUnbound
        exWorldDeletingUnbound).2.writes =
      [Write.ContentDelete "X",
       Write.SnapshotUpdate { exRequestDeletingUnbound with
         Finalizers := [VolumeSnapshotBoundFinalizer] }] :=
  ⟨by decide, by decide, rfl,
    (deletion_without_restore exRequestDeleting exContentBound exWorldDeleting (by decide)
      (by decide) rfl (fun _ h => absurd h (List.not_mem_nil _))).1.imp (fun _ h => h.1),
    rfl, by decide, by decide,
    (deletion_without_restore exRequestDeletingUnbound exContentBound exWorldDeletingUnbound
      (by decide) (by decide) rfl (fun _ h => absurd h (List.not_mem_nil _))).1.imp
        (fun _ h => h.1),
    by decide⟩

/-- C20 at `exRequestDeleting` with the pending claim `exClaimRestoring`: no
Delete, no Update that drops a finalizer; and at the pre-provisioned request
`exRequestDeletingUnbound`, which records no bound content name and whose
content is found under the name it gives: nothing is written. -/
theorem deletion_deferred_during_restore_witness :
    contentExists exRequestDeleting exWorldRestoring = some exContentBound ∧
    exClaimRestoring ∈ pvcListerList exRequestDeleting.Namespace exWorldRestoring ∧
    RestoresFrom exClaimRestoring exRequestDeleting ∧
    WritesOnly (KeepsFinalizers exRequestDeleting) exWorldRestoring
      (processFinalizersAndCheckandDeleteContent exRequestDeleting exWorldRestoring).2 ∧
    exRequestDeletingUnbound.Status = none ∧
    contentExists exRequestDeletingUnbound exWorldRestoringUnbound = some exContentBound ∧
    RestoresFrom exClaimRestoring exRequestDeletingUnbound ∧
    WritesOnly (KeepsFinalizers exRequestDeletingUnbound) exWorldRestoringUnbound
      (processFinalizersAndCheckandDeleteContent exRequestDeletingUnbound
        exWorldRestoringUnbound).2 ∧
    (processFinalizersAndCheckandDeleteContent exRequestDeletingUnbound
      exWorldRestoringUnbound).2.writes = [] :=
  ⟨by decide, by decide, ⟨rfl, _, rfl, rfl, rfl, rfl⟩,
    deletion_deferred_during_restore exRequestDeleting exContentBound exClaimRestoring
      exWorldRestoring (by decide) (by decide) ⟨rfl, _, rfl, rfl, rfl, rfl⟩,
    rfl, by decide, ⟨rfl, _, rfl, rfl, rfl, rfl⟩,
    deletion_deferred_during_restore exRequestDeletingUnbound exContentBound exClaimRestoring
      exWorldRestoringUnbound (by decide) (by decide) ⟨rfl, _, rfl, rfl, rfl, rfl⟩,
    by decide⟩

/-! ### What the calls leave as it is -/

theorem Step.refl (P : Write → Prop) (w : World) : Step P w w :=
  ⟨WritesOnly.of_eq rfl, rfl, rfl, rfl, rfl, fun _ _ h => h, fun h => h, fun h => h⟩

theorem Step.trans {P : Write → Prop} {w1 w2 w3 : World} (h12 : Step P w1 w2)
    (h23 : Step P w2 w3) : Step P w1 w3 :=
  ⟨h12.writes.append h23.writes, h23.contentStore.trans h12.contentStore,
    h23.pvcLister.trans h12.pvcLister, h23.classLister.trans h12.classLister,
    h23.pvs.trans h12.pvs, fun ns name h => h23.pvcs ns name (h12.pvcs ns name h),
    fun h => h23.apiOutcomes (h12.apiOutcomes h),
    fun h => h23.storeOutcomes (h12.storeOutcomes h)⟩

theorem Step.mono {P Q : Write → Prop} {w1 w2 : World} (h : Step P w1 w2)
    (hPQ : ∀ x, P x → Q x) : Step Q w1 w2 := by
  obtain ⟨⟨added, ha, hp⟩, h2, h3, h4, h5, h6, h7, h8⟩ := h
  exact ⟨⟨added, ha, fun x hx => hPQ x (hp x hx)⟩, h2, h3, h4, h5, h6, h7, h8⟩

theorem nextOutcome_step (P : Write → Prop) (w : World) : Step P w w.nextOutcome.2 := by
  unfold World.nextOutcome
  cases h : w.apiOutcomes with
  | nil => exact Step.refl P w
  | cons o rest =>
    refine ⟨WritesOnly.of_eq rfl, rfl, rfl, rfl, rfl, fun _ _ h => h, ?_, fun h => h⟩
    intro hall o2 ho2
    exact hall o2 (by rw [h]; exact List.mem_cons_of_mem _ ho2)

theorem nextStoreOutcome_step (P : Write → Prop) (w : World) :
    Step P w w.nextStoreOutcome.2 := by
  unfold World.nextStoreOutcome
  cases h : w.storeOutcomes with
  | nil => exact Step.refl P w
  | cons o rest =>
    refine ⟨WritesOnly.of_eq rfl, rfl, rfl, rfl, rfl, fun _ _ h => h, fun h => h, ?_⟩
    intro hall o2 ho2
    exact hall o2 (by rw [h]; exact List.mem_cons_of_mem _ ho2)

/-- A call that logs the write `x` and takes an outcome. -/
theorem logged_step (P : Write → Prop) (x : Write) (hx : P x) (w : World) :
    Step P w ({ w with writes := w.writes ++ [x] } : World).nextOutcome.2 :=
  Step.trans
    (⟨WritesOnly.single x rfl hx, rfl, rfl, rfl, rfl, fun _ _ h => h, fun h => h, fun h => h⟩ :
      Step P w { w with writes := w.writes ++ [x] })
    (nextOutcome_step P _)

/-- A change of the API server's requests or contents, of the request cache, of
the events or of the clock. -/
theorem Step.of_server {P : Write → Prop} {w w2 : World}
    (snapshots : List VolumeSnapshot) (contents : List VolumeSnapshotContent)
    (snapshotStore : List VolumeSnapshot) (events : List Event) (now : Time)
    (h : Step P w w2) :
    Step P w { w2 with snapshots := snapshots, contents := contents,
                       snapshotStore := snapshotStore, events := events, now := now } :=
  ⟨h.writes, h.contentStore, h.pvcLister, h.classLister, h.pvs, h.pvcs, h.apiOutcomes,
    h.storeOutcomes⟩

theorem SnapshotsGet_step (P : Write → Prop) (ns name : String) (w : World) :
    Step P w (SnapshotsGet ns name w).2 := by
  have h := nextOutcome_step P w
  unfold SnapshotsGet
  generalize w.nextOutcome = res at h ⊢
  obtain ⟨o, w1⟩ := res
  cases o with
  | some err => exact h
  | none =>
    dsimp only at h ⊢
    cases findSnapshot ns name w1.snapshots <;> exact h

theorem PVsGet_step (P : Write → Prop) (name : String) (w : World) :
    Step P w (PVsGet name w).2 := by
  have h := nextOutcome_step P w
  unfold PVsGet
  generalize w.nextOutcome = res at h ⊢
  obtain ⟨o, w1⟩ := res
  cases o with
  | some err => exact h
  | none =>
    dsimp only at h ⊢
    cases w1.pvs.find? (fun pv => decide (pv.Name = name)) <;> exact h

theorem SnapshotsUpdateStatus_step (P : Write → Prop) (s : VolumeSnapshot)
    (hP : P (Write.SnapshotUpdateStatus s)) (w : World) :
    Step P w (SnapshotsUpdateStatus s w).2 := by
  have h := logged_step P _ hP w
  unfold SnapshotsUpdateStatus
  dsimp only
  generalize ({ w with writes := w.writes ++ [Write.SnapshotUpdateStatus s] } :
    World).nextOutcome = res at h ⊢
  obtain ⟨o, w1⟩ := res
  cases o with
  | some err => exact h
  | none =>
    dsimp only at h ⊢
    cases findSnapshot s.Namespace s.Name w1.snapshots with
    | none => exact h
    | some stored => exact Step.of_server _ w1.contents w1.snapshotStore w1.events w1.now h

theorem SnapshotsUpdate_step (P : Write → Prop) (s : VolumeSnapshot)
    (hP : P (Write.SnapshotUpdate s)) (w : World) :
    Step P w (SnapshotsUpdate s w).2 := by
  have h := logged_step P _ hP w
  unfold SnapshotsUpdate
  dsimp only
  generalize ({ w with writes := w.writes ++ [Write.SnapshotUpdate s] } :
    World).nextOutcome = res at h ⊢
  obtain ⟨o, w1⟩ := res
  cases o with
  | some err => exact h
  | none =>
    dsimp only at h ⊢
    cases findSnapshot s.Namespace s.Name w1.snapshots with
    | none => exact h
    | some stored => exact Step.of_server _ w1.contents w1.snapshotStore w1.events w1.now h

theorem ContentsDelete_step (P : Write → Prop) (name : String)
    (hP : P (Write.ContentDelete name)) (w : World) :
    Step P w (ContentsDelete name w).2 := by
  have h := logged_step P _ hP w
  unfold ContentsDelete
  dsimp only
  generalize ({ w with writes := w.writes ++ [Write.ContentDelete name] } :
    World).nextOutcome = res at h ⊢
  obtain ⟨o, w1⟩ := res
  cases o with
  | some err => exact h
  | none =>
    dsimp only at h ⊢
    cases findContent name w1.contents with
    | none => exact h
    | some stored => exact Step.of_server w1.snapshots _ w1.snapshotStore w1.events w1.now h

theorem storeSnapshotUpdate_step (P : Write → Prop) (s : VolumeSnapshot) (w : World) :
    Step P w (storeSnapshotUpdate s w).2 := by
  have h := nextStoreOutcome_step P w
  unfold storeSnapshotUpdate
  generalize w.nextStoreOutcome = res at h ⊢
  obtain ⟨o, w1⟩ := res
  cases o with
  | some err => exact h
  | none => exact Step.of_server w1.snapshots w1.contents _ w1.events w1.now h

theorem recordEvent_step (P : Write → Prop) (snapshot : VolumeSnapshot)
    (eventtype reason message : String) (w : World) :
    Step P w (recordEvent snapshot eventtype reason message w) :=
  Step.of_server w.snapshots w.contents w.snapshotStore _ w.now (Step.refl P w)

theorem sleep_step (P : Write → Prop) (d : Int) (w : World) : Step P w (sleep d w) :=
  Step.of_server w.snapshots w.contents w.snapshotStore w.events _ (Step.refl P w)

theorem findPVC_putPVC (p : PersistentVolumeClaim) (ns name : String)
    (l : List PersistentVolumeClaim) (h : findPVC ns name l ≠ none) :
    findPVC ns name (putPVC p l) ≠ none := by
  induction l with
  | nil => exact absurd rfl h
  | cons x xs ih =>
    unfold putPVC
    unfold findPVC at h ih ⊢
    by_cases hx : x.Namespace = p.Namespace ∧ x.Name = p.Name
    · rw [if_pos hx]
      by_cases hk : x.Namespace = ns ∧ x.Name = name
      · have hp : p.Namespace = ns ∧ p.Name = name := ⟨hx.1 ▸ hk.1, hx.2 ▸ hk.2⟩
        simp [List.find?_cons, hp]
      · have hp : ¬ (p.Namespace = ns ∧ p.Name = name) := by
          rw [← hx.1, ← hx.2]; exact hk
        simp only [List.find?_cons, hk, hp, decide_False] at h ⊢
        exact h
    · rw [if_neg hx]
      by_cases hk : x.Namespace = ns ∧ x.Name = name
      · simp [List.find?_cons, hk]
      · simp only [List.find?_cons, hk, decide_False] at h ⊢
        exact ih h

theorem PVCsUpdate_step (P : Write → Prop) (pvc : PersistentVolumeClaim)
    (hP : P (Write.PVCUpdate pvc)) (w : World) :
    Step P w (PVCsUpdate pvc w).2 := by
  have h := logged_step P _ hP w
  unfold PVCsUpdate
  dsimp only
  generalize ({ w with writes := w.writes ++ [Write.PVCUpdate pvc] } :
    World).nextOutcome = res at h ⊢
  obtain ⟨o, w1⟩ := res
  cases o with
  | some err => exact h
  | none =>
    dsimp only at h ⊢
    cases findPVC pvc.Namespace pvc.Name w1.pvcs with
    | none => exact h
    | some stored =>
      exact ⟨h.writes, h.contentStore, h.pvcLister, h.classLister, h.pvs,
        fun ns name hk => findPVC_putPVC pvc ns name _ (h.pvcs ns name hk),
        h.apiOutcomes, h.storeOutcomes⟩

theorem updateSnapshotErrorStatusWithEvent_step (snapshot : VolumeSnapshot)
    (eventtype reason message : String) (w : World) :
    Step NotCreate w (updateSnapshotErrorStatusWithEvent snapshot eventtype reason message w).2 := by
  unfold updateSnapshotErrorStatusWithEvent
  cases sameErrorAlreadySet snapshot message with
  | panic p => exact Step.refl _ w
  | error e => exact Step.refl _ w
  | ok b =>
    cases b with
    | true => exact Step.refl _ w
    | false =>
      dsimp only
      have h1 := SnapshotsUpdateStatus_step NotCreate (errorStatusClone snapshot message w.now)
        (fun c h => Write.noConfusion h) w
      generalize SnapshotsUpdateStatus (errorStatusClone snapshot message w.now) w = res at h1 ⊢
      obtain ⟨r, w1⟩ := res
      cases r with
      | error err => exact h1
      | ok newSnapshot =>
        dsimp only at h1 ⊢
        have h2 := storeSnapshotUpdate_step NotCreate newSnapshot
          (recordEvent newSnapshot eventtype reason message w1)
        have h12 := (h1.trans (recordEvent_step NotCreate newSnapshot eventtype reason message
          w1)).trans h2
        generalize storeSnapshotUpdate newSnapshot
          (recordEvent newSnapshot eventtype reason message w1) = res2 at h12 ⊢
        obtain ⟨r2, w2⟩ := res2
        cases r2 <;> exact h12

theorem updateSnapshotStatus_step (snapshot : VolumeSnapshot) (content : VolumeSnapshotContent)
    (w : World) : Step NotCreate w (updateSnapshotStatus snapshot content w).2 := by
  unfold updateSnapshotStatus
  dsimp only
  have h1 := SnapshotsGet_step NotCreate snapshot.Namespace snapshot.Name w
  generalize SnapshotsGet snapshot.Namespace snapshot.Name w = res at h1 ⊢
  obtain ⟨r, w1⟩ := res
  cases r with
  | error err => exact h1
  | ok snapshotObj =>
    dsimp only at h1 ⊢
    split_ifs
    · have h2 := SnapshotsUpdateStatus_step NotCreate { snapshotObj with
        Status := some (computeStatus snapshotObj.Status (contentView content)).1 }
        (fun c h => Write.noConfusion h) w1
      generalize SnapshotsUpdateStatus { snapshotObj with
        Status := some (computeStatus snapshotObj.Status (contentView content)).1 } w1 = res2
        at h2 ⊢
      obtain ⟨r2, w2⟩ := res2
      cases r2 <;> exact h1.trans h2
    · exact h1

theorem updateStatusLoop_step (interval : Int) (snapshot : VolumeSnapshot)
    (content : VolumeSnapshotContent) (n : Nat) (err : Option String) (w : World) :
    Step NotCreate w (updateStatusLoop interval snapshot content n err w).2 := by
  induction n generalizing err w with
  | zero => exact Step.refl _ w
  | succ n ih =>
    unfold updateStatusLoop
    have h1 := updateSnapshotStatus_step snapshot content w
    generalize updateSnapshotStatus snapshot content w = res at h1 ⊢
    obtain ⟨r, w1⟩ := res
    cases r with
    | ok s => exact h1
    | panic p => exact h1
    | error e =>
      exact (h1.trans (sleep_step NotCreate interval w1)).trans (ih (some e) (sleep interval w1))

theorem bindStatusLoop_step (interval : Int) (content : VolumeSnapshotContent) (n : Nat)
    (snapshotCopy : VolumeSnapshot) (err : Option String) (w : World) :
    Step NotCreate w (bindStatusLoop interval content n snapshotCopy err w).2 := by
  induction n generalizing err w with
  | zero => exact Step.refl _ w
  | succ n ih =>
    unfold bindStatusLoop
    have h1 := updateSnapshotStatus_step snapshotCopy content w
    generalize updateSnapshotStatus snapshotCopy content w = res at h1 ⊢
    obtain ⟨r, w1⟩ := res
    cases r with
    | ok s => exact h1
    | panic p => exact h1
    | error e =>
      exact (h1.trans (sleep_step NotCreate interval w1)).trans (ih (some e) (sleep interval w1))

theorem propagateStatus_step (ctrl : csiSnapshotCommonController) (snapshot : VolumeSnapshot)
    (content : VolumeSnapshotContent) (w : World) :
    Step NotCreate w (propagateStatus ctrl snapshot content w).2 := by
  unfold propagateStatus
  have h1 := updateStatusLoop_step ctrl.createSnapshotContentInterval snapshot content
    ctrl.createSnapshotContentRetryCount.toNat none w
  generalize updateStatusLoop ctrl.createSnapshotContentInterval snapshot content
    ctrl.createSnapshotContentRetryCount.toNat none w = res at h1 ⊢
  obtain ⟨r, w1⟩ := res
  cases r with
  | panic p => exact h1
  | error e => exact h1
  | ok o =>
    cases o with
    | none => exact h1
    | some err =>
      dsimp only at h1 ⊢
      have h2 := updateSnapshotErrorStatusWithEvent_step snapshot EventTypeWarning
        "SnapshotStatusUpdateFailed" ("Snapshot status update failed, " ++ err) w1
      generalize updateSnapshotErrorStatusWithEvent snapshot EventTypeWarning
        "SnapshotStatusUpdateFailed" ("Snapshot status update failed, " ++ err) w1 = res2 at h2 ⊢
      obtain ⟨r2, w2⟩ := res2
      cases r2 <;> exact h1.trans h2

theorem bindandUpdateVolumeSnapshot_step (ctrl : csiSnapshotCommonController)
    (content : VolumeSnapshotContent) (snapshot : VolumeSnapshot) (w : World) :
    Step NotCreate w (bindandUpdateVolumeSnapshot ctrl content snapshot w).2 := by
  unfold bindandUpdateVolumeSnapshot
  have h1 := SnapshotsGet_step NotCreate snapshot.Namespace snapshot.Name w
  generalize SnapshotsGet snapshot.Namespace snapshot.Name w = res at h1 ⊢
  obtain ⟨r, w1⟩ := res
  cases r with
  | error err => exact h1
  | ok snapshotObj =>
    dsimp only at h1 ⊢
    have h2 := bindStatusLoop_step ctrl.createSnapshotContentInterval content
      ctrl.createSnapshotContentRetryCount.toNat snapshotObj none w1
    generalize bindStatusLoop ctrl.createSnapshotContentInterval content
      ctrl.createSnapshotContentRetryCount.toNat snapshotObj none w1 = res2 at h2 ⊢
    obtain ⟨r2, w2⟩ := res2
    cases r2 with
    | panic p => exact h1.trans h2
    | error e => exact h1.trans h2
    | ok pair =>
      obtain ⟨snapshotCopy, oerr⟩ := pair
      cases oerr with
      | some err =>
        dsimp only at h2 ⊢
        have h3 := updateSnapshotErrorStatusWithEvent_step snapshotCopy EventTypeWarning
          "SnapshotStatusUpdateFailed" ("Snapshot status update failed, " ++ err) w2
        generalize updateSnapshotErrorStatusWithEvent snapshotCopy EventTypeWarning
          "SnapshotStatusUpdateFailed" ("Snapshot status update failed, " ++ err) w2 = res3
          at h3 ⊢
        obtain ⟨r3, w3⟩ := res3
        cases r3 <;> exact (h1.trans h2).trans h3
      | none =>
        dsimp only at h2 ⊢
        exact (h1.trans h2).trans (storeSnapshotUpdate_step NotCreate snapshotCopy w2)

theorem syncReadySnapshot_step (snapshot : VolumeSnapshot) (w : World) :
    Step NotCreate w (syncReadySnapshot snapshot w).2 := by
  unfold syncReadySnapshot
  split_ifs
  · exact Step.refl _ w
  · cases snapshot.Status.bind (fun st => st.BoundVolumeSnapshotContentName) with
    | none => exact Step.refl _ w
    | some boundName =>
      dsimp only
      cases contentStoreGetByKey boundName w with
      | none => exact updateSnapshotErrorStatusWithEvent_step _ _ _ _ w
      | some content =>
        dsimp only
        split_ifs
        · exact updateSnapshotErrorStatusWithEvent_step _ _ _ _ w
        · exact Step.refl _ w

theorem removeSnapshotFinalizer_step (snapshot : VolumeSnapshot)
    (removeSourceFinalizer removeBoundFinalizer : Bool) (w : World) :
    Step NotCreate w
      (removeSnapshotFinalizer snapshot removeSourceFinalizer removeBoundFinalizer w).2 := by
  unfold removeSnapshotFinalizer
  split_ifs
  · exact Step.refl _ w
  · dsimp only
    have h1 := SnapshotsUpdate_step NotCreate { snapshot with
      Finalizers := finalizersAfterRemoval snapshot.Finalizers removeSourceFinalizer
        removeBoundFinalizer } (fun c h => Write.noConfusion h) w
    generalize SnapshotsUpdate { snapshot with
      Finalizers := finalizersAfterRemoval snapshot.Finalizers removeSourceFinalizer
        removeBoundFinalizer } w = res at h1 ⊢
    obtain ⟨r, w1⟩ := res
    cases r with
    | error err => exact h1
    | ok c => exact h1.trans (storeSnapshotUpdate_step NotCreate _ w1)

theorem addSnapshotFinalizer_step (snapshot : VolumeSnapshot)
    (addSourceFinalizer addBoundFinalizer : Bool) (w : World) :
    Step NotCreate w (addSnapshotFinalizer snapshot addSourceFinalizer addBoundFinalizer w).2 := by
  unfold addSnapshotFinalizer
  dsimp only
  have h1 := SnapshotsUpdate_step NotCreate { snapshot with
    Finalizers := finalizersAfterAddition snapshot.Finalizers addSourceFinalizer
      addBoundFinalizer } (fun c h => Write.noConfusion h) w
  generalize SnapshotsUpdate { snapshot with
    Finalizers := finalizersAfterAddition snapshot.Finalizers addSourceFinalizer
      addBoundFinalizer } w = res at h1 ⊢
  obtain ⟨r, w1⟩ := res
  cases r with
  | error err => exact h1
  | ok c => exact h1.trans (storeSnapshotUpdate_step NotCreate _ w1)

theorem checkandAddSnapshotFinalizers_step (snapshot : VolumeSnapshot)
    (snapshotBound deleteContent : Bool) (w : World) :
    Step NotCreate w (checkandAddSnapshotFinalizers snapshot snapshotBound deleteContent w) := by
  unfold checkandAddSnapshotFinalizers
  dsimp only
  split_ifs
  · exact addSnapshotFinalizer_step snapshot _ _ w
  · exact Step.refl _ w

theorem checkandRemoveSnapshotFinalizers_step (snapshot : VolumeSnapshot)
    (content : Option VolumeSnapshotContent) (deleteContent : Bool) (w : World) :
    Step NotCreate w
      (checkandRemoveSnapshotFinalizersAndCheckandDeleteContent snapshot content
        deleteContent w).2 := by
  have hrem : ∀ (inUse : Bool) (w0 : World), Step NotCreate w0
      (if inUse = false ∨ content = none then
        removeSnapshotFinalizer snapshot (!inUse) content.isNone w0
       else (Res.ok (), w0)).2 := by
    intro inUse w0
    split_ifs
    · exact removeSnapshotFinalizer_step snapshot _ _ w0
    · exact Step.refl _ w0
  unfold checkandRemoveSnapshotFinalizersAndCheckandDeleteContent
  split_ifs
  · cases isVolumeBeingCreatedFromSnapshot snapshot w with
    | panic p => exact Step.refl _ w
    | error e => exact Step.refl _ w
    | ok inUse =>
      dsimp only
      cases content with
      | none => exact hrem inUse w
      | some c =>
        dsimp only
        by_cases hd : deleteContent = true ∧ inUse = false
        · rw [if_pos hd]
          have h1 := ContentsDelete_step NotCreate c.Name (fun c h => Write.noConfusion h) w
          generalize ContentsDelete c.Name w = res at h1 ⊢
          obtain ⟨r, w1⟩ := res
          cases r with
          | some err => exact h1.trans (recordEvent_step NotCreate _ _ _ _ w1)
          | none => exact h1.trans (hrem inUse w1)
        · rw [if_neg hd]
          exact hrem inUse w
  · exact Step.refl _ w

theorem removePVCFinalizer_step (pvc : PersistentVolumeClaim) (w : World) :
    Step NotCreate w (removePVCFinalizer pvc w).2 := by
  unfold removePVCFinalizer
  dsimp only
  have h1 := PVCsUpdate_step NotCreate { pvc with
    Finalizers := RemoveString pvc.Finalizers PVCFinalizer } (fun c h => Write.noConfusion h) w
  generalize PVCsUpdate { pvc with
    Finalizers := RemoveString pvc.Finalizers PVCFinalizer } w = res at h1 ⊢
  obtain ⟨r, w1⟩ := res
  cases r <;> exact h1

theorem checkandRemovePVCFinalizer_step (snapshot : VolumeSnapshot) (w : World) :
    Step NotCreate w (checkandRemovePVCFinalizer snapshot w).2 := by
  unfold checkandRemovePVCFinalizer
  split_ifs
  · exact Step.refl _ w
  · cases getClaimFromVolumeSnapshot snapshot w with
    | error e => exact Step.refl _ w
    | ok pvc =>
      dsimp only
      split_ifs
      · exact removePVCFinalizer_step pvc w
      · exact Step.refl _ w

theorem ensurePVCFinalizer_step (snapshot : VolumeSnapshot) (w : World) :
    Step NotCreate w (ensurePVCFinalizer snapshot w).2 := by
  unfold ensurePVCFinalizer
  split_ifs
  · exact Step.refl _ w
  · cases getClaimFromVolumeSnapshot snapshot w with
    | error e => exact Step.refl _ w
    | ok pvc =>
      dsimp only
      split_ifs
      · exact Step.refl _ w
      · have h1 := PVCsUpdate_step NotCreate { pvc with
          Finalizers := pvc.Finalizers ++ [PVCFinalizer] } (fun c h => Write.noConfusion h) w
        generalize PVCsUpdate { pvc with
          Finalizers := pvc.Finalizers ++ [PVCFinalizer] } w = res at h1 ⊢
        obtain ⟨r, w1⟩ := res
        cases r <;> exact h1
      · exact Step.refl _ w

/-- The pre-deletion housekeeping of `syncSnapshot` creates no content and leaves
the content cache and the listers as they are. -/
theorem processFinalizers_step (snapshot : VolumeSnapshot) (w : World) :
    Step NotCreate w (processFinalizersAndCheckandDeleteContent snapshot w).2 := by
  unfold processFinalizersAndCheckandDeleteContent
  dsimp only
  have h1 := checkandRemoveSnapshotFinalizers_step snapshot (contentExists snapshot w)
    (match contentExists snapshot w with
      | some c => decide (c.Spec.DeletionPolicy = DeletionPolicy.Delete)
      | none => false) w
  generalize checkandRemoveSnapshotFinalizersAndCheckandDeleteContent snapshot
    (contentExists snapshot w)
    (match contentExists snapshot w with
      | some c => decide (c.Spec.DeletionPolicy = DeletionPolicy.Delete)
      | none => false) w = res at h1 ⊢
  obtain ⟨r, w1⟩ := res
  cases r with
  | panic p => exact h1
  | error e => exact h1
  | ok u =>
    dsimp only at h1 ⊢
    have h2 := checkandAddSnapshotFinalizers_step snapshot
      (match contentExists snapshot w with
        | some c => IsSnapshotBound snapshot c
        | none => false)
      (match contentExists snapshot w with
        | some c => decide (c.Spec.DeletionPolicy = DeletionPolicy.Delete)
        | none => false) w1
    generalize checkandAddSnapshotFinalizers snapshot
      (match contentExists snapshot w with
        | some c => IsSnapshotBound snapshot c
        | none => false)
      (match contentExists snapshot w with
        | some c => decide (c.Spec.DeletionPolicy = DeletionPolicy.Delete)
        | none => false) w1 = w2 at h2 ⊢
    have h3 := checkandRemovePVCFinalizer_step snapshot w2
    generalize checkandRemovePVCFinalizer snapshot w2 = res3 at h3 ⊢
    obtain ⟨r3, w3⟩ := res3
    cases r3 with
    | none => exact (h1.trans h2).trans h3
    | some e => exact ((h1.trans h2).trans h3).trans (recordEvent_step NotCreate _ _ _ _ w3)

/-! ### Creating a content closes the loop -/

theorem ContentsCreate_ok (c r : VolumeSnapshotContent) (w w1 : World)
    (h : ContentsCreate c w = (Except.ok r, w1)) : r = c := by
  unfold ContentsCreate at h
  dsimp only at h
  generalize ({ w with writes := w.writes ++ [Write.ContentCreate c] } : World).nextOutcome = res
    at h
  obtain ⟨o, w2⟩ := res
  cases o with
  | some err => simp at h
  | none =>
    dsimp only at h
    cases hf : findContent c.Name w2.contents with
    | some x => rw [hf] at h; simp at h
    | none =>
      rw [hf] at h
      simp only [Prod.mk.injEq, Except.ok.injEq] at h
      exact h.1.symm

theorem createContentLoop_result (interval : Int) (snapshotContent u : VolumeSnapshotContent)
    (n : Nat) (updateContent : Option VolumeSnapshotContent) (err : Option APIError) (w : World)
    (h : (createContentLoop interval snapshotContent n updateContent err w).1 =
      (some u, none)) :
    u = snapshotContent ∨ updateContent = some u := by
  induction n generalizing updateContent err w with
  | zero =>
    unfold createContentLoop at h
    simp only [Prod.mk.injEq] at h
    exact Or.inr h.1
  | succ n ih =>
    unfold createContentLoop at h
    have hc := fun r w1 => ContentsCreate_ok snapshotContent r w w1
    generalize ContentsCreate snapshotContent w = res at h hc
    obtain ⟨r, w1⟩ := res
    cases r with
    | ok c =>
      dsimp only at h
      simp only [Prod.mk.injEq, Option.some.injEq, and_true] at h
      left
      rw [← h]
      exact hc c w1 rfl
    | error e =>
      dsimp only at h
      split_ifs at h
      · simp only [Prod.mk.injEq, Option.some.injEq, and_true] at h
        exact Or.inl h.symm
      · rcases ih none (some e) (sleep interval w1) h with h1 | h1
        · exact Or.inl h1
        · exact Option.noConfusion h1

theorem getSnapshotClass_name (className : String) (w : World) (class_ : VolumeSnapshotClass)
    (h : getSnapshotClass className w = Except.ok class_) : class_.Name = className := by
  unfold getSnapshotClass at h
  cases hf : w.classLister.find? (fun c => decide (c.Name = className)) with
  | none => rw [hf] at h; exact Except.noConfusion h
  | some c =>
    rw [hf] at h
    have hc : c = class_ := by simpa using h
    rw [← hc]
    simpa using List.find?_some hf

theorem getCreateSnapshotInput_ok (ctrl : csiSnapshotCommonController)
    (snapshot : VolumeSnapshot) (w w1 : World) (input : CreateSnapshotInput)
    (h : getCreateSnapshotInput ctrl snapshot w = (Except.ok input, w1)) :
    snapshot.Spec.VolumeSnapshotClassName = some input.class_.Name := by
  unfold getCreateSnapshotInput at h
  cases hcn : snapshot.Spec.VolumeSnapshotClassName with
  | none => rw [hcn] at h; simp at h
  | some className =>
    rw [hcn] at h
    dsimp only at h
    cases hcl : getSnapshotClass className w with
    | error e => rw [hcl] at h; simp at h
    | ok class_ =>
      rw [hcl] at h
      dsimp only at h
      generalize getVolumeFromVolumeSnapshot snapshot w = res at h
      obtain ⟨r, w2⟩ := res
      cases r with
      | error e => simp at h
      | ok volume =>
        dsimp only at h
        cases hs : ctrl.GetSecretReference class_.Parameters
            (GetSnapshotContentNameForSnapshot snapshot) snapshot with
        | error e => rw [hs] at h; simp at h
        | ok ref =>
          rw [hs] at h
          simp only [Prod.mk.injEq, Except.ok.injEq] at h
          rw [← h.1, getSnapshotClass_name className w class_ hcl]

theorem newSnapshotContent_fields (snapshot : VolumeSnapshot) (input : CreateSnapshotInput)
    (volumeHandle : String) :
    (newSnapshotContent snapshot input volumeHandle).Name = input.contentName ∧
    (newSnapshotContent snapshot input volumeHandle).Status = none ∧
    (newSnapshotContent snapshot input volumeHandle).Spec =
      { VolumeSnapshotRef :=
          { Namespace := snapshot.Namespace, Name := snapshot.Name, UID := snapshot.UID }
        Source := { VolumeHandle := some volumeHandle }
        VolumeSnapshotClassName := some input.class_.Name
        DeletionPolicy := input.class_.DeletionPolicy
        Driver := input.class_.Driver } := by
  unfold newSnapshotContent
  cases input.snapshotterSecretRef <;> exact ⟨rfl, rfl, rfl⟩

theorem createSnapshotContent_ok (ctrl : csiSnapshotCommonController)
    (snapshot : VolumeSnapshot) (c : VolumeSnapshotContent) (w w1 : World)
    (h : createSnapshotContent ctrl snapshot w = (Res.ok c, w1)) :
    ∃ input volumeHandle, c = newSnapshotContent snapshot input volumeHandle ∧
      snapshot.Spec.VolumeSnapshotClassName = some input.class_.Name ∧
      input.volume.CSI = some volumeHandle := by
  unfold createSnapshotContent at h
  generalize ensurePVCFinalizer snapshot w = res1 at h
  obtain ⟨r1, wa⟩ := res1
  cases r1 with
  | some e => simp at h
  | none =>
    dsimp only at h
    have hin := fun w1 input => getCreateSnapshotInput_ok ctrl snapshot wa w1 input
    generalize getCreateSnapshotInput ctrl snapshot wa = res2 at h hin
    obtain ⟨r2, wb⟩ := res2
    cases r2 with
    | error e => simp at h
    | ok input =>
      dsimp only at h
      cases hcsi : input.volume.CSI with
      | none => rw [hcsi] at h; simp at h
      | some volumeHandle =>
        rw [hcsi] at h
        dsimp only at h
        cases href : ctrl.GetReference with
        | some e => rw [href] at h; simp at h
        | none =>
          rw [href] at h
          dsimp only at h
          have hl := fun u => createContentLoop_result ctrl.createSnapshotContentInterval
            (newSnapshotContent snapshot input volumeHandle) u
            ctrl.createSnapshotContentRetryCount.toNat none none wb
          generalize createContentLoop ctrl.createSnapshotContentInterval
            (newSnapshotContent snapshot input volumeHandle)
            ctrl.createSnapshotContentRetryCount.toNat none none wb = res3 at h hl
          obtain ⟨⟨u, e⟩, wc⟩ := res3
          cases e with
          | some err => simp at h
          | none =>
            cases u with
            | none => simp at h
            | some updateContent =>
              dsimp only at h
              simp only [Prod.mk.injEq, Res.ok.injEq] at h
              refine ⟨input, volumeHandle, ?_, hin wb input rfl, hcsi⟩
              rw [← h.1]
              rcases hl updateContent rfl with h1 | h1
              · exact h1
              · exact Option.noConfusion h1

theorem syncUnreadySnapshotDynamic_step_of_match (ctrl : csiSnapshotCommonController)
    (snapshot : VolumeSnapshot) (w : World) (hm : getMatchSnapshotContent snapshot w ≠ none) :
    Step NotCreate w (syncUnreadySnapshotDynamic ctrl snapshot w).2 := by
  unfold syncUnreadySnapshotDynamic
  dsimp only
  cases hg : getMatchSnapshotContent snapshot w with
  | none => exact absurd hg hm
  | some contentObj =>
    dsimp only
    split_ifs
    · have h1 := updateSnapshotErrorStatusWithEvent_step snapshot EventTypeWarning
        "SnapshotHandleNotFound" ("Snapshot handle not found in content " ++ contentObj.Name) w
      generalize updateSnapshotErrorStatusWithEvent snapshot EventTypeWarning
        "SnapshotHandleNotFound" ("Snapshot handle not found in content " ++ contentObj.Name) w =
        res at h1 ⊢
      obtain ⟨r, w1⟩ := res
      cases r <;> exact h1
    · have h1 := bindandUpdateVolumeSnapshot_step ctrl contentObj snapshot w
      generalize bindandUpdateVolumeSnapshot ctrl contentObj snapshot w = res at h1 ⊢
      obtain ⟨r, w1⟩ := res
      cases r <;> exact h1

theorem getMatchSnapshotContent_of_mem (snapshot : VolumeSnapshot) (c : VolumeSnapshotContent)
    (w : World) (hmem : c ∈ w.contentStore) (hag : Agrees snapshot c) :
    ∃ found, getMatchSnapshotContent snapshot w = some found ∧ Agrees snapshot found := by
  cases hg : getMatchSnapshotContent snapshot w with
  | none =>
    unfold getMatchSnapshotContent at hg
    rw [List.find?_eq_none] at hg
    exact absurd ((contentMatches_iff snapshot c).2 hag) (hg c hmem)
  | some found =>
    unfold getMatchSnapshotContent at hg
    exact ⟨found, rfl, (contentMatches_iff snapshot found).1 (List.find?_some hg)⟩

/-- C14: the content `createSnapshotContent` returns on success has a
back-reference with the namespace, the name and the UID of the request and the
snapshot-class name of the request (which is set); so on every content cache
that contains it `getMatchSnapshotContent` returns a content that agrees with
the request, and a later `syncSnapshot` of the request (the same namespace,
name, UID and spec, whatever its status and finalizers) creates no content. -/
theorem creation_closes_the_loop (ctrl : csiSnapshotCommonController)
    (snapshot : VolumeSnapshot) (c : VolumeSnapshotContent) (w w1 : World)
    (hok : createSnapshotContent ctrl snapshot w = (Res.ok c, w1)) :
    (c.Spec.VolumeSnapshotRef.Namespace = snapshot.Namespace ∧
      c.Spec.VolumeSnapshotRef.Name = snapshot.Name ∧
      c.Spec.VolumeSnapshotRef.UID = snapshot.UID ∧
      c.Spec.VolumeSnapshotClassName = snapshot.Spec.VolumeSnapshotClassName ∧
      snapshot.Spec.VolumeSnapshotClassName ≠ none) ∧
    (∀ w2 : World, c ∈ w2.contentStore →
      ∃ found, getMatchSnapshotContent snapshot w2 = some found ∧ Agrees snapshot found) ∧
    (∀ (later : VolumeSnapshot) (w2 : World), c ∈ w2.contentStore →
      later.Namespace = snapshot.Namespace → later.Name = snapshot.Name →
      later.UID = snapshot.UID → later.Spec = snapshot.Spec →
      later.Spec.Source.VolumeSnapshotContentName = none →
      WritesOnly NotCreate w2 (syncSnapshot ctrl later w2).2) := by
  obtain ⟨input, volumeHandle, hc, hclass, -⟩ := createSnapshotContent_ok ctrl snapshot c w w1 hok
  obtain ⟨-, -, hspec⟩ := newSnapshotContent_fields snapshot input volumeHandle
  rw [← hc] at hspec
  have hag : Agrees snapshot c := by
    refine ⟨?_, ?_, ?_, input.class_.Name, ?_, hclass⟩ <;> rw [hspec]
  refine ⟨⟨hag.1, hag.2.1, hag.2.2.1, ?_, ?_⟩,
    fun w2 hmem => getMatchSnapshotContent_of_mem snapshot c w2 hmem hag, ?_⟩
  · rw [hspec, hclass]
  · rw [hclass]
    exact Option.some_ne_none _
  · intro later w2 hmem hns hname huid hsp hdyn
    have hag2 : Agrees later c := by
      obtain ⟨h1, h2, h3, cn, h4, h5⟩ := hag
      exact ⟨h1.trans hns.symm, h2.trans hname.symm, h3.trans huid.symm, cn, h4, by rw [hsp]; exact h5⟩
    unfold syncSnapshot
    have h1 := processFinalizers_step later w2
    generalize processFinalizersAndCheckandDeleteContent later w2 = res at h1 ⊢
    obtain ⟨r, w3⟩ := res
    cases r with
    | panic p => exact h1.writes
    | error e => exact h1.writes
    | ok u =>
      dsimp only at h1 ⊢
      split_ifs
      · unfold syncUnreadySnapshot
        rw [if_neg (by simp [hdyn])]
        have hmem3 : c ∈ w3.contentStore := by rw [h1.contentStore]; exact hmem
        obtain ⟨found, hf, -⟩ := getMatchSnapshotContent_of_mem later c w3 hmem3 hag2
        exact (h1.trans (syncUnreadySnapshotDynamic_step_of_match ctrl later w3
          (by rw [hf]; exact Option.some_ne_none _))).writes
      · exact (h1.trans (syncReadySnapshot_step later w3)).writes

/-- C14 at the dynamic request `exRequestDynamic`: the content created for it
carries its namespace, name, UID and class. -/
theorem creation_closes_the_loop_witness :
    createSnapshotContent exCtrl exRequestDynamic exWorldDynamic =
      (Res.ok exContentCreated,
        (createSnapshotContent exCtrl exRequestDynamic exWorldDynamic).2) ∧
    exContentCreated.Spec.VolumeSnapshotRef.Namespace = exRequestDynamic.Namespace ∧
    exContentCreated.Spec.VolumeSnapshotRef.Name = exRequestDynamic.Name ∧
    exContentCreated.Spec.VolumeSnapshotRef.UID = exRequestDynamic.UID ∧
    exContentCreated.Spec.VolumeSnapshotClassName =
      exRequestDynamic.Spec.VolumeSnapshotClassName ∧
    exRequestDynamic.Spec.VolumeSnapshotClassName ≠ none :=
  ⟨by decide,
    (creation_closes_the_loop exCtrl exRequestDynamic exContentCreated exWorldDynamic
      (createSnapshotContent exCtrl exRequestDynamic exWorldDynamic).2 (by decide)).1⟩

/-- C13, counterexample: the dynamic request `exRequestDynamicFailed` has a class
name and a claim bound to a CSI volume, there is no content in the cache, the
retry count is positive and every call succeeds; its status records an earlier
failure, and `syncSnapshot` returns success without creating a content (its
only write adds the as-source finalizer).  The same request with other
statuses, in the same world, fails the claim as well: with a status that says
ready, only the finalizer is written; with a recorded bound content name, the
reconcile returns an error after the finalizer and the error status; with a
recorded error that has no message, it panics after the finalizer; with a
recorded restore size of 5, the content is created and the second reconcile
leaves the restore size at 5 although the content reports 10 GiB; and marked
for deletion, beside a pending claim that names it without an API group, it
panics before any write. -/
theorem failed_request_creates_no_content :
    exWorldDynamicFailed.contentStore = [] ∧
    exWorldDynamicFailed.apiOutcomes = [] ∧
    0 < exCtrl.createSnapshotContentRetryCount ∧
    (syncSnapshot exCtrl exRequestDynamicFailed exWorldDynamicFailed).1 = Res.ok () ∧
    (syncSnapshot exCtrl exRequestDynamicFailed exWorldDynamicFailed).2.writes =
      [Write.SnapshotUpdate { exRequestDynamicFailed with
        Finalizers := [VolumeSnapshotAsSourceFinalizer] }] ∧
    (syncSnapshot exCtrl exRequestDynamicReady exWorldDynamicReady).1 = Res.ok () ∧
    (syncSnapshot exCtrl exRequestDynamicReady exWorldDynamicReady).2.writes =
      [Write.SnapshotUpdate { exRequestDynamicReady with
        Finalizers := [VolumeSnapshotAsSourceFinalizer] }] ∧
    (syncSnapshot exCtrl exRequestBoundUnready exWorldBoundUnready).1 =
      Res.error
        "content for snapshot ns1/snap not found without deletion timestamp on snapshot" ∧
    (syncSnapshot exCtrl exRequestBoundUnready exWorldBoundUnready).2.writes =
      [Write.SnapshotUpdate { exRequestBoundUnready with
        Finalizers := [VolumeSnapshotAsSourceFinalizer] },
       Write.SnapshotUpdateStatus (errorStatusClone exRequestBoundUnready
        ("Content for snapshot ns1/snap not found, but deletion timestamp not set on " ++
          "snapshot") 0)] ∧
    (syncSnapshot exCtrl exRequestNoMessage exWorldNoMessage).1 =
      Res.panic "invalid memory address or nil pointer dereference" ∧
    (syncSnapshot exCtrl exRequestNoMessage exWorldNoMessage).2.writes =
      [Write.SnapshotUpdate { exRequestNoMessage with
        Finalizers := [VolumeSnapshotAsSourceFinalizer] }] ∧
    (syncSnapshot exCtrl exRequestDynamicSized exWorldDynamicSized).1 = Res.ok () ∧
    Write.ContentCreate exContentCreated ∈
      (syncSnapshot exCtrl exRequestDynamicSized exWorldDynamicSized).2.writes ∧
    findSnapshot "ns1" "snap"
      (syncSnapshot exCtrl exRequestDynamicSized exWorldDynamicSized).2.snapshots =
        some exRequestDynamicSizedBound ∧
    (syncSnapshot exCtrl exRequestDynamicSizedBound
      (setContentStatus "snapcontent-uid-1"
        { ReadyToUse := some true, RestoreSize := some 10737418240 }
        (syncSnapshot exCtrl exRequestDynamicSized exWorldDynamicSized).2)).1 = Res.ok () ∧
    findSnapshot "ns1" "snap"
      (syncSnapshot exCtrl exRequestDynamicSizedBound
        (setContentStatus "snapcontent-uid-1"
          { ReadyToUse := some true, RestoreSize := some 10737418240 }
          (syncSnapshot exCtrl exRequestDynamicSized exWorldDynamicSized).2)).2.snapshots =
        some { exRequestDynamicSizedBound with
          Finalizers := [VolumeSnapshotAsSourceFinalizer, VolumeSnapshotBoundFinalizer],
          Status := some { BoundVolumeSnapshotContentName := some "snapcontent-uid-1",
                           ReadyToUse := some true,
                           RestoreSize := some (NewQuantity 5) } } ∧
    exClaimNoGroup ∈ pvcListerList exRequestDynamicDeleting.Namespace exWorldDynamicDeleting ∧
    syncSnapshot exCtrl exRequestDynamicDeleting exWorldDynamicDeleting =
      (Res.panic "invalid memory address or nil pointer dereference",
        exWorldDynamicDeleting) := by
  decide

/-! ### The dynamic round trip -/

/-- With every call succeeding and the request held by the API server,
`updateSnapshotStatus` returns the stored request with the computed status,
and the API server holds it afterwards. -/
theorem updateSnapshotStatus_succeeds (snapshot stored : VolumeSnapshot)
    (content : VolumeSnapshotContent) (w : World)
    (h : ∀ o ∈ w.apiOutcomes, o = none)
    (hget : findSnapshot snapshot.Namespace snapshot.Name w.snapshots = some stored) :
    ∃ w2, updateSnapshotStatus snapshot content w =
        (Res.ok { stored with
          Status := some (computeStatus stored.Status (contentView content)).1 }, w2) ∧
      Step NotCreate w w2 ∧
      findSnapshot snapshot.Namespace snapshot.Name w2.snapshots =
        some { stored with
          Status := some (computeStatus stored.Status (contentView content)).1 } ∧
      w2.contents = w.contents := by
  have hstep := updateSnapshotStatus_step snapshot content w
  have htail : ∀ o ∈ w.apiOutcomes.tail, o = none := fun o ho => h o (List.mem_of_mem_tail ho)
  obtain ⟨hns, hnm⟩ := findSnapshot_key _ _ _ _ hget
  unfold updateSnapshotStatus at hstep ⊢
  rw [SnapshotsGet_of_succeed _ _ stored w h hget] at hstep ⊢
  dsimp only at hstep ⊢
  by_cases hu : (computeStatus stored.Status (contentView content)).2 = true
  · rw [if_pos hu] at hstep ⊢
    have hfind : findSnapshot
        ({ stored with Status := some (computeStatus stored.Status (contentView content)).1 } :
          VolumeSnapshot).Namespace
        ({ stored with Status := some (computeStatus stored.Status (contentView content)).1 } :
          VolumeSnapshot).Name
        ({ w with apiOutcomes := w.apiOutcomes.tail } : World).snapshots = some stored := by
      dsimp only
      rw [hns, hnm]; exact hget
    rw [SnapshotsUpdateStatus_of_succeed _ stored _ htail hfind] at hstep ⊢
    refine ⟨_, rfl, hstep, ?_, rfl⟩
    dsimp only
    have := findSnapshot_putSnapshot
      ({ stored with Status := some (computeStatus stored.Status (contentView content)).1 } :
        VolumeSnapshot) w.snapshots
    dsimp only at this
    rw [← hns, ← hnm]
    exact this
  · rw [if_neg hu] at hstep ⊢
    have hst : stored.Status = some (computeStatus stored.Status (contentView content)).1 :=
      computeStatus_not_updated _ _ (by simpa using hu)
    have heq : ({ stored with
        Status := some (computeStatus stored.Status (contentView content)).1 } : VolumeSnapshot) =
        stored := by
      rw [← hst]
    rw [heq]
    exact ⟨_, rfl, hstep, hget, rfl⟩

theorem propagateStatus_succeeds (ctrl : csiSnapshotCommonController)
    (snapshot stored : VolumeSnapshot) (content : VolumeSnapshotContent) (w : World)
    (hretry : 0 < ctrl.createSnapshotContentRetryCount)
    (h : ∀ o ∈ w.apiOutcomes, o = none)
    (hget : findSnapshot snapshot.Namespace snapshot.Name w.snapshots = some stored) :
    ∃ w2, propagateStatus ctrl snapshot content w = (Res.ok (), w2) ∧
      Step NotCreate w w2 ∧
      findSnapshot snapshot.Namespace snapshot.Name w2.snapshots =
        some { stored with
          Status := some (computeStatus stored.Status (contentView content)).1 } ∧
      w2.contents = w.contents := by
  obtain ⟨w2, heq, hstep, hfind, hcont⟩ :=
    updateSnapshotStatus_succeeds snapshot stored content w h hget
  obtain ⟨n, hn⟩ : ∃ n, ctrl.createSnapshotContentRetryCount.toNat = n + 1 :=
    Nat.exists_eq_succ_of_ne_zero (by omega)
  refine ⟨w2, ?_, hstep, hfind, hcont⟩
  unfold propagateStatus
  rw [hn]
  unfold updateStatusLoop
  rw [heq]

theorem bindandUpdateVolumeSnapshot_succeeds (ctrl : csiSnapshotCommonController)
    (snapshot stored : VolumeSnapshot) (content : VolumeSnapshotContent) (w : World)
    (hretry : 0 < ctrl.createSnapshotContentRetryCount)
    (h : ∀ o ∈ w.apiOutcomes, o = none)
    (hget : findSnapshot snapshot.Namespace snapshot.Name w.snapshots = some stored) :
    ∃ r w2, bindandUpdateVolumeSnapshot ctrl content snapshot w = (Res.ok r, w2) ∧
      findSnapshot snapshot.Namespace snapshot.Name w2.snapshots =
        some { stored with
          Status := some (computeStatus stored.Status (contentView content)).1 } := by
  have htail : ∀ o ∈ w.apiOutcomes.tail, o = none := fun o ho => h o (List.mem_of_mem_tail ho)
  obtain ⟨hns, hnm⟩ := findSnapshot_key _ _ _ _ hget
  have hget2 : findSnapshot stored.Namespace stored.Name
      ({ w with apiOutcomes := w.apiOutcomes.tail } : World).snapshots = some stored := by
    rw [hns, hnm]; exact hget
  obtain ⟨w2, heq, -, hfind, -⟩ := updateSnapshotStatus_succeeds stored stored content
    { w with apiOutcomes := w.apiOutcomes.tail } htail hget2
  obtain ⟨n, hn⟩ : ∃ n, ctrl.createSnapshotContentRetryCount.toNat = n + 1 :=
    Nat.exists_eq_succ_of_ne_zero (by omega)
  unfold bindandUpdateVolumeSnapshot
  rw [SnapshotsGet_of_succeed _ _ stored w h hget]
  dsimp only
  rw [hn]
  unfold bindStatusLoop
  rw [heq]
  dsimp only
  refine ⟨_, _, rfl, ?_⟩
  rw [(storeSnapshotUpdate_frame _ w2).2.1, ← hns, ← hnm]
  exact hfind

theorem SnapshotsUpdate_snapshots (s stored : VolumeSnapshot) (w : World)
    (hget : findSnapshot s.Namespace s.Name w.snapshots = some stored)
    (hspec : stored.Spec = s.Spec) :
    ∃ fin, findSnapshot s.Namespace s.Name (SnapshotsUpdate s w).2.snapshots =
      some { stored with Finalizers := fin } := by
  obtain ⟨hns, hnm⟩ := findSnapshot_key _ _ _ _ hget
  have hput : findSnapshot s.Namespace s.Name
      (putSnapshot { stored with Finalizers := s.Finalizers, Spec := s.Spec } w.snapshots) =
      some { stored with Finalizers := s.Finalizers } := by
    have := findSnapshot_putSnapshot
      ({ stored with Finalizers := s.Finalizers, Spec := s.Spec } : VolumeSnapshot) w.snapshots
    dsimp only at this
    rw [← hspec] at this ⊢
    rw [← hns, ← hnm]
    exact this
  unfold SnapshotsUpdate World.nextOutcome
  dsimp only
  cases w.apiOutcomes with
  | nil =>
    dsimp only
    rw [hget]
    exact ⟨_, hput⟩
  | cons o rest =>
    cases o with
    | some err => exact ⟨stored.Finalizers, hget⟩
    | none =>
      dsimp only
      rw [hget]
      exact ⟨_, hput⟩

theorem addSnapshotFinalizer_snapshots (snapshot stored : VolumeSnapshot)
    (addSourceFinalizer addBoundFinalizer : Bool) (w : World)
    (hget : findSnapshot snapshot.Namespace snapshot.Name w.snapshots = some stored)
    (hspec : stored.Spec = snapshot.Spec) :
    ∃ fin, findSnapshot snapshot.Namespace snapshot.Name
        (addSnapshotFinalizer snapshot addSourceFinalizer addBoundFinalizer w).2.snapshots =
      some { stored with Finalizers := fin } := by
  have h := SnapshotsUpdate_snapshots { snapshot with
    Finalizers := finalizersAfterAddition snapshot.Finalizers addSourceFinalizer
      addBoundFinalizer } stored w hget hspec
  unfold addSnapshotFinalizer
  dsimp only at h ⊢
  generalize SnapshotsUpdate { snapshot with
    Finalizers := finalizersAfterAddition snapshot.Finalizers addSourceFinalizer
      addBoundFinalizer } w = res at h ⊢
  obtain ⟨r, w1⟩ := res
  cases r with
  | error err => exact h
  | ok c =>
    dsimp only at h ⊢
    rw [(storeSnapshotUpdate_frame _ w1).2.1]
    exact h

theorem PVCsUpdate_snapshots (pvc : PersistentVolumeClaim) (w : World) :
    (PVCsUpdate pvc w).2.snapshots = w.snapshots := by
  unfold PVCsUpdate World.nextOutcome
  dsimp only
  cases w.apiOutcomes with
  | nil =>
    dsimp only
    cases findPVC pvc.Namespace pvc.Name w.pvcs <;> rfl
  | cons o rest =>
    cases o with
    | some err => rfl
    | none =>
      dsimp only
      cases findPVC pvc.Namespace pvc.Name w.pvcs <;> rfl

theorem checkandRemovePVCFinalizer_snapshots (snapshot : VolumeSnapshot) (w : World) :
    (checkandRemovePVCFinalizer snapshot w).2.snapshots = w.snapshots := by
  unfold checkandRemovePVCFinalizer
  split_ifs
  · rfl
  · cases getClaimFromVolumeSnapshot snapshot w with
    | error e => rfl
    | ok pvc =>
      dsimp only
      split_ifs
      · unfold removePVCFinalizer
        dsimp only
        have h := PVCsUpdate_snapshots { pvc with
          Finalizers := RemoveString pvc.Finalizers PVCFinalizer } w
        generalize PVCsUpdate { pvc with
          Finalizers := RemoveString pvc.Finalizers PVCFinalizer } w = res at h ⊢
        obtain ⟨r, w1⟩ := res
        cases r <;> exact h
      · rfl

theorem isVolumeBeingCreatedFromSnapshotLoop_iff (snapshot : VolumeSnapshot)
    (l : List PersistentVolumeClaim) (h : HasAPIGroups snapshot l) :
    ∃ b, isVolumeBeingCreatedFromSnapshotLoop snapshot l = Res.ok b ∧
      (b = true ↔ ∃ pvc ∈ l, RestoresFrom pvc snapshot) := by
  induction l with
  | nil => exact ⟨false, rfl, by simp⟩
  | cons x rest ih =>
    obtain ⟨b, hb, hiff⟩ := ih (fun pvc hp => h pvc (List.mem_cons_of_mem _ hp))
    have hx := h x (List.mem_cons_self _ _)
    have hskip : ¬ RestoresFrom x snapshot →
        (b = true ↔ ∃ pvc ∈ x :: rest, RestoresFrom pvc snapshot) := by
      intro hno
      rw [hiff]
      constructor
      · rintro ⟨pvc, hp, hr⟩
        exact ⟨pvc, List.mem_cons_of_mem _ hp, hr⟩
      · rintro ⟨pvc, hp, hr⟩
        rcases List.mem_cons.1 hp with hp | hp
        · rw [hp] at hr
          exact absurd hr hno
        · exact ⟨pvc, hp, hr⟩
    unfold isVolumeBeingCreatedFromSnapshotLoop
    cases hd : x.DataSource with
    | none =>
      refine ⟨b, hb, hskip ?_⟩
      rintro ⟨-, ds, hds, -⟩
      rw [hd] at hds
      exact Option.noConfusion hds
    | some d =>
      dsimp only
      by_cases hname : d.Name = snapshot.Name
      · rw [if_pos hname]
        by_cases hkind : d.Kind = snapshotKind
        · rw [if_pos hkind]
          cases hg : d.APIGroup with
          | none => exact absurd hg (hx d hd hname hkind)
          | some g =>
            dsimp only
            by_cases hp : g = snapshotAPIGroup ∧
                x.Phase = PersistentVolumeClaimPhase.ClaimPending
            · rw [if_pos hp]
              refine ⟨true, rfl, fun _ => ⟨x, List.mem_cons_self _ _, hp.2, d, hd, hname, hkind, ?_⟩,
                fun _ => rfl⟩
              rw [hg, hp.1]
            · rw [if_neg hp]
              refine ⟨b, hb, hskip ?_⟩
              rintro ⟨hphase, ds, hds, -, -, hgroup⟩
              rw [hd] at hds
              cases hds
              rw [hg] at hgroup
              cases hgroup
              exact hp ⟨rfl, hphase⟩
        · rw [if_neg hkind]
          refine ⟨b, hb, hskip ?_⟩
          rintro ⟨-, ds, hds, -, hk, -⟩
          rw [hd] at hds
          cases hds
          exact hkind hk
      · rw [if_neg hname]
        refine ⟨b, hb, hskip ?_⟩
        rintro ⟨-, ds, hds, hn, -⟩
        rw [hd] at hds
        cases hds
        exact hname hn

theorem SnapshotsUpdate_of_succeed (s stored : VolumeSnapshot) (w : World)
    (h : ∀ o ∈ w.apiOutcomes, o = none)
    (hs : findSnapshot s.Namespace s.Name w.snapshots = some stored) :
    SnapshotsUpdate s w =
      (Except.ok { stored with Finalizers := s.Finalizers, Spec := s.Spec },
        { w with writes := w.writes ++ [Write.SnapshotUpdate s],
                 apiOutcomes := w.apiOutcomes.tail,
                 snapshots := putSnapshot
                   { stored with Finalizers := s.Finalizers, Spec := s.Spec } w.snapshots }) := by
  unfold SnapshotsUpdate
  dsimp only
  rw [nextOutcome_of_succeed { w with writes := w.writes ++ [Write.SnapshotUpdate s] } h]
  dsimp only
  rw [hs]

theorem removeSnapshotFinalizer_succeeds (snapshot stored : VolumeSnapshot)
    (removeSourceFinalizer removeBoundFinalizer : Bool) (w : World)
    (h : ∀ o ∈ w.apiOutcomes, o = none)
    (hget : findSnapshot snapshot.Namespace snapshot.Name w.snapshots = some stored)
    (hspec : stored.Spec = snapshot.Spec) :
    (removeSnapshotFinalizer snapshot removeSourceFinalizer removeBoundFinalizer w).1 =
      Res.ok () ∧
    ∃ fin, findSnapshot snapshot.Namespace snapshot.Name
        (removeSnapshotFinalizer snapshot removeSourceFinalizer removeBoundFinalizer
          w).2.snapshots = some { stored with Finalizers := fin } := by
  have hsn := SnapshotsUpdate_snapshots { snapshot with
    Finalizers := finalizersAfterRemoval snapshot.Finalizers removeSourceFinalizer
      removeBoundFinalizer } stored w hget hspec
  have hok := SnapshotsUpdate_of_succeed { snapshot with
    Finalizers := finalizersAfterRemoval snapshot.Finalizers removeSourceFinalizer
      removeBoundFinalizer } stored w h hget
  unfold removeSnapshotFinalizer
  by_cases hab : removeSourceFinalizer = false ∧ removeBoundFinalizer = false
  · rw [if_pos hab]
    exact ⟨rfl, stored.Finalizers, hget⟩
  · rw [if_neg hab]
    dsimp only at hsn hok ⊢
    generalize SnapshotsUpdate { snapshot with
      Finalizers := finalizersAfterRemoval snapshot.Finalizers removeSourceFinalizer
        removeBoundFinalizer } w = res at hsn hok ⊢
    obtain ⟨r, w1⟩ := res
    cases r with
    | error err => simp at hok
    | ok c =>
      dsimp only at hsn ⊢
      have hf := (storeSnapshotUpdate_frame { snapshot with
        Finalizers := finalizersAfterRemoval snapshot.Finalizers removeSourceFinalizer
          removeBoundFinalizer } w1).2.1
      generalize storeSnapshotUpdate { snapshot with
        Finalizers := finalizersAfterRemoval snapshot.Finalizers removeSourceFinalizer
          removeBoundFinalizer } w1 = res2 at hf ⊢
      obtain ⟨r2, w2⟩ := res2
      dsimp only at hf ⊢
      refine ⟨rfl, ?_⟩
      rw [hf]
      exact hsn

theorem ContentsDelete_succeeds (name : String) (w : World)
    (h : ∀ o ∈ w.apiOutcomes, o = none) (hc : findContent name w.contents ≠ none) :
    (ContentsDelete name w).1 = none ∧ (ContentsDelete name w).2.snapshots = w.snapshots := by
  unfold ContentsDelete
  dsimp only
  rw [nextOutcome_of_succeed { w with writes := w.writes ++ [Write.ContentDelete name] } h]
  dsimp only
  cases hf : findContent name w.contents with
  | none => exact absurd hf hc
  | some c => exact ⟨rfl, rfl⟩

/-- With every call succeeding, the request and the content it is given held by
the API server, and an API group on every data source that names the request,
the removal of finalizers returns success; the request on the API server
changes in its finalizers at most. -/
theorem checkandRemove_succeeds (snapshot stored : VolumeSnapshot)
    (content : Option VolumeSnapshotContent) (deleteContent : Bool) (w : World)
    (h : ∀ o ∈ w.apiOutcomes, o = none)
    (hget : findSnapshot snapshot.Namespace snapshot.Name w.snapshots = some stored)
    (hspec : stored.Spec = snapshot.Spec)
    (hgroups : IsSnapshotDeletionCandidate snapshot = true →
      HasAPIGroups snapshot (pvcListerList snapshot.Namespace w))
    (hsrv : ∀ c, content = some c → findContent c.Name w.contents ≠ none) :
    (checkandRemoveSnapshotFinalizersAndCheckandDeleteContent snapshot content deleteContent
      w).1 = Res.ok () ∧
    ∃ fin, findSnapshot snapshot.Namespace snapshot.Name
        (checkandRemoveSnapshotFinalizersAndCheckandDeleteContent snapshot content
          deleteContent w).2.snapshots = some { stored with Finalizers := fin } := by
  have hrem : ∀ (content : Option VolumeSnapshotContent) (inUse : Bool) (w0 : World),
      (∀ o ∈ w0.apiOutcomes, o = none) →
      findSnapshot snapshot.Namespace snapshot.Name w0.snapshots = some stored →
      ((if inUse = false ∨ content = none then
          removeSnapshotFinalizer snapshot (!inUse) content.isNone w0
        else (Res.ok (), w0)) : Res Unit × World).1 = Res.ok () ∧
      ∃ fin, findSnapshot snapshot.Namespace snapshot.Name
        ((if inUse = false ∨ content = none then
            removeSnapshotFinalizer snapshot (!inUse) content.isNone w0
          else (Res.ok (), w0)) : Res Unit × World).2.snapshots =
          some { stored with Finalizers := fin } := by
    intro content inUse w0 h0 hg0
    by_cases hc : inUse = false ∨ content = none
    · rw [if_pos hc]
      exact removeSnapshotFinalizer_succeeds snapshot stored _ _ w0 h0 hg0 hspec
    · rw [if_neg hc]
      exact ⟨rfl, stored.Finalizers, hg0⟩
  unfold checkandRemoveSnapshotFinalizersAndCheckandDeleteContent
  by_cases hcand : IsSnapshotDeletionCandidate snapshot = true
  · rw [if_pos hcand]
    obtain ⟨b, hb, -⟩ := isVolumeBeingCreatedFromSnapshotLoop_iff snapshot _ (hgroups hcand)
    unfold isVolumeBeingCreatedFromSnapshot
    rw [hb]
    dsimp only
    cases content with
    | none => exact hrem none b w h hget
    | some c =>
      dsimp only
      by_cases hd : deleteContent = true ∧ b = false
      · rw [if_pos hd]
        obtain ⟨hdel, hsn⟩ := ContentsDelete_succeeds c.Name w h (hsrv c rfl)
        have hst := ContentsDelete_step NotCreate c.Name (fun _ hx => Write.noConfusion hx) w
        generalize ContentsDelete c.Name w = res at hdel hsn hst ⊢
        obtain ⟨r, w1⟩ := res
        dsimp only at hdel hsn
        subst hdel
        dsimp only
        exact hrem (some c) b w1 (hst.apiOutcomes h) (by rw [hsn]; exact hget)
      · rw [if_neg hd]
        exact hrem (some c) b w h hget
  · rw [if_neg hcand]
    exact ⟨rfl, stored.Finalizers, hget⟩

/-- With every call succeeding, the request and the content of the cache held
by the API server, and an API group on every data source that names the
request, the pre-deletion housekeeping returns success; the request on the API
server changes in its finalizers at most. -/
theorem housekeeping_succeeds (snapshot stored : VolumeSnapshot) (w : World)
    (h : ∀ o ∈ w.apiOutcomes, o = none)
    (hget : findSnapshot snapshot.Namespace snapshot.Name w.snapshots = some stored)
    (hspec : stored.Spec = snapshot.Spec)
    (hgroups : IsSnapshotDeletionCandidate snapshot = true →
      HasAPIGroups snapshot (pvcListerList snapshot.Namespace w))
    (hsrv : ∀ c, contentExists snapshot w = some c → findContent c.Name w.contents ≠ none) :
    ∃ w1 fin, processFinalizersAndCheckandDeleteContent snapshot w = (Res.ok (), w1) ∧
      Step NotCreate w w1 ∧
      findSnapshot snapshot.Namespace snapshot.Name w1.snapshots =
        some { stored with Finalizers := fin } := by
  have hstep := processFinalizers_step snapshot w
  obtain ⟨hok, fin0, hget0⟩ := checkandRemove_succeeds snapshot stored (contentExists snapshot w)
    (match contentExists snapshot w with
      | some c => decide (c.Spec.DeletionPolicy = DeletionPolicy.Delete)
      | none => false) w h hget hspec hgroups hsrv
  unfold processFinalizersAndCheckandDeleteContent at hstep ⊢
  dsimp only at hstep ⊢
  generalize checkandRemoveSnapshotFinalizersAndCheckandDeleteContent snapshot
    (contentExists snapshot w)
    (match contentExists snapshot w with
      | some c => decide (c.Spec.DeletionPolicy = DeletionPolicy.Delete)
      | none => false) w = res at hok hget0 hstep ⊢
  obtain ⟨r0, wa⟩ := res
  dsimp only at hok hget0
  subst hok
  dsimp only at hstep ⊢
  have h2 : ∀ b d, ∃ fin, findSnapshot snapshot.Namespace snapshot.Name
      (checkandAddSnapshotFinalizers snapshot b d wa).snapshots =
        some { stored with Finalizers := fin } := by
    intro b d
    unfold checkandAddSnapshotFinalizers
    dsimp only
    split_ifs
    · exact addSnapshotFinalizer_snapshots snapshot { stored with Finalizers := fin0 } _ _ wa
        hget0 hspec
    · exact ⟨fin0, hget0⟩
  obtain ⟨fin, h2⟩ := h2
    (match contentExists snapshot w with
      | some c => IsSnapshotBound snapshot c
      | none => false)
    (match contentExists snapshot w with
      | some c => decide (c.Spec.DeletionPolicy = DeletionPolicy.Delete)
      | none => false)
  generalize checkandAddSnapshotFinalizers snapshot
    (match contentExists snapshot w with
      | some c => IsSnapshotBound snapshot c
      | none => false)
    (match contentExists snapshot w with
      | some c => decide (c.Spec.DeletionPolicy = DeletionPolicy.Delete)
      | none => false) wa = w2 at hstep h2 ⊢
  have h3 := checkandRemovePVCFinalizer_snapshots snapshot w2
  generalize checkandRemovePVCFinalizer snapshot w2 = res3 at hstep h3 ⊢
  obtain ⟨r3, w3⟩ := res3
  dsimp only at h3
  cases r3 with
  | none => exact ⟨w3, fin, rfl, hstep, by rw [h3]; exact h2⟩
  | some e =>
    refine ⟨_, fin, rfl, hstep, ?_⟩
    show findSnapshot snapshot.Namespace snapshot.Name w3.snapshots = _
    rw [h3]; exact h2

/-- For a request that is no deletion candidate the pre-deletion housekeeping
returns success; the request on the API server changes in its finalizers at
most. -/
theorem housekeeping_of_live (snapshot stored : VolumeSnapshot) (w : World)
    (hnc : IsSnapshotDeletionCandidate snapshot = false)
    (hget : findSnapshot snapshot.Namespace snapshot.Name w.snapshots = some stored)
    (hspec : stored.Spec = snapshot.Spec) :
    ∃ w1 fin, processFinalizersAndCheckandDeleteContent snapshot w = (Res.ok (), w1) ∧
      Step NotCreate w w1 ∧
      findSnapshot snapshot.Namespace snapshot.Name w1.snapshots =
        some { stored with Finalizers := fin } := by
  have hstep := processFinalizers_step snapshot w
  have hrem : ∀ content deleteContent,
      checkandRemoveSnapshotFinalizersAndCheckandDeleteContent snapshot content deleteContent w =
        (Res.ok (), w) := by
    intro content deleteContent
    unfold checkandRemoveSnapshotFinalizersAndCheckandDeleteContent
    rw [if_neg (by simp [hnc])]
  unfold processFinalizersAndCheckandDeleteContent at hstep ⊢
  dsimp only at hstep ⊢
  rw [hrem] at hstep ⊢
  dsimp only at hstep ⊢
  have h2 : ∀ b d, ∃ fin, findSnapshot snapshot.Namespace snapshot.Name
      (checkandAddSnapshotFinalizers snapshot b d w).snapshots =
        some { stored with Finalizers := fin } := by
    intro b d
    unfold checkandAddSnapshotFinalizers
    dsimp only
    split_ifs
    · exact addSnapshotFinalizer_snapshots snapshot stored _ _ w hget hspec
    · exact ⟨stored.Finalizers, hget⟩
  obtain ⟨fin, h2⟩ := h2
    (match contentExists snapshot w with
      | some c => IsSnapshotBound snapshot c
      | none => false)
    (match contentExists snapshot w with
      | some c => decide (c.Spec.DeletionPolicy = DeletionPolicy.Delete)
      | none => false)
  generalize checkandAddSnapshotFinalizers snapshot
    (match contentExists snapshot w with
      | some c => IsSnapshotBound snapshot c
      | none => false)
    (match contentExists snapshot w with
      | some c => decide (c.Spec.DeletionPolicy = DeletionPolicy.Delete)
      | none => false) w = w2 at hstep h2 ⊢
  have h3 := checkandRemovePVCFinalizer_snapshots snapshot w2
  generalize checkandRemovePVCFinalizer snapshot w2 = res3 at hstep h3 ⊢
  obtain ⟨r3, w3⟩ := res3
  dsimp only at h3
  cases r3 with
  | none => exact ⟨w3, fin, rfl, hstep, by rw [h3]; exact h2⟩
  | some e =>
    refine ⟨_, fin, rfl, hstep, ?_⟩
    show findSnapshot snapshot.Namespace snapshot.Name w3.snapshots = _
    rw [h3]; exact h2

theorem PVCsUpdate_of_succeed (pvc : PersistentVolumeClaim) (w : World)
    (h : ∀ o ∈ w.apiOutcomes, o = none)
    (hsrv : findPVC pvc.Namespace pvc.Name w.pvcs ≠ none) :
    (PVCsUpdate pvc w).1 = Except.ok pvc := by
  unfold PVCsUpdate
  dsimp only
  rw [nextOutcome_of_succeed { w with writes := w.writes ++ [Write.PVCUpdate pvc] } h]
  dsimp only
  cases hf : findPVC pvc.Namespace pvc.Name w.pvcs with
  | none => exact absurd hf hsrv
  | some x => rfl

theorem findPVC_key (ns name : String) (l : List PersistentVolumeClaim)
    (p : PersistentVolumeClaim) (h : findPVC ns name l = some p) :
    p.Namespace = ns ∧ p.Name = name := by
  unfold findPVC at h
  simpa using List.find?_some h

theorem getClaimFromVolumeSnapshot_found (snapshot : VolumeSnapshot) (pvcName : String)
    (pvc : PersistentVolumeClaim) (w : World)
    (hname : snapshot.Spec.Source.PersistentVolumeClaimName = some pvcName)
    (hne : pvcName ≠ "")
    (hpvc : findPVC snapshot.Namespace pvcName w.pvcLister = some pvc) :
    getClaimFromVolumeSnapshot snapshot w = Except.ok pvc := by
  unfold getClaimFromVolumeSnapshot
  rw [hname]
  dsimp only
  rw [if_neg hne, hpvc]

theorem ensurePVCFinalizer_succeeds (snapshot : VolumeSnapshot) (pvcName : String)
    (pvc : PersistentVolumeClaim) (w : World)
    (hname : snapshot.Spec.Source.PersistentVolumeClaimName = some pvcName)
    (hne : pvcName ≠ "")
    (hpvc : findPVC snapshot.Namespace pvcName w.pvcLister = some pvc)
    (hlive : pvc.DeletionTimestamp = none)
    (h : ∀ o ∈ w.apiOutcomes, o = none)
    (hsrv : findPVC snapshot.Namespace pvcName w.pvcs ≠ none) :
    (ensurePVCFinalizer snapshot w).1 = none ∧
    (ensurePVCFinalizer snapshot w).2.snapshots = w.snapshots := by
  obtain ⟨hns, hnm⟩ := findPVC_key _ _ _ _ hpvc
  unfold ensurePVCFinalizer
  rw [if_neg (by rw [hname]; exact Option.some_ne_none _),
    getClaimFromVolumeSnapshot_found snapshot pvcName pvc w hname hne hpvc]
  dsimp only
  rw [if_neg (by simp [hlive])]
  split_ifs
  · have h1 := PVCsUpdate_of_succeed { pvc with Finalizers := pvc.Finalizers ++ [PVCFinalizer] } w
      h (by dsimp only; rw [hns, hnm]; exact hsrv)
    have h2 := PVCsUpdate_snapshots { pvc with
      Finalizers := pvc.Finalizers ++ [PVCFinalizer] } w
    generalize PVCsUpdate { pvc with Finalizers := pvc.Finalizers ++ [PVCFinalizer] } w = res
      at h1 h2 ⊢
    obtain ⟨r, w1⟩ := res
    cases r with
    | error e => exact Except.noConfusion h1
    | ok c => exact ⟨rfl, h2⟩
  · exact ⟨rfl, rfl⟩

theorem getCreateSnapshotInput_succeeds (ctrl : csiSnapshotCommonController)
    (snapshot : VolumeSnapshot) (className pvcName : String) (class_ : VolumeSnapshotClass)
    (pvc : PersistentVolumeClaim) (pv : PersistentVolume) (ref : Option SecretReference)
    (w : World)
    (hclass : snapshot.Spec.VolumeSnapshotClassName = some className)
    (hcl : getSnapshotClass className w = Except.ok class_)
    (hname : snapshot.Spec.Source.PersistentVolumeClaimName = some pvcName)
    (hne : pvcName ≠ "")
    (hpvc : findPVC snapshot.Namespace pvcName w.pvcLister = some pvc)
    (hbound : pvc.Phase = PersistentVolumeClaimPhase.ClaimBound)
    (hpv : w.pvs.find? (fun v => decide (v.Name = pvc.VolumeName)) = some pv)
    (hsecret : ctrl.GetSecretReference class_.Parameters
      (GetSnapshotContentNameForSnapshot snapshot) snapshot = Except.ok ref)
    (h : ∀ o ∈ w.apiOutcomes, o = none) :
    getCreateSnapshotInput ctrl snapshot w =
      (Except.ok { class_ := class_, volume := pv,
                   contentName := GetSnapshotContentNameForSnapshot snapshot,
                   snapshotterSecretRef := ref },
        { w with apiOutcomes := w.apiOutcomes.tail }) := by
  unfold getCreateSnapshotInput
  rw [hclass]
  dsimp only
  rw [hcl]
  dsimp only
  unfold getVolumeFromVolumeSnapshot
  rw [getClaimFromVolumeSnapshot_found snapshot pvcName pvc w hname hne hpvc]
  dsimp only
  rw [if_neg (by simp [hbound])]
  unfold PVsGet
  rw [nextOutcome_of_succeed w h]
  dsimp only
  rw [hpv]
  dsimp only
  rw [hsecret]

theorem ContentsCreate_succeeds (c : VolumeSnapshotContent) (w : World)
    (h : ∀ o ∈ w.apiOutcomes, o = none) :
    ∃ w2, (ContentsCreate c w = (Except.ok c, w2) ∨
        ContentsCreate c w = (Except.error (alreadyExistsError c.Name), w2)) ∧
      w2.writes = w.writes ++ [Write.ContentCreate c] ∧
      w2.contentStore = w.contentStore ∧ w2.snapshots = w.snapshots ∧
      w2.apiOutcomes = w.apiOutcomes.tail ∧ w2.storeOutcomes = w.storeOutcomes ∧
      w2.pvcLister = w.pvcLister ∧ findContent c.Name w2.contents ≠ none := by
  unfold ContentsCreate
  dsimp only
  rw [nextOutcome_of_succeed { w with writes := w.writes ++ [Write.ContentCreate c] } h]
  dsimp only
  cases hf : findContent c.Name w.contents with
  | some x =>
    refine ⟨_, Or.inr rfl, rfl, rfl, rfl, rfl, rfl, rfl, ?_⟩
    dsimp only
    rw [hf]
    exact Option.some_ne_none _
  | none =>
    refine ⟨_, Or.inl rfl, rfl, rfl, rfl, rfl, rfl, rfl, ?_⟩
    dsimp only
    rw [findContent_putContent]
    exact Option.some_ne_none _

/-- With a bound claim on a CSI volume, the class in the lister, a positive retry
count and every call succeeding, `createSnapshotContent` returns the content
it has built, after one Create; the content is put into the cache. -/
theorem createSnapshotContent_succeeds (ctrl : csiSnapshotCommonController)
    (snapshot : VolumeSnapshot) (className pvcName volumeHandle : String)
    (class_ : VolumeSnapshotClass) (pvc : PersistentVolumeClaim) (pv : PersistentVolume)
    (ref : Option SecretReference) (w : World)
    (hclass : snapshot.Spec.VolumeSnapshotClassName = some className)
    (hcl : getSnapshotClass className w = Except.ok class_)
    (hname : snapshot.Spec.Source.PersistentVolumeClaimName = some pvcName)
    (hne : pvcName ≠ "")
    (hpvc : findPVC snapshot.Namespace pvcName w.pvcLister = some pvc)
    (hbound : pvc.Phase = PersistentVolumeClaimPhase.ClaimBound)
    (hlive : pvc.DeletionTimestamp = none)
    (hsrv : findPVC snapshot.Namespace pvcName w.pvcs ≠ none)
    (hpv : w.pvs.find? (fun v => decide (v.Name = pvc.VolumeName)) = some pv)
    (hcsi : pv.CSI = some volumeHandle)
    (hsecret : ctrl.GetSecretReference class_.Parameters
      (GetSnapshotContentNameForSnapshot snapshot) snapshot = Except.ok ref)
    (href : ctrl.GetReference = none)
    (hretry : 0 < ctrl.createSnapshotContentRetryCount)
    (hapi : ∀ o ∈ w.apiOutcomes, o = none)
    (hstore : ∀ o ∈ w.storeOutcomes, o = none) :
    ∃ input w2, createSnapshotContent ctrl snapshot w =
        (Res.ok (newSnapshotContent snapshot input volumeHandle), w2) ∧
      snapshot.Spec.VolumeSnapshotClassName = some input.class_.Name ∧
      w2.contentStore =
        putContent (newSnapshotContent snapshot input volumeHandle) w.contentStore ∧
      w2.snapshots = w.snapshots ∧
      (∀ o ∈ w2.apiOutcomes, o = none) ∧ (∀ o ∈ w2.storeOutcomes, o = none) ∧
      Write.ContentCreate (newSnapshotContent snapshot input volumeHandle) ∈ w2.writes ∧
      w2.pvcLister = w.pvcLister ∧
      findContent (newSnapshotContent snapshot input volumeHandle).Name w2.contents ≠ none := by
  obtain ⟨hens, hsnap⟩ := ensurePVCFinalizer_succeeds snapshot pvcName pvc w hname hne hpvc hlive
    hapi hsrv
  have hstep := ensurePVCFinalizer_step snapshot w
  unfold createSnapshotContent
  generalize ensurePVCFinalizer snapshot w = res1 at hens hsnap hstep ⊢
  obtain ⟨r1, wa⟩ := res1
  dsimp only at hens hsnap hstep
  subst hens
  dsimp only
  have hapia := hstep.apiOutcomes hapi
  have hstorea := hstep.storeOutcomes hstore
  have hcla : getSnapshotClass className wa = Except.ok class_ := by
    unfold getSnapshotClass at hcl ⊢
    rw [hstep.classLister]; exact hcl
  rw [getCreateSnapshotInput_succeeds ctrl snapshot className pvcName class_ pvc pv ref wa hclass
    hcla hname hne (by rw [hstep.pvcLister]; exact hpvc) hbound
    (by rw [hstep.pvs]; exact hpv) hsecret hapia]
  dsimp only
  rw [hcsi]
  dsimp only
  rw [href]
  dsimp only
  obtain ⟨n, hn⟩ : ∃ n, ctrl.createSnapshotContentRetryCount.toNat = n + 1 :=
    Nat.exists_eq_succ_of_ne_zero (by omega)
  rw [hn]
  unfold createContentLoop
  have hapib : ∀ o ∈ ({ wa with apiOutcomes := wa.apiOutcomes.tail } : World).apiOutcomes,
      o = none := fun o ho => hapia o (List.mem_of_mem_tail ho)
  obtain ⟨wc, hcreate, hwr, hcs, hsn, hao, hso, hpl, hon⟩ := ContentsCreate_succeeds
    (newSnapshotContent snapshot
      { class_ := class_, volume := pv,
        contentName := GetSnapshotContentNameForSnapshot snapshot,
        snapshotterSecretRef := ref } volumeHandle)
    { wa with apiOutcomes := wa.apiOutcomes.tail } hapib
  have hstorec : ∀ o ∈ wc.storeOutcomes, o = none := by rw [hso]; exact hstorea
  have hfinal : ∀ c : VolumeSnapshotContent, c = newSnapshotContent snapshot
      { class_ := class_, volume := pv,
        contentName := GetSnapshotContentNameForSnapshot snapshot,
        snapshotterSecretRef := ref } volumeHandle →
      ∃ input w2,
        (match storeContentUpdate c wc with
          | (_, w4) => (Res.ok c, w4)) =
          (Res.ok (newSnapshotContent snapshot input volumeHandle), w2) ∧
        snapshot.Spec.VolumeSnapshotClassName = some input.class_.Name ∧
        w2.contentStore =
          putContent (newSnapshotContent snapshot input volumeHandle) w.contentStore ∧
        w2.snapshots = w.snapshots ∧
        (∀ o ∈ w2.apiOutcomes, o = none) ∧ (∀ o ∈ w2.storeOutcomes, o = none) ∧
        Write.ContentCreate (newSnapshotContent snapshot input volumeHandle) ∈ w2.writes ∧
        w2.pvcLister = w.pvcLister ∧
        findContent (newSnapshotContent snapshot input volumeHandle).Name w2.contents ≠
          none := by
    intro c hc
    subst hc
    rw [storeContentUpdate_of_succeed _ wc hstorec]
    refine ⟨_, _, rfl, ?_, ?_, ?_, ?_, ?_, ?_, ?_, ?_⟩
    rotate_right 2
    · dsimp only
      rw [hpl]
      exact hstep.pvcLister
    · dsimp only
      exact hon
    · rw [hclass, getSnapshotClass_name className w class_ hcl]
    · dsimp only
      rw [hcs]
      exact congrArg _ hstep.contentStore
    · dsimp only
      rw [hsn]
      exact hsnap
    · dsimp only
      rw [hao]
      exact fun o ho => hapib o (List.mem_of_mem_tail ho)
    · dsimp only
      exact fun o ho => hstorec o (List.mem_of_mem_tail ho)
    · dsimp only
      rw [hwr]
      simp
  rcases hcreate with hcreate | hcreate
  · rw [hcreate]
    exact hfinal _ rfl
  · rw [hcreate]
    dsimp only
    rw [if_pos (by simp [IsAlreadyExists, alreadyExistsError])]
    exact hfinal _ rfl

/-! ### The test helper `fake.Slice` -/

theorem firstIndex_none (s : fake.Slice) (e : Int) (h : e ∉ s) :
    fake.Slice.firstIndex e s = none := by
  induction s with
  | nil => rfl
  | cons v rest ih =>
    have hv : v ≠ e := fun hve => h (by rw [hve]; exact List.mem_cons_self _ _)
    have hr : e ∉ rest := fun hm => h (List.mem_cons_of_mem _ hm)
    unfold fake.Slice.firstIndex
    rw [if_neg hv, ih hr]
    rfl

theorem firstIndex_append (s : fake.Slice) (e : Int) (h : e ∉ s) :
    fake.Slice.firstIndex e (s ++ [e]) = some s.length := by
  induction s with
  | nil => simp [fake.Slice.firstIndex]
  | cons v rest ih =>
    have hv : v ≠ e := fun hve => h (by rw [hve]; exact List.mem_cons_self _ _)
    have hr : e ∉ rest := fun hm => h (List.mem_cons_of_mem _ hm)
    rw [List.cons_append]
    unfold fake.Slice.firstIndex
    rw [if_neg hv, ih hr]
    rfl

/-- C25: on a `fake.Slice` s that does not contain e, `Add(e)` returns nil and
leaves s with e appended, and a following `Remove(e)` returns nil and leaves
exactly s, so that starting from the empty slice the length is 0 afterwards;
`Add` of an element that is present returns `ERR_ELEM_EXIST` and `Remove` of
an absent element returns `ERR_ELEM_NT_EXIST`, and both leave the slice as it
is. -/
theorem slice_add_remove_round_trip (s : fake.Slice) (e : Int) :
    (e ∉ s → fake.Slice.Add s e = (none, s ++ [e]) ∧
      fake.Slice.Remove (fake.Slice.Add s e).2 e = (none, s)) ∧
    (fake.Slice.Remove (fake.Slice.Add fake.NewSlice e).2 e).2.length = 0 ∧
    (e ∈ s → fake.Slice.Add s e = (some fake.ERR_ELEM_EXIST, s)) ∧
    (e ∉ s → fake.Slice.Remove s e = (some fake.ERR_ELEM_NT_EXIST, s)) := by
  have hadd : ∀ t : fake.Slice, e ∉ t → fake.Slice.Add t e = (none, t ++ [e]) := by
    intro t ht
    unfold fake.Slice.Add
    rw [if_neg]
    simp only [List.any_eq_true, decide_eq_true_eq, not_exists, not_and]
    intro x hx hxe
    exact ht (hxe ▸ hx)
  have hrem : ∀ t : fake.Slice, e ∉ t → fake.Slice.Remove (t ++ [e]) e = (none, t) := by
    intro t ht
    unfold fake.Slice.Remove
    rw [firstIndex_append t e ht]
    dsimp only
    rw [if_pos (by simp)]
    simp
  refine ⟨?_, ?_, ?_, ?_⟩
  · intro h
    refine ⟨hadd s h, ?_⟩
    rw [hadd s h]
    exact hrem s h
  · have h0 : e ∉ fake.NewSlice := List.not_mem_nil e
    rw [hadd _ h0, hrem _ h0]
    rfl
  · intro h
    unfold fake.Slice.Add
    rw [if_pos]
    simp only [List.any_eq_true, decide_eq_true_eq]
    exact ⟨e, h, rfl⟩
  · intro h
    unfold fake.Slice.Remove
    rw [firstIndex_none s e h]

/-! ### Reconciling a content: what the decision reads -/

theorem ContentsUpdate_snapshotStore (c : VolumeSnapshotContent) (w : World)
    (l : List VolumeSnapshot) :
    ContentsUpdate c { w with snapshotStore := l } =
      ((ContentsUpdate c w).1, { (ContentsUpdate c w).2 with snapshotStore := l }) := by
  unfold ContentsUpdate World.nextOutcome
  dsimp only
  cases w.apiOutcomes with
  | nil =>
    dsimp only
    cases findContent c.Name w.contents <;> rfl
  | cons o rest =>
    cases o with
    | some err => rfl
    | none =>
      dsimp only
      cases findContent c.Name w.contents <;> rfl

theorem storeContentUpdate_snapshotStore (c : VolumeSnapshotContent) (w : World)
    (l : List VolumeSnapshot) :
    storeContentUpdate c { w with snapshotStore := l } =
      ((storeContentUpdate c w).1, { (storeContentUpdate c w).2 with snapshotStore := l }) := by
  obtain ⟨a1, a2, a3, a4, a5, a6, a7, a8, a9, a10, a11, a12, a13, so, a15⟩ := w
  unfold storeContentUpdate World.nextStoreOutcome
  dsimp only
  cases so with
  | nil => rfl
  | cons o rest => cases o <;> rfl

/-- When the request under the key of the back-reference is missing or has
another UID, `syncContent` does what it does on an empty request cache. -/
theorem syncContent_without_counterpart (content : VolumeSnapshotContent) (w : World)
    (l : List VolumeSnapshot)
    (huid : content.Spec.VolumeSnapshotRef.UID ≠ "")
    (hgone : ∀ s, snapshotStoreGetByKey (SnapshotRefKey content.Spec.VolumeSnapshotRef)
      { w with snapshotStore := l } = some s → s.UID ≠ content.Spec.VolumeSnapshotRef.UID) :
    syncContent content { w with snapshotStore := l } =
      ((syncContent content { w with snapshotStore := [] }).1,
        { (syncContent content { w with snapshotStore := [] }).2 with snapshotStore := l }) := by
  have hres : ∀ l2 : List VolumeSnapshot,
      (∀ s, snapshotStoreGetByKey (SnapshotRefKey content.Spec.VolumeSnapshotRef)
        { w with snapshotStore := l2 } = some s → s.UID ≠ content.Spec.VolumeSnapshotRef.UID) →
      resolveSnapshot content { w with snapshotStore := l2 } =
        (none, { w with snapshotStore := l2 }) := by
    intro l2 h2
    unfold resolveSnapshot
    dsimp only
    cases hg : snapshotStoreGetByKey (SnapshotRefKey content.Spec.VolumeSnapshotRef)
        { w with snapshotStore := l2 } with
    | none => rfl
    | some s =>
      dsimp only
      rw [if_pos (h2 s hg)]
  have hempty : resolveSnapshot content { w with snapshotStore := [] } =
      (none, { w with snapshotStore := [] }) :=
    hres [] (fun s hs => by simp [snapshotStoreGetByKey] at hs)
  by_cases hneed : NeedToAddContentFinalizer content = true
  · unfold syncContent
    rw [if_pos hneed, if_pos hneed]
    unfold addContentFinalizer
    dsimp only
    have h1 := ContentsUpdate_snapshotStore { content with
      Finalizers := content.Finalizers ++ [VolumeSnapshotContentFinalizer] } w
    rw [h1 l, h1 []]
    generalize ContentsUpdate { content with
      Finalizers := content.Finalizers ++ [VolumeSnapshotContentFinalizer] } w = res
    obtain ⟨r, w1⟩ := res
    cases r with
    | error err => rfl
    | ok c =>
      dsimp only
      have h2 := storeContentUpdate_snapshotStore { content with
        Finalizers := content.Finalizers ++ [VolumeSnapshotContentFinalizer] } w1
      rw [h2 l, h2 []]
  · unfold syncContent
    rw [if_neg hneed, if_neg hneed, if_neg huid, if_neg huid, hres l hgone, hempty]
    dsimp only
    split_ifs with hc
    · have h1 := ContentsUpdate_snapshotStore { content with
        Annotations := SetMetaDataAnnotationKey AnnVolumeSnapshotBeingDeleted "yes"
          content.Annotations } w
      rw [h1 l, h1 []]
      generalize ContentsUpdate { content with
        Annotations := SetMetaDataAnnotationKey AnnVolumeSnapshotBeingDeleted "yes"
          content.Annotations } w = res
      obtain ⟨r, w1⟩ := res
      cases r with
      | error err => rfl
      | ok c =>
        dsimp only
        have h2 := storeContentUpdate_snapshotStore c w1
        rw [h2 l, h2 []]
        generalize storeContentUpdate c w1 = res2
        obtain ⟨r2, w2⟩ := res2
        cases r2 <;> rfl
    · rfl

/-- C26: for a content with a non-empty back-reference UID (with its finalizer
or without), the result, the writes and the queued requests of `syncContent`
are the same when the request cache holds under the referenced key a request
with another UID as when it holds no request under that key. -/
theorem replaced_request_counts_as_missing (content : VolumeSnapshotContent) (w : World)
    (replaced : VolumeSnapshot) (l1 l2 : List VolumeSnapshot)
    (huid : content.Spec.VolumeSnapshotRef.UID ≠ "")
    (h1 : snapshotStoreGetByKey (SnapshotRefKey content.Spec.VolumeSnapshotRef)
      { w with snapshotStore := l1 } = some replaced)
    (hdiff : replaced.UID ≠ content.Spec.VolumeSnapshotRef.UID)
    (h2 : snapshotStoreGetByKey (SnapshotRefKey content.Spec.VolumeSnapshotRef)
      { w with snapshotStore := l2 } = none) :
    (syncContent content { w with snapshotStore := l1 }).1 =
      (syncContent content { w with snapshotStore := l2 }).1 ∧
    (syncContent content { w with snapshotStore := l1 }).2.writes =
      (syncContent content { w with snapshotStore := l2 }).2.writes ∧
    (syncContent content { w with snapshotStore := l1 }).2.snapshotQueue =
      (syncContent content { w with snapshotStore := l2 }).2.snapshotQueue ∧
    (syncContent content { w with snapshotStore := l1 }).2.contents =
      (syncContent content { w with snapshotStore := l2 }).2.contents ∧
    (syncContent content { w with snapshotStore := l1 }).2.events =
      (syncContent content { w with snapshotStore := l2 }).2.events := by
  rw [syncContent_without_counterpart content w l1 huid
      (fun s hs => by rw [h1] at hs; cases hs; exact hdiff),
    syncContent_without_counterpart content w l2 huid
      (fun s hs => by rw [h2] at hs; exact Option.noConfusion hs)]
  exact ⟨rfl, rfl, rfl, rfl, rfl⟩

theorem ContentsUpdate_claims (c : VolumeSnapshotContent) (w : World)
    (pvcs pvcLister : List PersistentVolumeClaim) :
    ContentsUpdate c { w with pvcs := pvcs, pvcLister := pvcLister } =
      ((ContentsUpdate c w).1,
        { (ContentsUpdate c w).2 with pvcs := pvcs, pvcLister := pvcLister }) := by
  unfold ContentsUpdate World.nextOutcome
  dsimp only
  cases w.apiOutcomes with
  | nil =>
    dsimp only
    cases findContent c.Name w.contents <;> rfl
  | cons o rest =>
    cases o with
    | some err => rfl
    | none =>
      dsimp only
      cases findContent c.Name w.contents <;> rfl

theorem storeContentUpdate_claims (c : VolumeSnapshotContent) (w : World)
    (pvcs pvcLister : List PersistentVolumeClaim) :
    storeContentUpdate c { w with pvcs := pvcs, pvcLister := pvcLister } =
      ((storeContentUpdate c w).1,
        { (storeContentUpdate c w).2 with pvcs := pvcs, pvcLister := pvcLister }) := by
  obtain ⟨a1, a2, a3, a4, a5, a6, a7, a8, a9, a10, a11, a12, a13, so, a15⟩ := w
  unfold storeContentUpdate World.nextStoreOutcome
  dsimp only
  cases so with
  | nil => rfl
  | cons o rest => cases o <;> rfl

theorem resolveSnapshot_claims (content : VolumeSnapshotContent) (w : World)
    (pvcs pvcLister : List PersistentVolumeClaim) :
    resolveSnapshot content { w with pvcs := pvcs, pvcLister := pvcLister } =
      ((resolveSnapshot content w).1,
        { (resolveSnapshot content w).2 with pvcs := pvcs, pvcLister := pvcLister }) := by
  unfold resolveSnapshot snapshotStoreGetByKey
  dsimp only
  cases w.snapshotStore.find?
      (fun s => decide (SnapshotKey s = SnapshotRefKey content.Spec.VolumeSnapshotRef)) with
  | none => rfl
  | some s =>
    dsimp only
    split_ifs <;> rfl

/-- The volume claims play no part in `syncContent`. -/
theorem syncContent_claims (content : VolumeSnapshotContent) (w : World)
    (pvcs pvcLister : List PersistentVolumeClaim) :
    syncContent content { w with pvcs := pvcs, pvcLister := pvcLister } =
      ((syncContent content w).1,
        { (syncContent content w).2 with pvcs := pvcs, pvcLister := pvcLister }) := by
  unfold syncContent
  by_cases hneed : NeedToAddContentFinalizer content = true
  · rw [if_pos hneed, if_pos hneed]
    unfold addContentFinalizer
    dsimp only
    rw [ContentsUpdate_claims]
    generalize ContentsUpdate { content with
      Finalizers := content.Finalizers ++ [VolumeSnapshotContentFinalizer] } w = res
    obtain ⟨r, w1⟩ := res
    cases r with
    | error err => rfl
    | ok c =>
      dsimp only
      rw [storeContentUpdate_claims]
  · rw [if_neg hneed, if_neg hneed]
    by_cases huid : content.Spec.VolumeSnapshotRef.UID = ""
    · rw [if_pos huid, if_pos huid]
    · rw [if_neg huid, if_neg huid, resolveSnapshot_claims]
      generalize resolveSnapshot content w = res0
      obtain ⟨snapshot, w0⟩ := res0
      dsimp only
      split_ifs with hc
      · rw [ContentsUpdate_claims]
        generalize ContentsUpdate { content with
          Annotations := SetMetaDataAnnotationKey AnnVolumeSnapshotBeingDeleted "yes"
            content.Annotations } w0 = res
        obtain ⟨r, w1⟩ := res
        cases r with
        | error err => rfl
        | ok c =>
          dsimp only
          rw [storeContentUpdate_claims]
          generalize storeContentUpdate c w1 = res2
          obtain ⟨r2, w2⟩ := res2
          cases r2 <;> rfl
      · rfl

/-- C21, amended: `syncContent` does not look at volume claims: whatever the
claims of the lister and of the API server are, its result, its writes and its
queued requests are the same; in particular a content that has its finalizer,
a non-empty back-reference UID and no annotation yet, bound to a request of
the cache that is a deletion candidate, gets the deletion-in-progress
annotation, also while claims in Pending phase name that request. -/
theorem syncContent_ignores_claims (content : VolumeSnapshotContent) (w : World)
    (pvcs pvcLister : List PersistentVolumeClaim) :
    ((syncContent content { w with pvcs := pvcs, pvcLister := pvcLister }).1 =
        (syncContent content w).1 ∧
      (syncContent content { w with pvcs := pvcs, pvcLister := pvcLister }).2.writes =
        (syncContent content w).2.writes ∧
      (syncContent content { w with pvcs := pvcs, pvcLister := pvcLister }).2.snapshotQueue =
        (syncContent content w).2.snapshotQueue) ∧
    (∀ snapshot : VolumeSnapshot,
      NeedToAddContentFinalizer content = false →
      content.Spec.VolumeSnapshotRef.UID ≠ "" →
      HasAnnotationKey content.Annotations AnnVolumeSnapshotBeingDeleted = false →
      snapshotStoreGetByKey (SnapshotRefKey content.Spec.VolumeSnapshotRef) w = some snapshot →
      IsSnapshotDeletionCandidate snapshot = true →
      (syncContent content { w with pvcs := pvcs, pvcLister := pvcLister }).2.writes =
        w.writes ++ [Write.ContentUpdate (annotated content)]) := by
  rw [syncContent_claims]
  refine ⟨⟨rfl, rfl, rfl⟩, ?_⟩
  intro snapshot hneed huid hann hget hcand
  apply (syncContent_writes_cases content w).2.1 hneed ⟨huid, ?_, hann⟩
  unfold CounterpartGone
  rw [hget]
  exact Or.inr hcand

/-! ### The statements of the later claims at concrete objects -/

/-- C21, counterexample: the content `X` is bound to the request `ns1/snap`,
which is marked for deletion and holds its finalizers, while the claim
`exClaimRestoring`, in Pending phase, names that request as its data source;
`syncContent` sends the Update that sets the deletion-in-progress annotation
on `X`. -/
theorem annotation_set_during_restore :
    exRequestDeleting.DeletionTimestamp ≠ none ∧
    exContentBound.Spec.VolumeSnapshotRef.UID = exRequestDeleting.UID ∧
    snapshotStoreGetByKey (SnapshotRefKey exContentBound.Spec.VolumeSnapshotRef)
      exWorldRestoring = some exRequestDeleting ∧
    exClaimRestoring ∈ pvcListerList exRequestDeleting.Namespace exWorldRestoring ∧
    exClaimRestoring.Phase = PersistentVolumeClaimPhase.ClaimPending ∧
    exClaimRestoring.DataSource =
      some { APIGroup := some snapshotAPIGroup, Kind := snapshotKind,
             Name := exRequestDeleting.Name } ∧
    HasAnnotationKey exContentBound.Annotations AnnVolumeSnapshotBeingDeleted = false ∧
    (syncContent exContentBound exWorldRestoring).2.writes =
      [Write.ContentUpdate (annotated exContentBound)] ∧
    HasAnnotationKey (annotated exContentBound).Annotations
      AnnVolumeSnapshotBeingDeleted = true := by
  decide

/-- C22, counterexample: the request `exRequestBoundUnready` records a bound
content name, its readyToUse is false and the named content is not in the
cache; `syncSnapshot` records the error status and returns an error. -/
theorem unready_bound_request_returns_error :
    exRequestBoundUnready.Status.bind (fun st => st.BoundVolumeSnapshotContentName) =
      some "snapcontent-uid-1" ∧
    contentStoreGetByKey "snapcontent-uid-1" exWorldBoundUnready = none ∧
    (syncSnapshot exCtrl exRequestBoundUnready exWorldBoundUnready).1 =
      Res.error
        "content for snapshot ns1/snap not found without deletion timestamp on snapshot" ∧
    (syncSnapshot exCtrl exRequestBoundUnready exWorldBoundUnready).2.events =
      [{ object := "ns1/snap", eventtype := "Warning", reason := "SnapshotContentNotFound",
         message := "Content for snapshot ns1/snap not found, but deletion timestamp not " ++
           "set on snapshot" }] := by
  decide

/-- C24, counterexample: in `exWorldCreateFails` all five Creates fail with an
error that is not "already exists"; the reconcile returns an error and
records it on the request with two events; the next reconcile of the request
as the API server holds it, error included, sends a Create of the content
again. -/
theorem exhausted_creation_is_attempted_again :
    (syncSnapshot exCtrl exRequestDynamic exWorldCreateFails).1 =
      Res.error ("snapshot controller failed to update ns1/snap on API server: " ++
        "etcdserver: request timed out") ∧
    ((syncSnapshot exCtrl exRequestDynamic exWorldCreateFails).2.writes.filter
      (fun x => decide (x = Write.ContentCreate exContentCreated))).length = 5 ∧
    (syncSnapshot exCtrl exRequestDynamic exWorldCreateFails).2.events.length = 2 ∧
    findSnapshot "ns1" "snap"
      (syncSnapshot exCtrl exRequestDynamic exWorldCreateFails).2.snapshots =
        some exRequestCreateFailed ∧
    (syncSnapshot exCtrl exRequestCreateFailed
      (syncSnapshot exCtrl exRequestDynamic exWorldCreateFails).2).1 = Res.ok () ∧
    ((syncSnapshot exCtrl exRequestCreateFailed
      (syncSnapshot exCtrl exRequestDynamic exWorldCreateFails).2).2.writes.filter
        (fun x => decide (x = Write.ContentCreate exContentCreated))).length = 6 := by
  decide

/-- C26 at the content `X` bound to UID `uid-1`: a cache holding the request
`ns1/snap` with UID `uid-2` and an empty cache give the same result and the
same writes. -/
theorem replaced_request_counts_as_missing_witness :
    snapshotStoreGetByKey (SnapshotRefKey exContentBound.Spec.VolumeSnapshotRef)
      { exWorldDeleting with snapshotStore := [exRequestReplaced] } = some exRequestReplaced ∧
    exRequestReplaced.UID ≠ exContentBound.Spec.VolumeSnapshotRef.UID ∧
    (syncContent exContentBound { exWorldDeleting with snapshotStore := [exRequestReplaced] }).1 =
      (syncContent exContentBound { exWorldDeleting with snapshotStore := [] }).1 ∧
    (syncContent exContentBound
        { exWorldDeleting with snapshotStore := [exRequestReplaced] }).2.writes =
      (syncContent exContentBound { exWorldDeleting with snapshotStore := [] }).2.writes :=
  ⟨by decide, by decide,
    (replaced_request_counts_as_missing exContentBound exWorldDeleting exRequestReplaced
      [exRequestReplaced] [] (by decide) (by decide) (by decide) (by decide)).1,
    (replaced_request_counts_as_missing exContentBound exWorldDeleting exRequestReplaced
      [exRequestReplaced] [] (by decide) (by decide) (by decide) (by decide)).2.1⟩

/-! ### The error status of a request -/

theorem sameErrorAlreadySet_true (snapshot : VolumeSnapshot) (message : String) :
    sameErrorAlreadySet snapshot message = Res.ok true ↔ CarriesError snapshot message := by
  unfold sameErrorAlreadySet CarriesError
  cases snapshot.Status with
  | none => simp
  | some st =>
    cases hE : st.Error with
    | none => simp [hE]
    | some e =>
      cases hM : e.Message with
      | none => simp [hE, hM]
      | some m => simp [hE, hM]

theorem sameErrorAlreadySet_panic (snapshot : VolumeSnapshot) (message : String) :
    (∃ p, sameErrorAlreadySet snapshot message = Res.panic p) ↔
      CarriesErrorWithoutMessage snapshot := by
  unfold sameErrorAlreadySet CarriesErrorWithoutMessage
  cases snapshot.Status with
  | none => simp
  | some st =>
    cases hE : st.Error with
    | none => simp [hE]
    | some e =>
      cases hM : e.Message with
      | none => simp [hE, hM]
      | some m => simp [hE, hM]

theorem sameErrorAlreadySet_false (snapshot : VolumeSnapshot) (message : String)
    (h1 : ¬ CarriesError snapshot message) (h2 : ¬ CarriesErrorWithoutMessage snapshot) :
    sameErrorAlreadySet snapshot message = Res.ok false := by
  have ht := sameErrorAlreadySet_true snapshot message
  have hp := sameErrorAlreadySet_panic snapshot message
  cases hs : sameErrorAlreadySet snapshot message with
  | panic p => exact absurd (hp.1 ⟨p, hs⟩) h2
  | error e =>
    unfold sameErrorAlreadySet at hs
    cases hS : snapshot.Status with
    | none => rw [hS] at hs; simp at hs
    | some st =>
      rw [hS] at hs
      dsimp only at hs
      cases hE : st.Error with
      | none => rw [hE] at hs; simp at hs
      | some e2 =>
        rw [hE] at hs
        dsimp only at hs
        cases hM : e2.Message with
        | none => rw [hM] at hs; simp at hs
        | some m => rw [hM] at hs; simp at hs
  | ok b =>
    cases b with
    | false => rfl
    | true => exact absurd (ht.1 hs) h1

theorem SnapshotsUpdateStatus_events (s : VolumeSnapshot) (w : World) :
    (SnapshotsUpdateStatus s w).2.events = w.events := by
  unfold SnapshotsUpdateStatus World.nextOutcome
  dsimp only
  cases w.apiOutcomes with
  | nil =>
    dsimp only
    cases findSnapshot s.Namespace s.Name w.snapshots <;> rfl
  | cons o rest =>
    cases o with
    | some err => rfl
    | none =>
      dsimp only
      cases findSnapshot s.Namespace s.Name w.snapshots <;> rfl

theorem storeSnapshotUpdate_events (s : VolumeSnapshot) (w : World) :
    (storeSnapshotUpdate s w).2.events = w.events := by
  unfold storeSnapshotUpdate World.nextStoreOutcome
  cases w.storeOutcomes with
  | nil => rfl
  | cons o rest => cases o <;> rfl

/-- The event of `updateSnapshotErrorStatusWithEvent` follows the write: it is
recorded when the UpdateStatus succeeded, and not when it failed. -/
theorem updateSnapshotErrorStatusWithEvent_events (snapshot : VolumeSnapshot)
    (eventtype reason message : String) (w : World)
    (hsame : sameErrorAlreadySet snapshot message = Res.ok false) :
    (∀ s w1, SnapshotsUpdateStatus (errorStatusClone snapshot message w.now) w =
        (Except.ok s, w1) →
      (updateSnapshotErrorStatusWithEvent snapshot eventtype reason message w).2.events =
        w.events ++ [{ object := SnapshotKey s, eventtype := eventtype, reason := reason,
                       message := message }]) ∧
    (∀ err w1, SnapshotsUpdateStatus (errorStatusClone snapshot message w.now) w =
        (Except.error err, w1) →
      updateSnapshotErrorStatusWithEvent snapshot eventtype reason message w =
        (Res.error err.message, w1) ∧ w1.events = w.events) := by
  have hev := SnapshotsUpdateStatus_events (errorStatusClone snapshot message w.now) w
  unfold updateSnapshotErrorStatusWithEvent
  rw [hsame]
  dsimp only
  constructor
  · intro s w1 heq
    rw [heq] at hev ⊢
    dsimp only at hev ⊢
    have hs := storeSnapshotUpdate_events s (recordEvent s eventtype reason message w1)
    generalize storeSnapshotUpdate s (recordEvent s eventtype reason message w1) = res2 at hs ⊢
    obtain ⟨r2, w3⟩ := res2
    dsimp only at hs
    cases r2 <;>
    · show w3.events = _
      rw [hs]
      unfold recordEvent
      dsimp only
      rw [hev]
  · intro err w1 heq
    rw [heq] at hev ⊢
    exact ⟨rfl, hev⟩

/-- C29: when the status of the request already carries an error with the same
message, `updateSnapshotErrorStatusWithEvent` returns success and leaves
everything as it is (no UpdateStatus, no event).  Otherwise, when a recorded
error has a message, it sends exactly one write, the UpdateStatus of the
request with error.message the given message and readyToUse = false, and it
records the event exactly when that write succeeded (when it failed, the error
is returned and no event is recorded).  A recorded error without message
makes the function panic at the comparison of line 619, before any write. -/
theorem error_status_written_on_change (snapshot : VolumeSnapshot)
    (eventtype reason message : String) (w : World) :
    (CarriesError snapshot message →
      updateSnapshotErrorStatusWithEvent snapshot eventtype reason message w = (Res.ok (), w)) ∧
    (¬ CarriesError snapshot message → ¬ CarriesErrorWithoutMessage snapshot →
      (updateSnapshotErrorStatusWithEvent snapshot eventtype reason message w).2.writes =
        w.writes ++ [Write.SnapshotUpdateStatus (errorStatusClone snapshot message w.now)] ∧
      (∃ st, (errorStatusClone snapshot message w.now).Status = some st ∧
        st.Error = some { Time := some w.now, Message := some message } ∧
        st.ReadyToUse = some false) ∧
      (∀ s w1, SnapshotsUpdateStatus (errorStatusClone snapshot message w.now) w =
          (Except.ok s, w1) →
        (updateSnapshotErrorStatusWithEvent snapshot eventtype reason message w).2.events =
          w.events ++ [{ object := SnapshotKey s, eventtype := eventtype, reason := reason,
                         message := message }]) ∧
      (∀ err w1, SnapshotsUpdateStatus (errorStatusClone snapshot message w.now) w =
          (Except.error err, w1) →
        updateSnapshotErrorStatusWithEvent snapshot eventtype reason message w =
          (Res.error err.message, w1) ∧ w1.events = w.events)) ∧
    (CarriesErrorWithoutMessage snapshot →
      ∃ p, updateSnapshotErrorStatusWithEvent snapshot eventtype reason message w =
        (Res.panic p, w)) ∧
    (updateSnapshotErrorStatusWithEvent exRequestNoMessage EventTypeWarning
        "SnapshotContentMissing" "VolumeSnapshotContent is missing" exWorldNoMessage =
      (Res.panic "invalid memory address or nil pointer dereference", exWorldNoMessage)) := by
  refine ⟨?_, ?_, ?_, by decide⟩
  · intro h
    have hs := (sameErrorAlreadySet_true snapshot message).2 h
    unfold updateSnapshotErrorStatusWithEvent
    rw [hs]
  · intro h1 h2
    have hs := sameErrorAlreadySet_false snapshot message h1 h2
    obtain ⟨st, hst, herr, hrdy, -⟩ := errorStatusClone_status snapshot message w.now
    obtain ⟨hev1, hev2⟩ := updateSnapshotErrorStatusWithEvent_events snapshot eventtype reason
      message w hs
    exact ⟨(updateSnapshotErrorStatusWithEvent_writes snapshot eventtype reason message w).1 hs,
      ⟨st, hst, herr, hrdy⟩, hev1, hev2⟩
  · intro h
    obtain ⟨p, hp⟩ := (sameErrorAlreadySet_panic snapshot message).2 h
    refine ⟨p, ?_⟩
    unfold updateSnapshotErrorStatusWithEvent
    rw [hp]

/-! ### The in-use test -/

theorem isVolumeBeingCreatedFromSnapshotLoop_nil_group (snapshot : VolumeSnapshot)
    (pvc : PersistentVolumeClaim) (dataSource : TypedLocalObjectReference)
    (rest : List PersistentVolumeClaim)
    (hds : pvc.DataSource = some dataSource) (hname : dataSource.Name = snapshot.Name)
    (hkind : dataSource.Kind = snapshotKind) (hgroup : dataSource.APIGroup = none) :
    isVolumeBeingCreatedFromSnapshotLoop snapshot (pvc :: rest) =
      Res.panic "invalid memory address or nil pointer dereference" := by
  unfold isVolumeBeingCreatedFromSnapshotLoop
  rw [hds]
  dsimp only
  rw [if_pos hname, if_pos hkind, hgroup]

/-- C27: `isVolumeBeingCreatedFromSnapshot` scans the claims the lister gives
for the namespace of the request; a listing that failed gives false; when
every data source that names the request by name and kind carries an API
group, it returns a boolean, true exactly when some claim of the listing is in
Pending phase with a data source of kind VolumeSnapshot, in the snapshot API
group, named as the request.  A first claim whose data source names the
request by name and kind and carries no API group makes it panic (the
dereference of line 703), as the claim `exClaimNoGroup` does. -/
theorem inUse_test (snapshot : VolumeSnapshot) (l : List PersistentVolumeClaim)
    (e : String) (w : World) :
    isVolumeBeingCreatedFromSnapshot snapshot w =
      isVolumeBeingCreatedFromSnapshotOn snapshot
        (Except.ok (pvcListerList snapshot.Namespace w)) ∧
    isVolumeBeingCreatedFromSnapshotOn snapshot (Except.error e) = Res.ok false ∧
    (HasAPIGroups snapshot l →
      ∃ b, isVolumeBeingCreatedFromSnapshotOn snapshot (Except.ok l) = Res.ok b ∧
        (b = true ↔ ∃ pvc ∈ l, RestoresFrom pvc snapshot)) ∧
    (∀ pvc dataSource rest, pvc.DataSource = some dataSource →
      dataSource.Name = snapshot.Name → dataSource.Kind = snapshotKind →
      dataSource.APIGroup = none →
      isVolumeBeingCreatedFromSnapshotOn snapshot (Except.ok (pvc :: rest)) =
        Res.panic "invalid memory address or nil pointer dereference") ∧
    isVolumeBeingCreatedFromSnapshotOn exRequestDeleting (Except.ok [exClaimNoGroup]) =
      Res.panic "invalid memory address or nil pointer dereference" :=
  ⟨rfl, rfl, isVolumeBeingCreatedFromSnapshotLoop_iff snapshot l,
    fun pvc dataSource rest => isVolumeBeingCreatedFromSnapshotLoop_nil_group snapshot pvc
      dataSource rest, by decide⟩

/-! ### Finalizer removal with and without a content -/

theorem checkandRemove_without_content (snapshot : VolumeSnapshot) (deleteContent inUse : Bool)
    (w : World) (hcand : IsSnapshotDeletionCandidate snapshot = true)
    (huse : isVolumeBeingCreatedFromSnapshot snapshot w = Res.ok inUse) :
    (checkandRemoveSnapshotFinalizersAndCheckandDeleteContent snapshot none deleteContent
        w).2.writes =
      w.writes ++ [Write.SnapshotUpdate { snapshot with
        Finalizers := finalizersAfterRemoval snapshot.Finalizers (!inUse) true }] := by
  unfold checkandRemoveSnapshotFinalizersAndCheckandDeleteContent
  rw [if_pos hcand, huse]
  dsimp only
  rw [if_pos (Or.inr rfl)]
  have hr := removeSnapshotFinalizer_writes snapshot (!inUse) true w
  rw [if_neg (by simp)] at hr
  exact hr

theorem checkandRemove_with_content (snapshot : VolumeSnapshot) (c : VolumeSnapshotContent)
    (deleteContent : Bool) (w : World) :
    ∃ ws, (checkandRemoveSnapshotFinalizersAndCheckandDeleteContent snapshot (some c)
        deleteContent w).2.writes = w.writes ++ ws ∧
      ∀ x ∈ ws, x = Write.ContentDelete c.Name ∨
        x = Write.SnapshotUpdate { snapshot with
          Finalizers := RemoveString snapshot.Finalizers VolumeSnapshotAsSourceFinalizer } := by
  have hrem : ∀ (inUse : Bool) (w0 : World),
      ∃ ws, ((if inUse = false ∨ (some c) = none then
          removeSnapshotFinalizer snapshot (!inUse) (some c).isNone w0
        else (Res.ok (), w0)) : Res Unit × World).2.writes = w0.writes ++ ws ∧
      ∀ x ∈ ws, x = Write.ContentDelete c.Name ∨
        x = Write.SnapshotUpdate { snapshot with
          Finalizers := RemoveString snapshot.Finalizers VolumeSnapshotAsSourceFinalizer } := by
    intro inUse w0
    cases inUse with
    | true =>
      rw [if_neg (by simp)]
      exact ⟨[], by simp, fun x hx => absurd hx (List.not_mem_nil x)⟩
    | false =>
      rw [if_pos (Or.inl rfl)]
      have hr := removeSnapshotFinalizer_writes snapshot (!false) (some c).isNone w0
      rw [if_neg (by simp)] at hr
      refine ⟨_, hr, ?_⟩
      intro x hx
      rw [List.mem_singleton] at hx
      exact Or.inr hx
  unfold checkandRemoveSnapshotFinalizersAndCheckandDeleteContent
  by_cases hcand : IsSnapshotDeletionCandidate snapshot = true
  · rw [if_pos hcand]
    cases isVolumeBeingCreatedFromSnapshot snapshot w with
    | panic p => exact ⟨[], by simp, fun x hx => absurd hx (List.not_mem_nil x)⟩
    | error e => exact ⟨[], by simp, fun x hx => absurd hx (List.not_mem_nil x)⟩
    | ok inUse =>
      dsimp only
      by_cases hd : deleteContent = true ∧ inUse = false
      · rw [if_pos hd]
        have hw := ContentsDelete_writes c.Name w
        generalize ContentsDelete c.Name w = res at hw ⊢
        obtain ⟨r, w1⟩ := res
        cases r with
        | some err =>
          refine ⟨[Write.ContentDelete c.Name], ?_, ?_⟩
          · exact hw
          · intro x hx
            rw [List.mem_singleton] at hx
            exact Or.inl hx
        | none =>
          dsimp only at hw ⊢
          obtain ⟨ws, h1, h2⟩ := hrem inUse w1
          refine ⟨Write.ContentDelete c.Name :: ws, ?_, ?_⟩
          · rw [h1, hw]
            simp
          · intro x hx
            rcases List.mem_cons.1 hx with hx | hx
            · exact Or.inl hx
            · exact h2 x hx
      · rw [if_neg hd]
        exact hrem inUse w
  · rw [if_neg hcand]
    exact ⟨[], by simp, fun x hx => absurd hx (List.not_mem_nil x)⟩

/-- C30: for a request that is a deletion candidate and whose content is not
in the cache, `checkandRemoveSnapshotFinalizersAndCheckandDeleteContent` sends
exactly one Update of the request when the in-use test returns a boolean: in
use, only the bound finalizer is removed and the as-source finalizer is kept;
not in use, both are removed.  When a content is given, whatever the in-use
state, the only writes are a Delete of that content and an Update of the
request from which only the as-source finalizer is removed, so the bound
finalizer is kept.  When the in-use test panics, which it does on a pending
claim that names the request by name and kind with no API group, the function
panics and sends nothing, as at `exRequestDeleting` in `exWorldNoGroup`, where
the pre-deletion housekeeping of `syncSnapshot` panics with it. -/
theorem finalizer_removal_by_content (snapshot : VolumeSnapshot) (c : VolumeSnapshotContent)
    (deleteContent : Bool) (w : World) :
    (IsSnapshotDeletionCandidate snapshot = true →
      (isVolumeBeingCreatedFromSnapshot snapshot w = Res.ok true →
        (checkandRemoveSnapshotFinalizersAndCheckandDeleteContent snapshot none deleteContent
            w).2.writes =
          w.writes ++ [Write.SnapshotUpdate { snapshot with
            Finalizers := RemoveString snapshot.Finalizers VolumeSnapshotBoundFinalizer }]) ∧
      (isVolumeBeingCreatedFromSnapshot snapshot w = Res.ok false →
        (checkandRemoveSnapshotFinalizersAndCheckandDeleteContent snapshot none deleteContent
            w).2.writes =
          w.writes ++ [Write.SnapshotUpdate { snapshot with
            Finalizers := RemoveString
              (RemoveString snapshot.Finalizers VolumeSnapshotAsSourceFinalizer)
              VolumeSnapshotBoundFinalizer }]) ∧
      (∀ p, isVolumeBeingCreatedFromSnapshot snapshot w = Res.panic p →
        checkandRemoveSnapshotFinalizersAndCheckandDeleteContent snapshot none deleteContent w =
          (Res.panic p, w))) ∧
    (∃ ws, (checkandRemoveSnapshotFinalizersAndCheckandDeleteContent snapshot (some c)
        deleteContent w).2.writes = w.writes ++ ws ∧
      ∀ x ∈ ws, x = Write.ContentDelete c.Name ∨
        x = Write.SnapshotUpdate { snapshot with
          Finalizers := RemoveString snapshot.Finalizers VolumeSnapshotAsSourceFinalizer }) ∧
    (VolumeSnapshotBoundFinalizer ∈
        RemoveString snapshot.Finalizers VolumeSnapshotAsSourceFinalizer ↔
      VolumeSnapshotBoundFinalizer ∈ snapshot.Finalizers) ∧
    (VolumeSnapshotAsSourceFinalizer ∈
        RemoveString snapshot.Finalizers VolumeSnapshotBoundFinalizer ↔
      VolumeSnapshotAsSourceFinalizer ∈ snapshot.Finalizers) ∧
    VolumeSnapshotBoundFinalizer ∉
      RemoveString snapshot.Finalizers VolumeSnapshotBoundFinalizer ∧
    IsSnapshotDeletionCandidate exRequestDeleting = true ∧
    contentExists exRequestDeleting exWorldNoGroup = none ∧
    pvcListerList exRequestDeleting.Namespace exWorldNoGroup = [exClaimNoGroup] ∧
    checkandRemoveSnapshotFinalizersAndCheckandDeleteContent exRequestDeleting none false
        exWorldNoGroup =
      (Res.panic "invalid memory address or nil pointer dereference", exWorldNoGroup) ∧
    processFinalizersAndCheckandDeleteContent exRequestDeleting exWorldNoGroup =
      (Res.panic "invalid memory address or nil pointer dereference", exWorldNoGroup) := by
  refine ⟨fun hcand => ⟨fun huse => ?_, fun huse => ?_, fun p huse => ?_⟩,
    checkandRemove_with_content snapshot c deleteContent w, ?_, ?_, ?_, by decide, by decide,
    by decide, by decide, by decide⟩
  · exact checkandRemove_without_content snapshot deleteContent true w hcand huse
  · exact checkandRemove_without_content snapshot deleteContent false w hcand huse
  · unfold checkandRemoveSnapshotFinalizersAndCheckandDeleteContent
    rw [if_pos hcand, huse]
  · rw [mem_RemoveString]
    exact ⟨fun h => h.1, fun h => ⟨h, by decide⟩⟩
  · rw [mem_RemoveString]
    exact ⟨fun h => h.1, fun h => ⟨h, by decide⟩⟩
  · rw [mem_RemoveString]
    exact fun h => h.2 rfl

/-! ### The guard on the creation of a content -/

theorem mayCreateContent_false (snapshot : VolumeSnapshot) :
    mayCreateContent snapshot = Res.ok false ↔ CarriesOtherError snapshot := by
  unfold mayCreateContent isControllerUpdateFailError CarriesOtherError
  cases snapshot.Status with
  | none => simp
  | some st =>
    cases hE : st.Error with
    | none => simp [hE]
    | some e =>
      cases hM : e.Message with
      | none => simp [hE, hM]
      | some m => simp [hE, hM]

theorem mayCreateContent_true (snapshot : VolumeSnapshot) :
    mayCreateContent snapshot = Res.ok true ↔ MayRetryCreation snapshot := by
  unfold mayCreateContent isControllerUpdateFailError MayRetryCreation
  cases snapshot.Status with
  | none => simp
  | some st =>
    cases hE : st.Error with
    | none => simp [hE]
    | some e =>
      cases hM : e.Message with
      | none => simp [hE, hM]
      | some m => simp [hE, hM]

theorem mayCreateContent_panic (snapshot : VolumeSnapshot) :
    (∃ p, mayCreateContent snapshot = Res.panic p) ↔ CarriesErrorWithoutMessage snapshot := by
  unfold mayCreateContent isControllerUpdateFailError CarriesErrorWithoutMessage
  cases snapshot.Status with
  | none => simp
  | some st =>
    cases hE : st.Error with
    | none => simp [hE]
    | some e =>
      cases hM : e.Message with
      | none => simp [hE, hM]
      | some m => simp [hE, hM]

theorem MayRetryCreation.has_message (snapshot : VolumeSnapshot) (h : MayRetryCreation snapshot) :
    ¬ CarriesErrorWithoutMessage snapshot := by
  rintro ⟨st, e, hS, hE, hM⟩
  rcases h with h | ⟨st2, e2, m, hS2, hE2, hM2, -⟩
  · rw [hS] at h
    simp [hE] at h
  · rw [hS] at hS2
    cases hS2
    rw [hE] at hE2
    cases hE2
    rw [hM] at hM2
    exact Option.noConfusion hM2

theorem syncUnreadySnapshot_unbound (ctrl : csiSnapshotCommonController)
    (snapshot : VolumeSnapshot) (w : World)
    (hdyn : snapshot.Spec.Source.VolumeSnapshotContentName = none)
    (hmatch : getMatchSnapshotContent snapshot w = none)
    (hbound : snapshot.Status.bind (fun st => st.BoundVolumeSnapshotContentName) = none) :
    syncUnreadySnapshot ctrl snapshot w =
      match mayCreateContent snapshot with
      | Res.panic p => (Res.panic p, w)
      | Res.error e => (Res.error e, w)
      | Res.ok false => (Res.ok (), w)
      | Res.ok true =>
        if snapshot.Spec.Source.PersistentVolumeClaimName = none then
          match updateSnapshotErrorStatusWithEvent snapshot EventTypeWarning
              "SnapshotPVCSourceMissing"
              ("PVC source for snapshot " ++ SnapshotKey snapshot ++ " is missing") w with
          | (Res.panic p, w1) => (Res.panic p, w1)
          | (_, w1) =>
            (Res.error ("expected PVC source for snapshot " ++ SnapshotKey snapshot ++
              " but got nil"), w1)
        else
          match createSnapshotContent ctrl snapshot w with
          | (Res.panic p, w1) => (Res.panic p, w1)
          | (Res.error err, w1) =>
            match updateSnapshotErrorStatusWithEvent snapshot EventTypeWarning
                "SnapshotContentCreationFailed"
                ("Failed to create snapshot content with error " ++ err) w1 with
            | (Res.panic p, w2) => (Res.panic p, w2)
            | (_, w2) => (Res.error err, w2)
          | (Res.ok content, w1) => propagateStatus ctrl snapshot content w1 := by
  unfold syncUnreadySnapshot
  rw [if_neg (by simp [hdyn])]
  unfold syncUnreadySnapshotDynamic
  dsimp only
  rw [hmatch, hbound]

/-- C23: for a dynamic request with no matching content in the cache and no
recorded bound content name, `syncUnreadySnapshot` does the following.  When
the status carries an error whose message does not contain "snapshot
controller failed to update", it returns success and leaves the world as it
was: no write, no event.  When the status carries no error, or one whose
message contains that text, and the volume-claim source is absent, it returns
the error "expected PVC source ... but got nil" and writes the error status
with one UpdateStatus (nothing, if that error is already recorded), so no
content is created; with the source present it goes on from the result of
`createSnapshotContent`.  When the status carries an error that has no
message, the guard of line 390 dereferences it (line 1119) and the reconcile
panics instead of returning success, as for `exRequestNoMessage`. -/
theorem permanent_errors_not_retried (ctrl : csiSnapshotCommonController)
    (snapshot : VolumeSnapshot) (w : World) :
    (snapshot.Spec.Source.VolumeSnapshotContentName = none →
      getMatchSnapshotContent snapshot w = none →
      snapshot.Status.bind (fun st => st.BoundVolumeSnapshotContentName) = none →
      (CarriesOtherError snapshot → syncUnreadySnapshot ctrl snapshot w = (Res.ok (), w)) ∧
      (MayRetryCreation snapshot → snapshot.Spec.Source.PersistentVolumeClaimName = none →
        (syncUnreadySnapshot ctrl snapshot w).1 =
          Res.error ("expected PVC source for snapshot " ++ SnapshotKey snapshot ++
            " but got nil") ∧
        (¬ CarriesError snapshot
            ("PVC source for snapshot " ++ SnapshotKey snapshot ++ " is missing") →
          (syncUnreadySnapshot ctrl snapshot w).2.writes =
            w.writes ++ [Write.SnapshotUpdateStatus (errorStatusClone snapshot
              ("PVC source for snapshot " ++ SnapshotKey snapshot ++ " is missing") w.now)]) ∧
        (CarriesError snapshot
            ("PVC source for snapshot " ++ SnapshotKey snapshot ++ " is missing") →
          (syncUnreadySnapshot ctrl snapshot w).2 = w)) ∧
      (MayRetryCreation snapshot → snapshot.Spec.Source.PersistentVolumeClaimName ≠ none →
        ∀ content w1, createSnapshotContent ctrl snapshot w = (Res.ok content, w1) →
          syncUnreadySnapshot ctrl snapshot w = propagateStatus ctrl snapshot content w1) ∧
      (CarriesErrorWithoutMessage snapshot →
        ∃ p, syncUnreadySnapshot ctrl snapshot w = (Res.panic p, w))) ∧
    (CarriesOtherError snapshot ∨ MayRetryCreation snapshot ∨
      CarriesErrorWithoutMessage snapshot) ∧
    exRequestNoMessage.Spec.Source.VolumeSnapshotContentName = none ∧
    getMatchSnapshotContent exRequestNoMessage exWorldNoMessage = none ∧
    exRequestNoMessage.Status.bind (fun st => st.BoundVolumeSnapshotContentName) = none ∧
    syncUnreadySnapshot exCtrl exRequestNoMessage exWorldNoMessage =
      (Res.panic "invalid memory address or nil pointer dereference", exWorldNoMessage) := by
  refine ⟨fun hdyn hmatch hbound => ?_, ?_, by decide, by decide, by decide, by decide⟩
  · have hrw := syncUnreadySnapshot_unbound ctrl snapshot w hdyn hmatch hbound
    refine ⟨fun h => ?_, fun h hpvc => ?_, fun h hpvc content w1 hc => ?_, fun h => ?_⟩
    · rw [hrw, (mayCreateContent_false snapshot).2 h]
    · rw [hrw, (mayCreateContent_true snapshot).2 h]
      dsimp only
      rw [if_pos hpvc]
      have hnp := MayRetryCreation.has_message snapshot h
      have hw := updateSnapshotErrorStatusWithEvent_writes snapshot EventTypeWarning
        "SnapshotPVCSourceMissing"
        ("PVC source for snapshot " ++ SnapshotKey snapshot ++ " is missing") w
      have hsame : ∃ b, sameErrorAlreadySet snapshot
          ("PVC source for snapshot " ++ SnapshotKey snapshot ++ " is missing") = Res.ok b := by
        by_cases hce : CarriesError snapshot
            ("PVC source for snapshot " ++ SnapshotKey snapshot ++ " is missing")
        · exact ⟨true, (sameErrorAlreadySet_true snapshot _).2 hce⟩
        · exact ⟨false, sameErrorAlreadySet_false snapshot _ hce hnp⟩
      obtain ⟨b, hb⟩ := hsame
      have hno := updateSnapshotErrorStatusWithEvent_no_panic snapshot EventTypeWarning
        "SnapshotPVCSourceMissing"
        ("PVC source for snapshot " ++ SnapshotKey snapshot ++ " is missing") w b hb
      generalize updateSnapshotErrorStatusWithEvent snapshot EventTypeWarning
        "SnapshotPVCSourceMissing"
        ("PVC source for snapshot " ++ SnapshotKey snapshot ++ " is missing") w = res
        at hw hno ⊢
      obtain ⟨r, w1⟩ := res
      have hfalse : ¬ CarriesError snapshot
          ("PVC source for snapshot " ++ SnapshotKey snapshot ++ " is missing") →
          sameErrorAlreadySet snapshot
            ("PVC source for snapshot " ++ SnapshotKey snapshot ++ " is missing") =
              Res.ok false := fun hce => sameErrorAlreadySet_false snapshot _ hce hnp
      have htrue : CarriesError snapshot
          ("PVC source for snapshot " ++ SnapshotKey snapshot ++ " is missing") →
          sameErrorAlreadySet snapshot
            ("PVC source for snapshot " ++ SnapshotKey snapshot ++ " is missing") ≠
              Res.ok false := by
        intro hce hs
        rw [(sameErrorAlreadySet_true snapshot _).2 hce] at hs
        cases hs
      cases r with
      | panic p => exact absurd rfl (hno p)
      | error e => exact ⟨rfl, fun hce => hw.1 (hfalse hce), fun hce => hw.2 (htrue hce)⟩
      | ok u => exact ⟨rfl, fun hce => hw.1 (hfalse hce), fun hce => hw.2 (htrue hce)⟩
    · rw [hrw, (mayCreateContent_true snapshot).2 h]
      dsimp only
      rw [if_neg hpvc, hc]
    · obtain ⟨p, hp⟩ := (mayCreateContent_panic snapshot).2 h
      exact ⟨p, by rw [hrw, hp]⟩
  · cases hm : mayCreateContent snapshot with
    | panic p => exact Or.inr (Or.inr ((mayCreateContent_panic snapshot).1 ⟨p, hm⟩))
    | error e =>
      exfalso
      unfold mayCreateContent isControllerUpdateFailError at hm
      cases hS : snapshot.Status with
      | none => rw [hS] at hm; simp at hm
      | some st =>
        rw [hS] at hm
        dsimp only at hm
        cases hE : st.Error with
        | none => rw [hE] at hm; simp at hm
        | some e2 =>
          rw [hE] at hm
          dsimp only at hm
          cases hM : e2.Message with
          | none => rw [hM] at hm; simp at hm
          | some m => rw [hM] at hm; simp at hm
    | ok b =>
      cases b with
      | false => exact Or.inl ((mayCreateContent_false snapshot).1 hm)
      | true => exact Or.inr (Or.inl ((mayCreateContent_true snapshot).1 hm))

/-! ### The gate between the ready and the unready flow -/

/-- C22, amended: after the pre-deletion housekeeping has succeeded, a request
with a recorded bound content name takes the verification flow exactly when
its readyToUse is true.  There, a content missing from the cache makes
`syncSnapshot` return what the write of the warning status
"VolumeSnapshotContent is missing" returns, a content whose back-reference
does not match what the write of "VolumeSnapshotContent is not bound to the
VolumeSnapshot correctly" returns, and a matching content gives success with
nothing written.  A request that is not ready goes through
`syncUnreadySnapshot`, also when a bound content name is recorded. -/
theorem ready_gate (ctrl : csiSnapshotCommonController) (snapshot : VolumeSnapshot)
    (w w1 : World) (boundName : String)
    (hhk : processFinalizersAndCheckandDeleteContent snapshot w = (Res.ok (), w1))
    (hbound : snapshot.Status.bind (fun st => st.BoundVolumeSnapshotContentName) =
      some boundName) :
    (IsSnapshotReady snapshot = true →
      (contentStoreGetByKey boundName w1 = none →
        syncSnapshot ctrl snapshot w =
          updateSnapshotErrorStatusWithEvent snapshot EventTypeWarning "SnapshotContentMissing"
            "VolumeSnapshotContent is missing" w1) ∧
      (∀ content, contentStoreGetByKey boundName w1 = some content →
        IsVolumeSnapshotRefSet snapshot content = false →
        syncSnapshot ctrl snapshot w =
          updateSnapshotErrorStatusWithEvent snapshot EventTypeWarning "SnapshotMisbound"
            "VolumeSnapshotContent is not bound to the VolumeSnapshot correctly" w1) ∧
      (∀ content, contentStoreGetByKey boundName w1 = some content →
        IsVolumeSnapshotRefSet snapshot content = true →
        syncSnapshot ctrl snapshot w = (Res.ok (), w1))) ∧
    (IsSnapshotReady snapshot = false →
      syncSnapshot ctrl snapshot w = syncUnreadySnapshot ctrl snapshot w1) := by
  have hset : IsBoundVolumeSnapshotContentNameSet snapshot = true := by
    unfold IsBoundVolumeSnapshotContentNameSet
    rw [hbound]
    rfl
  refine ⟨fun hready => ⟨fun hmiss => ?_, fun content hc href => ?_, fun content hc href => ?_⟩,
    fun hready => ?_⟩
  · unfold syncSnapshot
    rw [hhk]
    dsimp only
    rw [if_neg (by simp [hready])]
    unfold syncReadySnapshot
    rw [if_neg (by simp [hset]), hbound]
    dsimp only
    rw [hmiss]
  · unfold syncSnapshot
    rw [hhk]
    dsimp only
    rw [if_neg (by simp [hready])]
    unfold syncReadySnapshot
    rw [if_neg (by simp [hset]), hbound]
    dsimp only
    rw [hc]
    dsimp only
    rw [if_pos href]
  · unfold syncSnapshot
    rw [hhk]
    dsimp only
    rw [if_neg (by simp [hready])]
    unfold syncReadySnapshot
    rw [if_neg (by simp [hset]), hbound]
    dsimp only
    rw [hc]
    dsimp only
    rw [if_neg (by simp [href])]
  · unfold syncSnapshot
    rw [hhk]
    dsimp only
    rw [if_pos hready]

/-- C22 at the ready request `exRequestBoundReady`, whose content is not in the
cache: the housekeeping writes nothing, and the reconcile writes the warning
status, records the event and returns success. -/
theorem ready_gate_witness :
    processFinalizersAndCheckandDeleteContent exRequestBoundReady exWorldBoundReady =
      (Res.ok (), exWorldBoundReady) ∧
    exRequestBoundReady.Status.bind (fun st => st.BoundVolumeSnapshotContentName) =
      some "snapcontent-uid-1" ∧
    IsSnapshotReady exRequestBoundReady = true ∧
    contentStoreGetByKey "snapcontent-uid-1" exWorldBoundReady = none ∧
    syncSnapshot exCtrl exRequestBoundReady exWorldBoundReady =
      updateSnapshotErrorStatusWithEvent exRequestBoundReady EventTypeWarning
        "SnapshotContentMissing" "VolumeSnapshotContent is missing" exWorldBoundReady ∧
    (syncSnapshot exCtrl exRequestBoundReady exWorldBoundReady).1 = Res.ok () ∧
    (syncSnapshot exCtrl exRequestBoundReady exWorldBoundReady).2.writes =
      [Write.SnapshotUpdateStatus (errorStatusClone exRequestBoundReady
        "VolumeSnapshotContent is missing" exWorldBoundReady.now)] :=
  ⟨by decide, by decide, by decide, by decide,
    ((ready_gate exCtrl exRequestBoundReady exWorldBoundReady exWorldBoundReady
      "snapcontent-uid-1" (by decide) (by decide)).1 (by decide)).1 (by decide),
    by decide, by decide⟩

/-! ### The bounded loop of Creates -/

theorem ContentsCreate_writes (c : VolumeSnapshotContent) (w : World) :
    (ContentsCreate c w).2.writes = w.writes ++ [Write.ContentCreate c] := by
  unfold ContentsCreate World.nextOutcome
  dsimp only
  cases w.apiOutcomes with
  | nil =>
    dsimp only
    cases findContent c.Name w.contents <;> rfl
  | cons o rest =>
    cases o with
    | some err => rfl
    | none =>
      dsimp only
      cases findContent c.Name w.contents <;> rfl

theorem createContentLoop_attempts (interval : Int) (snapshotContent : VolumeSnapshotContent)
    (n : Nat) (updateContent : Option VolumeSnapshotContent) (err : Option APIError)
    (w : World) :
    (createContentLoop interval snapshotContent n updateContent err w).2.writes =
      w.writes ++ List.replicate
        (createCalls n (createAttempts interval snapshotContent n w))
        (Write.ContentCreate snapshotContent) ∧
    (∀ r, (createAttempts interval snapshotContent n w).find? EndsCreateLoop = some r →
      createContentLoop interval snapshotContent n updateContent err w =
        ((some snapshotContent, none), r.2)) ∧
    ((createAttempts interval snapshotContent n w).find? EndsCreateLoop = none → 1 ≤ n →
      createCalls n (createAttempts interval snapshotContent n w) = n ∧
      ∃ e w1, (Except.error e, w1) ∈ createAttempts interval snapshotContent n w ∧
        IsAlreadyExists e = false ∧
        createContentLoop interval snapshotContent n updateContent err w =
          ((none, some e), sleep interval w1)) := by
  induction n generalizing updateContent err w with
  | zero =>
    refine ⟨?_, ?_, ?_⟩
    · simp [createContentLoop, createAttempts, createCalls]
    · intro r hr
      simp [createAttempts] at hr
    · intro _ h
      exact absurd h (by decide)
  | succ n ih =>
    unfold createContentLoop createAttempts
    have hw := ContentsCreate_writes snapshotContent w
    have hok := fun r w1 => ContentsCreate_ok snapshotContent r w w1
    generalize ContentsCreate snapshotContent w = res at hw hok ⊢
    obtain ⟨r, w1⟩ := res
    dsimp only at hw
    cases r with
    | ok c =>
      have hc : c = snapshotContent := hok c w1 rfl
      subst hc
      refine ⟨?_, ?_, ?_⟩
      · simp [createCalls, EndsCreateLoop, hw]
      · intro r hr
        simp [EndsCreateLoop] at hr
        rw [← hr]
      · intro h
        simp [EndsCreateLoop] at h
    | error e =>
      dsimp only
      by_cases he : IsAlreadyExists e = true
      · rw [if_pos he]
        refine ⟨?_, ?_, ?_⟩
        · simp [createCalls, EndsCreateLoop, he, hw]
        · intro r hr
          simp [EndsCreateLoop, he] at hr
          rw [← hr]
        · intro h
          simp [EndsCreateLoop, he] at h
      · rw [if_neg he]
        have he2 : IsAlreadyExists e = false := by simpa using he
        obtain ⟨ih1, ih2, ih3⟩ := ih none (some e) (sleep interval w1)
        have hends : EndsCreateLoop (Except.error e, w1) = false := by
          simp [EndsCreateLoop, he2]
        have hcalls : createCalls (n + 1)
            ((Except.error e, w1) :: createAttempts interval snapshotContent n
              (sleep interval w1)) =
            createCalls n (createAttempts interval snapshotContent n (sleep interval w1)) +
              1 := by
          unfold createCalls
          rw [List.takeWhile_cons_of_pos (by simp [hends])]
          simp only [List.length_cons]
          omega
        refine ⟨?_, ?_, ?_⟩
        · rw [ih1, hcalls, List.replicate_succ]
          have : (sleep interval w1).writes = w1.writes := rfl
          rw [this, hw]
          simp
        · intro r hr
          rw [List.find?_cons_of_neg _ (by simp [hends])] at hr
          exact ih2 r hr
        · intro hnone _
          rw [List.find?_cons_of_neg _ (by simp [hends])] at hnone
          rw [hcalls]
          cases n with
          | zero =>
            refine ⟨by simp [createCalls, createAttempts], e, w1, List.mem_cons_self _ _, he2, ?_⟩
            simp [createContentLoop]
          | succ k =>
            obtain ⟨hk, e2, w2, hmem, hae, hres⟩ := ih3 hnone (by omega)
            exact ⟨by rw [hk], e2, w2, List.mem_cons_of_mem _ hmem, hae, hres⟩

theorem stringsContains_newControllerUpdateError (name message : String) :
    stringsContains (newControllerUpdateError name message) controllerUpdateFailMsg = true := by
  unfold stringsContains newControllerUpdateError
  simp only [decide_eq_true_eq, String.data_append, List.append_assoc]
  exact (List.prefix_append _ _).isInfix

theorem stringsContains_creation_failed (name message : String) :
    stringsContains ("Failed to create snapshot content with error " ++
      newControllerUpdateError name message) controllerUpdateFailMsg = true := by
  unfold stringsContains newControllerUpdateError
  simp only [decide_eq_true_eq, String.data_append, List.append_assoc]
  exact ⟨_, _, List.append_assoc _ _ _⟩

theorem createSnapshotContent_attempts (ctrl : csiSnapshotCommonController)
    (snapshot : VolumeSnapshot) (w wa wb : World) (input : CreateSnapshotInput)
    (volumeHandle : String)
    (h1 : ensurePVCFinalizer snapshot w = (none, wa))
    (h2 : getCreateSnapshotInput ctrl snapshot wa = (Except.ok input, wb))
    (h3 : input.volume.CSI = some volumeHandle)
    (h4 : ctrl.GetReference = none) :
    (createSnapshotContent ctrl snapshot w).2.writes =
      wb.writes ++ List.replicate
        (createCalls ctrl.createSnapshotContentRetryCount.toNat
          (createAttempts ctrl.createSnapshotContentInterval
            (newSnapshotContent snapshot input volumeHandle)
            ctrl.createSnapshotContentRetryCount.toNat wb))
        (Write.ContentCreate (newSnapshotContent snapshot input volumeHandle)) ∧
    (∀ r, (createAttempts ctrl.createSnapshotContentInterval
          (newSnapshotContent snapshot input volumeHandle)
          ctrl.createSnapshotContentRetryCount.toNat wb).find? EndsCreateLoop = some r →
      (createSnapshotContent ctrl snapshot w).1 =
        Res.ok (newSnapshotContent snapshot input volumeHandle)) ∧
    ((createAttempts ctrl.createSnapshotContentInterval
          (newSnapshotContent snapshot input volumeHandle)
          ctrl.createSnapshotContentRetryCount.toNat wb).find? EndsCreateLoop = none →
      1 ≤ ctrl.createSnapshotContentRetryCount.toNat →
      createCalls ctrl.createSnapshotContentRetryCount.toNat
        (createAttempts ctrl.createSnapshotContentInterval
          (newSnapshotContent snapshot input volumeHandle)
          ctrl.createSnapshotContentRetryCount.toNat wb) =
        ctrl.createSnapshotContentRetryCount.toNat ∧
      ∃ e w1, (Except.error e, w1) ∈ createAttempts ctrl.createSnapshotContentInterval
          (newSnapshotContent snapshot input volumeHandle)
          ctrl.createSnapshotContentRetryCount.toNat wb ∧
        IsAlreadyExists e = false ∧
        createSnapshotContent ctrl snapshot w =
          (Res.error (newControllerUpdateError (SnapshotKey snapshot) e.message),
            recordEvent snapshot EventTypeWarning "CreateSnapshotContentFailed"
              ("Error creating volume snapshot content object for snapshot " ++
                SnapshotKey snapshot ++ ": " ++ e.message ++ ".")
              (sleep ctrl.createSnapshotContentInterval w1))) := by
  obtain ⟨hl1, hl2, hl3⟩ := createContentLoop_attempts ctrl.createSnapshotContentInterval
    (newSnapshotContent snapshot input volumeHandle)
    ctrl.createSnapshotContentRetryCount.toNat none none wb
  unfold createSnapshotContent
  rw [h1]
  dsimp only
  rw [h2]
  dsimp only
  rw [h3]
  dsimp only
  rw [h4]
  dsimp only
  generalize createContentLoop ctrl.createSnapshotContentInterval
    (newSnapshotContent snapshot input volumeHandle)
    ctrl.createSnapshotContentRetryCount.toNat none none wb = res at hl1 hl2 hl3 ⊢
  obtain ⟨⟨u, e⟩, w3⟩ := res
  dsimp only at hl1
  cases e with
  | some err =>
    have hshape : ∀ (u : Option VolumeSnapshotContent) (w3 : World),
        (match ((u, some err), w3) with
          | ((_, some err), w3) =>
            (Res.error (newControllerUpdateError (SnapshotKey snapshot) err.message),
              recordEvent snapshot EventTypeWarning "CreateSnapshotContentFailed"
                ("Error creating volume snapshot content object for snapshot " ++
                  SnapshotKey snapshot ++ ": " ++ err.message ++ ".") w3)
          | ((none, none), w3) =>
            (Res.panic "invalid memory address or nil pointer dereference", w3)
          | ((some updateContent, none), w3) =>
            (Res.ok updateContent, (storeContentUpdate updateContent w3).2) :
              Res VolumeSnapshotContent × World) =
        (Res.error (newControllerUpdateError (SnapshotKey snapshot) err.message),
          recordEvent snapshot EventTypeWarning "CreateSnapshotContentFailed"
            ("Error creating volume snapshot content object for snapshot " ++
              SnapshotKey snapshot ++ ": " ++ err.message ++ ".") w3) := by
      intro u w3
      cases u <;> rfl
    rw [hshape]
    refine ⟨hl1, ?_, ?_⟩
    · intro r hr
      have := hl2 r hr
      simp at this
    · intro hnone hN
      obtain ⟨hk, e2, w1, hmem, hae, hres⟩ := hl3 hnone hN
      refine ⟨hk, e2, w1, hmem, hae, ?_⟩
      simp only [Prod.mk.injEq, Option.some.injEq] at hres
      obtain ⟨⟨-, herr⟩, hw3⟩ := hres
      subst herr
      subst hw3
      rfl
  | none =>
    cases u with
    | none =>
      refine ⟨hl1, ?_, ?_⟩
      · intro r hr
        have := hl2 r hr
        simp at this
      · intro hnone hN
        obtain ⟨-, e2, w1, -, -, hres⟩ := hl3 hnone hN
        simp at hres
    | some updateContent =>
      dsimp only
      refine ⟨?_, ?_, ?_⟩
      · rw [(storeContentUpdate_frame updateContent w3).1]
        exact hl1
      · intro r hr
        have := hl2 r hr
        simp only [Prod.mk.injEq, Option.some.injEq, and_true] at this
        rw [this.1]
      · intro hnone hN
        obtain ⟨-, e2, w1, -, -, hres⟩ := hl3 hnone hN
        simp at hres

theorem createAttempts_length (interval : Int) (snapshotContent : VolumeSnapshotContent)
    (n : Nat) (w : World) : (createAttempts interval snapshotContent n w).length = n := by
  induction n generalizing w with
  | zero => rfl
  | succ n ih =>
    unfold createAttempts
    rw [List.length_cons, ih]

theorem createCalls_of_found (n : Nat)
    (attempts : List (Except APIError VolumeSnapshotContent × World))
    (r : Except APIError VolumeSnapshotContent × World) (hlen : attempts.length = n)
    (h : attempts.find? EndsCreateLoop = some r) :
    createCalls n attempts = (attempts.takeWhile (fun r => !EndsCreateLoop r)).length + 1 := by
  have hlt : (attempts.takeWhile (fun r => !EndsCreateLoop r)).length < attempts.length := by
    clear hlen
    induction attempts with
    | nil => simp at h
    | cons x xs ih =>
      by_cases hx : EndsCreateLoop x = true
      · rw [List.takeWhile_cons_of_neg (by simp [hx])]
        simp
      · rw [List.takeWhile_cons_of_pos (by simpa using hx)]
        rw [List.find?_cons_of_neg _ hx] at h
        simpa using ih h
  unfold createCalls
  omega

/-- C28: when `createSnapshotContent` reaches its loop with a retry count N of
at least one, it sends between one and N Creates of the content it has built
and no other write after the input was fetched.  The number of Creates is one
more than the number of answers before the first that is a success or
"already exists": the loop stops there, and `createSnapshotContent` returns
success with the content it built, also when that answer is "already
exists".  When none of the N answers is a success or "already exists", N
Creates are sent and the function returns an error whose message contains
"snapshot controller failed to update". -/
theorem bounded_idempotent_create (ctrl : csiSnapshotCommonController)
    (snapshot : VolumeSnapshot) (w wa wb : World) (input : CreateSnapshotInput)
    (volumeHandle : String)
    (h1 : ensurePVCFinalizer snapshot w = (none, wa))
    (h2 : getCreateSnapshotInput ctrl snapshot wa = (Except.ok input, wb))
    (h3 : input.volume.CSI = some volumeHandle)
    (h4 : ctrl.GetReference = none)
    (hN : 1 ≤ ctrl.createSnapshotContentRetryCount) :
    (createSnapshotContent ctrl snapshot w).2.writes =
      wb.writes ++ List.replicate
        (createCalls ctrl.createSnapshotContentRetryCount.toNat
          (createAttempts ctrl.createSnapshotContentInterval
            (newSnapshotContent snapshot input volumeHandle)
            ctrl.createSnapshotContentRetryCount.toNat wb))
        (Write.ContentCreate (newSnapshotContent snapshot input volumeHandle)) ∧
    1 ≤ createCalls ctrl.createSnapshotContentRetryCount.toNat
        (createAttempts ctrl.createSnapshotContentInterval
          (newSnapshotContent snapshot input volumeHandle)
          ctrl.createSnapshotContentRetryCount.toNat wb) ∧
    createCalls ctrl.createSnapshotContentRetryCount.toNat
        (createAttempts ctrl.createSnapshotContentInterval
          (newSnapshotContent snapshot input volumeHandle)
          ctrl.createSnapshotContentRetryCount.toNat wb) ≤
      ctrl.createSnapshotContentRetryCount.toNat ∧
    (∀ r, (createAttempts ctrl.createSnapshotContentInterval
          (newSnapshotContent snapshot input volumeHandle)
          ctrl.createSnapshotContentRetryCount.toNat wb).find? EndsCreateLoop = some r →
      createCalls ctrl.createSnapshotContentRetryCount.toNat
          (createAttempts ctrl.createSnapshotContentInterval
            (newSnapshotContent snapshot input volumeHandle)
            ctrl.createSnapshotContentRetryCount.toNat wb) =
        ((createAttempts ctrl.createSnapshotContentInterval
          (newSnapshotContent snapshot input volumeHandle)
          ctrl.createSnapshotContentRetryCount.toNat wb).takeWhile
            (fun r => !EndsCreateLoop r)).length + 1 ∧
      (createSnapshotContent ctrl snapshot w).1 =
        Res.ok (newSnapshotContent snapshot input volumeHandle)) ∧
    (∀ e w1, (createAttempts ctrl.createSnapshotContentInterval
          (newSnapshotContent snapshot input volumeHandle)
          ctrl.createSnapshotContentRetryCount.toNat wb).find? EndsCreateLoop =
            some (Except.error e, w1) →
      IsAlreadyExists e = true ∧
      (createSnapshotContent ctrl snapshot w).1 =
        Res.ok (newSnapshotContent snapshot input volumeHandle)) ∧
    ((createAttempts ctrl.createSnapshotContentInterval
          (newSnapshotContent snapshot input volumeHandle)
          ctrl.createSnapshotContentRetryCount.toNat wb).find? EndsCreateLoop = none →
      createCalls ctrl.createSnapshotContentRetryCount.toNat
          (createAttempts ctrl.createSnapshotContentInterval
            (newSnapshotContent snapshot input volumeHandle)
            ctrl.createSnapshotContentRetryCount.toNat wb) =
        ctrl.createSnapshotContentRetryCount.toNat ∧
      ∃ e, IsAlreadyExists e = false ∧
        (createSnapshotContent ctrl snapshot w).1 =
          Res.error (newControllerUpdateError (SnapshotKey snapshot) e.message) ∧
        stringsContains (newControllerUpdateError (SnapshotKey snapshot) e.message)
          controllerUpdateFailMsg = true) := by
  have hn : 1 ≤ ctrl.createSnapshotContentRetryCount.toNat := by omega
  obtain ⟨ha, hb, hc⟩ := createSnapshotContent_attempts ctrl snapshot w wa wb input volumeHandle
    h1 h2 h3 h4
  refine ⟨ha, ?_, ?_, fun r hr => ⟨?_, hb r hr⟩, fun e w1 hr => ⟨?_, hb _ hr⟩, fun hnone => ?_⟩
  · unfold createCalls
    omega
  · unfold createCalls
    omega
  · exact createCalls_of_found _ _ r (createAttempts_length _ _ _ _) hr
  · have := List.find?_some hr
    simpa [EndsCreateLoop] using this
  · obtain ⟨hk, e, w1, -, hae, hres⟩ := hc hnone hn
    refine ⟨hk, e, hae, ?_, stringsContains_newControllerUpdateError _ _⟩
    rw [hres]

/-- C28 in `exWorldCreateRetry` with a retry count of five: the first two Creates
fail, the third succeeds; three Creates are sent and the content is returned. -/
theorem bounded_idempotent_create_witness :
    ensurePVCFinalizer exRequestDynamic exWorldCreateRetry =
      (none, (ensurePVCFinalizer exRequestDynamic exWorldCreateRetry).2) ∧
    getCreateSnapshotInput exCtrl exRequestDynamic
        (ensurePVCFinalizer exRequestDynamic exWorldCreateRetry).2 =
      (Except.ok exInput, (getCreateSnapshotInput exCtrl exRequestDynamic
        (ensurePVCFinalizer exRequestDynamic exWorldCreateRetry).2).2) ∧
    newSnapshotContent exRequestDynamic exInput "vol-1" = exContentCreated ∧
    createCalls exCtrl.createSnapshotContentRetryCount.toNat
      (createAttempts exCtrl.createSnapshotContentInterval
        (newSnapshotContent exRequestDynamic exInput "vol-1")
        exCtrl.createSnapshotContentRetryCount.toNat
        (getCreateSnapshotInput exCtrl exRequestDynamic
          (ensurePVCFinalizer exRequestDynamic exWorldCreateRetry).2).2) = 3 ∧
    (createSnapshotContent exCtrl exRequestDynamic exWorldCreateRetry).1 =
      Res.ok exContentCreated ∧
    (createSnapshotContent exCtrl exRequestDynamic exWorldCreateRetry).2.writes =
      (getCreateSnapshotInput exCtrl exRequestDynamic
        (ensurePVCFinalizer exRequestDynamic exWorldCreateRetry).2).2.writes ++
        List.replicate
          (createCalls exCtrl.createSnapshotContentRetryCount.toNat
            (createAttempts exCtrl.createSnapshotContentInterval
              (newSnapshotContent exRequestDynamic exInput "vol-1")
              exCtrl.createSnapshotContentRetryCount.toNat
              (getCreateSnapshotInput exCtrl exRequestDynamic
                (ensurePVCFinalizer exRequestDynamic exWorldCreateRetry).2).2))
          (Write.ContentCreate (newSnapshotContent exRequestDynamic exInput "vol-1")) :=
  ⟨by decide, rfl, by decide, by decide, by decide,
    (bounded_idempotent_create exCtrl exRequestDynamic exWorldCreateRetry
      (ensurePVCFinalizer exRequestDynamic exWorldCreateRetry).2
      (getCreateSnapshotInput exCtrl exRequestDynamic
        (ensurePVCFinalizer exRequestDynamic exWorldCreateRetry).2).2
      exInput "vol-1" (by decide) rfl (by decide) (by decide) (by decide)).1⟩

/-! ### A creation that ran out of rounds -/

theorem updateSnapshotErrorStatusWithEvent_keeps_events (snapshot : VolumeSnapshot)
    (eventtype reason message : String) (w : World) :
    ∃ evs, (updateSnapshotErrorStatusWithEvent snapshot eventtype reason message w).2.events =
      w.events ++ evs := by
  by_cases hs : sameErrorAlreadySet snapshot message = Res.ok false
  · obtain ⟨h1, h2⟩ := updateSnapshotErrorStatusWithEvent_events snapshot eventtype reason
      message w hs
    generalize SnapshotsUpdateStatus (errorStatusClone snapshot message w.now) w = res at h1 h2
    obtain ⟨r, w1⟩ := res
    cases r with
    | ok s => exact ⟨_, h1 s w1 rfl⟩
    | error err =>
      obtain ⟨h3, h4⟩ := h2 err w1 rfl
      rw [h3]
      exact ⟨[], by simp [h4]⟩
  · rw [(updateSnapshotErrorStatusWithEvent_writes snapshot eventtype reason message w).2 hs]
    exact ⟨[], by simp⟩

theorem syncUnreadySnapshot_creates (ctrl : csiSnapshotCommonController)
    (snapshot : VolumeSnapshot) (w : World)
    (hdyn : snapshot.Spec.Source.VolumeSnapshotContentName = none)
    (hmatch : getMatchSnapshotContent snapshot w = none)
    (hbound : snapshot.Status.bind (fun st => st.BoundVolumeSnapshotContentName) = none)
    (hmay : MayRetryCreation snapshot)
    (hpvc : snapshot.Spec.Source.PersistentVolumeClaimName ≠ none) :
    WritesOnly NotCreate (createSnapshotContent ctrl snapshot w).2
      (syncUnreadySnapshot ctrl snapshot w).2 ∧
    (∀ err w1, createSnapshotContent ctrl snapshot w = (Res.error err, w1) →
      (syncUnreadySnapshot ctrl snapshot w).1 = Res.error err ∧
      (syncUnreadySnapshot ctrl snapshot w).2 =
        (updateSnapshotErrorStatusWithEvent snapshot EventTypeWarning
          "SnapshotContentCreationFailed"
          ("Failed to create snapshot content with error " ++ err) w1).2) := by
  rw [syncUnreadySnapshot_unbound ctrl snapshot w hdyn hmatch hbound,
    (mayCreateContent_true snapshot).2 hmay]
  dsimp only
  rw [if_neg hpvc]
  generalize createSnapshotContent ctrl snapshot w = res
  obtain ⟨r, w1⟩ := res
  cases r with
  | panic p => exact ⟨WritesOnly.of_eq rfl, fun err w2 h => by simp at h⟩
  | ok content =>
    exact ⟨(propagateStatus_step ctrl snapshot content w1).writes, fun err w2 h => by simp at h⟩
  | error err =>
    dsimp only
    have hnp := MayRetryCreation.has_message snapshot hmay
    have hsame : ∃ b, sameErrorAlreadySet snapshot
        ("Failed to create snapshot content with error " ++ err) = Res.ok b := by
      by_cases hce : CarriesError snapshot ("Failed to create snapshot content with error " ++ err)
      · exact ⟨true, (sameErrorAlreadySet_true snapshot _).2 hce⟩
      · exact ⟨false, sameErrorAlreadySet_false snapshot _ hce hnp⟩
    obtain ⟨b, hb⟩ := hsame
    have hno := updateSnapshotErrorStatusWithEvent_no_panic snapshot EventTypeWarning
      "SnapshotContentCreationFailed" ("Failed to create snapshot content with error " ++ err)
      w1 b hb
    have hstep := (updateSnapshotErrorStatusWithEvent_step snapshot EventTypeWarning
      "SnapshotContentCreationFailed" ("Failed to create snapshot content with error " ++ err)
      w1).writes
    generalize hres2 : updateSnapshotErrorStatusWithEvent snapshot EventTypeWarning
      "SnapshotContentCreationFailed" ("Failed to create snapshot content with error " ++ err)
      w1 = res2 at hno hstep ⊢
    obtain ⟨r2, w2⟩ := res2
    cases r2 with
    | panic p => exact absurd rfl (hno p)
    | error e =>
      refine ⟨hstep, fun err2 w3 h => ?_⟩
      simp only [Prod.mk.injEq, Res.error.injEq] at h
      obtain ⟨h1, h2⟩ := h
      subst h1
      subst h2
      rw [hres2]
      exact ⟨rfl, rfl⟩
    | ok u =>
      refine ⟨hstep, fun err2 w3 h => ?_⟩
      simp only [Prod.mk.injEq, Res.error.injEq] at h
      obtain ⟨h1, h2⟩ := h
      subst h1
      subst h2
      rw [hres2]
      exact ⟨rfl, rfl⟩

theorem CarriesError.may_retry (later : VolumeSnapshot) (name message : String)
    (h : CarriesError later ("Failed to create snapshot content with error " ++
      newControllerUpdateError name message)) :
    MayRetryCreation later := by
  obtain ⟨st, e, hS, hE, hM⟩ := h
  exact Or.inr ⟨st, e, _, hS, hE, hM, stringsContains_creation_failed name message⟩

/-- C24, amended: for a dynamic request with no matching content and no recorded
bound content name, whose status lets a content be created, when
`createSnapshotContent` reaches its loop and every one of the N answers to
its Creates is an error other than "already exists", `syncUnreadySnapshot`
returns the error "snapshot controller failed to update ... on API server:
...", the event CreateSnapshotContentFailed is recorded, and after the N
Creates the status error "Failed to create snapshot content with error ..."
is sent with one UpdateStatus (nothing more is sent when the request carries
that error already).  The recorded message contains "snapshot controller
failed to update": a later reconcile of a request that carries it passes the
guard of line 390 and runs `createSnapshotContent` again. -/
theorem exhausted_creation_is_recorded (ctrl : csiSnapshotCommonController)
    (snapshot : VolumeSnapshot) (w wa wb : World) (input : CreateSnapshotInput)
    (volumeHandle : String)
    (hdyn : snapshot.Spec.Source.VolumeSnapshotContentName = none)
    (hmatch : getMatchSnapshotContent snapshot w = none)
    (hbound : snapshot.Status.bind (fun st => st.BoundVolumeSnapshotContentName) = none)
    (hmay : MayRetryCreation snapshot)
    (hpvc : snapshot.Spec.Source.PersistentVolumeClaimName ≠ none)
    (h1 : ensurePVCFinalizer snapshot w = (none, wa))
    (h2 : getCreateSnapshotInput ctrl snapshot wa = (Except.ok input, wb))
    (h3 : input.volume.CSI = some volumeHandle)
    (h4 : ctrl.GetReference = none)
    (hN : 1 ≤ ctrl.createSnapshotContentRetryCount)
    (hall : ∀ r ∈ createAttempts ctrl.createSnapshotContentInterval
        (newSnapshotContent snapshot input volumeHandle)
        ctrl.createSnapshotContentRetryCount.toNat wb, EndsCreateLoop r = false) :
    ∃ e, IsAlreadyExists e = false ∧
      (syncUnreadySnapshot ctrl snapshot w).1 =
        Res.error (newControllerUpdateError (SnapshotKey snapshot) e.message) ∧
      createFailedEvent snapshot e ∈ (syncUnreadySnapshot ctrl snapshot w).2.events ∧
      (¬ CarriesError snapshot ("Failed to create snapshot content with error " ++
          newControllerUpdateError (SnapshotKey snapshot) e.message) →
        ∃ now, (syncUnreadySnapshot ctrl snapshot w).2.writes =
          wb.writes ++ List.replicate ctrl.createSnapshotContentRetryCount.toNat
            (Write.ContentCreate (newSnapshotContent snapshot input volumeHandle)) ++
          [Write.SnapshotUpdateStatus (errorStatusClone snapshot
            ("Failed to create snapshot content with error " ++
              newControllerUpdateError (SnapshotKey snapshot) e.message) now)]) ∧
      (CarriesError snapshot ("Failed to create snapshot content with error " ++
          newControllerUpdateError (SnapshotKey snapshot) e.message) →
        (syncUnreadySnapshot ctrl snapshot w).2.writes =
          wb.writes ++ List.replicate ctrl.createSnapshotContentRetryCount.toNat
            (Write.ContentCreate (newSnapshotContent snapshot input volumeHandle))) ∧
      (∀ now, CarriesError (errorStatusClone snapshot
          ("Failed to create snapshot content with error " ++
            newControllerUpdateError (SnapshotKey snapshot) e.message) now)
        ("Failed to create snapshot content with error " ++
          newControllerUpdateError (SnapshotKey snapshot) e.message)) ∧
      (∀ later w2,
        CarriesError later ("Failed to create snapshot content with error " ++
          newControllerUpdateError (SnapshotKey snapshot) e.message) →
        later.Spec.Source.VolumeSnapshotContentName = none →
        later.Spec.Source.PersistentVolumeClaimName ≠ none →
        getMatchSnapshotContent later w2 = none →
        later.Status.bind (fun st => st.BoundVolumeSnapshotContentName) = none →
        mayCreateContent later = Res.ok true ∧
        WritesOnly NotCreate (createSnapshotContent ctrl later w2).2
          (syncUnreadySnapshot ctrl later w2).2) := by
  have hn : 1 ≤ ctrl.createSnapshotContentRetryCount.toNat := by omega
  obtain ⟨ha, -, hc⟩ := createSnapshotContent_attempts ctrl snapshot w wa wb input volumeHandle
    h1 h2 h3 h4
  have hnone : (createAttempts ctrl.createSnapshotContentInterval
      (newSnapshotContent snapshot input volumeHandle)
      ctrl.createSnapshotContentRetryCount.toNat wb).find? EndsCreateLoop = none := by
    rw [List.find?_eq_none]
    intro r hr
    rw [hall r hr]
    exact Bool.false_ne_true
  obtain ⟨hk, e, w1, -, hae, hres⟩ := hc hnone hn
  rw [hk] at ha
  have hwrev : createFailedEvent snapshot e ∈
      (recordEvent snapshot EventTypeWarning "CreateSnapshotContentFailed"
        ("Error creating volume snapshot content object for snapshot " ++
          SnapshotKey snapshot ++ ": " ++ e.message ++ ".")
        (sleep ctrl.createSnapshotContentInterval w1)).events := by
    unfold recordEvent createFailedEvent
    simp
  generalize recordEvent snapshot EventTypeWarning "CreateSnapshotContentFailed"
    ("Error creating volume snapshot content object for snapshot " ++
      SnapshotKey snapshot ++ ": " ++ e.message ++ ".")
    (sleep ctrl.createSnapshotContentInterval w1) = wr at hres hwrev
  obtain ⟨-, hsync⟩ := syncUnreadySnapshot_creates ctrl snapshot w hdyn hmatch hbound hmay hpvc
  obtain ⟨hr1, hr2⟩ := hsync _ _ hres
  rw [hres] at ha
  dsimp only at ha
  refine ⟨e, hae, hr1, ?_, ?_, ?_, ?_, ?_⟩
  · rw [hr2]
    obtain ⟨evs, hev⟩ := updateSnapshotErrorStatusWithEvent_keeps_events snapshot EventTypeWarning
      "SnapshotContentCreationFailed" ("Failed to create snapshot content with error " ++
        newControllerUpdateError (SnapshotKey snapshot) e.message) wr
    rw [hev]
    exact List.mem_append_left _ hwrev
  · intro hce
    refine ⟨wr.now, ?_⟩
    rw [hr2, (updateSnapshotErrorStatusWithEvent_writes snapshot EventTypeWarning
      "SnapshotContentCreationFailed" ("Failed to create snapshot content with error " ++
        newControllerUpdateError (SnapshotKey snapshot) e.message) wr).1
        (sameErrorAlreadySet_false snapshot _ hce (MayRetryCreation.has_message snapshot hmay)),
      ha]
  · intro hce
    have hne : sameErrorAlreadySet snapshot ("Failed to create snapshot content with error " ++
        newControllerUpdateError (SnapshotKey snapshot) e.message) ≠ Res.ok false := by
      rw [(sameErrorAlreadySet_true snapshot _).2 hce]
      intro h
      cases h
    rw [hr2, (updateSnapshotErrorStatusWithEvent_writes snapshot EventTypeWarning
      "SnapshotContentCreationFailed" ("Failed to create snapshot content with error " ++
        newControllerUpdateError (SnapshotKey snapshot) e.message) wr).2 hne, ha]
  · intro now
    exact ⟨_, _, rfl, rfl, rfl⟩
  · intro later w2 hce hd hp hm hb
    have hmay2 := CarriesError.may_retry later _ _ hce
    exact ⟨(mayCreateContent_true later).2 hmay2,
      (syncUnreadySnapshot_creates ctrl later w2 hd hm hb hmay2 hp).1⟩

/-- C24 in `exWorldCreateExhausts` with a retry count of five: the five Creates
fail with a time-out; the reconcile returns the error, the event is recorded
and the status error is sent after the five Creates. -/
theorem exhausted_creation_is_recorded_witness :
    getMatchSnapshotContent exRequestDynamic exWorldCreateExhausts = none ∧
    MayRetryCreation exRequestDynamic ∧
    (∀ r ∈ createAttempts exCtrl.createSnapshotContentInterval
        (newSnapshotContent exRequestDynamic exInput "vol-1")
        exCtrl.createSnapshotContentRetryCount.toNat
        (getCreateSnapshotInput exCtrl exRequestDynamic
          (ensurePVCFinalizer exRequestDynamic exWorldCreateExhausts).2).2,
      EndsCreateLoop r = false) ∧
    (∃ e, IsAlreadyExists e = false ∧
      (syncUnreadySnapshot exCtrl exRequestDynamic exWorldCreateExhausts).1 =
        Res.error (newControllerUpdateError (SnapshotKey exRequestDynamic) e.message) ∧
      createFailedEvent exRequestDynamic e ∈
        (syncUnreadySnapshot exCtrl exRequestDynamic exWorldCreateExhausts).2.events) ∧
    (syncUnreadySnapshot exCtrl exRequestDynamic exWorldCreateExhausts).1 =
      Res.error ("snapshot controller failed to update ns1/snap on API server: " ++
        "etcdserver: request timed out") ∧
    ((syncUnreadySnapshot exCtrl exRequestDynamic exWorldCreateExhausts).2.writes.filter
      (fun x => decide (x = Write.ContentCreate exContentCreated))).length = 5 :=
  ⟨by decide, Or.inl rfl, by decide,
    (exhausted_creation_is_recorded exCtrl exRequestDynamic exWorldCreateExhausts
      (ensurePVCFinalizer exRequestDynamic exWorldCreateExhausts).2
      (getCreateSnapshotInput exCtrl exRequestDynamic
        (ensurePVCFinalizer exRequestDynamic exWorldCreateExhausts).2).2
      exInput "vol-1" (by decide) (by decide) (by decide) (Or.inl rfl) (by decide) (by decide)
      rfl (by decide) (by decide) (by decide) (by decide)).imp
        (fun _ h => ⟨h.1, h.2.1, h.2.2.1⟩),
    by decide, by decide⟩

/-! ### The dynamic round trip -/

theorem findContent_singleton (name : String) (content c : VolumeSnapshotContent)
    (h : findContent name [content] = some c) : c = content := by
  unfold findContent at h
  by_cases hn : content.Name = name
  · simpa [List.find?, hn] using h.symm
  · simp [List.find?, hn] at h

theorem findContent_setStatus (name : String) (status : VolumeSnapshotContentStatus)
    (l : List VolumeSnapshotContent) (h : findContent name l ≠ none) :
    findContent name
      (l.map (fun c => if c.Name = name then { c with Status := some status } else c)) ≠
        none := by
  induction l with
  | nil => exact absurd rfl h
  | cons x xs ih =>
    unfold findContent at h ih ⊢
    rw [List.map_cons]
    by_cases hx : x.Name = name
    · rw [if_pos hx]
      simp [List.find?, hx]
    · rw [if_neg hx]
      rw [List.find?_cons_of_neg _ (by simpa using hx)] at h ⊢
      exact ih h

/-- The first reconcile of the round trip: a dynamic request that is not ready,
records no bound content name and may have a content created gets its content
created and its status written. -/
theorem dynamic_first_reconcile (ctrl : csiSnapshotCommonController)
    (r : VolumeSnapshot) (className pvcName volumeHandle : String)
    (class_ : VolumeSnapshotClass) (pvc : PersistentVolumeClaim) (pv : PersistentVolume)
    (ref : Option SecretReference) (w : World)
    (hnobound : r.Status.bind (fun st => st.BoundVolumeSnapshotContentName) = none)
    (hunready : IsSnapshotReady r = false)
    (hmay : MayRetryCreation r)
    (hgroups : r.DeletionTimestamp ≠ none →
      HasAPIGroups r (pvcListerList r.Namespace w))
    (hdyn : r.Spec.Source.VolumeSnapshotContentName = none)
    (hclass : r.Spec.VolumeSnapshotClassName = some className)
    (hcl : getSnapshotClass className w = Except.ok class_)
    (hname : r.Spec.Source.PersistentVolumeClaimName = some pvcName)
    (hne : pvcName ≠ "")
    (hpvc : findPVC r.Namespace pvcName w.pvcLister = some pvc)
    (hbound : pvc.Phase = PersistentVolumeClaimPhase.ClaimBound)
    (hpvclive : pvc.DeletionTimestamp = none)
    (hsrv : findPVC r.Namespace pvcName w.pvcs ≠ none)
    (hpv : w.pvs.find? (fun v => decide (v.Name = pvc.VolumeName)) = some pv)
    (hcsi : pv.CSI = some volumeHandle)
    (hsecret : ctrl.GetSecretReference class_.Parameters
      (GetSnapshotContentNameForSnapshot r) r = Except.ok ref)
    (href : ctrl.GetReference = none)
    (hcache : w.contentStore = [])
    (hretry : 0 < ctrl.createSnapshotContentRetryCount)
    (hapi : ∀ o ∈ w.apiOutcomes, o = none)
    (hstore : ∀ o ∈ w.storeOutcomes, o = none)
    (hget : findSnapshot r.Namespace r.Name w.snapshots = some r) :
    ∃ input w1 fin, syncSnapshot ctrl r w = (Res.ok (), w1) ∧
      r.Spec.VolumeSnapshotClassName = some input.class_.Name ∧
      Write.ContentCreate (newSnapshotContent r input volumeHandle) ∈ w1.writes ∧
      w1.contentStore = [newSnapshotContent r input volumeHandle] ∧
      (∀ o ∈ w1.apiOutcomes, o = none) ∧
      findSnapshot r.Namespace r.Name w1.snapshots =
        some { r with
          Finalizers := fin,
          Status := some (computeStatus r.Status
            (contentView (newSnapshotContent r input volumeHandle))).1 } ∧
      w1.pvcLister = w.pvcLister ∧
      findContent (newSnapshotContent r input volumeHandle).Name w1.contents ≠ none := by
  have hcand : IsSnapshotDeletionCandidate r = true →
      HasAPIGroups r (pvcListerList r.Namespace w) := by
    intro hc
    apply hgroups
    intro hd
    simp [IsSnapshotDeletionCandidate, hd] at hc
  have hnone : ∀ c, contentExists r w = some c → findContent c.Name w.contents ≠ none := by
    intro c hc
    unfold contentExists contentStoreGetByKey at hc
    rw [hcache] at hc
    simp [findContent] at hc
  obtain ⟨wa, fin, hhk, hstepa, hgeta⟩ := housekeeping_succeeds r r w hapi hget rfl hcand hnone
  have hcla : getSnapshotClass className wa = Except.ok class_ := by
    unfold getSnapshotClass at hcl ⊢
    rw [hstepa.classLister]; exact hcl
  obtain ⟨input, wb, hcreate, hcn, hcsb, hsnb, hapib, -, hmemb, hplb, honb⟩ :=
    createSnapshotContent_succeeds ctrl r className pvcName volumeHandle class_ pvc pv ref wa
      hclass hcla hname hne (by rw [hstepa.pvcLister]; exact hpvc) hbound hpvclive
      (hstepa.pvcs _ _ hsrv) (by rw [hstepa.pvs]; exact hpv) hcsi hsecret href hretry
      (hstepa.apiOutcomes hapi) (hstepa.storeOutcomes hstore)
  obtain ⟨w1, hprop, hstepb, hget1, hcont1⟩ := propagateStatus_succeeds ctrl r
    { r with Finalizers := fin } (newSnapshotContent r input volumeHandle) wb hretry hapib
    (by rw [hsnb]; exact hgeta)
  refine ⟨input, w1, fin, ?_, hcn, ?_, ?_, hstepb.apiOutcomes hapib, ?_, ?_, ?_⟩
  · unfold syncSnapshot
    rw [hhk]
    dsimp only
    rw [if_pos hunready]
    have hm : getMatchSnapshotContent r wa = none := by
      unfold getMatchSnapshotContent
      rw [hstepa.contentStore, hcache]
      rfl
    rw [syncUnreadySnapshot_unbound ctrl r wa hdyn hm hnobound,
      (mayCreateContent_true r).2 hmay]
    dsimp only
    rw [if_neg (by rw [hname]; exact Option.some_ne_none _), hcreate]
    dsimp only
    exact hprop
  · obtain ⟨added, ha, -⟩ := hstepb.writes
    rw [ha]
    exact List.mem_append_left _ hmemb
  · rw [hstepb.contentStore, hcsb, hstepa.contentStore, hcache]
    rfl
  · exact hget1
  · rw [hstepb.pvcLister, hplb, hstepa.pvcLister]
  · rw [hcont1]
    exact honb

/-- A later reconcile of a dynamic request that is not ready, with its content
alone in the cache and held by the API server: the status of the content is
propagated to the request on the API server. -/
theorem dynamic_second_reconcile (ctrl : csiSnapshotCommonController)
    (r : VolumeSnapshot) (content : VolumeSnapshotContent) (w : World)
    (hgroups : r.DeletionTimestamp ≠ none →
      HasAPIGroups r (pvcListerList r.Namespace w))
    (hsrv : findContent content.Name w.contents ≠ none)
    (hdyn : r.Spec.Source.VolumeSnapshotContentName = none)
    (hunready : IsSnapshotReady r = false)
    (hcache : w.contentStore = [content])
    (hag : Agrees r content)
    (hhandle : content.Spec.Source.SnapshotHandle = none)
    (hretry : 0 < ctrl.createSnapshotContentRetryCount)
    (hapi : ∀ o ∈ w.apiOutcomes, o = none)
    (hget : findSnapshot r.Namespace r.Name w.snapshots = some r) :
    ∃ w3 fin, syncSnapshot ctrl r w = (Res.ok (), w3) ∧
      findSnapshot r.Namespace r.Name w3.snapshots =
        some { r with
          Finalizers := fin,
          Status := some (computeStatus r.Status (contentView content)).1 } := by
  have hcand : IsSnapshotDeletionCandidate r = true →
      HasAPIGroups r (pvcListerList r.Namespace w) := by
    intro hc
    apply hgroups
    intro hd
    simp [IsSnapshotDeletionCandidate, hd] at hc
  have hon : ∀ c, contentExists r w = some c → findContent c.Name w.contents ≠ none := by
    intro c hc
    unfold contentExists contentStoreGetByKey at hc
    rw [hcache] at hc
    rw [findContent_singleton _ content c hc]
    exact hsrv
  obtain ⟨wa, fin, hhk, hstepa, hgeta⟩ := housekeeping_succeeds r r w hapi hget rfl hcand hon
  obtain ⟨res, w3, hbind, hget3⟩ := bindandUpdateVolumeSnapshot_succeeds ctrl r
    { r with Finalizers := fin } content wa hretry (hstepa.apiOutcomes hapi) hgeta
  refine ⟨w3, fin, ?_, hget3⟩
  unfold syncSnapshot
  rw [hhk]
  dsimp only
  rw [if_pos hunready]
  unfold syncUnreadySnapshot
  rw [if_neg (by simp [hdyn])]
  unfold syncUnreadySnapshotDynamic
  dsimp only
  have hm : getMatchSnapshotContent r wa = some content := by
    unfold getMatchSnapshotContent
    rw [hstepa.contentStore, hcache]
    simp [List.find?, (contentMatches_iff r content).2 hag]
  rw [hm]
  dsimp only
  rw [if_neg (by simp [hhandle]), hbind]

theorem computeStatus_of_fresh_content (stored : Option VolumeSnapshotStatus)
    (C : VolumeSnapshotContent) (hC : C.Status = none) :
    (computeStatus stored (contentView C)).1.BoundVolumeSnapshotContentName =
      some ((stored.bind (fun st => st.BoundVolumeSnapshotContentName)).getD C.Name) ∧
    (computeStatus stored (contentView C)).1.ReadyToUse = some false ∧
    (computeStatus stored (contentView C)).1.RestoreSize =
      stored.bind (fun st => st.RestoreSize) := by
  obtain ⟨hb, -, hr, hs, -⟩ := computeStatus_fields stored (contentView C)
  obtain ⟨vb, -, vs, vr⟩ := contentView_fields C
  rw [hC] at vs vr
  refine ⟨?_, ?_, ?_⟩
  · rw [hb, vb]
  · rw [hr, vr]
    rfl
  · rw [hs, vs]
    have : sizeChanges (stored.bind (fun st => st.RestoreSize))
        ((none : Option VolumeSnapshotContentStatus).bind (fun st => st.RestoreSize)) =
          false := by
      cases stored.bind (fun st => st.RestoreSize) <;> rfl
    rw [this]
    simp

theorem computeStatus_of_ready_content (st1 : VolumeSnapshotStatus)
    (C : VolumeSnapshotContent) (status : VolumeSnapshotContentStatus) (S : Int)
    (name : String)
    (hC : C.Status = some status)
    (hready : status.ReadyToUse = some true)
    (hsize : status.RestoreSize = some S)
    (hb : st1.BoundVolumeSnapshotContentName = some name)
    (hsz : ∀ q, st1.RestoreSize = some q → q = NewQuantity S ∨ (q.IsZero = true ∧ 0 < S)) :
    (computeStatus (some st1) (contentView C)).1.ReadyToUse = some true ∧
    (computeStatus (some st1) (contentView C)).1.BoundVolumeSnapshotContentName = some name ∧
    (computeStatus (some st1) (contentView C)).1.RestoreSize = some (NewQuantity S) := by
  obtain ⟨h1, -, h3, h4, -⟩ := computeStatus_fields (some st1) (contentView C)
  obtain ⟨-, -, vs, vr⟩ := contentView_fields C
  rw [hC] at vs vr
  refine ⟨?_, ?_, ?_⟩
  · rw [h3, vr]
    simp [hready]
  · rw [h1]
    simp [hb]
  · have hvs : ((some status).bind fun st => st.RestoreSize) = some S := hsize
    have hst : ((some st1).bind fun st => st.RestoreSize) = st1.RestoreSize := rfl
    rw [h4, vs, hvs, hst]
    cases hq : st1.RestoreSize with
    | none => simp [sizeChanges]
    | some q =>
      by_cases hch : sizeChanges (some q) (some S) = true
      · rw [if_pos hch]
        rfl
      · rw [if_neg hch]
        rcases hsz q hq with h | ⟨hz, hpos⟩
        · rw [h]
        · exfalso
          apply hch
          simp [sizeChanges, hz, hpos]

/-- C13, amended: for a dynamic request that is not ready, records no bound
content name, carries no error or one whose message contains "snapshot
controller failed to update", records no restore size other than zero (with S
positive) or S, and, when it is marked for deletion, is named only by data
sources that carry an API group; with a class name whose class is in the lister
and a volume claim (listed, live, held by the API server) bound to a CSI
volume, no content in the cache, a positive retry count, the request held by
the API server and every call succeeding: `syncSnapshot` returns success and
creates a content C carrying the handle of the volume; once the realization
agent has set C's status to readyToUse = true with restoreSize S and the
request, as the API server holds it, is reconciled again, `syncSnapshot`
returns success and the stored request status has readyToUse = true,
boundContentName = C's name and restoreSize = S. -/
theorem dynamic_round_trip (ctrl : csiSnapshotCommonController)
    (r : VolumeSnapshot) (className pvcName volumeHandle : String)
    (class_ : VolumeSnapshotClass) (pvc : PersistentVolumeClaim) (pv : PersistentVolume)
    (ref : Option SecretReference) (status : VolumeSnapshotContentStatus) (S : Int) (w : World)
    (hnobound : r.Status.bind (fun st => st.BoundVolumeSnapshotContentName) = none)
    (hunready : IsSnapshotReady r = false)
    (hmay : MayRetryCreation r)
    (hsz : ∀ q, r.Status.bind (fun st => st.RestoreSize) = some q →
      q = NewQuantity S ∨ (q.IsZero = true ∧ 0 < S))
    (hgroups : r.DeletionTimestamp ≠ none →
      HasAPIGroups r (pvcListerList r.Namespace w))
    (hdyn : r.Spec.Source.VolumeSnapshotContentName = none)
    (hclass : r.Spec.VolumeSnapshotClassName = some className)
    (hcl : getSnapshotClass className w = Except.ok class_)
    (hname : r.Spec.Source.PersistentVolumeClaimName = some pvcName)
    (hne : pvcName ≠ "")
    (hpvc : findPVC r.Namespace pvcName w.pvcLister = some pvc)
    (hbound : pvc.Phase = PersistentVolumeClaimPhase.ClaimBound)
    (hpvclive : pvc.DeletionTimestamp = none)
    (hsrv : findPVC r.Namespace pvcName w.pvcs ≠ none)
    (hpv : w.pvs.find? (fun v => decide (v.Name = pvc.VolumeName)) = some pv)
    (hcsi : pv.CSI = some volumeHandle)
    (hsecret : ctrl.GetSecretReference class_.Parameters
      (GetSnapshotContentNameForSnapshot r) r = Except.ok ref)
    (href : ctrl.GetReference = none)
    (hcache : w.contentStore = [])
    (hretry : 0 < ctrl.createSnapshotContentRetryCount)
    (hapi : ∀ o ∈ w.apiOutcomes, o = none)
    (hstore : ∀ o ∈ w.storeOutcomes, o = none)
    (hget : findSnapshot r.Namespace r.Name w.snapshots = some r)
    (hready : status.ReadyToUse = some true)
    (hsize : status.RestoreSize = some S) :
    ∃ C w1 r2 w3 r3 st,
      syncSnapshot ctrl r w = (Res.ok (), w1) ∧
      Write.ContentCreate C ∈ w1.writes ∧
      C.Spec.Source.VolumeHandle = some volumeHandle ∧
      findSnapshot r.Namespace r.Name w1.snapshots = some r2 ∧
      syncSnapshot ctrl r2 (setContentStatus C.Name status w1) = (Res.ok (), w3) ∧
      findSnapshot r.Namespace r.Name w3.snapshots = some r3 ∧
      r3.Status = some st ∧ st.ReadyToUse = some true ∧
      st.BoundVolumeSnapshotContentName = some C.Name ∧
      st.RestoreSize = some (NewQuantity S) := by
  obtain ⟨input, w1, fin, hfirst, hcn, hmem, hcs, hapi1, hget1, hpl1, hon1⟩ :=
    dynamic_first_reconcile ctrl r className pvcName volumeHandle class_ pvc pv ref w hnobound
      hunready hmay hgroups hdyn hclass hcl hname hne hpvc hbound hpvclive hsrv hpv hcsi hsecret
      href hcache hretry hapi hstore hget
  obtain ⟨-, hcstatus, hcspec⟩ := newSnapshotContent_fields r input volumeHandle
  generalize newSnapshotContent r input volumeHandle = C at hfirst hmem hcs hget1 hon1 hcstatus hcspec
  obtain ⟨hb1, hr1, hs1⟩ := computeStatus_of_fresh_content r.Status C hcstatus
  rw [hnobound] at hb1
  generalize (computeStatus r.Status (contentView C)).1 = st1 at hget1 hb1 hr1 hs1
  have hcache2 : (setContentStatus C.Name status w1).contentStore =
      [{ C with Status := some status }] := by
    unfold setContentStatus
    dsimp only
    rw [hcs]
    simp
  have hag : Agrees
      ({ r with Finalizers := fin, Status := some st1 } : VolumeSnapshot)
      { C with Status := some status } := by
    refine ⟨?_, ?_, ?_, input.class_.Name, ?_, hcn⟩ <;> (dsimp only; rw [hcspec])
  have hgroups2 : ({ r with Finalizers := fin, Status := some st1 } :
      VolumeSnapshot).DeletionTimestamp ≠ none →
      HasAPIGroups ({ r with Finalizers := fin, Status := some st1 } : VolumeSnapshot)
        (pvcListerList ({ r with Finalizers := fin, Status := some st1 } :
          VolumeSnapshot).Namespace (setContentStatus C.Name status w1)) := by
    intro hd
    have h := hgroups hd
    unfold HasAPIGroups pvcListerList at h ⊢
    have hpl : (setContentStatus C.Name status w1).pvcLister = w.pvcLister := hpl1
    rw [hpl]
    exact h
  have hsrv2 : findContent ({ C with Status := some status } : VolumeSnapshotContent).Name
      (setContentStatus C.Name status w1).contents ≠ none :=
    findContent_setStatus C.Name status w1.contents hon1
  have hunready2 : IsSnapshotReady
      ({ r with Finalizers := fin, Status := some st1 } : VolumeSnapshot) = false := by
    unfold IsSnapshotReady
    simp [hr1]
  obtain ⟨w3, fin2, hsecond, hget3⟩ := dynamic_second_reconcile ctrl
    { r with Finalizers := fin, Status := some st1 }
    { C with Status := some status } (setContentStatus C.Name status w1) hgroups2 hsrv2 hdyn
    hunready2 hcache2 hag (by dsimp only; rw [hcspec]) hretry hapi1 hget1
  obtain ⟨hf1, hf2, hf3⟩ := computeStatus_of_ready_content st1
    { C with Status := some status } status S C.Name rfl hready hsize hb1
    (by rw [hs1]; exact hsz)
  exact ⟨C, w1, _, w3, _, _, hfirst, hmem, by rw [hcspec], hget1, hsecond, hget3, rfl, hf1, hf2,
    hf3⟩

/-- C13, amended, at the request `exRequestDynamic` with a volume of 10 GiB: the
content is created with the handle `vol-1`, and after the second reconcile the
stored status is ready, bound to the content, with the restore size; and at
the request `exRequestCreateFailed`, whose status records the failure of an
earlier creation that ran out of rounds. -/
theorem dynamic_round_trip_witness :
    exRequestDynamic.Status = none ∧
    exWorldDynamic.contentStore = [] ∧
    0 < exCtrl.createSnapshotContentRetryCount ∧
    (∃ C w1 r2 w3 r3 st,
      syncSnapshot exCtrl exRequestDynamic exWorldDynamic = (Res.ok (), w1) ∧
      Write.ContentCreate C ∈ w1.writes ∧
      C.Spec.Source.VolumeHandle = some "vol-1" ∧
      findSnapshot exRequestDynamic.Namespace exRequestDynamic.Name w1.snapshots = some r2 ∧
      syncSnapshot exCtrl r2
        (setContentStatus C.Name { ReadyToUse := some true, RestoreSize := some 10737418240 }
          w1) = (Res.ok (), w3) ∧
      findSnapshot exRequestDynamic.Namespace exRequestDynamic.Name w3.snapshots = some r3 ∧
      r3.Status = some st ∧ st.ReadyToUse = some true ∧
      st.BoundVolumeSnapshotContentName = some C.Name ∧
      st.RestoreSize = some (NewQuantity 10737418240)) ∧
    MayRetryCreation exRequestCreateFailed ∧
    IsSnapshotReady exRequestCreateFailed = false ∧
    (∃ C w1 r2 w3 r3 st,
      syncSnapshot exCtrl exRequestCreateFailed exWorldRetry = (Res.ok (), w1) ∧
      Write.ContentCreate C ∈ w1.writes ∧
      C.Spec.Source.VolumeHandle = some "vol-1" ∧
      findSnapshot exRequestCreateFailed.Namespace exRequestCreateFailed.Name w1.snapshots =
        some r2 ∧
      syncSnapshot exCtrl r2
        (setContentStatus C.Name { ReadyToUse := some true, RestoreSize := some 10737418240 }
          w1) = (Res.ok (), w3) ∧
      findSnapshot exRequestCreateFailed.Namespace exRequestCreateFailed.Name w3.snapshots =
        some r3 ∧
      r3.Status = some st ∧ st.ReadyToUse = some true ∧
      st.BoundVolumeSnapshotContentName = some C.Name ∧
      st.RestoreSize = some (NewQuantity 10737418240)) :=
  ⟨rfl, rfl, by decide,
    dynamic_round_trip exCtrl exRequestDynamic "gold" "data" "vol-1" exClass exClaim exVolume none
      { ReadyToUse := some true, RestoreSize := some 10737418240 } 10737418240 exWorldDynamic
      rfl (by decide) (Or.inl rfl) (fun _ h => Option.noConfusion h) (fun h => absurd rfl h)
      rfl rfl rfl rfl (by decide) (by decide) rfl rfl (by decide) (by decide)
      rfl rfl rfl rfl (by decide) (by decide) (by decide) (by decide) rfl rfl,
    Or.inr ⟨_, _, _, rfl, rfl, rfl, by decide⟩, by decide,
    dynamic_round_trip exCtrl exRequestCreateFailed "gold" "data" "vol-1" exClass exClaim
      exVolume none
      { ReadyToUse := some true, RestoreSize := some 10737418240 } 10737418240 exWorldRetry
      rfl (by decide) (Or.inr ⟨_, _, _, rfl, rfl, rfl, by decide⟩)
      (fun _ h => Option.noConfusion h) (fun h => absurd rfl h)
      rfl rfl rfl rfl (by decide) (by decide) rfl rfl (by decide) (by decide)
      rfl rfl rfl rfl (by decide) (by decide) (by decide) (by decide) rfl rfl⟩

end SnapshotController
